import Mathlib

/-!
# Audio routing engine of the sltexx audio HAL

A shallow embedding of the routing part of `hal/audio/audio_hw.c` and
`hal/audio/routing.h`: the route catalog (`device_table`), the route resolvers
(`get_output_snd_device`, `get_input_snd_device`), the reference counted
activation engine (`enable_snd_device`, `disable_snd_device`) and the device
selection orchestrator (`select_devices`).

Conventions of the embedding.

* `audio_devices_t` (a `uint32_t` bit mask) is a `Nat`; the C operator `&` is
  `&&&`, and `~AUDIO_DEVICE_BIT_IN` on 32 bits is the mask `0x7FFFFFFF`.
* `snd_device_t`, `audio_usecase_t`, `audio_mode_t`, `audio_source_t` and the
  `int` reference counters are `Int`; a counter is not wrapped at 32 bits (an
  overflow would take 2^31 enables of one route without a disable).
* Pointers to streams are addresses (`Nat`) into a store `streams`; the one
  nullable stream pointer that the routing code tests, `primary_output`, is an
  `Option`.
* Calls to collaborators (path applier, `usleep`, RIL) are appended to a
  chronological `trace`; entries to `enable_snd_device` and
  `disable_snd_device` are recorded there as well.
* `clock_gettime(CLOCK_MONOTONIC, _)` reads the next value of an arbitrary
  sequence `clock`.
* The source refers to a few identifiers that its headers do not declare.
  `DAPM_STUTDOWN_TIME`, `wb_amr` and `mixer.last_shutdown` are read as
  `DAPM_SHUTDOWN_TIME`, the local `amr_wb` and `mixer.shutdown_time`;
  `SND_DEVICE_OUT_HANDSET` and `SND_DEVICE_IN_HANDSET_MIC` are the earpiece
  routes; `USECASE_AUDIO_CAPTURE_HOTWORD` is a parameter of `select_devices`;
  `adev->in_call` in `start_voice_call` is read as `adev->voice.in_call`.
* `select_devices` calls itself; the embedding bounds the nesting by a fuel
  argument and returns an `Outcome`.
-/

namespace AudioHw

/-! ## Constants of `system/audio.h` (Android platform header) -/

def AUDIO_DEVICE_NONE : Nat := 0x0
def AUDIO_DEVICE_BIT_IN : Nat := 0x80000000

def AUDIO_DEVICE_OUT_EARPIECE : Nat := 0x1
def AUDIO_DEVICE_OUT_SPEAKER : Nat := 0x2
def AUDIO_DEVICE_OUT_WIRED_HEADSET : Nat := 0x4
def AUDIO_DEVICE_OUT_WIRED_HEADPHONE : Nat := 0x8
def AUDIO_DEVICE_OUT_BLUETOOTH_SCO : Nat := 0x10
def AUDIO_DEVICE_OUT_BLUETOOTH_SCO_HEADSET : Nat := 0x20
def AUDIO_DEVICE_OUT_BLUETOOTH_SCO_CARKIT : Nat := 0x40
def AUDIO_DEVICE_OUT_ALL_SCO : Nat := 0x70

def AUDIO_DEVICE_IN_COMMUNICATION : Nat := 0x80000001
def AUDIO_DEVICE_IN_BUILTIN_MIC : Nat := 0x80000004
def AUDIO_DEVICE_IN_BLUETOOTH_SCO_HEADSET : Nat := 0x80000008
def AUDIO_DEVICE_IN_WIRED_HEADSET : Nat := 0x80000010
def AUDIO_DEVICE_IN_AUX_DIGITAL : Nat := 0x80000020
def AUDIO_DEVICE_IN_VOICE_CALL : Nat := 0x80000040
def AUDIO_DEVICE_IN_BACK_MIC : Nat := 0x80000080

def AUDIO_MODE_NORMAL : Int := 0
def AUDIO_MODE_RINGTONE : Int := 1
def AUDIO_MODE_IN_CALL : Int := 2
def AUDIO_MODE_IN_COMMUNICATION : Int := 3

def AUDIO_SOURCE_DEFAULT : Int := 0
def AUDIO_SOURCE_MIC : Int := 1
def AUDIO_SOURCE_CAMCORDER : Int := 5
def AUDIO_SOURCE_VOICE_COMMUNICATION : Int := 7

def AUDIO_CHANNEL_IN_MONO : Nat := 0x10

/-- The value of `-EINVAL`. -/
def EINVAL_neg : Int := -22

/-! ## `routing.h`: the enumeration of sound devices -/

def SND_DEVICE_NONE : Int := 0
def SND_DEVICE_MIN : Int := 1
def SND_DEVICE_OUT_BEGIN : Int := 1
def SND_DEVICE_OUT_EARPIECE : Int := 1
def SND_DEVICE_OUT_SPEAKER : Int := 2
def SND_DEVICE_OUT_HEADPHONES : Int := 3
def SND_DEVICE_OUT_SPEAKER_AND_HEADPHONES : Int := 4
def SND_DEVICE_OUT_VOICE_EARPIECE : Int := 5
def SND_DEVICE_OUT_VOICE_EARPIECE_WB : Int := 6
def SND_DEVICE_OUT_VOICE_SPEAKER : Int := 7
def SND_DEVICE_OUT_VOICE_SPEAKER_WB : Int := 8
def SND_DEVICE_OUT_VOICE_HEADPHONES : Int := 9
def SND_DEVICE_OUT_VOICE_HEADPHONES_WB : Int := 10
def SND_DEVICE_OUT_HDMI : Int := 11
def SND_DEVICE_OUT_SPEAKER_AND_HDMI : Int := 12
def SND_DEVICE_OUT_BT_SCO : Int := 13
def SND_DEVICE_OUT_END : Int := 14
def SND_DEVICE_IN_BEGIN : Int := 14
def SND_DEVICE_IN_EARPIECE_MIC : Int := 14
def SND_DEVICE_IN_SPEAKER_MIC : Int := 15
def SND_DEVICE_IN_HEADSET_MIC : Int := 16
def SND_DEVICE_IN_EARPIECE_MIC_AEC : Int := 17
def SND_DEVICE_IN_SPEAKER_MIC_AEC : Int := 18
def SND_DEVICE_IN_HEADSET_MIC_AEC : Int := 19
def SND_DEVICE_IN_VOICE_EARPIECE_MIC : Int := 20
def SND_DEVICE_IN_VOICE_SPEAKER_MIC : Int := 21
def SND_DEVICE_IN_VOICE_HEADSET_MIC : Int := 22
def SND_DEVICE_IN_HDMI_MIC : Int := 23
def SND_DEVICE_IN_BT_SCO_MIC : Int := 24
def SND_DEVICE_IN_CAMCORDER_MIC : Int := 25
def SND_DEVICE_IN_VOICE_REC_HEADSET_MIC : Int := 26
def SND_DEVICE_IN_VOICE_REC_MIC : Int := 27
def SND_DEVICE_IN_END : Int := 28
def SND_DEVICE_MAX : Int := 28

/-- Modelled from the spec: the identifier `SND_DEVICE_OUT_HANDSET` used by
`get_output_snd_device` is not declared in `routing.h`; the specification
names the route "handset(earpiece)", the earpiece route of the catalog. -/
def SND_DEVICE_OUT_HANDSET : Int := SND_DEVICE_OUT_EARPIECE

/-- Modelled from the spec: the identifier `SND_DEVICE_IN_HANDSET_MIC` used by
`get_input_snd_device` is not declared in `routing.h`; the handset microphone
is the earpiece microphone route of the catalog. -/
def SND_DEVICE_IN_HANDSET_MIC : Int := SND_DEVICE_IN_EARPIECE_MIC

/-- The designated initialisers of `device_table`, in the order in which they
are written in `routing.h`. -/
def device_table_init : List (Int × String) :=
  [ (SND_DEVICE_NONE, "none"),
    (SND_DEVICE_OUT_EARPIECE, "earpiece"),
    (SND_DEVICE_OUT_SPEAKER, "speaker"),
    (SND_DEVICE_OUT_HEADPHONES, "headphones"),
    (SND_DEVICE_OUT_SPEAKER_AND_HEADPHONES, "speaker-and-headphones"),
    (SND_DEVICE_OUT_VOICE_EARPIECE, "voice-earpiece"),
    (SND_DEVICE_OUT_VOICE_EARPIECE, "voice-earpiece-wb"),
    (SND_DEVICE_OUT_VOICE_SPEAKER, "voice-speaker"),
    (SND_DEVICE_OUT_VOICE_SPEAKER, "voice-speaker-wb"),
    (SND_DEVICE_OUT_VOICE_HEADPHONES, "voice-headphones"),
    (SND_DEVICE_OUT_VOICE_HEADPHONES, "voice-headphones-wb"),
    (SND_DEVICE_OUT_HDMI, "hdmi"),
    (SND_DEVICE_OUT_SPEAKER_AND_HDMI, "speaker-and-hdmi"),
    (SND_DEVICE_OUT_BT_SCO, "bt-sco-headset"),
    (SND_DEVICE_IN_EARPIECE_MIC, "earpiece-mic"),
    (SND_DEVICE_IN_SPEAKER_MIC, "speaker-mic"),
    (SND_DEVICE_IN_HEADSET_MIC, "headset-mic"),
    (SND_DEVICE_IN_VOICE_EARPIECE_MIC, "voice-earpiece-mic"),
    (SND_DEVICE_IN_VOICE_SPEAKER_MIC, "voice-speaker-mic"),
    (SND_DEVICE_IN_VOICE_HEADSET_MIC, "voice-headset-mic"),
    (SND_DEVICE_IN_HDMI_MIC, "hdmi-mic"),
    (SND_DEVICE_IN_BT_SCO_MIC, "bt-sco-mic"),
    (SND_DEVICE_IN_CAMCORDER_MIC, "camcorder-mic"),
    (SND_DEVICE_IN_VOICE_REC_HEADSET_MIC, "voice-rec-headset-mic"),
    (SND_DEVICE_IN_VOICE_REC_MIC, "voice-rec-mic") ]

/-- The array `device_table[SND_DEVICE_MAX]`: an element takes the value of
the last initialiser that designates it (C11 6.7.9p19) and is a null pointer
(`none`) when no initialiser designates it. -/
def device_table (snd_device : Int) : Option String :=
  (device_table_init.reverse.find? (fun e => e.1 == snd_device)).map Prod.snd

/-- The function `get_snd_device_name`. -/
def get_snd_device_name (snd_device : Int) : Option String :=
  if SND_DEVICE_MIN ≤ snd_device ∧ snd_device < SND_DEVICE_MAX then
    device_table snd_device
  else
    none

/-! ## Bit counting -/

/-- Number of bits set among the `n` low bits of `x`. -/
def popcount_bits : Nat → Nat → Nat
  | 0, _ => 0
  | n + 1, x => x % 2 + popcount_bits n (x / 2)

/-- The function `popcount` on a 32 bit word. -/
def popcount (x : Nat) : Nat := popcount_bits 32 x

/-! ## `audio_hw.h`: usecases, streams and the device state -/

def USECASE_INVALID : Int := -1
def USECASE_AUDIO_PLAYBACK : Int := 0
def USECASE_AUDIO_PLAYBACK_MULTI_CH : Int := 1
def USECASE_AUDIO_HFP_SCO : Int := 2
def USECASE_AUDIO_CAPTURE : Int := 3
def USECASE_AUDIO_CAPTURE_LOW_LATENCY : Int := 4
def USECASE_VOICE_CALL : Int := 5
def AUDIO_USECASE_MAX : Int := 6

def PCM_PLAYBACK : Nat := 0
def PCM_CAPTURE : Nat := 1
def VOICE_CALL : Nat := 2
def PCM_HPF_CALL : Nat := 3

/-- The type `struct timespec`. -/
structure timespec where
  tv_sec : Int
  tv_nsec : Int
  deriving DecidableEq, Repr

/-- The fields of `struct stream_out` and `struct stream_in` that the routing
code reads through a usecase's `stream` pointer. The source reads one and the
same pointer as a `stream_out` (`devices`, `standby`) and as a `stream_in`
(`source`, `devices`, `main_channels`, `usecase`). -/
structure audio_stream where
  devices : Nat
  standby : Bool
  source : Int
  main_channels : Nat
  usecase : Int
  deriving DecidableEq, Repr

/-- The type `struct audio_usecase`; `stream` is the address of the owning
stream. -/
structure audio_usecase where
  id : Int
  type : Nat
  devices : Nat
  out_snd_device : Int
  in_snd_device : Int
  stream : Nat
  deriving DecidableEq, Repr

/-- Audio path kinds passed to `ril_set_call_audio_path`. -/
inductive AudioPath where
  | SOUND_AUDIO_PATH_HANDSET
  | SOUND_AUDIO_PATH_HEADSET
  | SOUND_AUDIO_PATH_SPEAKER
  | SOUND_AUDIO_PATH_BLUETOOTH
  | SOUND_AUDIO_PATH_HEADPHONE
  deriving DecidableEq, Repr

/-- Sound types passed to `ril_set_call_volume`. -/
inductive SoundType where
  | SOUND_TYPE_VOICE
  | SOUND_TYPE_SPEAKER
  | SOUND_TYPE_HEADSET
  | SOUND_TYPE_BTVOICE
  deriving DecidableEq, Repr

/-- Observable steps of the engine, in the order in which they happen. -/
inductive Event where
  /-- entry into `enable_snd_device` with this route -/
  | enable_snd_device (snd_device : Int)
  /-- entry into `disable_snd_device` with this route -/
  | disable_snd_device (snd_device : Int)
  /-- the path applier call `audio_route_apply_and_update_path` -/
  | audio_route_apply_and_update_path (name : String)
  /-- the path applier call `audio_route_reset_and_update_path` -/
  | audio_route_reset_and_update_path (name : String)
  /-- the call `usleep` with its argument in microseconds -/
  | usleep (usec : Nat)
  | ril_set_two_mic_control (enabled : Bool)
  | ril_set_call_audio_path (path : AudioPath)
  | ril_set_call_volume (sound_type : SoundType)
  | ril_set_call_clock_sync_start
  deriving DecidableEq, Repr

/-- The type `struct audio_device`, restricted to what the routing engine
reads and writes, with the store of streams, the collaborator trace and the
monotonic clock. `out_device` and `two_mic_control` are the fields that
`start_ril_call` uses. -/
structure audio_device where
  mode : Int
  primary_output : Option Nat
  voice_in_call : Bool
  voice_wb_amr : Bool
  out_device : Nat
  two_mic_control : Bool
  snd_dev_ref_cnt : Int → Int
  usecase_list : List audio_usecase
  mixer_shutdown_time : timespec
  streams : Nat → audio_stream
  trace : List Event
  clock : Nat → timespec
  clock_reads : Nat

/-- The function `get_usecase_from_id`: first usecase of the list with this
id. -/
def get_usecase_from_id (adev : audio_device) (uc_id : Int) : Option audio_usecase :=
  adev.usecase_list.find? (fun usecase => usecase.id == uc_id)

/-- The function `get_usecase_from_type`: first usecase of the list with
`usecase->type & type` non zero. -/
def get_usecase_from_type (adev : audio_device) (type : Nat) : Option audio_usecase :=
  adev.usecase_list.find? (fun usecase => usecase.type &&& type != 0)

/-! ## Route resolvers -/

/-- The function `get_output_snd_device`. -/
def get_output_snd_device (adev : audio_device) (devices : Nat) : Int :=
  let mode := adev.mode
  let wb_amr := adev.voice_wb_amr
  if devices = AUDIO_DEVICE_NONE ∨ devices &&& AUDIO_DEVICE_BIT_IN ≠ 0 then
    SND_DEVICE_NONE
  else
    let snd_device : Int :=
      if mode = AUDIO_MODE_IN_CALL then
        if devices &&& AUDIO_DEVICE_OUT_WIRED_HEADPHONE ≠ 0 ∨
            devices &&& AUDIO_DEVICE_OUT_WIRED_HEADSET ≠ 0 then
          if wb_amr then SND_DEVICE_OUT_VOICE_HEADPHONES_WB
          else SND_DEVICE_OUT_VOICE_HEADPHONES
        else if devices &&& AUDIO_DEVICE_OUT_SPEAKER ≠ 0 then
          if wb_amr then SND_DEVICE_OUT_VOICE_SPEAKER_WB
          else SND_DEVICE_OUT_VOICE_SPEAKER
        else if devices &&& AUDIO_DEVICE_OUT_EARPIECE ≠ 0 then
          if wb_amr then SND_DEVICE_OUT_VOICE_EARPIECE_WB
          else SND_DEVICE_OUT_VOICE_EARPIECE
        else if devices &&& AUDIO_DEVICE_OUT_ALL_SCO ≠ 0 then
          SND_DEVICE_OUT_BT_SCO
        else SND_DEVICE_NONE
      else SND_DEVICE_NONE
    if snd_device ≠ SND_DEVICE_NONE then
      snd_device
    else if popcount devices = 2 then
      if devices = AUDIO_DEVICE_OUT_WIRED_HEADPHONE ||| AUDIO_DEVICE_OUT_SPEAKER then
        SND_DEVICE_OUT_SPEAKER_AND_HEADPHONES
      else if devices = AUDIO_DEVICE_OUT_WIRED_HEADSET ||| AUDIO_DEVICE_OUT_SPEAKER then
        SND_DEVICE_OUT_SPEAKER_AND_HEADPHONES
      else
        SND_DEVICE_NONE
    else if popcount devices ≠ 1 then
      SND_DEVICE_NONE
    else if devices &&& AUDIO_DEVICE_OUT_WIRED_HEADPHONE ≠ 0 ∨
        devices &&& AUDIO_DEVICE_OUT_WIRED_HEADSET ≠ 0 then
      SND_DEVICE_OUT_HEADPHONES
    else if devices &&& AUDIO_DEVICE_OUT_SPEAKER ≠ 0 then
      SND_DEVICE_OUT_SPEAKER
    else if devices &&& AUDIO_DEVICE_OUT_EARPIECE ≠ 0 then
      SND_DEVICE_OUT_HANDSET
    else if devices &&& AUDIO_DEVICE_OUT_ALL_SCO ≠ 0 then
      SND_DEVICE_OUT_BT_SCO
    else
      SND_DEVICE_NONE

/-- The function `get_input_snd_device`. -/
def get_input_snd_device (adev : audio_device) (out_device : Nat) : Int :=
  let mode := adev.mode
  let active_input : Option audio_stream :=
    (get_usecase_from_type adev (PCM_CAPTURE ||| VOICE_CALL)).map
      (fun usecase => adev.streams usecase.stream)
  let source : Int :=
    match active_input with
    | none => AUDIO_SOURCE_DEFAULT
    | some inp => inp.source
  let in_device0 : Nat :=
    (match active_input with
      | none => AUDIO_DEVICE_NONE
      | some inp => inp.devices) &&& 0x7FFFFFFF
  -- the branch on mode and source: `none` stands for `goto exit`
  let stage : Option (Int × Nat) :=
    if mode = AUDIO_MODE_IN_CALL then
      if out_device = AUDIO_DEVICE_NONE then
        none
      else if out_device &&& AUDIO_DEVICE_OUT_EARPIECE ≠ 0 ∨
          out_device &&& AUDIO_DEVICE_OUT_WIRED_HEADPHONE ≠ 0 then
        some (SND_DEVICE_IN_EARPIECE_MIC, in_device0)
      else if out_device &&& AUDIO_DEVICE_OUT_WIRED_HEADSET ≠ 0 then
        some (SND_DEVICE_IN_VOICE_HEADSET_MIC, in_device0)
      else if out_device &&& AUDIO_DEVICE_OUT_SPEAKER ≠ 0 then
        some (SND_DEVICE_IN_VOICE_SPEAKER_MIC, in_device0)
      else if out_device &&& AUDIO_DEVICE_OUT_ALL_SCO ≠ 0 then
        some (SND_DEVICE_IN_BT_SCO_MIC, in_device0)
      else
        some (SND_DEVICE_NONE, in_device0)
    else if source = AUDIO_SOURCE_CAMCORDER then
      if in_device0 &&& AUDIO_DEVICE_IN_BUILTIN_MIC ≠ 0 ∨
          in_device0 &&& AUDIO_DEVICE_IN_BACK_MIC ≠ 0 then
        some (SND_DEVICE_IN_CAMCORDER_MIC, in_device0)
      else
        some (SND_DEVICE_NONE, in_device0)
    else if source = AUDIO_SOURCE_VOICE_COMMUNICATION ∨ source = AUDIO_SOURCE_MIC then
      if out_device &&& AUDIO_DEVICE_OUT_SPEAKER ≠ 0 then
        some (SND_DEVICE_NONE, AUDIO_DEVICE_IN_BACK_MIC)
      else
        some (SND_DEVICE_NONE, in_device0)
    else if source = AUDIO_SOURCE_DEFAULT then
      none
    else
      some (SND_DEVICE_NONE, in_device0)
  match stage with
  | none => SND_DEVICE_NONE
  | some (snd_device, in_device) =>
    if snd_device ≠ SND_DEVICE_NONE then
      snd_device
    else if in_device ≠ AUDIO_DEVICE_NONE ∧
        ¬ (in_device &&& AUDIO_DEVICE_IN_VOICE_CALL ≠ 0) ∧
        ¬ (in_device &&& AUDIO_DEVICE_IN_COMMUNICATION ≠ 0) then
      if in_device &&& AUDIO_DEVICE_IN_BUILTIN_MIC ≠ 0 then
        SND_DEVICE_IN_EARPIECE_MIC
      else if in_device &&& AUDIO_DEVICE_IN_BACK_MIC ≠ 0 then
        SND_DEVICE_IN_SPEAKER_MIC
      else if in_device &&& AUDIO_DEVICE_IN_WIRED_HEADSET ≠ 0 then
        SND_DEVICE_IN_HEADSET_MIC
      else if in_device &&& AUDIO_DEVICE_IN_BLUETOOTH_SCO_HEADSET ≠ 0 then
        SND_DEVICE_IN_BT_SCO_MIC
      else if in_device &&& AUDIO_DEVICE_IN_AUX_DIGITAL ≠ 0 then
        SND_DEVICE_IN_HDMI_MIC
      else
        SND_DEVICE_IN_HANDSET_MIC
    else
      if out_device &&& AUDIO_DEVICE_OUT_EARPIECE ≠ 0 then
        SND_DEVICE_IN_EARPIECE_MIC
      else if out_device &&& AUDIO_DEVICE_OUT_WIRED_HEADSET ≠ 0 then
        SND_DEVICE_IN_HEADSET_MIC
      else if out_device &&& AUDIO_DEVICE_OUT_SPEAKER ≠ 0 then
        SND_DEVICE_IN_SPEAKER_MIC
      else if out_device &&& AUDIO_DEVICE_OUT_WIRED_HEADPHONE ≠ 0 then
        SND_DEVICE_IN_HANDSET_MIC
      else if out_device &&& AUDIO_DEVICE_OUT_BLUETOOTH_SCO_HEADSET ≠ 0 then
        SND_DEVICE_IN_BT_SCO_MIC
      else
        SND_DEVICE_IN_HANDSET_MIC

/-! ## Route activation engine -/

/-- The macro `DAPM_SHUTDOWN_TIME` (10 ms, in microseconds). The body of
`enable_snd_device` spells it `DAPM_STUTDOWN_TIME`, a name that is defined
nowhere. -/
def DAPM_SHUTDOWN_TIME : Int := 10000

/-- The function `time_spec_diff(time1, time0)`. The `double` operations
`x / (1E9 + 1)`, `x / 1E9` and `1E9 * xsec` followed by a conversion to an
integer type are division truncating towards zero and multiplication; they
are exact on the nanosecond fields of normalised `timespec` values. -/
def time_spec_diff (time1 time0 : timespec) : timespec :=
  let time0a : timespec :=
    if time0.tv_nsec > time1.tv_nsec then
      let xsec := (time0.tv_nsec - time1.tv_nsec).tdiv (1000000000 + 1)
      { tv_sec := time0.tv_sec + xsec, tv_nsec := time0.tv_nsec - 1000000000 * xsec }
    else time0
  let time0b : timespec :=
    if time1.tv_nsec - time0a.tv_nsec > 1000000000 then
      let xsec := (time1.tv_nsec - time0a.tv_nsec).tdiv 1000000000
      { tv_sec := time0a.tv_sec - xsec, tv_nsec := time0a.tv_nsec + 1000000000 * xsec }
    else time0a
  let sign : Int := if time1.tv_sec < time0b.tv_sec then -1 else 1
  { tv_sec := (time1.tv_sec - time0b.tv_sec) * sign,
    tv_nsec := time1.tv_nsec - time0b.tv_nsec }

/-- Append one event to the trace. -/
def emit (adev : audio_device) (e : Event) : audio_device :=
  { adev with trace := adev.trace ++ [e] }

/-- The call `clock_gettime(CLOCK_MONOTONIC, _)`: the value read and the
state after the read. -/
def clock_gettime (adev : audio_device) : timespec × audio_device :=
  (adev.clock adev.clock_reads, { adev with clock_reads := adev.clock_reads + 1 })

/-- Assignment to `adev->snd_dev_ref_cnt[snd_device]`. -/
def set_ref_cnt (adev : audio_device) (snd_device : Int) (v : Int) : audio_device :=
  { adev with snd_dev_ref_cnt := fun d => if d = snd_device then v else adev.snd_dev_ref_cnt d }

/-- The argument of `usleep` converted to `useconds_t` (32 bit unsigned). -/
def to_useconds (x : Int) : Nat := (x % 4294967296).toNat

/-- The function `enable_snd_device` for an argument other than
`SND_DEVICE_OUT_SPEAKER_AND_HEADPHONES`. -/
def enable_snd_device_simple (adev : audio_device) (snd_device : Int) : Int × audio_device :=
  let adev := emit adev (Event.enable_snd_device snd_device)
  match get_snd_device_name snd_device with
  | none => (EINVAL_neg, adev)
  | some snd_device_name =>
    let adev := set_ref_cnt adev snd_device (adev.snd_dev_ref_cnt snd_device + 1)
    if adev.snd_dev_ref_cnt snd_device > 1 then
      (0, adev)
    else
      let (activation_time, adev) := clock_gettime adev
      let elapsed_time := time_spec_diff adev.mixer_shutdown_time activation_time
      let adev :=
        if elapsed_time.tv_sec = 0 then
          let elapsed_usec := elapsed_time.tv_nsec.tdiv 1000
          if elapsed_usec < DAPM_SHUTDOWN_TIME then
            emit adev (Event.usleep (to_useconds (DAPM_SHUTDOWN_TIME - elapsed_usec)))
          else adev
        else adev
      (0, emit adev (Event.audio_route_apply_and_update_path snd_device_name))

/-- The function `enable_snd_device`. The combo route is enabled by two nested
calls whose results are discarded. -/
def enable_snd_device (adev : audio_device) (snd_device : Int) : Int × audio_device :=
  if snd_device = SND_DEVICE_OUT_SPEAKER_AND_HEADPHONES then
    let adev := emit adev (Event.enable_snd_device snd_device)
    match get_snd_device_name snd_device with
    | none => (EINVAL_neg, adev)
    | some _ =>
      let adev := (enable_snd_device_simple adev SND_DEVICE_OUT_SPEAKER).2
      let adev := (enable_snd_device_simple adev SND_DEVICE_OUT_HEADPHONES).2
      (0, adev)
  else
    enable_snd_device_simple adev snd_device

/-- The function `disable_snd_device` for an argument other than
`SND_DEVICE_OUT_SPEAKER_AND_HEADPHONES`. The time of the shutdown is stored in
the field that `enable_snd_device` reads (`mixer.shutdown_time`; the source
writes it under the name `mixer.last_shutdown`). -/
def disable_snd_device_simple (adev : audio_device) (snd_device : Int) : Int × audio_device :=
  let adev := emit adev (Event.disable_snd_device snd_device)
  match get_snd_device_name snd_device with
  | none => (EINVAL_neg, adev)
  | some snd_device_name =>
    if adev.snd_dev_ref_cnt snd_device ≤ 0 then
      (EINVAL_neg, adev)
    else
      let adev := set_ref_cnt adev snd_device (adev.snd_dev_ref_cnt snd_device - 1)
      if adev.snd_dev_ref_cnt snd_device = 0 then
        let adev := emit adev (Event.audio_route_reset_and_update_path snd_device_name)
        let (now, adev) := clock_gettime adev
        (0, { adev with mixer_shutdown_time := now })
      else
        (0, adev)

/-- The function `disable_snd_device`. -/
def disable_snd_device (adev : audio_device) (snd_device : Int) : Int × audio_device :=
  if snd_device = SND_DEVICE_OUT_SPEAKER_AND_HEADPHONES then
    let adev := emit adev (Event.disable_snd_device snd_device)
    match get_snd_device_name snd_device with
    | none => (EINVAL_neg, adev)
    | some _ =>
      let adev := (disable_snd_device_simple adev SND_DEVICE_OUT_SPEAKER).2
      let adev := (disable_snd_device_simple adev SND_DEVICE_OUT_HEADPHONES).2
      (0, adev)
  else
    disable_snd_device_simple adev snd_device

/-- Whether an event is a call to the path applier. -/
def is_path_call : Event → Bool
  | Event.audio_route_apply_and_update_path _ => true
  | Event.audio_route_reset_and_update_path _ => true
  | _ => false

/-- The path applier calls of a trace, in order. -/
def path_calls (trace : List Event) : List Event :=
  trace.filter is_path_call

/-! ## Telephony collaborator -/

/-- The function `adev_set_call_audio_path`. -/
def adev_set_call_audio_path (adev : audio_device) : audio_device :=
  let device_type : AudioPath :=
    if adev.out_device = AUDIO_DEVICE_OUT_SPEAKER then AudioPath.SOUND_AUDIO_PATH_SPEAKER
    else if adev.out_device = AUDIO_DEVICE_OUT_EARPIECE then AudioPath.SOUND_AUDIO_PATH_HANDSET
    else if adev.out_device = AUDIO_DEVICE_OUT_WIRED_HEADSET then AudioPath.SOUND_AUDIO_PATH_HEADSET
    else if adev.out_device = AUDIO_DEVICE_OUT_WIRED_HEADPHONE then
      AudioPath.SOUND_AUDIO_PATH_HEADPHONE
    else if adev.out_device = AUDIO_DEVICE_OUT_BLUETOOTH_SCO ∨
        adev.out_device = AUDIO_DEVICE_OUT_BLUETOOTH_SCO_HEADSET ∨
        adev.out_device = AUDIO_DEVICE_OUT_BLUETOOTH_SCO_CARKIT then
      AudioPath.SOUND_AUDIO_PATH_BLUETOOTH
    else AudioPath.SOUND_AUDIO_PATH_HANDSET
  emit adev (Event.ril_set_call_audio_path device_type)

/-- The function `voice_set_volume` applied to the cached voice volume; the
volume itself is not part of the state of the embedding. -/
def voice_set_volume (adev : audio_device) : audio_device :=
  if adev.mode = AUDIO_MODE_IN_CALL then
    let sound_type : SoundType :=
      if adev.out_device = AUDIO_DEVICE_OUT_EARPIECE then SoundType.SOUND_TYPE_VOICE
      else if adev.out_device = AUDIO_DEVICE_OUT_SPEAKER then SoundType.SOUND_TYPE_SPEAKER
      else if adev.out_device = AUDIO_DEVICE_OUT_WIRED_HEADSET ∨
          adev.out_device = AUDIO_DEVICE_OUT_WIRED_HEADPHONE then SoundType.SOUND_TYPE_HEADSET
      else if adev.out_device = AUDIO_DEVICE_OUT_BLUETOOTH_SCO ∨
          adev.out_device = AUDIO_DEVICE_OUT_BLUETOOTH_SCO_HEADSET ∨
          adev.out_device = AUDIO_DEVICE_OUT_BLUETOOTH_SCO_CARKIT ∨
          adev.out_device = AUDIO_DEVICE_OUT_ALL_SCO then SoundType.SOUND_TYPE_BTVOICE
      else SoundType.SOUND_TYPE_VOICE
    emit adev (Event.ril_set_call_volume sound_type)
  else adev

/-- The function `start_ril_call`. -/
def start_ril_call (adev : audio_device) : audio_device :=
  let two_mic : Bool :=
    adev.out_device = AUDIO_DEVICE_OUT_EARPIECE ∨ adev.out_device = AUDIO_DEVICE_OUT_SPEAKER
  let adev := { adev with two_mic_control := two_mic }
  let adev := emit adev (Event.ril_set_two_mic_control two_mic)
  let adev := adev_set_call_audio_path adev
  let adev := voice_set_volume adev
  emit adev Event.ril_set_call_clock_sync_start

/-! ## Device selection -/

/-- Result of running `select_devices`: it returns `ret` in state `adev`, or
it dereferences a null pointer, or the bound on the nesting of calls given to
the embedding is exhausted. -/
inductive Outcome where
  | done (ret : Int) (adev : audio_device)
  | null_deref
  | no_fuel

/-- Write through the pointer returned by `get_usecase_from_id`: the first
usecase of the list with this id is replaced by its image under `f`. -/
def update_usecase (f : audio_usecase → audio_usecase) (uc_id : Int) :
    List audio_usecase → List audio_usecase
  | [] => []
  | usecase :: rest =>
    if usecase.id = uc_id then f usecase :: rest
    else usecase :: update_usecase f uc_id rest

/-- Assignment `usecase->devices = devices`. -/
def set_usecase_devices (adev : audio_device) (uc_id : Int) (devices : Nat) : audio_device :=
  { adev with
    usecase_list := update_usecase (fun u => { u with devices := devices }) uc_id adev.usecase_list }

/-- Assignments `usecase->in_snd_device = in_snd_device` and
`usecase->out_snd_device = out_snd_device`. -/
def set_usecase_snd_devices (adev : audio_device) (uc_id : Int)
    (out_snd_device in_snd_device : Int) : audio_device :=
  { adev with
    usecase_list :=
      update_usecase
        (fun u => { u with in_snd_device := in_snd_device, out_snd_device := out_snd_device })
        uc_id adev.usecase_list }

/-- The second half of `select_devices`, from the comparison of the resolved
routes with the routes stored in the usecase to the end of the function. The
results of `disable_snd_device` and `enable_snd_device` are discarded, as in
the source. -/
def select_devices_switch (adev : audio_device) (uc_id : Int)
    (out_snd_device in_snd_device : Int) : Outcome :=
  match get_usecase_from_id adev uc_id with
  | none => Outcome.null_deref
  | some usecase =>
    if out_snd_device = usecase.out_snd_device ∧ in_snd_device = usecase.in_snd_device then
      Outcome.done 0 adev
    else
      let adev :=
        if usecase.out_snd_device ≠ SND_DEVICE_NONE then
          (disable_snd_device adev usecase.out_snd_device).2
        else adev
      let adev :=
        if usecase.in_snd_device ≠ SND_DEVICE_NONE then
          (disable_snd_device adev usecase.in_snd_device).2
        else adev
      let adev := if adev.voice_in_call then start_ril_call adev else adev
      let adev :=
        if out_snd_device ≠ SND_DEVICE_NONE then (enable_snd_device adev out_snd_device).2
        else adev
      let adev :=
        if in_snd_device ≠ SND_DEVICE_NONE then (enable_snd_device adev in_snd_device).2
        else adev
      Outcome.done 0 (set_usecase_snd_devices adev uc_id out_snd_device in_snd_device)

/-- The function `select_devices`. The first argument is the value of the
identifier `USECASE_AUDIO_CAPTURE_HOTWORD`, which `audio_hw.h` does not
declare; the second bounds the nesting of calls. The result of the nested
call is discarded, as in the source. -/
def select_devices (USECASE_AUDIO_CAPTURE_HOTWORD : Int) :
    Nat → audio_device → Int → Outcome
  | 0, _, _ => Outcome.no_fuel
  | fuel + 1, adev, uc_id =>
    if uc_id = USECASE_AUDIO_CAPTURE_HOTWORD then
      Outcome.done 0 adev
    else
      let active_input : Option audio_stream :=
        (get_usecase_from_type adev (PCM_CAPTURE ||| VOICE_CALL)).map
          (fun usecase => adev.streams usecase.stream)
      match get_usecase_from_id adev uc_id with
      | none => Outcome.done EINVAL_neg adev
      | some usecase =>
        let active_out := usecase.stream
        if usecase.type = VOICE_CALL then
          let out_snd_device := get_output_snd_device adev (adev.streams active_out).devices
          let in_snd_device := get_input_snd_device adev (adev.streams active_out).devices
          let adev := set_usecase_devices adev uc_id (adev.streams active_out).devices
          select_devices_switch adev uc_id out_snd_device in_snd_device
        else
          -- routes of the voice call usecase when a call is active
          let inherited : Option (Int × Int) :=
            if adev.voice_in_call then
              (get_usecase_from_id adev USECASE_VOICE_CALL).map
                (fun vc_usecase => (vc_usecase.out_snd_device, vc_usecase.in_snd_device))
            else some (SND_DEVICE_NONE, SND_DEVICE_NONE)
          match inherited with
          | none => Outcome.null_deref
          | some (out_snd_device, in_snd_device) =>
            if usecase.type = PCM_PLAYBACK then
              let adev := set_usecase_devices adev uc_id (adev.streams active_out).devices
              if out_snd_device = SND_DEVICE_NONE then
                let out_snd_device := get_output_snd_device adev (adev.streams active_out).devices
                match active_input with
                | none => select_devices_switch adev uc_id out_snd_device SND_DEVICE_NONE
                | some inp =>
                  if adev.primary_output = some active_out ∧
                      inp.source = AUDIO_SOURCE_VOICE_COMMUNICATION then
                    match select_devices USECASE_AUDIO_CAPTURE_HOTWORD fuel adev inp.usecase with
                    | Outcome.done _ adev =>
                      select_devices_switch adev uc_id out_snd_device SND_DEVICE_NONE
                    | Outcome.null_deref => Outcome.null_deref
                    | Outcome.no_fuel => Outcome.no_fuel
                  else
                    select_devices_switch adev uc_id out_snd_device SND_DEVICE_NONE
              else
                select_devices_switch adev uc_id out_snd_device SND_DEVICE_NONE
            else if usecase.type = PCM_CAPTURE then
              let adev := set_usecase_devices adev uc_id (adev.streams usecase.stream).devices
              if in_snd_device = SND_DEVICE_NONE then
                match active_input with
                | none => Outcome.null_deref
                | some inp =>
                  let in_snd_device :=
                    match adev.primary_output with
                    | some primary_output =>
                      if inp.source = AUDIO_SOURCE_VOICE_COMMUNICATION ∧
                          (adev.streams primary_output).standby = false then
                        get_input_snd_device adev (adev.streams primary_output).devices
                      else get_input_snd_device adev AUDIO_DEVICE_NONE
                    | none => get_input_snd_device adev AUDIO_DEVICE_NONE
                  select_devices_switch adev uc_id SND_DEVICE_NONE in_snd_device
              else
                select_devices_switch adev uc_id SND_DEVICE_NONE in_snd_device
            else
              select_devices_switch adev uc_id out_snd_device in_snd_device

/-! ## Auxiliary definitions used in the statements -/

/-- Return value of a completed run. -/
def Outcome.ret : Outcome → Option Int
  | Outcome.done r _ => some r
  | _ => none

/-- Final state of a completed run. -/
def Outcome.final : Outcome → Option audio_device
  | Outcome.done _ adev => some adev
  | _ => none

/-- The `usleep` call, if any, that `enable_snd_device` makes before applying a
path, given the stored shutdown time and the activation time. -/
def debounce_sleep (shutdown_time activation_time : timespec) : List Event :=
  let elapsed_time := time_spec_diff shutdown_time activation_time
  if elapsed_time.tv_sec = 0 ∧ elapsed_time.tv_nsec.tdiv 1000 < DAPM_SHUTDOWN_TIME then
    [Event.usleep (to_useconds (DAPM_SHUTDOWN_TIME - elapsed_time.tv_nsec.tdiv 1000))]
  else []

/-- An output stream routed to the speaker. -/
def speaker_stream : audio_stream where
  devices := AUDIO_DEVICE_OUT_SPEAKER
  standby := false
  source := AUDIO_SOURCE_DEFAULT
  main_channels := 0
  usecase := USECASE_AUDIO_PLAYBACK

/-- The state set up by `adev_open` (normal mode, no call, empty usecase list,
all reference counts zero, shutdown time one second), with a clock that reads
100 s, 101 s, and so on. -/
def initial_device : audio_device where
  mode := AUDIO_MODE_NORMAL
  primary_output := none
  voice_in_call := false
  voice_wb_amr := false
  out_device := AUDIO_DEVICE_NONE
  two_mic_control := false
  snd_dev_ref_cnt := fun _ => 0
  usecase_list := []
  mixer_shutdown_time := { tv_sec := 1, tv_nsec := 0 }
  streams := fun _ => speaker_stream
  trace := []
  clock := fun n => { tv_sec := 100 + n, tv_nsec := 0 }
  clock_reads := 0

/-! ## Auxiliary definitions used in the proofs about `select_devices` -/

/-- The part of the device state that the route resolvers read and that
neither the activation engine nor `select_devices` writes. -/
structure routing_context where
  mode : Int
  primary_output : Option Nat
  voice_in_call : Bool
  voice_wb_amr : Bool
  streams : Nat → audio_stream

/-- The routing context of a device state. -/
def ctx (adev : audio_device) : routing_context where
  mode := adev.mode
  primary_output := adev.primary_output
  voice_in_call := adev.voice_in_call
  voice_wb_amr := adev.voice_wb_amr
  streams := adev.streams

/-- Identity, class and owning stream of a usecase: the fields that
`select_devices` never writes. -/
def skel (usecase : audio_usecase) : Int × Nat × Nat :=
  (usecase.id, usecase.type, usecase.stream)

/-- Stream of the active input: the stream of the first capture or voice call
usecase, as `select_devices` and `get_input_snd_device` compute it. -/
def active_input (adev : audio_device) : Option audio_stream :=
  (get_usecase_from_type adev (PCM_CAPTURE ||| VOICE_CALL)).map
    (fun usecase => adev.streams usecase.stream)

/-- Routes `(out_snd_device, in_snd_device)` that a usecase other than the
voice call starts from: those of the voice call usecase during a call, else
none. The result `none` stands for the dereference of a null `vc_usecase`. -/
def inherited (adev : audio_device) : Option (Int × Int) :=
  if adev.voice_in_call then
    (get_usecase_from_id adev USECASE_VOICE_CALL).map
      (fun vc_usecase => (vc_usecase.out_snd_device, vc_usecase.in_snd_device))
  else some (SND_DEVICE_NONE, SND_DEVICE_NONE)

/-- Input route that `select_devices` resolves for a capture usecase that did
not inherit one. -/
def capture_input (adev : audio_device) (inp : audio_stream) : Int :=
  match adev.primary_output with
  | some primary_output =>
    if inp.source = AUDIO_SOURCE_VOICE_COMMUNICATION ∧
        (adev.streams primary_output).standby = false then
      get_input_snd_device adev (adev.streams primary_output).devices
    else get_input_snd_device adev AUDIO_DEVICE_NONE
  | none => get_input_snd_device adev AUDIO_DEVICE_NONE

/-- What the first half of `select_devices` computes for a usecase: the value
written to its `devices` field (if any) and the routes `(out, in)` it is to
have. The result `none` stands for a null pointer dereference. -/
def resolve (adev : audio_device) (usecase : audio_usecase) :
    Option (Option Nat × Int × Int) :=
  let devices := (adev.streams usecase.stream).devices
  if usecase.type = VOICE_CALL then
    some (some devices, get_output_snd_device adev devices, get_input_snd_device adev devices)
  else
    match inherited adev with
    | none => none
    | some (out_snd_device, in_snd_device) =>
      if usecase.type = PCM_PLAYBACK then
        some (some devices,
          if out_snd_device = SND_DEVICE_NONE then get_output_snd_device adev devices
          else out_snd_device,
          SND_DEVICE_NONE)
      else if usecase.type = PCM_CAPTURE then
        if in_snd_device = SND_DEVICE_NONE then
          match active_input adev with
          | none => none
          | some inp => some (some devices, SND_DEVICE_NONE, capture_input adev inp)
        else some (some devices, SND_DEVICE_NONE, in_snd_device)
      else some (none, out_snd_device, in_snd_device)

/-- The usecase id on which `select_devices` calls itself while it updates
this usecase, if it does. -/
def nest_target (adev : audio_device) (usecase : audio_usecase) : Option Int :=
  if usecase.type = PCM_PLAYBACK ∧ usecase.type ≠ VOICE_CALL ∧
      (inherited adev).map Prod.fst = some SND_DEVICE_NONE ∧
      adev.primary_output = some usecase.stream then
    match active_input adev with
    | none => none
    | some inp =>
      if inp.source = AUDIO_SOURCE_VOICE_COMMUNICATION then some inp.usecase else none
  else none

/-- The write `usecase->devices = devices`, when the branch taken makes it. -/
def write_devices (adev : audio_device) (uc_id : Int) : Option Nat → audio_device
  | none => adev
  | some devices => set_usecase_devices adev uc_id devices

/-- A usecase record with its two routes replaced. -/
def with_routes (usecase : audio_usecase) (o i : Int) : audio_usecase :=
  { usecase with in_snd_device := i, out_snd_device := o }

/-- A usecase record after the optional write of its `devices` field. -/
def with_devices (usecase : audio_usecase) : Option Nat → audio_usecase
  | none => usecase
  | some devices => { usecase with devices := devices }

/-- The condition under which the statements about an active call are made:
when the in-call flag is set, the usecase list holds the voice call usecase as
`start_voice_call` creates it, with id `USECASE_VOICE_CALL`, type `VOICE_CALL`
and the primary output as its stream. -/
def voice_call_present (adev : audio_device) : Prop :=
  adev.voice_in_call = true →
    ∃ vc_usecase, get_usecase_from_id adev USECASE_VOICE_CALL = some vc_usecase ∧
      vc_usecase.type = VOICE_CALL ∧ adev.primary_output = some vc_usecase.stream

/-- Two device states with the same routing context and the same usecases up
to the fields that `select_devices` writes. -/
def same_context (a b : audio_device) : Prop :=
  ctx a = ctx b ∧ a.usecase_list.map skel = b.usecase_list.map skel

/-- The engine part of the second half of `select_devices`: disable the old
routes, notify the modem during a call, enable the new routes. -/
def engine_switch (adev : audio_device) (old_out old_in new_out new_in : Int) : audio_device :=
  let adev :=
    if old_out ≠ SND_DEVICE_NONE then (disable_snd_device adev old_out).2 else adev
  let adev :=
    if old_in ≠ SND_DEVICE_NONE then (disable_snd_device adev old_in).2 else adev
  let adev := if adev.voice_in_call then start_ril_call adev else adev
  let adev :=
    if new_out ≠ SND_DEVICE_NONE then (enable_snd_device adev new_out).2 else adev
  if new_in ≠ SND_DEVICE_NONE then (enable_snd_device adev new_in).2 else adev

/-- Routing context and usecase list of a state. -/
def frame (adev : audio_device) : routing_context × List audio_usecase :=
  (ctx adev, adev.usecase_list)

/-- Value taken for `USECASE_AUDIO_CAPTURE_HOTWORD` in the concrete examples:
a value that is the id of none of the usecases of `audio_hw.h`. -/
def example_hotword : Int := AUDIO_USECASE_MAX

/-- The initial state after `enable_output_path_l` has appended a fresh
playback usecase for an output stream (at address 1) routed to the speaker,
before its call of `select_devices`. -/
def playback_speaker_device : audio_device :=
  { initial_device with
    usecase_list :=
      [{ id := USECASE_AUDIO_PLAYBACK, type := PCM_PLAYBACK, devices := AUDIO_DEVICE_OUT_SPEAKER,
         out_snd_device := SND_DEVICE_NONE, in_snd_device := SND_DEVICE_NONE, stream := 1 }] }

/-- A state during a call on the speaker: mode in-call, in-call flag set, the
primary output stream (at address 1) routed to the speaker, the voice call
usecase with the applied routes voice-speaker and voice-speaker-mic (reference
count 1 each), and a fresh playback usecase on the primary output. -/
def call_speaker_device : audio_device :=
  { initial_device with
    mode := AUDIO_MODE_IN_CALL
    primary_output := some 1
    voice_in_call := true
    out_device := AUDIO_DEVICE_OUT_SPEAKER
    snd_dev_ref_cnt := fun d =>
      if d = SND_DEVICE_OUT_VOICE_SPEAKER ∨ d = SND_DEVICE_IN_VOICE_SPEAKER_MIC then 1 else 0
    usecase_list :=
      [{ id := USECASE_VOICE_CALL, type := VOICE_CALL, devices := AUDIO_DEVICE_OUT_SPEAKER,
         out_snd_device := SND_DEVICE_OUT_VOICE_SPEAKER,
         in_snd_device := SND_DEVICE_IN_VOICE_SPEAKER_MIC, stream := 1 },
       { id := USECASE_AUDIO_PLAYBACK, type := PCM_PLAYBACK, devices := AUDIO_DEVICE_OUT_SPEAKER,
         out_snd_device := SND_DEVICE_NONE, in_snd_device := SND_DEVICE_NONE, stream := 1 }] }

/-- An output stream routed to the wired headset. -/
def headset_stream : audio_stream where
  devices := AUDIO_DEVICE_OUT_WIRED_HEADSET
  standby := false
  source := AUDIO_SOURCE_DEFAULT
  main_channels := 0
  usecase := USECASE_AUDIO_PLAYBACK

/-- The state in which `start_voice_call` calls `select_devices` for a wideband
call on a wired headset: mode in-call, wideband flag set, the primary output
stream (at address 1) routed to the wired headset, a playback usecase with the
normal mode route headphones applied, and the fresh voice call usecase with
routes (NONE, NONE) bound to the primary output. -/
def call_headset_wb_device : audio_device :=
  { initial_device with
    mode := AUDIO_MODE_IN_CALL
    primary_output := some 1
    voice_wb_amr := true
    out_device := AUDIO_DEVICE_OUT_WIRED_HEADSET
    streams := fun _ => headset_stream
    snd_dev_ref_cnt := fun d => if d = SND_DEVICE_OUT_HEADPHONES then 1 else 0
    trace := [Event.enable_snd_device SND_DEVICE_OUT_HEADPHONES,
      Event.audio_route_apply_and_update_path "headphones"]
    usecase_list :=
      [{ id := USECASE_AUDIO_PLAYBACK, type := PCM_PLAYBACK,
         devices := AUDIO_DEVICE_OUT_WIRED_HEADSET, out_snd_device := SND_DEVICE_OUT_HEADPHONES,
         in_snd_device := SND_DEVICE_NONE, stream := 1 },
       { id := USECASE_VOICE_CALL, type := VOICE_CALL, devices := AUDIO_DEVICE_OUT_WIRED_HEADSET,
         out_snd_device := SND_DEVICE_NONE, in_snd_device := SND_DEVICE_NONE, stream := 1 }] }

/-- A state in which the last route was shut down at 5 s and the clock reads
5.005 s, that is 5 ms later. -/
def debounce_inside_device : audio_device :=
  { initial_device with
    mixer_shutdown_time := { tv_sec := 5, tv_nsec := 0 }
    clock := fun _ => { tv_sec := 5, tv_nsec := 5000000 } }

/-- A state in which the last route was shut down at 4.999999 s and the clock
reads 5.000001 s, that is 2 microseconds later. -/
def debounce_boundary_device : audio_device :=
  { initial_device with
    mixer_shutdown_time := { tv_sec := 4, tv_nsec := 999999000 }
    clock := fun _ => { tv_sec := 5, tv_nsec := 1000 } }

/-- A state in normal mode and the same state in call mode. -/
def in_call_device : audio_device :=
  { initial_device with mode := AUDIO_MODE_IN_CALL }

/-- An input stream capturing voice communication from the built-in
microphone. -/
def voice_comm_stream : audio_stream where
  devices := AUDIO_DEVICE_IN_BUILTIN_MIC
  standby := false
  source := AUDIO_SOURCE_VOICE_COMMUNICATION
  main_channels := AUDIO_CHANNEL_IN_MONO
  usecase := USECASE_AUDIO_CAPTURE

/-- A state in normal mode with the primary output stream (at address 1)
routed to the speaker, a voice communication input stream (at address 2), and
a fresh playback usecase and a fresh capture usecase for them. -/
def playback_capture_device : audio_device :=
  { initial_device with
    primary_output := some 1
    streams := fun p => if p = 1 then speaker_stream else voice_comm_stream
    usecase_list :=
      [{ id := USECASE_AUDIO_PLAYBACK, type := PCM_PLAYBACK, devices := AUDIO_DEVICE_OUT_SPEAKER,
         out_snd_device := SND_DEVICE_NONE, in_snd_device := SND_DEVICE_NONE, stream := 1 },
       { id := USECASE_AUDIO_CAPTURE, type := PCM_CAPTURE,
         devices := AUDIO_DEVICE_IN_BUILTIN_MIC, out_snd_device := SND_DEVICE_NONE,
         in_snd_device := SND_DEVICE_NONE, stream := 2 }] }

/-- The output device bit `AUDIO_DEVICE_OUT_AUX_DIGITAL` of `system/audio.h`, a
bit that the in-call rules of the resolvers do not test. -/
def AUDIO_DEVICE_OUT_AUX_DIGITAL : Nat := 0x400

/-- An input stream capturing voice communication from the back microphone. -/
def back_mic_stream : audio_stream :=
  { voice_comm_stream with devices := AUDIO_DEVICE_IN_BACK_MIC }

/-- A state in the given mode whose only usecase is a capture usecase on the
given input stream: that stream is the active input. -/
def capture_device (mode : Int) (inp : audio_stream) : audio_device :=
  { initial_device with
    mode := mode
    streams := fun _ => inp
    usecase_list :=
      [{ id := USECASE_AUDIO_CAPTURE, type := PCM_CAPTURE, devices := inp.devices,
         out_snd_device := SND_DEVICE_NONE, in_snd_device := SND_DEVICE_NONE, stream := 2 }] }

/-- One call to the activation engine. -/
inductive EngineCall where
  | enable (snd_device : Int)
  | disable (snd_device : Int)

/-- State after one call to the activation engine, its result discarded. -/
def run_engine_call (adev : audio_device) : EngineCall → audio_device
  | EngineCall.enable snd_device => (enable_snd_device adev snd_device).2
  | EngineCall.disable snd_device => (disable_snd_device adev snd_device).2

/-- State after a sequence of calls to the activation engine. -/
def run_engine_calls (adev : audio_device) (calls : List EngineCall) : audio_device :=
  calls.foldl run_engine_call adev

/-- Effect of one event on whether the path `name` is applied on the mixer. -/
def path_step (name : String) (applied : Bool) : Event → Bool
  | Event.audio_route_apply_and_update_path n => if n = name then true else applied
  | Event.audio_route_reset_and_update_path n => if n = name then false else applied
  | _ => applied

/-- Whether the path `name` is applied on the mixer after a trace: its last
path applier call, if any, was `audio_route_apply_and_update_path`. -/
def path_applied (name : String) (trace : List Event) : Bool :=
  trace.foldl (path_step name) false

/-- Whether the path of a route is applied on the mixer after a trace; a route
without a catalog name has no path. -/
def route_applied (trace : List Event) (snd_device : Int) : Bool :=
  match get_snd_device_name snd_device with
  | none => false
  | some name => path_applied name trace

/-- The route that carries a catalog name, searched among the indices of
`device_table`. -/
def route_of_name (name : String) : Option Int :=
  ((List.range 28).map Int.ofNat).find? (fun d => get_snd_device_name d == some name)

/-- The invariant of the activation engine: no reference count is negative
and the path of a route is applied exactly when its count is positive. -/
def engine_inv (adev : audio_device) : Prop :=
  ∀ d, 0 ≤ adev.snd_dev_ref_cnt d ∧
    (route_applied adev.trace d = true ↔ 0 < adev.snd_dev_ref_cnt d)

/-- The routes whose reference counts a route is made of: speaker and
headphones for the combo route, the route itself otherwise. -/
def simple_routes (snd_device : Int) : List Int :=
  if snd_device = SND_DEVICE_OUT_SPEAKER_AND_HEADPHONES then
    [SND_DEVICE_OUT_SPEAKER, SND_DEVICE_OUT_HEADPHONES]
  else [snd_device]

/-- No reference count is negative. -/
def counts_nonneg (adev : audio_device) : Prop :=
  ∀ d, 0 ≤ adev.snd_dev_ref_cnt d

/-- A state in which the last route was shut down at 5 s and the clock reads
5.5 s, that is 500 ms later. -/
def debounce_outside_device : audio_device :=
  { initial_device with
    mixer_shutdown_time := { tv_sec := 5, tv_nsec := 0 }
    clock := fun _ => { tv_sec := 5, tv_nsec := 500000000 } }

/-- Events of a deactivation: an entry into `disable_snd_device` or a path
applier call that resets a path. -/
def is_disable_event : Event → Bool
  | Event.disable_snd_device _ => true
  | Event.audio_route_reset_and_update_path _ => true
  | _ => false

/-- Events of an activation: an entry into `enable_snd_device`, the debounce
sleep or a path applier call that applies a path. -/
def is_enable_event : Event → Bool
  | Event.enable_snd_device _ => true
  | Event.usleep _ => true
  | Event.audio_route_apply_and_update_path _ => true
  | _ => false

/-- Calls to the telephony collaborator. -/
def is_ril_event : Event → Bool
  | Event.ril_set_two_mic_control _ => true
  | Event.ril_set_call_audio_path _ => true
  | Event.ril_set_call_volume _ => true
  | Event.ril_set_call_clock_sync_start => true
  | _ => false

/-- A state in normal mode in which the playback usecase has the speaker route
applied (reference count 1) and its output stream (at address 1) has been
moved to the wired headset. -/
def playback_rerouted_device : audio_device :=
  { initial_device with
    streams := fun _ => headset_stream
    snd_dev_ref_cnt := fun d => if d = SND_DEVICE_OUT_SPEAKER then 1 else 0
    trace := [Event.enable_snd_device SND_DEVICE_OUT_SPEAKER,
      Event.audio_route_apply_and_update_path "speaker"]
    usecase_list :=
      [{ id := USECASE_AUDIO_PLAYBACK, type := PCM_PLAYBACK, devices := AUDIO_DEVICE_OUT_SPEAKER,
         out_snd_device := SND_DEVICE_OUT_SPEAKER, in_snd_device := SND_DEVICE_NONE,
         stream := 1 }] }

/-! ## Operations on streams and on the voice call

The operations that create and remove usecases. Allocation failure (`calloc`
returning a null pointer) is not modelled. The write `adev->in_call = true` at
the end of `start_voice_call` names a field that `struct audio_device` of
`audio_hw.h` does not have; it is read as the write of `adev->voice.in_call`,
the flag that `select_devices` and `stop_voice_call` test. -/

/-- The value of `-EIO`. -/
def EIO_neg : Int := -5

/-- The call `list_remove(&uc_info->adev_list_node)` on the usecase found by
`get_usecase_from_id`: the first usecase of the list with this id is
removed. -/
def remove_usecase (uc_id : Int) : List audio_usecase → List audio_usecase
  | [] => []
  | usecase :: rest =>
    if usecase.id = uc_id then rest else usecase :: remove_usecase uc_id rest

/-- The call `list_add_tail(&adev->usecase_list, &uc_info->adev_list_node)`. -/
def add_usecase (adev : audio_device) (uc_info : audio_usecase) : audio_device :=
  { adev with usecase_list := adev.usecase_list ++ [uc_info] }

/-- The function `set_voice_volume_l` applied to the cached voice volume; the
volume itself is not part of the state of the embedding. -/
def set_voice_volume_l (adev : audio_device) : audio_device :=
  if adev.mode = AUDIO_MODE_IN_CALL then
    let sound_type : SoundType :=
      if adev.out_device = AUDIO_DEVICE_OUT_EARPIECE then SoundType.SOUND_TYPE_VOICE
      else if adev.out_device = AUDIO_DEVICE_OUT_SPEAKER then SoundType.SOUND_TYPE_SPEAKER
      else if adev.out_device = AUDIO_DEVICE_OUT_WIRED_HEADSET ∨
          adev.out_device = AUDIO_DEVICE_OUT_WIRED_HEADPHONE then SoundType.SOUND_TYPE_HEADSET
      else if adev.out_device = AUDIO_DEVICE_OUT_BLUETOOTH_SCO ∨
          adev.out_device = AUDIO_DEVICE_OUT_BLUETOOTH_SCO_HEADSET ∨
          adev.out_device = AUDIO_DEVICE_OUT_BLUETOOTH_SCO_CARKIT ∨
          adev.out_device = AUDIO_DEVICE_OUT_ALL_SCO then SoundType.SOUND_TYPE_BTVOICE
      else SoundType.SOUND_TYPE_VOICE
    emit adev (Event.ril_set_call_volume sound_type)
  else adev

/-- The function `enable_output_path_l` for the output stream at address
`out`. The result of `select_devices` is discarded, as in the source. -/
def enable_output_path_l (USECASE_AUDIO_CAPTURE_HOTWORD : Int) (fuel : Nat)
    (adev : audio_device) (out : Nat) : Outcome :=
  let uc_info : audio_usecase :=
    { id := (adev.streams out).usecase, type := PCM_PLAYBACK, stream := out,
      devices := (adev.streams out).devices, in_snd_device := SND_DEVICE_NONE,
      out_snd_device := SND_DEVICE_NONE }
  let adev := add_usecase adev uc_info
  match select_devices USECASE_AUDIO_CAPTURE_HOTWORD fuel adev (adev.streams out).usecase with
  | Outcome.done _ adev => Outcome.done 0 adev
  | Outcome.null_deref => Outcome.null_deref
  | Outcome.no_fuel => Outcome.no_fuel

/-- The function `disable_output_path_l` for the output stream at address
`out`. The result of `disable_snd_device` is discarded, as in the source. -/
def disable_output_path_l (adev : audio_device) (out : Nat) : Int × audio_device :=
  match get_usecase_from_id adev (adev.streams out).usecase with
  | none => (EINVAL_neg, adev)
  | some uc_info =>
    let adev := (disable_snd_device adev uc_info.out_snd_device).2
    (0, { adev with usecase_list := remove_usecase (adev.streams out).usecase adev.usecase_list })

/-- The function `stop_input_stream` for the input stream at address `inp`.
The argument `pcm_dev_list_empty` is the answer of `list_empty` on the list of
PCM devices of the stream, which is not part of the state of the embedding. -/
def stop_input_stream (adev : audio_device) (inp : Nat) (pcm_dev_list_empty : Bool) :
    Int × audio_device :=
  match get_usecase_from_id adev (adev.streams inp).usecase with
  | none => (EINVAL_neg, adev)
  | some uc_info =>
    let adev := (disable_snd_device adev uc_info.in_snd_device).2
    let adev :=
      { adev with usecase_list := remove_usecase (adev.streams inp).usecase adev.usecase_list }
    if pcm_dev_list_empty then (EINVAL_neg, adev) else (0, adev)

/-- The function `start_input_stream` for the input stream at address `inp`.
The arguments are the answers of the PCM layer: whether `get_pcm_device` finds
a profile, the result of `create_resampler` (0 when no resampler is created),
and whether the device opened by `pcm_open` is ready. -/
def start_input_stream (USECASE_AUDIO_CAPTURE_HOTWORD : Int) (fuel : Nat)
    (adev : audio_device) (inp : Nat) (pcm_profile_found : Bool) (resampler_ret : Int)
    (pcm_ready : Bool) : Outcome :=
  if ¬ pcm_profile_found then Outcome.done EINVAL_neg adev
  else
    let uc_info : audio_usecase :=
      { id := (adev.streams inp).usecase, type := PCM_CAPTURE, stream := inp,
        devices := (adev.streams inp).devices, in_snd_device := SND_DEVICE_NONE,
        out_snd_device := SND_DEVICE_NONE }
    let adev := add_usecase adev uc_info
    match select_devices USECASE_AUDIO_CAPTURE_HOTWORD fuel adev (adev.streams inp).usecase with
    | Outcome.done _ adev =>
      if ¬ pcm_ready then Outcome.done EIO_neg (stop_input_stream adev inp false).2
      else Outcome.done resampler_ret adev
    | Outcome.null_deref => Outcome.null_deref
    | Outcome.no_fuel => Outcome.no_fuel

/-- The function `stop_voice_call`. The first component is the value returned;
it is `none` for the statement `return;`, which returns no value. -/
def stop_voice_call (adev : audio_device) : Option Int × audio_device :=
  if ¬ adev.voice_in_call then (none, adev)
  else
    let adev := { adev with voice_in_call := false }
    if adev.mode ≠ AUDIO_MODE_IN_CALL then
      match get_usecase_from_id adev USECASE_VOICE_CALL with
      | none => (some EINVAL_neg, adev)
      | some uc_info =>
        let adev := (disable_snd_device adev uc_info.out_snd_device).2
        let adev := (disable_snd_device adev uc_info.in_snd_device).2
        (some 0,
          { adev with usecase_list := remove_usecase USECASE_VOICE_CALL adev.usecase_list })
    else (some 0, adev)

/-- The function `start_voice_call`. The result `null_deref` stands for the
dereference of a null `adev->primary_output`. -/
def start_voice_call (USECASE_AUDIO_CAPTURE_HOTWORD : Int) (fuel : Nat)
    (adev : audio_device) : Outcome :=
  match adev.primary_output with
  | none => Outcome.null_deref
  | some primary_output =>
    let uc_info : audio_usecase :=
      { id := USECASE_VOICE_CALL, type := VOICE_CALL, stream := primary_output,
        devices := (adev.streams primary_output).devices, in_snd_device := SND_DEVICE_NONE,
        out_snd_device := SND_DEVICE_NONE }
    let adev := add_usecase adev uc_info
    match select_devices USECASE_AUDIO_CAPTURE_HOTWORD fuel adev USECASE_VOICE_CALL with
    | Outcome.done _ adev =>
      let adev := set_voice_volume_l adev
      Outcome.done 0 { adev with voice_in_call := true }
    | Outcome.null_deref => Outcome.null_deref
    | Outcome.no_fuel => Outcome.no_fuel

/-- The state of a call on the speaker after the mode has gone back to
normal. -/
def call_ended_device : audio_device :=
  { call_speaker_device with mode := AUDIO_MODE_NORMAL }

/-- Whether a usecase that stores the route `r` holds the simple route `d`:
`r` is `d` itself or the combo route that contains `d`. -/
def route_holds (r d : Int) : Bool :=
  r = d ∨ (r = SND_DEVICE_OUT_SPEAKER_AND_HEADPHONES ∧
    (d = SND_DEVICE_OUT_SPEAKER ∨ d = SND_DEVICE_OUT_HEADPHONES))

/-- The number of holds, 0 or 1, that a stored route `r` has on the route
`d`. -/
def route_weight (r d : Int) : Int := if route_holds r d then 1 else 0

/-- The number of (usecase, direction) pairs of the registry whose stored
route holds the route `d`. -/
def holders (l : List audio_usecase) (d : Int) : Int :=
  (l.map (fun u => route_weight u.out_snd_device d + route_weight u.in_snd_device d)).sum

/-- A route of the catalog that is not the combo route. -/
def named_simple (d : Int) : Prop :=
  (get_snd_device_name d).isSome = true ∧ d ≠ SND_DEVICE_OUT_SPEAKER_AND_HEADPHONES

/-- A state in which a call can start: mode in-call, in-call flag clear, the
primary output stream (at address 1) routed to the speaker, and a playback
usecase on it with the applied route speaker (reference count 1). -/
def call_ready_device : audio_device :=
  { initial_device with
    mode := AUDIO_MODE_IN_CALL
    primary_output := some 1
    out_device := AUDIO_DEVICE_OUT_SPEAKER
    snd_dev_ref_cnt := fun d => if d = SND_DEVICE_OUT_SPEAKER then 1 else 0
    usecase_list :=
      [{ id := USECASE_AUDIO_PLAYBACK, type := PCM_PLAYBACK, devices := AUDIO_DEVICE_OUT_SPEAKER,
         out_snd_device := SND_DEVICE_OUT_SPEAKER, in_snd_device := SND_DEVICE_NONE,
         stream := 1 }] }

/-! ## Reachable states of the registry and of the reference counts -/

/-- Ids listed under `Playback usecases` in `audio_hw.h`. -/
def is_playback_id (uc_id : Int) : Prop :=
  uc_id = USECASE_AUDIO_PLAYBACK ∨ uc_id = USECASE_AUDIO_PLAYBACK_MULTI_CH

/-- Ids listed under `Capture usecases` in `audio_hw.h`. -/
def is_capture_id (uc_id : Int) : Prop :=
  uc_id = USECASE_AUDIO_CAPTURE ∨ uc_id = USECASE_AUDIO_CAPTURE_LOW_LATENCY

/-- The operations on the registry: one call of one of the functions that
create, update or destroy a usecase, with the answers of the PCM layer where
the function asks for them. -/
inductive HalOp where
  | enable_output_path_l (out : Nat)
  | disable_output_path_l (out : Nat)
  | start_input_stream (inp : Nat) (pcm_profile_found : Bool) (resampler_ret : Int)
      (pcm_ready : Bool)
  | stop_input_stream (inp : Nat) (pcm_dev_list_empty : Bool)
  | start_voice_call
  | stop_voice_call
  | select_devices (uc_id : Int)

/-- The state in which an operation ends, when it returns. -/
def run_op (USECASE_AUDIO_CAPTURE_HOTWORD : Int) (fuel : Nat) (adev : audio_device) :
    HalOp → Option audio_device
  | HalOp.enable_output_path_l out =>
    (enable_output_path_l USECASE_AUDIO_CAPTURE_HOTWORD fuel adev out).final
  | HalOp.disable_output_path_l out => some (disable_output_path_l adev out).2
  | HalOp.start_input_stream inp pcm_profile_found resampler_ret pcm_ready =>
    (start_input_stream USECASE_AUDIO_CAPTURE_HOTWORD fuel adev inp pcm_profile_found
      resampler_ret pcm_ready).final
  | HalOp.stop_input_stream inp pcm_dev_list_empty =>
    some (stop_input_stream adev inp pcm_dev_list_empty).2
  | HalOp.start_voice_call => (start_voice_call USECASE_AUDIO_CAPTURE_HOTWORD fuel adev).final
  | HalOp.stop_voice_call => some (stop_voice_call adev).2
  | HalOp.select_devices uc_id =>
    (select_devices USECASE_AUDIO_CAPTURE_HOTWORD fuel adev uc_id).final

/-- The streams on which the stream operations are run, given the set
`playback_ids` of the usecase ids of output streams and the set `capture_ids`
of the usecase ids of input streams: the `usecase` field of the stream is in
the set of its direction. The source has no assignment to these fields. -/
def op_admissible (playback_ids capture_ids : Int → Prop) (adev : audio_device) :
    HalOp → Prop
  | HalOp.enable_output_path_l out => playback_ids (adev.streams out).usecase
  | HalOp.disable_output_path_l out => playback_ids (adev.streams out).usecase
  | HalOp.start_input_stream inp _ _ _ => capture_ids (adev.streams inp).usecase
  | HalOp.stop_input_stream inp _ => capture_ids (adev.streams inp).usecase
  | HalOp.start_voice_call => True
  | HalOp.stop_voice_call => True
  | HalOp.select_devices _ => True

/-- The states reachable from an initial state (empty registry, all reference
counts zero) by the operations, run on streams whose usecase id is in the set
of their direction, and by the rest of the program, which writes neither the
registry nor the reference counts. -/
inductive Reachable (USECASE_AUDIO_CAPTURE_HOTWORD : Int)
    (playback_ids capture_ids : Int → Prop) : audio_device → Prop
  | initial (adev : audio_device) :
    adev.usecase_list = [] → (∀ d, adev.snd_dev_ref_cnt d = 0) →
    Reachable USECASE_AUDIO_CAPTURE_HOTWORD playback_ids capture_ids adev
  | step (adev : audio_device) (op : HalOp) (fuel : Nat) (s : audio_device) :
    Reachable USECASE_AUDIO_CAPTURE_HOTWORD playback_ids capture_ids adev →
    op_admissible playback_ids capture_ids adev op →
    run_op USECASE_AUDIO_CAPTURE_HOTWORD fuel adev op = some s →
    Reachable USECASE_AUDIO_CAPTURE_HOTWORD playback_ids capture_ids s
  | environment (adev s : audio_device) :
    Reachable USECASE_AUDIO_CAPTURE_HOTWORD playback_ids capture_ids adev →
    s.usecase_list = adev.usecase_list → s.snd_dev_ref_cnt = adev.snd_dev_ref_cnt →
    Reachable USECASE_AUDIO_CAPTURE_HOTWORD playback_ids capture_ids s

/-- Every reference count of a named simple route equals the number of its
holders in the registry. -/
def counts_match (adev : audio_device) : Prop :=
  ∀ d, named_simple d → adev.snd_dev_ref_cnt d = holders adev.usecase_list d

/-- A playback usecase stores no input route and a capture usecase no output
route. -/
def records_directed (l : List audio_usecase) : Prop :=
  ∀ u ∈ l, (u.type = PCM_PLAYBACK → u.in_snd_device = SND_DEVICE_NONE) ∧
    (u.type = PCM_CAPTURE → u.out_snd_device = SND_DEVICE_NONE)

/-- A usecase with the id of an output stream is a playback usecase and one
with the id of an input stream a capture usecase. -/
def ids_typed (playback_ids capture_ids : Int → Prop) (l : List audio_usecase) : Prop :=
  ∀ u ∈ l, (playback_ids u.id → u.type = PCM_PLAYBACK) ∧
    (capture_ids u.id → u.type = PCM_CAPTURE)

/-- The invariant of the registry and of the reference counts. -/
def registry_inv (playback_ids capture_ids : Int → Prop) (adev : audio_device) : Prop :=
  counts_match adev ∧ records_directed adev.usecase_list ∧
    ids_typed playback_ids capture_ids adev.usecase_list

/-- The initial state after `enable_output_path_l` on the output stream at
address 1, routed to the speaker. -/
def playback_started_device : audio_device :=
  (run_op example_hotword 1 initial_device (HalOp.enable_output_path_l 1)).getD initial_device

/-- The state after the mode has then become in-call with the stream at
address 1 as primary output, and `start_voice_call` has run. -/
def call_started_device : audio_device :=
  (run_op example_hotword 1
    { playback_started_device with mode := AUDIO_MODE_IN_CALL, primary_output := some 1 }
    HalOp.start_voice_call).getD initial_device

/-! ## Mutexes

The locking code of `audio_hw.c` reads `adev->outputs[type]` and
`OUTPUT_TOTAL`, which are declared in a block disabled by `#if 0` only. Here
`OUTPUT_TOTAL` is a parameter, `outputs type` tells whether `adev->outputs[type]`
is not null, and an output stream is named by its index in `adev->outputs`.
An input stream is named by its address. The lock operations of each function
are listed in program order. -/

/-- The mutexes: `adev->lock_outputs`, `out->pre_lock`, `out->lock`,
`in->pre_lock`, `in->lock` and `adev->lock`. -/
inductive Lock where
  | lock_outputs
  | out_pre_lock (type : Nat)
  | out_lock (type : Nat)
  | in_pre_lock (inp : Nat)
  | in_lock (inp : Nat)
  | lock
  deriving DecidableEq, Repr

/-- A call of `pthread_mutex_lock` or of `pthread_mutex_unlock`. -/
inductive LockEvent where
  | pthread_mutex_lock (m : Lock)
  | pthread_mutex_unlock (m : Lock)
  deriving DecidableEq, Repr

/-- Modelled from the spec: the lock operations made by the functions that are
called while the device lock is held. Those that `audio_hw.c` defines
(`do_out_standby`, `do_out_standby_l`, `stop_output_stream`,
`start_output_stream`, `do_in_standby`, `start_input_stream`, `select_devices`,
`stop_call`, `start_call`, `voice_set_volume`) contain none. Those that it calls
without defining them (`force_non_hdmi_out_standby`, `start_bt_sco`,
`stop_bt_sco`, `route_changed`, `read_hdmi_channel_masks`,
`stop_compressed_output_l`) are given none: the routing code runs with the
device lock held and a stream lock is taken before the device lock. -/
def callee_locks : List LockEvent := []

/-- The function `lock_input_stream`. -/
def lock_input_stream (inp : Nat) : List LockEvent :=
  [LockEvent.pthread_mutex_lock (Lock.in_pre_lock inp),
   LockEvent.pthread_mutex_lock (Lock.in_lock inp),
   LockEvent.pthread_mutex_unlock (Lock.in_pre_lock inp)]

/-- The function `unlock_input_stream`. -/
def unlock_input_stream (inp : Nat) : List LockEvent :=
  [LockEvent.pthread_mutex_unlock (Lock.in_lock inp)]

/-- The function `lock_output_stream`. -/
def lock_output_stream (out : Nat) : List LockEvent :=
  [LockEvent.pthread_mutex_lock (Lock.out_pre_lock out),
   LockEvent.pthread_mutex_lock (Lock.out_lock out),
   LockEvent.pthread_mutex_unlock (Lock.out_pre_lock out)]

/-- The function `unlock_output_stream`. -/
def unlock_output_stream (out : Nat) : List LockEvent :=
  [LockEvent.pthread_mutex_unlock (Lock.out_lock out)]

/-- The loop `for (type = 0; type < OUTPUT_TOTAL; ++type)` of
`lock_all_outputs`, with `n` rounds left from index `type` on. -/
def lock_all_outputs_loop (outputs : Nat → Bool) : Nat → Nat → List LockEvent
  | 0, _ => []
  | n + 1, type =>
    (if outputs type then lock_output_stream type else []) ++
      lock_all_outputs_loop outputs n (type + 1)

/-- The function `lock_all_outputs`. -/
def lock_all_outputs (OUTPUT_TOTAL : Nat) (outputs : Nat → Bool) : List LockEvent :=
  [LockEvent.pthread_mutex_lock Lock.lock_outputs] ++
    lock_all_outputs_loop outputs OUTPUT_TOTAL 0 ++
    [LockEvent.pthread_mutex_lock Lock.lock]

/-- The loop `do ... while (type != 0)` of `unlock_all_outputs`, entered with
`type` at least 1: the rounds for the indices `type - 1` down to 0. -/
def unlock_all_outputs_loop (outputs : Nat → Bool) (except : Option Nat) :
    Nat → List LockEvent
  | 0 => []
  | type + 1 =>
    (if outputs type ∧ some type ≠ except then unlock_output_stream type else []) ++
      unlock_all_outputs_loop outputs except type

/-- The function `unlock_all_outputs`; `except` is `none` for a null pointer. -/
def unlock_all_outputs (OUTPUT_TOTAL : Nat) (outputs : Nat → Bool) (except : Option Nat) :
    List LockEvent :=
  [LockEvent.pthread_mutex_unlock Lock.lock] ++
    unlock_all_outputs_loop outputs except OUTPUT_TOTAL ++
    [LockEvent.pthread_mutex_unlock Lock.lock_outputs]

/-- The function `out_standby` defined at line 1813 of `audio_hw.c`. -/
def out_standby_1813 (out : Nat) (standby : Bool) : List LockEvent :=
  lock_output_stream out ++
    (if ¬ standby then
      ([LockEvent.pthread_mutex_lock Lock.lock] ++ callee_locks ++
      [LockEvent.pthread_mutex_unlock Lock.lock])
    else []) ++
    unlock_output_stream out

/-- The function `out_standby` defined at line 2436 of `audio_hw.c`. -/
def out_standby_2436 (OUTPUT_TOTAL : Nat) (outputs : Nat → Bool) : List LockEvent :=
  lock_all_outputs OUTPUT_TOTAL outputs ++ callee_locks ++
      unlock_all_outputs OUTPUT_TOTAL outputs none

/-- The function `out_set_parameters`; `routing` tells whether the routing key
is present (`ret >= 0`). -/
def out_set_parameters (OUTPUT_TOTAL : Nat) (outputs : Nat → Bool) (routing : Bool) :
    List LockEvent :=
  if routing then
    lock_all_outputs OUTPUT_TOTAL outputs ++ callee_locks ++
      unlock_all_outputs OUTPUT_TOTAL outputs none
  else []

/-- The function `out_write`. The arguments are the value of `out->standby`
at the first test, its value at the second test, and whether
`start_output_stream` fails. -/
def out_write (OUTPUT_TOTAL : Nat) (outputs : Nat → Bool) (out : Nat)
    (standby standby_again start_failed : Bool) : List LockEvent :=
  lock_output_stream out ++
    (if standby then
      unlock_output_stream out ++ lock_all_outputs OUTPUT_TOTAL outputs ++
        (if ¬ standby_again then
          unlock_all_outputs OUTPUT_TOTAL outputs (some out) ++ unlock_output_stream out
        else if start_failed then
          callee_locks ++ unlock_all_outputs OUTPUT_TOTAL outputs none
        else
          callee_locks ++ unlock_all_outputs OUTPUT_TOTAL outputs (some out) ++
            unlock_output_stream out)
    else unlock_output_stream out)

/-- The function `out_get_presentation_position`. -/
def out_get_presentation_position (out : Nat) : List LockEvent :=
  lock_output_stream out ++ unlock_output_stream out

/-- The function `in_standby`. -/
def in_standby (inp : Nat) : List LockEvent :=
  lock_input_stream inp ++
    ([LockEvent.pthread_mutex_lock Lock.lock] ++ callee_locks ++
      [LockEvent.pthread_mutex_unlock Lock.lock]) ++
    unlock_input_stream inp

/-- The function `in_set_parameters`. -/
def in_set_parameters (inp : Nat) : List LockEvent :=
  lock_input_stream inp ++
    ([LockEvent.pthread_mutex_lock Lock.lock] ++ callee_locks ++
      [LockEvent.pthread_mutex_unlock Lock.lock]) ++
    unlock_input_stream inp

/-- The function `in_read`. -/
def in_read (inp : Nat) (standby : Bool) : List LockEvent :=
  lock_input_stream inp ++
    (if standby then
      ([LockEvent.pthread_mutex_lock Lock.lock] ++ callee_locks ++
      [LockEvent.pthread_mutex_unlock Lock.lock])
    else []) ++
    unlock_input_stream inp

/-- The function `in_get_capture_position`; `null_argument` tells whether one
of its pointer arguments is null. -/
def in_get_capture_position (inp : Nat) (null_argument : Bool) : List LockEvent :=
  if null_argument then [] else lock_input_stream inp ++ unlock_input_stream inp

/-- The function `adev_open_output_stream`. The arguments tell whether the
stream is a direct stream on the HDMI output (`read_hdmi_channel_masks` is then
called) and whether the function gets as far as the outputs list. -/
def adev_open_output_stream (direct_hdmi reaches_outputs : Bool) : List LockEvent :=
  (if direct_hdmi then
    ([LockEvent.pthread_mutex_lock Lock.lock] ++ callee_locks ++
      [LockEvent.pthread_mutex_unlock Lock.lock])
  else []) ++
  (if reaches_outputs then
    [LockEvent.pthread_mutex_lock Lock.lock_outputs,
     LockEvent.pthread_mutex_unlock Lock.lock_outputs]
  else [])

/-- The function `adev_close_output_stream`; the first argument is the lock
operations of its call of `out_standby`. -/
def adev_close_output_stream (out_standby : List LockEvent) : List LockEvent :=
  out_standby ++
    [LockEvent.pthread_mutex_lock Lock.lock_outputs,
     LockEvent.pthread_mutex_unlock Lock.lock_outputs]

/-- The function `adev_close_input_stream`. -/
def adev_close_input_stream (inp : Nat) : List LockEvent := in_standby inp

/-- The function `adev_set_wb_amr_callback`. -/
def adev_set_wb_amr_callback : List LockEvent :=
  ([LockEvent.pthread_mutex_lock Lock.lock] ++ callee_locks ++
      [LockEvent.pthread_mutex_unlock Lock.lock])

/-- The function `adev_set_voice_volume`. -/
def adev_set_voice_volume : List LockEvent :=
  ([LockEvent.pthread_mutex_lock Lock.lock] ++ callee_locks ++
      [LockEvent.pthread_mutex_unlock Lock.lock])

/-- The function `adev_set_mode`; `same_mode` tells whether the mode is the
current one. -/
def adev_set_mode (same_mode : Bool) : List LockEvent :=
  if same_mode then []
  else ([LockEvent.pthread_mutex_lock Lock.lock] ++ callee_locks ++
      [LockEvent.pthread_mutex_unlock Lock.lock])

/-- The function `adev_set_mic_mute`. -/
def adev_set_mic_mute : List LockEvent :=
  ([LockEvent.pthread_mutex_lock Lock.lock] ++ callee_locks ++
      [LockEvent.pthread_mutex_unlock Lock.lock])

/-- One call of one of the functions of `audio_hw.c` that are entered with no
mutex held and lock one. -/
inductive LockOp where
  | out_standby_1813 (out : Nat) (standby : Bool)
  | out_standby_2436
  | out_set_parameters (routing : Bool)
  | out_write (out : Nat) (standby standby_again start_failed : Bool)
  | out_get_presentation_position (out : Nat)
  | in_standby (inp : Nat)
  | in_set_parameters (inp : Nat)
  | in_read (inp : Nat) (standby : Bool)
  | in_get_capture_position (inp : Nat) (null_argument : Bool)
  | adev_open_output_stream (direct_hdmi reaches_outputs : Bool)
  | adev_close_output_stream_1813 (out : Nat) (standby : Bool)
  | adev_close_output_stream_2436
  | adev_close_input_stream (inp : Nat)
  | adev_set_wb_amr_callback
  | adev_set_voice_volume
  | adev_set_mode (same_mode : Bool)
  | adev_set_mic_mute

/-- The lock operations of a call, in program order. -/
def op_locks (OUTPUT_TOTAL : Nat) (outputs : Nat → Bool) : LockOp → List LockEvent
  | LockOp.out_standby_1813 out standby => out_standby_1813 out standby
  | LockOp.out_standby_2436 => out_standby_2436 OUTPUT_TOTAL outputs
  | LockOp.out_set_parameters routing => out_set_parameters OUTPUT_TOTAL outputs routing
  | LockOp.out_write out standby standby_again start_failed =>
    out_write OUTPUT_TOTAL outputs out standby standby_again start_failed
  | LockOp.out_get_presentation_position out => out_get_presentation_position out
  | LockOp.in_standby inp => in_standby inp
  | LockOp.in_set_parameters inp => in_set_parameters inp
  | LockOp.in_read inp standby => in_read inp standby
  | LockOp.in_get_capture_position inp null_argument =>
    in_get_capture_position inp null_argument
  | LockOp.adev_open_output_stream direct_hdmi reaches_outputs =>
    adev_open_output_stream direct_hdmi reaches_outputs
  | LockOp.adev_close_output_stream_1813 out standby =>
    adev_close_output_stream (out_standby_1813 out standby)
  | LockOp.adev_close_output_stream_2436 =>
    adev_close_output_stream (out_standby_2436 OUTPUT_TOTAL outputs)
  | LockOp.adev_close_input_stream inp => adev_close_input_stream inp
  | LockOp.adev_set_wb_amr_callback => adev_set_wb_amr_callback
  | LockOp.adev_set_voice_volume => adev_set_voice_volume
  | LockOp.adev_set_mode same_mode => adev_set_mode same_mode
  | LockOp.adev_set_mic_mute => adev_set_mic_mute

/-- The order of acquisition: the outputs list lock, then the locks of the
output streams by index (the pre-lock of a stream before its lock), then the
device lock; the pre-lock of an input stream, then its lock, then the device
lock. -/
def lock_before : Lock → Lock → Bool
  | Lock.lock_outputs, Lock.out_pre_lock _ => true
  | Lock.lock_outputs, Lock.out_lock _ => true
  | Lock.lock_outputs, Lock.lock => true
  | Lock.out_pre_lock s, Lock.out_pre_lock t => decide (s < t)
  | Lock.out_pre_lock s, Lock.out_lock t => decide (s ≤ t)
  | Lock.out_lock s, Lock.out_pre_lock t => decide (s < t)
  | Lock.out_lock s, Lock.out_lock t => decide (s < t)
  | Lock.out_pre_lock _, Lock.lock => true
  | Lock.out_lock _, Lock.lock => true
  | Lock.in_pre_lock i, Lock.in_lock j => decide (i = j)
  | Lock.in_pre_lock _, Lock.lock => true
  | Lock.in_lock _, Lock.lock => true
  | _, _ => false

/-- The mutexes held after a sequence of lock operations, the last locked
first. -/
def held_after : List Lock → List LockEvent → List Lock
  | held, [] => held
  | held, LockEvent.pthread_mutex_lock m :: rest => held_after (m :: held) rest
  | held, LockEvent.pthread_mutex_unlock m :: rest => held_after (held.erase m) rest

/-- The edges of the lock graph that a sequence of lock operations adds: the
pairs `(h, m)` such that `m` is locked while `h` is held. -/
def lock_edges : List Lock → List LockEvent → List (Lock × Lock)
  | _, [] => []
  | held, LockEvent.pthread_mutex_lock m :: rest =>
    held.map (fun h => (h, m)) ++ lock_edges (m :: held) rest
  | held, LockEvent.pthread_mutex_unlock m :: rest => lock_edges (held.erase m) rest

/-- The mutexes that a sequence of lock operations locks, in order. -/
def locked : List LockEvent → List Lock
  | [] => []
  | LockEvent.pthread_mutex_lock m :: rest => m :: locked rest
  | LockEvent.pthread_mutex_unlock _ :: rest => locked rest

/-- The mutexes held inside `lock_all_outputs` when the loop is at index
`type`: the outputs list lock and the locks of open output streams of smaller
index, each once. -/
def held_below (outputs : Nat → Bool) (type : Nat) (held : List Lock) : Prop :=
  held.Nodup ∧ ∀ x, x ∈ held ↔
    x = Lock.lock_outputs ∨ ∃ t, t < type ∧ outputs t = true ∧ x = Lock.out_lock t

/-- The state after `start_input_stream` has then run on the input stream at
address 2, whose `usecase` field holds the same value as that of the output
stream at address 1 (0, the value that `calloc` leaves in both). -/
def capture_same_id_device : audio_device :=
  (run_op example_hotword 1 playback_started_device
    (HalOp.start_input_stream 2 true 0 true)).getD initial_device

/-- The state after `stop_input_stream` has then run on that input stream. -/
def capture_same_id_stopped_device : audio_device :=
  (run_op example_hotword 1 capture_same_id_device
    (HalOp.stop_input_stream 2 false)).getD initial_device

/-- The state that `stop_voice_call` leaves when it runs during the call of
`call_started_device` while the mode is still in-call: the in-call flag is
clear and the voice call usecase is still in the registry. -/
def call_paused_device : audio_device :=
  (stop_voice_call call_started_device).2

/-- The state after `start_voice_call` has then run again. -/
def call_restarted_device : audio_device :=
  ((start_voice_call example_hotword 1 call_paused_device).final).getD initial_device

/-- The state after the mode has then gone back to normal and `stop_voice_call`
has run. -/
def call_restart_ended_device : audio_device :=
  (stop_voice_call { call_restarted_device with mode := AUDIO_MODE_NORMAL }).2

theorem popcount_bits_eq_zero (n : Nat) :
    ∀ x : Nat, x < 2 ^ n → popcount_bits n x = 0 → x = 0 := by
  induction n with
  | zero => intro x hx _; simpa using hx
  | succ n ih =>
    intro x hx h
    simp only [popcount_bits] at h
    have hhalf : x / 2 < 2 ^ n := by
      rw [pow_succ] at hx; omega
    have := ih (x / 2) hhalf (by omega)
    omega

theorem popcount_bits_eq_one (n : Nat) :
    ∀ x : Nat, x < 2 ^ n → popcount_bits n x = 1 → ∃ k, k < n ∧ x = 2 ^ k := by
  induction n with
  | zero => intro x _ h; simp [popcount_bits] at h
  | succ n ih =>
    intro x hx h
    simp only [popcount_bits] at h
    have hhalf : x / 2 < 2 ^ n := by
      rw [pow_succ] at hx; omega
    rcases Nat.mod_two_eq_zero_or_one x with h0 | h1
    · obtain ⟨k, hk, hxk⟩ := ih (x / 2) hhalf (by omega)
      refine ⟨k + 1, by omega, ?_⟩
      rw [pow_succ, ← hxk]; omega
    · have := popcount_bits_eq_zero n (x / 2) hhalf (by omega)
      exact ⟨0, by omega, by simp; omega⟩

/-! ## Closed forms of the activation engine -/

theorem path_calls_append (t1 t2 : List Event) :
    path_calls (t1 ++ t2) = path_calls t1 ++ path_calls t2 := by
  simp [path_calls]

theorem path_calls_nil : path_calls [] = [] := rfl

theorem path_calls_cons (e : Event) (t : List Event) :
    path_calls (e :: t) = if is_path_call e then e :: path_calls t else path_calls t := by
  simp [path_calls, List.filter_cons]

theorem path_calls_debounce_sleep (t0 t1 : timespec) :
    path_calls (debounce_sleep t0 t1) = [] := by
  unfold debounce_sleep
  simp only []
  split_ifs <;> simp [path_calls, is_path_call]

/-- Closed form of `enable_snd_device` on a named route other than the combo. -/
theorem enable_snd_device_simple_eq (adev : audio_device) (d : Int) (name : String)
    (hname : get_snd_device_name d = some name) :
    enable_snd_device_simple adev d =
      (0, if adev.snd_dev_ref_cnt d + 1 > 1 then
            { adev with
              snd_dev_ref_cnt := fun x => if x = d then adev.snd_dev_ref_cnt d + 1
                else adev.snd_dev_ref_cnt x,
              trace := adev.trace ++ [Event.enable_snd_device d] }
          else
            { adev with
              snd_dev_ref_cnt := fun x => if x = d then adev.snd_dev_ref_cnt d + 1
                else adev.snd_dev_ref_cnt x,
              trace := adev.trace ++ ([Event.enable_snd_device d] ++
                debounce_sleep adev.mixer_shutdown_time (adev.clock adev.clock_reads) ++
                [Event.audio_route_apply_and_update_path name]),
              clock_reads := adev.clock_reads + 1 }) := by
  unfold enable_snd_device_simple debounce_sleep
  simp only [hname, emit, set_ref_cnt, clock_gettime, if_true]
  by_cases h : adev.snd_dev_ref_cnt d + 1 > 1
  · simp [h]
  · simp only [h, if_false]
    split_ifs <;> simp_all

/-- Closed form of `disable_snd_device` on a named route other than the
combo. -/
theorem disable_snd_device_simple_eq (adev : audio_device) (d : Int) (name : String)
    (hname : get_snd_device_name d = some name) :
    disable_snd_device_simple adev d =
      if adev.snd_dev_ref_cnt d ≤ 0 then
        (EINVAL_neg, { adev with trace := adev.trace ++ [Event.disable_snd_device d] })
      else if adev.snd_dev_ref_cnt d = 1 then
        (0, { adev with
              snd_dev_ref_cnt := fun x => if x = d then adev.snd_dev_ref_cnt d - 1
                else adev.snd_dev_ref_cnt x,
              trace := adev.trace ++ [Event.disable_snd_device d,
                Event.audio_route_reset_and_update_path name],
              mixer_shutdown_time := adev.clock adev.clock_reads,
              clock_reads := adev.clock_reads + 1 })
      else
        (0, { adev with
              snd_dev_ref_cnt := fun x => if x = d then adev.snd_dev_ref_cnt d - 1
                else adev.snd_dev_ref_cnt x,
              trace := adev.trace ++ [Event.disable_snd_device d] }) := by
  unfold disable_snd_device_simple
  simp only [hname, emit, set_ref_cnt, clock_gettime, if_true]
  by_cases h : adev.snd_dev_ref_cnt d ≤ 0
  · simp [h]
  · by_cases h1 : adev.snd_dev_ref_cnt d = 1
    · simp [h, h1]
    · have h3 : ¬ adev.snd_dev_ref_cnt d - 1 = 0 := by omega
      simp [h, h1, h3]

theorem get_snd_device_name_speaker :
    get_snd_device_name SND_DEVICE_OUT_SPEAKER = some "speaker" := by decide

theorem get_snd_device_name_headphones :
    get_snd_device_name SND_DEVICE_OUT_HEADPHONES = some "headphones" := by decide

theorem get_snd_device_name_combo :
    get_snd_device_name SND_DEVICE_OUT_SPEAKER_AND_HEADPHONES =
      some "speaker-and-headphones" := by decide

theorem enable_snd_device_combo_eq (adev : audio_device) :
    enable_snd_device adev SND_DEVICE_OUT_SPEAKER_AND_HEADPHONES =
      (0, (enable_snd_device_simple
        (enable_snd_device_simple
          (emit adev (Event.enable_snd_device SND_DEVICE_OUT_SPEAKER_AND_HEADPHONES))
          SND_DEVICE_OUT_SPEAKER).2 SND_DEVICE_OUT_HEADPHONES).2) := by
  simp [enable_snd_device, get_snd_device_name_combo]

theorem disable_snd_device_combo_eq (adev : audio_device) :
    disable_snd_device adev SND_DEVICE_OUT_SPEAKER_AND_HEADPHONES =
      (0, (disable_snd_device_simple
        (disable_snd_device_simple
          (emit adev (Event.disable_snd_device SND_DEVICE_OUT_SPEAKER_AND_HEADPHONES))
          SND_DEVICE_OUT_SPEAKER).2 SND_DEVICE_OUT_HEADPHONES).2) := by
  simp [disable_snd_device, get_snd_device_name_combo]

theorem emit_ref_cnt (adev : audio_device) (e : Event) :
    (emit adev e).snd_dev_ref_cnt = adev.snd_dev_ref_cnt := rfl

theorem emit_trace (adev : audio_device) (e : Event) :
    (emit adev e).trace = adev.trace ++ [e] := rfl

theorem enable_snd_device_simple_ref_cnt (adev : audio_device) (d : Int) (name : String)
    (hname : get_snd_device_name d = some name) (x : Int) :
    (enable_snd_device_simple adev d).2.snd_dev_ref_cnt x =
      if x = d then adev.snd_dev_ref_cnt d + 1 else adev.snd_dev_ref_cnt x := by
  rw [enable_snd_device_simple_eq adev d name hname]
  simp only []
  split_ifs <;> simp_all

theorem enable_snd_device_simple_path_calls (adev : audio_device) (d : Int) (name : String)
    (hname : get_snd_device_name d = some name) :
    path_calls (enable_snd_device_simple adev d).2.trace =
      path_calls adev.trace ++
        (if adev.snd_dev_ref_cnt d ≤ 0 then [Event.audio_route_apply_and_update_path name]
         else []) := by
  rw [enable_snd_device_simple_eq adev d name hname]
  simp only []
  by_cases h : adev.snd_dev_ref_cnt d + 1 > 1
  · have h2 : ¬ adev.snd_dev_ref_cnt d ≤ 0 := by omega
    simp [h, h2, path_calls_append, path_calls_cons, path_calls_nil, is_path_call]
  · have h2 : adev.snd_dev_ref_cnt d ≤ 0 := by omega
    simp [h, h2, path_calls_append, path_calls_cons, path_calls_nil, is_path_call,
      path_calls_debounce_sleep]

theorem disable_snd_device_simple_ret (adev : audio_device) (d : Int) (name : String)
    (hname : get_snd_device_name d = some name) :
    (disable_snd_device_simple adev d).1 =
      if adev.snd_dev_ref_cnt d ≤ 0 then EINVAL_neg else 0 := by
  rw [disable_snd_device_simple_eq adev d name hname]
  split_ifs <;> rfl

theorem disable_snd_device_simple_ref_cnt (adev : audio_device) (d : Int) (name : String)
    (hname : get_snd_device_name d = some name) (x : Int) :
    (disable_snd_device_simple adev d).2.snd_dev_ref_cnt x =
      if x = d ∧ 0 < adev.snd_dev_ref_cnt d then adev.snd_dev_ref_cnt d - 1
      else adev.snd_dev_ref_cnt x := by
  rw [disable_snd_device_simple_eq adev d name hname]
  by_cases h : adev.snd_dev_ref_cnt d ≤ 0
  · have h2 : ¬ 0 < adev.snd_dev_ref_cnt d := by omega
    simp [h, h2]
  · have h2 : 0 < adev.snd_dev_ref_cnt d := by omega
    by_cases h1 : adev.snd_dev_ref_cnt d = 1
    · simp [h, h1]
    · simp [h, h1, h2]

theorem disable_snd_device_simple_path_calls (adev : audio_device) (d : Int) (name : String)
    (hname : get_snd_device_name d = some name) :
    path_calls (disable_snd_device_simple adev d).2.trace =
      path_calls adev.trace ++
        (if adev.snd_dev_ref_cnt d = 1 then [Event.audio_route_reset_and_update_path name]
         else []) := by
  rw [disable_snd_device_simple_eq adev d name hname]
  by_cases h : adev.snd_dev_ref_cnt d ≤ 0
  · have h1 : ¬ adev.snd_dev_ref_cnt d = 1 := by omega
    simp [h, h1, path_calls_append, path_calls_cons, path_calls_nil, is_path_call]
  · by_cases h1 : adev.snd_dev_ref_cnt d = 1
    · simp [h, h1, path_calls_append, path_calls_cons, path_calls_nil, is_path_call]
    · simp [h, h1, path_calls_append, path_calls_cons, path_calls_nil, is_path_call]

/-! ## Device selection: context, records and normal form -/

theorem same_context_refl (a : audio_device) : same_context a a := ⟨rfl, rfl⟩

theorem same_context_symm {a b : audio_device} (h : same_context a b) : same_context b a :=
  ⟨h.1.symm, h.2.symm⟩

theorem same_context_trans {a b c : audio_device} (h1 : same_context a b)
    (h2 : same_context b c) : same_context a c :=
  ⟨h1.1.trans h2.1, h1.2.trans h2.2⟩

theorem get_usecase_from_id_skel (adev : audio_device) (uc_id : Int) :
    (get_usecase_from_id adev uc_id).map skel =
      (adev.usecase_list.map skel).find? (fun t => t.1 == uc_id) := by
  rw [List.find?_map]; rfl

theorem get_usecase_from_type_skel (adev : audio_device) (type : Nat) :
    (get_usecase_from_type adev type).map skel =
      (adev.usecase_list.map skel).find? (fun t => t.2.1 &&& type != 0) := by
  rw [List.find?_map]; rfl

theorem same_context_get_id {a b : audio_device} (h : same_context a b) (uc_id : Int) :
    (get_usecase_from_id a uc_id).map skel = (get_usecase_from_id b uc_id).map skel := by
  rw [get_usecase_from_id_skel, get_usecase_from_id_skel, h.2]

theorem same_context_active_input {a b : audio_device} (h : same_context a b) :
    active_input a = active_input b := by
  have hs : a.streams = b.streams := congrArg routing_context.streams h.1
  have h1 : ∀ x : audio_device, active_input x =
      ((get_usecase_from_type x (PCM_CAPTURE ||| VOICE_CALL)).map skel).map
        (fun t => x.streams t.2.2) := by
    intro x
    simp [active_input, skel, Function.comp_def]
  rw [h1 a, h1 b, get_usecase_from_type_skel, get_usecase_from_type_skel, h.2, hs]

theorem get_output_snd_device_ctx {a b : audio_device} (h : ctx a = ctx b) (devices : Nat) :
    get_output_snd_device a devices = get_output_snd_device b devices := by
  have hm : a.mode = b.mode := congrArg routing_context.mode h
  have hw : a.voice_wb_amr = b.voice_wb_amr := congrArg routing_context.voice_wb_amr h
  unfold get_output_snd_device
  rw [hm, hw]

theorem get_input_snd_device_congr {a b : audio_device} (hm : a.mode = b.mode)
    (hai : active_input a = active_input b) (out_device : Nat) :
    get_input_snd_device a out_device = get_input_snd_device b out_device := by
  have ha : ∀ x : audio_device, Option.map (fun usecase => x.streams usecase.stream)
      (get_usecase_from_type x (PCM_CAPTURE ||| VOICE_CALL)) = active_input x := fun _ => rfl
  unfold get_input_snd_device
  simp only [ha, hm, hai]

theorem same_context_get_input {a b : audio_device} (h : same_context a b) (out_device : Nat) :
    get_input_snd_device a out_device = get_input_snd_device b out_device :=
  get_input_snd_device_congr (congrArg routing_context.mode h.1)
    (same_context_active_input h) out_device

theorem same_context_capture_input {a b : audio_device} (h : same_context a b)
    (inp : audio_stream) : capture_input a inp = capture_input b inp := by
  have hp : a.primary_output = b.primary_output := congrArg routing_context.primary_output h.1
  have hs : a.streams = b.streams := congrArg routing_context.streams h.1
  unfold capture_input
  simp only [hp, hs, same_context_get_input h]

theorem update_usecase_skel (f : audio_usecase → audio_usecase) (hf : ∀ u, skel (f u) = skel u)
    (uc_id : Int) (l : List audio_usecase) :
    (update_usecase f uc_id l).map skel = l.map skel := by
  induction l with
  | nil => rfl
  | cons u rest ih =>
    simp only [update_usecase]
    split_ifs
    · simp [hf]
    · simp [ih]

theorem find_update_usecase (f : audio_usecase → audio_usecase) (hf : ∀ u, (f u).id = u.id)
    (uc_id uc_id1 : Int) (l : List audio_usecase) :
    (update_usecase f uc_id l).find? (fun u => u.id == uc_id1) =
      if uc_id1 = uc_id then (l.find? (fun u => u.id == uc_id1)).map f
      else l.find? (fun u => u.id == uc_id1) := by
  induction l with
  | nil => simp [update_usecase]
  | cons u rest ih =>
    simp only [update_usecase]
    by_cases h3 : u.id = uc_id1 <;> by_cases h1 : u.id = uc_id
    · subst h3; subst h1
      simp [List.find?_cons, hf]
    · subst h3
      have h2 : ¬ u.id = uc_id := h1
      simp [List.find?_cons, h1]
    · subst h1
      have h2 : ¬ uc_id1 = u.id := fun h => h3 h.symm
      simp [List.find?_cons, hf, h3, h2]
    · simp only [h1, if_false, List.find?_cons]
      have hb : (u.id == uc_id1) = false := by simpa using h3
      rw [hb]
      exact ih

theorem set_usecase_devices_same_context (adev : audio_device) (uc_id : Int) (devices : Nat) :
    same_context (set_usecase_devices adev uc_id devices) adev :=
  ⟨rfl, update_usecase_skel (fun u => { u with devices := devices }) (fun _ => rfl) _ _⟩

theorem set_usecase_snd_devices_same_context (adev : audio_device) (uc_id : Int) (o i : Int) :
    same_context (set_usecase_snd_devices adev uc_id o i) adev :=
  ⟨rfl, update_usecase_skel (fun u => { u with in_snd_device := i, out_snd_device := o })
    (fun _ => rfl) _ _⟩

theorem write_devices_same_context (adev : audio_device) (uc_id : Int) (devices : Option Nat) :
    same_context (write_devices adev uc_id devices) adev := by
  cases devices with
  | none => exact same_context_refl _
  | some d => exact set_usecase_devices_same_context _ _ _

/-- Closed form of one level of `select_devices`. -/
theorem select_devices_succ (hotword : Int) (fuel : Nat) (adev : audio_device) (uc_id : Int) :
    select_devices hotword (fuel + 1) adev uc_id =
      if uc_id = hotword then Outcome.done 0 adev
      else
        match get_usecase_from_id adev uc_id with
        | none => Outcome.done EINVAL_neg adev
        | some usecase =>
          match resolve adev usecase with
          | none => Outcome.null_deref
          | some (devices, out_snd_device, in_snd_device) =>
            match nest_target adev usecase with
            | none =>
              select_devices_switch (write_devices adev uc_id devices) uc_id
                out_snd_device in_snd_device
            | some nested =>
              match select_devices hotword fuel (write_devices adev uc_id devices) nested with
              | Outcome.done _ adev1 =>
                select_devices_switch adev1 uc_id out_snd_device in_snd_device
              | Outcome.null_deref => Outcome.null_deref
              | Outcome.no_fuel => Outcome.no_fuel := by
  rw [select_devices]
  by_cases hhot : uc_id = hotword
  · simp only [hhot, if_true]
  simp only [hhot, if_false]
  cases hget : get_usecase_from_id adev uc_id with
  | none => rfl
  | some usecase =>
    simp only []
    by_cases hvc : usecase.type = VOICE_CALL
    · have hpb : ¬ (VOICE_CALL = PCM_PLAYBACK) := by decide
      simp only [hvc, if_true, resolve, nest_target, hpb, false_and, if_false, write_devices]
    · simp only [hvc, if_false, resolve, nest_target]
      have hinh : (if adev.voice_in_call = true then
            Option.map (fun vc_usecase => (vc_usecase.out_snd_device, vc_usecase.in_snd_device))
              (get_usecase_from_id adev USECASE_VOICE_CALL)
          else some (SND_DEVICE_NONE, SND_DEVICE_NONE)) = inherited adev := rfl
      rw [hinh]
      cases hi : inherited adev with
      | none => rfl
      | some oi =>
        obtain ⟨o, i⟩ := oi
        have hai : Option.map (fun usecase => adev.streams usecase.stream)
            (get_usecase_from_type adev (PCM_CAPTURE ||| VOICE_CALL)) = active_input adev := rfl
        simp only [hai, Option.map_some', ne_eq, hvc, not_false_eq_true, true_and]
        by_cases hpb : usecase.type = PCM_PLAYBACK
        · have hgo : ∀ d, get_output_snd_device
              (set_usecase_devices adev uc_id (adev.streams usecase.stream).devices) d =
              get_output_snd_device adev d := fun d => rfl
          have hst : (set_usecase_devices adev uc_id (adev.streams usecase.stream).devices).streams
              = adev.streams := rfl
          have hpo : (set_usecase_devices adev uc_id
              (adev.streams usecase.stream).devices).primary_output = adev.primary_output := rfl
          simp only [hpb, if_true, hgo, hst, hpo, true_and, write_devices]
          by_cases ho : o = SND_DEVICE_NONE
          · simp only [ho, if_true, Option.some.injEq, true_and]
            cases hinp : active_input adev with
            | none => simp
            | some inp =>
              simp only []
              by_cases hc : adev.primary_output = some usecase.stream ∧
                  inp.source = AUDIO_SOURCE_VOICE_COMMUNICATION
              · simp [hc.1, hc.2]
              · rw [if_neg hc]
                by_cases hp : adev.primary_output = some usecase.stream
                · have hs : ¬ inp.source = AUDIO_SOURCE_VOICE_COMMUNICATION := fun h => hc ⟨hp, h⟩
                  simp [hp, hs]
                · simp [hp]
          · simp [ho]
        · have hcp : ¬ (PCM_CAPTURE = PCM_PLAYBACK) := by decide
          simp only [hpb, if_false, false_and]
          by_cases hcap : usecase.type = PCM_CAPTURE
          · simp only [hcap, if_true]
            have hci : ∀ inp, (match (set_usecase_devices adev uc_id
                  (adev.streams usecase.stream).devices).primary_output with
                | some primary_output =>
                  if inp.source = AUDIO_SOURCE_VOICE_COMMUNICATION ∧
                      ((set_usecase_devices adev uc_id
                        (adev.streams usecase.stream).devices).streams primary_output).standby
                        = false then
                    get_input_snd_device (set_usecase_devices adev uc_id
                      (adev.streams usecase.stream).devices)
                      ((set_usecase_devices adev uc_id
                        (adev.streams usecase.stream).devices).streams primary_output).devices
                  else get_input_snd_device (set_usecase_devices adev uc_id
                      (adev.streams usecase.stream).devices) AUDIO_DEVICE_NONE
                | none => get_input_snd_device (set_usecase_devices adev uc_id
                      (adev.streams usecase.stream).devices) AUDIO_DEVICE_NONE) =
                capture_input adev inp := by
              intro inp
              exact same_context_capture_input (set_usecase_devices_same_context _ _ _) inp
            by_cases hin : i = SND_DEVICE_NONE
            · simp only [hin, if_true]
              cases hinp : active_input adev with
              | none => rfl
              | some inp => simp only [hci, write_devices]
            · simp only [hin, if_false, write_devices]
          · simp only [hcap, if_false, write_devices]

theorem frame_emit (adev : audio_device) (e : Event) : frame (emit adev e) = frame adev := rfl

theorem frame_enable_snd_device_simple (adev : audio_device) (d : Int) :
    frame (enable_snd_device_simple adev d).2 = frame adev := by
  unfold enable_snd_device_simple
  simp only [emit, set_ref_cnt, clock_gettime]
  split
  · rfl
  · split_ifs <;> rfl

theorem frame_disable_snd_device_simple (adev : audio_device) (d : Int) :
    frame (disable_snd_device_simple adev d).2 = frame adev := by
  unfold disable_snd_device_simple
  simp only [emit, set_ref_cnt, clock_gettime]
  split
  · rfl
  · split_ifs <;> rfl

theorem frame_enable_snd_device (adev : audio_device) (d : Int) :
    frame (enable_snd_device adev d).2 = frame adev := by
  unfold enable_snd_device
  split_ifs
  · split
    · rfl
    · simp only [frame_enable_snd_device_simple, frame_emit]
  · exact frame_enable_snd_device_simple adev d

theorem frame_disable_snd_device (adev : audio_device) (d : Int) :
    frame (disable_snd_device adev d).2 = frame adev := by
  unfold disable_snd_device
  split_ifs
  · split
    · rfl
    · simp only [frame_disable_snd_device_simple, frame_emit]
  · exact frame_disable_snd_device_simple adev d

theorem frame_start_ril_call (adev : audio_device) : frame (start_ril_call adev) = frame adev := by
  unfold start_ril_call adev_set_call_audio_path voice_set_volume
  simp only [emit]
  split_ifs <;> rfl

theorem frame_engine_switch (adev : audio_device) (oo oi no ni : Int) :
    frame (engine_switch adev oo oi no ni) = frame adev := by
  unfold engine_switch
  simp only []
  split_ifs <;>
    simp only [frame_enable_snd_device, frame_disable_snd_device, frame_start_ril_call]

theorem select_devices_switch_eq (adev : audio_device) (uc_id : Int) (o i : Int) :
    select_devices_switch adev uc_id o i =
      match get_usecase_from_id adev uc_id with
      | none => Outcome.null_deref
      | some usecase =>
        if o = usecase.out_snd_device ∧ i = usecase.in_snd_device then Outcome.done 0 adev
        else
          Outcome.done 0
            (set_usecase_snd_devices
              (engine_switch adev usecase.out_snd_device usecase.in_snd_device o i) uc_id o i) :=
  rfl

theorem skel_with_routes (u : audio_usecase) (o i : Int) : skel (with_routes u o i) = skel u := rfl

theorem skel_with_devices (u : audio_usecase) (devs : Option Nat) :
    skel (with_devices u devs) = skel u := by
  cases devs <;> rfl

theorem frame_usecase_list {a b : audio_device} (h : frame a = frame b) :
    a.usecase_list = b.usecase_list := congrArg Prod.snd h

theorem frame_same_context {a b : audio_device} (h : frame a = frame b) : same_context a b :=
  ⟨congrArg Prod.fst h, by rw [frame_usecase_list h]⟩

theorem get_usecase_from_id_frame {a b : audio_device} (h : frame a = frame b) (uc_id : Int) :
    get_usecase_from_id a uc_id = get_usecase_from_id b uc_id := by
  unfold get_usecase_from_id
  rw [frame_usecase_list h]

theorem get_set_usecase_snd_devices (adev : audio_device) (uc_id : Int) (o i : Int)
    (uc_id1 : Int) :
    get_usecase_from_id (set_usecase_snd_devices adev uc_id o i) uc_id1 =
      if uc_id1 = uc_id then (get_usecase_from_id adev uc_id1).map (fun u => with_routes u o i)
      else get_usecase_from_id adev uc_id1 :=
  find_update_usecase (fun u => { u with in_snd_device := i, out_snd_device := o })
    (fun _ => rfl) _ _ _

theorem get_write_devices (adev : audio_device) (uc_id : Int) (devs : Option Nat)
    (uc_id1 : Int) :
    get_usecase_from_id (write_devices adev uc_id devs) uc_id1 =
      if uc_id1 = uc_id then (get_usecase_from_id adev uc_id1).map (fun u => with_devices u devs)
      else get_usecase_from_id adev uc_id1 := by
  cases devs with
  | none =>
    simp only [write_devices, with_devices]
    split_ifs <;> simp
  | some d =>
    exact find_update_usecase (fun u => { u with devices := d }) (fun _ => rfl) _ _ _

theorem update_usecase_fix (f : audio_usecase → audio_usecase) (uc_id : Int)
    (l : List audio_usecase)
    (h : ∀ u, l.find? (fun u => u.id == uc_id) = some u → f u = u) :
    update_usecase f uc_id l = l := by
  induction l with
  | nil => rfl
  | cons u rest ih =>
    simp only [update_usecase]
    by_cases h1 : u.id = uc_id
    · have : f u = u := h u (by simp [List.find?_cons, h1])
      simp [h1, this]
    · simp only [h1, if_false]
      rw [ih]
      intro v hv
      apply h v
      have hb : (u.id == uc_id) = false := by simpa using h1
      simp only [List.find?_cons, hb]
      exact hv

theorem write_devices_fix (adev : audio_device) (uc_id : Int) (devs : Option Nat)
    (h : ∀ u d, get_usecase_from_id adev uc_id = some u → devs = some d → u.devices = d) :
    write_devices adev uc_id devs = adev := by
  cases devs with
  | none => rfl
  | some d =>
    have hl : update_usecase (fun u => { u with devices := d }) uc_id adev.usecase_list =
        adev.usecase_list := by
      apply update_usecase_fix
      intro u hu
      have := h u d hu rfl
      cases u
      simp_all
    simp only [write_devices, set_usecase_devices, hl]

/-- Result of the second half of `select_devices` when it returns. -/
theorem select_devices_switch_done (adev : audio_device) (uc_id : Int) (o i : Int) (r : Int)
    (s1 : audio_device) (h : select_devices_switch adev uc_id o i = Outcome.done r s1) :
    r = 0 ∧ same_context s1 adev ∧
    ∀ uc_id1, get_usecase_from_id s1 uc_id1 =
      if uc_id1 = uc_id then (get_usecase_from_id adev uc_id1).map (fun u => with_routes u o i)
      else get_usecase_from_id adev uc_id1 := by
  rw [select_devices_switch_eq] at h
  cases hg : get_usecase_from_id adev uc_id with
  | none => rw [hg] at h; cases h
  | some u =>
    rw [hg] at h
    simp only [] at h
    by_cases hc : o = u.out_snd_device ∧ i = u.in_snd_device
    · rw [if_pos hc] at h
      injection h with hr hs
      subst hs
      refine ⟨hr.symm, same_context_refl _, ?_⟩
      intro uc_id1
      by_cases h1 : uc_id1 = uc_id
      · subst h1
        have : with_routes u o i = u := by
          cases u; simp_all [with_routes]
        simp [hg, this]
      · simp [h1]
    · rw [if_neg hc] at h
      injection h with hr hs
      subst hs
      have hf := frame_engine_switch adev u.out_snd_device u.in_snd_device o i
      refine ⟨hr.symm, ?_, ?_⟩
      · exact same_context_trans (set_usecase_snd_devices_same_context _ _ _ _)
          (frame_same_context hf)
      · intro uc_id1
        rw [get_set_usecase_snd_devices, get_usecase_from_id_frame hf]

/-- The second half of `select_devices` does nothing when the usecase already
stores the resolved routes. -/
theorem select_devices_switch_fix (adev : audio_device) (uc_id : Int) (o i : Int)
    (u : audio_usecase) (hg : get_usecase_from_id adev uc_id = some u)
    (ho : u.out_snd_device = o) (hi : u.in_snd_device = i) :
    select_devices_switch adev uc_id o i = Outcome.done 0 adev := by
  rw [select_devices_switch_eq, hg]
  simp [ho, hi]

theorem same_context_streams {a b : audio_device} (h : same_context a b) :
    a.streams = b.streams := congrArg routing_context.streams h.1

theorem same_context_in_call {a b : audio_device} (h : same_context a b) :
    a.voice_in_call = b.voice_in_call := congrArg routing_context.voice_in_call h.1

theorem same_context_primary_output {a b : audio_device} (h : same_context a b) :
    a.primary_output = b.primary_output := congrArg routing_context.primary_output h.1

/-- The routes inherited from the voice call depend on the in-call flag and on
the record of the voice call usecase only. -/
theorem inherited_congr {a b : audio_device} (h : same_context a b)
    (hvc : a.voice_in_call = true →
      get_usecase_from_id a USECASE_VOICE_CALL = get_usecase_from_id b USECASE_VOICE_CALL) :
    inherited a = inherited b := by
  unfold inherited
  rw [← same_context_in_call h]
  by_cases hc : a.voice_in_call = true
  · rw [if_pos hc, if_pos hc, hvc hc]
  · rw [if_neg hc, if_neg hc]

theorem skel_type {u v : audio_usecase} (h : skel u = skel v) : u.type = v.type := by
  have := congrArg (fun t => t.2.1) h
  exact this

theorem skel_stream {u v : audio_usecase} (h : skel u = skel v) : u.stream = v.stream := by
  have := congrArg (fun t => t.2.2) h
  exact this

theorem skel_id {u v : audio_usecase} (h : skel u = skel v) : u.id = v.id := by
  have := congrArg (fun t => t.1) h
  exact this

/-- The resolution of a usecase depends on the routing context, on identity,
class and stream of the usecase, and (unless it is the voice call) on the
routes inherited from the voice call. -/
theorem resolve_congr {a b : audio_device} {u v : audio_usecase} (h : same_context a b)
    (hs : skel u = skel v) (hi : u.type = VOICE_CALL ∨ inherited a = inherited b) :
    resolve a u = resolve b v := by
  unfold resolve
  simp only [← skel_type hs, ← skel_stream hs, ← same_context_streams h,
    ← get_output_snd_device_ctx h.1, ← same_context_get_input h,
    ← same_context_active_input h, same_context_capture_input h]
  by_cases hv : u.type = VOICE_CALL
  · simp only [hv, if_true]
  · have hi2 : inherited a = inherited b := hi.resolve_left hv
    simp only [hv, if_false, ← hi2]

theorem nest_target_congr {a b : audio_device} {u v : audio_usecase} (h : same_context a b)
    (hs : skel u = skel v)
    (hi : (inherited a).map Prod.fst = (inherited b).map Prod.fst) :
    nest_target a u = nest_target b v := by
  unfold nest_target
  simp only [← skel_type hs, ← skel_stream hs, ← same_context_primary_output h,
    ← same_context_active_input h, hi]

theorem nest_target_active_input {a : audio_device} {u : audio_usecase} {t : Int}
    (h : nest_target a u = some t) : (active_input a).map audio_stream.usecase = some t := by
  unfold nest_target at h
  split_ifs at h
  cases hai : active_input a with
  | none => rw [hai] at h; cases h
  | some inp =>
    rw [hai] at h
    simp only [] at h
    split_ifs at h
    simpa using h

theorem nest_target_playback {a : audio_device} {u : audio_usecase} {t : Int}
    (h : nest_target a u = some t) :
    u.type = PCM_PLAYBACK ∧ (inherited a).map Prod.fst = some SND_DEVICE_NONE ∧
      a.primary_output = some u.stream := by
  unfold nest_target at h
  split_ifs at h with hc
  exact ⟨hc.1, hc.2.2.1, hc.2.2.2⟩

theorem inherited_write_devices (a : audio_device) (uc_id : Int) (devs : Option Nat) :
    inherited (write_devices a uc_id devs) = inherited a := by
  have hc : same_context (write_devices a uc_id devs) a := write_devices_same_context _ _ _
  unfold inherited
  rw [same_context_in_call hc, get_write_devices]
  split_ifs with h1 h2
  · rw [Option.map_map]
    congr 1
    funext u
    cases devs <;> rfl
  · rfl
  · rfl

/-- A call of `select_devices` that makes a nested call on its own usecase id
does not return. -/
theorem select_devices_self_nested (hotword : Int) :
    ∀ (fuel : Nat) (a : audio_device) (uc_id : Int) (u : audio_usecase),
      uc_id ≠ hotword → get_usecase_from_id a uc_id = some u →
      nest_target a u = some uc_id →
      ∀ r s, select_devices hotword fuel a uc_id ≠ Outcome.done r s := by
  intro fuel
  induction fuel with
  | zero => intro a uc_id u _ _ _ r s h; simp [select_devices] at h
  | succ f ih =>
    intro a uc_id u hhot hg hn r s h
    rw [select_devices_succ, if_neg hhot, hg] at h
    simp only [] at h
    cases hr : resolve a u with
    | none => rw [hr] at h; cases h
    | some dio =>
      obtain ⟨devs, o, i⟩ := dio
      rw [hr] at h
      simp only [hn] at h
      have hc := write_devices_same_context a uc_id devs
      have hg1 : get_usecase_from_id (write_devices a uc_id devs) uc_id =
          some (with_devices u devs) := by
        rw [get_write_devices]; simp [hg]
      have hn1 : nest_target (write_devices a uc_id devs) (with_devices u devs) =
          some uc_id := by
        rw [nest_target_congr hc (skel_with_devices u devs)
          (by rw [inherited_write_devices])]
        exact hn
      cases hsel : select_devices hotword f (write_devices a uc_id devs) uc_id with
      | done r1 s1 => exact ih _ _ _ hhot hg1 hn1 r1 s1 hsel
      | null_deref => rw [hsel] at h; cases h
      | no_fuel => rw [hsel] at h; cases h

theorem resolve_devices {a : audio_device} {u : audio_usecase} {devs : Option Nat} {o i : Int}
    (h : resolve a u = some (devs, o, i)) :
    devs = none ∨ devs = some (a.streams u.stream).devices := by
  unfold resolve at h
  simp only [] at h
  repeat' split at h
  all_goals first
    | (cases h; done)
    | (injection h with h; injection h with h1 _
       first | exact Or.inr h1.symm | exact Or.inl h1.symm)

/-- State after a run of the two halves of `select_devices` without the nested
call. -/
theorem flat_run {a : audio_device} {uc_id : Int} {u : audio_usecase} {devs : Option Nat}
    {o i r : Int} {s1 : audio_device} (hg : get_usecase_from_id a uc_id = some u)
    (hsw : select_devices_switch (write_devices a uc_id devs) uc_id o i = Outcome.done r s1) :
    r = 0 ∧ same_context s1 a ∧
      get_usecase_from_id s1 uc_id = some (with_routes (with_devices u devs) o i) ∧
      ∀ uc_id1, uc_id1 ≠ uc_id → get_usecase_from_id s1 uc_id1 = get_usecase_from_id a uc_id1 := by
  obtain ⟨hr, hc, hrec⟩ := select_devices_switch_done _ _ _ _ _ _ hsw
  refine ⟨hr, same_context_trans hc (write_devices_same_context _ _ _), ?_, ?_⟩
  · rw [hrec, if_pos rfl, get_write_devices, if_pos rfl, hg]; rfl
  · intro uc_id1 hne
    rw [hrec, if_neg hne, get_write_devices, if_neg hne]

/-- A run of `select_devices` changes nothing when the usecase already stores
what the run resolves and the nested call, if there is one, changes nothing. -/
theorem run_fix (hotword : Int) (f : Nat) {s : audio_device} {uc_id : Int} {u1 : audio_usecase}
    {devs : Option Nat} {o i : Int} (hhot : uc_id ≠ hotword)
    (hg : get_usecase_from_id s uc_id = some u1) (hr : resolve s u1 = some (devs, o, i))
    (ho : u1.out_snd_device = o) (hi : u1.in_snd_device = i)
    (hd : ∀ d, devs = some d → u1.devices = d)
    (hn : ∀ t, nest_target s u1 = some t → ∃ rn, select_devices hotword f s t = Outcome.done rn s) :
    select_devices hotword (f + 1) s uc_id = Outcome.done 0 s := by
  have hw : write_devices s uc_id devs = s := by
    apply write_devices_fix
    intro u d hu hdev
    rw [hg] at hu
    injection hu with hu
    subst hu
    exact hd d hdev
  rw [select_devices_succ, if_neg hhot, hg]
  simp only [hr, hw]
  cases hnt : nest_target s u1 with
  | none => exact select_devices_switch_fix s uc_id o i u1 hg ho hi
  | some t =>
    obtain ⟨rn, hrn⟩ := hn t hnt
    simp only [hrn]
    exact select_devices_switch_fix s uc_id o i u1 hg ho hi

/-- A run of `select_devices` without nested call, repeated in a later state
with the same routing context, the same record of the usecase and the same
inherited routes, changes nothing. -/
theorem flat_fix (hotword : Int) {f : Nat} {a : audio_device} {t : Int} {r : Int}
    {a1 s : audio_device}
    (h : select_devices hotword (f + 1) a t = Outcome.done r a1)
    (hflat : ∀ u, t ≠ hotword → get_usecase_from_id a t = some u → nest_target a u = none)
    (hc : same_context s a1) (hrec : get_usecase_from_id s t = get_usecase_from_id a1 t)
    (hinh : ∀ u, get_usecase_from_id a t = some u →
      u.type = VOICE_CALL ∨ inherited s = inherited a) (f1 : Nat) :
    select_devices hotword (f1 + 1) s t = Outcome.done r s := by
  rw [select_devices_succ] at h
  by_cases hhot : t = hotword
  · rw [if_pos hhot] at h
    injection h with hr _
    rw [select_devices_succ, if_pos hhot, hr]
  rw [if_neg hhot] at h
  cases hg : get_usecase_from_id a t with
  | none =>
    rw [hg] at h
    simp only [] at h
    injection h with hr hs
    subst hs
    rw [select_devices_succ, if_neg hhot, hrec, hg, hr]
  | some u =>
    rw [hg] at h
    simp only [] at h
    cases hres : resolve a u with
    | none => rw [hres] at h; cases h
    | some dio =>
      obtain ⟨devs, o, i⟩ := dio
      rw [hres] at h
      simp only [hflat u hhot hg] at h
      obtain ⟨hr0, hca, hu1, _⟩ := flat_run hg h
      have hsa : same_context s a := same_context_trans hc hca
      have hgs : get_usecase_from_id s t = some (with_routes (with_devices u devs) o i) := by
        rw [hrec, hu1]
      have hsk : skel (with_routes (with_devices u devs) o i) = skel u := by
        rw [skel_with_routes, skel_with_devices]
      have hty : (with_routes (with_devices u devs) o i).type = u.type := skel_type hsk
      have hres1 : resolve s (with_routes (with_devices u devs) o i) = some (devs, o, i) := by
        rw [resolve_congr hsa hsk (by rw [hty]; exact hinh u hg)]
        exact hres
      have hnt1 : nest_target s (with_routes (with_devices u devs) o i) = none := by
        by_cases hv : u.type = VOICE_CALL
        · unfold nest_target
          rw [if_neg]
          rw [hty]
          intro hcon
          exact hcon.2.1 hv
        · rw [nest_target_congr hsa hsk (by rw [(hinh u hg).resolve_left hv])]
          exact hflat u hhot hg
      rw [hr0]
      apply run_fix hotword f1 hhot hgs hres1 rfl rfl
      · intro d hd
        subst hd
        rfl
      · intro t1 ht1
        rw [hnt1] at ht1
        cases ht1

/-- State after a run of `select_devices` that makes no nested call. -/
theorem flat_result (hotword : Int) {f : Nat} {a : audio_device} {t : Int} {r : Int}
    {a1 : audio_device}
    (h : select_devices hotword (f + 1) a t = Outcome.done r a1)
    (hflat : ∀ u, t ≠ hotword → get_usecase_from_id a t = some u → nest_target a u = none) :
    same_context a1 a ∧
    (∀ uc_id1, uc_id1 ≠ t → get_usecase_from_id a1 uc_id1 = get_usecase_from_id a uc_id1) ∧
    (t = hotword → get_usecase_from_id a1 t = get_usecase_from_id a t) ∧
    (∀ u devs o i, t ≠ hotword → get_usecase_from_id a t = some u →
      resolve a u = some (devs, o, i) →
      get_usecase_from_id a1 t = some (with_routes (with_devices u devs) o i)) := by
  rw [select_devices_succ] at h
  by_cases hhot : t = hotword
  · rw [if_pos hhot] at h
    injection h with _ hs
    subst hs
    exact ⟨same_context_refl _, fun _ _ => rfl, fun _ => rfl, fun _ _ _ _ hne => absurd hhot hne⟩
  rw [if_neg hhot] at h
  cases hg : get_usecase_from_id a t with
  | none =>
    rw [hg] at h
    simp only [] at h
    injection h with _ hs
    subst hs
    refine ⟨same_context_refl _, fun _ _ => rfl, fun _ => hg, ?_⟩
    intro u devs o i _ hgu
    cases hgu
  | some u =>
    rw [hg] at h
    simp only [] at h
    cases hres : resolve a u with
    | none => rw [hres] at h; cases h
    | some dio =>
      obtain ⟨devs, o, i⟩ := dio
      rw [hres] at h
      simp only [hflat u hhot hg] at h
      obtain ⟨_, hca, hu1, hoth⟩ := flat_run hg h
      refine ⟨hca, hoth, fun hh => absurd hh hhot, ?_⟩
      intro u2 devs2 o2 i2 _ hgu hres2
      injection hgu with hgu
      subst hgu
      rw [hres] at hres2
      injection hres2 with hres2
      injection hres2 with hd hoi
      injection hoi with ho hi
      subst hd; subst ho; subst hi
      exact hu1

theorem resolve_playback {a : audio_device} {u : audio_usecase} {o1 i1 : Int}
    (hpb : u.type = PCM_PLAYBACK) (hi : inherited a = some (o1, i1)) :
    resolve a u = some (some (a.streams u.stream).devices,
      if o1 = SND_DEVICE_NONE then get_output_snd_device a (a.streams u.stream).devices else o1,
      SND_DEVICE_NONE) := by
  have hv : ¬ (PCM_PLAYBACK = VOICE_CALL) := by decide
  unfold resolve
  simp only [hpb, hv, if_false, hi, if_true]

theorem resolve_voice_call {a : audio_device} {u : audio_usecase} (hv : u.type = VOICE_CALL) :
    resolve a u = some (some (a.streams u.stream).devices,
      get_output_snd_device a (a.streams u.stream).devices,
      get_input_snd_device a (a.streams u.stream).devices) := by
  unfold resolve
  simp only [hv, if_true]

theorem inherited_in_call {a : audio_device} {vc : audio_usecase}
    (hc : a.voice_in_call = true)
    (hg : get_usecase_from_id a USECASE_VOICE_CALL = some vc) :
    inherited a = some (vc.out_snd_device, vc.in_snd_device) := by
  unfold inherited
  rw [if_pos hc, hg]
  rfl

theorem inherited_no_call {a : audio_device} (hc : ¬ a.voice_in_call = true) :
    inherited a = some (SND_DEVICE_NONE, SND_DEVICE_NONE) := by
  unfold inherited
  rw [if_neg hc]

theorem voice_call_not_playback {a : audio_device} {uc_id : Int} {u : audio_usecase}
    (hwf : voice_call_present a) (hc : a.voice_in_call = true)
    (hg : get_usecase_from_id a uc_id = some u) (hv : ¬ u.type = VOICE_CALL) :
    USECASE_VOICE_CALL ≠ uc_id := by
  intro heq
  obtain ⟨vc, hvc, hty, _⟩ := hwf hc
  rw [heq, hg] at hvc
  injection hvc with hvc
  subst hvc
  exact hv hty

/-- The nested case of `select_devices_fixed`. -/
theorem select_devices_fixed_nested (hotword : Int) (f : Nat) (a : audio_device) (uc_id : Int)
    (u : audio_usecase) (devs : Option Nat) (o i t rn r : Int) (an s1 : audio_device)
    (hwf : voice_call_present a) (hhot : uc_id ≠ hotword)
    (hg : get_usecase_from_id a uc_id = some u) (hres : resolve a u = some (devs, o, i))
    (hnt : nest_target a u = some t)
    (hnest : select_devices hotword f (write_devices a uc_id devs) t = Outcome.done rn an)
    (h : select_devices_switch an uc_id o i = Outcome.done r s1) :
    select_devices hotword (f + 1) s1 uc_id = Outcome.done r s1 := by
  have hca1 : same_context (write_devices a uc_id devs) a := write_devices_same_context _ _ _
  have hg1 : get_usecase_from_id (write_devices a uc_id devs) uc_id =
      some (with_devices u devs) := by
    rw [get_write_devices, if_pos rfl, hg]; rfl
  have hinh1 : inherited (write_devices a uc_id devs) = inherited a :=
    inherited_write_devices _ _ _
  obtain ⟨hpb, hio, hpo⟩ := nest_target_playback hnt
  have hnv : ¬ u.type = VOICE_CALL := by rw [hpb]; decide
  have hnt1 : nest_target (write_devices a uc_id devs) (with_devices u devs) = some t := by
    rw [nest_target_congr hca1 (skel_with_devices u devs) (by rw [hinh1])]
    exact hnt
  have hne : t ≠ uc_id := by
    intro heq
    subst heq
    exact select_devices_self_nested hotword f _ t _ hhot hg1 hnt1 rn an hnest
  cases f with
  | zero => simp [select_devices] at hnest
  | succ f0 =>
  have hflat : ∀ ut, t ≠ hotword →
      get_usecase_from_id (write_devices a uc_id devs) t = some ut →
      nest_target (write_devices a uc_id devs) ut = none := by
    intro ut hth hgt
    cases hn2 : nest_target (write_devices a uc_id devs) ut with
    | none => rfl
    | some t2 =>
      have e1 := nest_target_active_input hn2
      have e2 := nest_target_active_input hnt
      rw [same_context_active_input hca1, e2] at e1
      injection e1 with e1
      subst e1
      exact absurd hnest (select_devices_self_nested hotword _ _ t ut hth hgt hn2 rn an)
  obtain ⟨hcan, hoth_n, hhot_n, hrec_n⟩ := flat_result hotword hnest hflat
  obtain ⟨hr0, hcs1, hrec1⟩ := select_devices_switch_done _ _ _ _ _ _ h
  have hcs : same_context s1 a := same_context_trans hcs1 (same_context_trans hcan hca1)
  have hgs1 : get_usecase_from_id s1 uc_id = some (with_routes (with_devices u devs) o i) := by
    rw [hrec1, if_pos rfl, hoth_n uc_id (Ne.symm hne), hg1]; rfl
  have hoth1 : ∀ uc_id1, uc_id1 ≠ uc_id →
      get_usecase_from_id s1 uc_id1 = get_usecase_from_id an uc_id1 := by
    intro uc_id1 h1
    rw [hrec1, if_neg h1]
  -- the routes resolved in the first run
  obtain ⟨o1, i1, hia, ho1⟩ : ∃ o1 i1, inherited a = some (o1, i1) ∧ o1 = SND_DEVICE_NONE := by
    cases hia : inherited a with
    | none => rw [hia] at hio; cases hio
    | some oi =>
      obtain ⟨o1, i1⟩ := oi
      rw [hia] at hio
      injection hio with hio
      exact ⟨o1, i1, rfl, hio⟩
  subst ho1
  have hres2 := resolve_playback hpb hia
  rw [hres, if_pos rfl] at hres2
  injection hres2 with hres2
  injection hres2 with hdevs hoi
  injection hoi with ho hi
  -- the routes inherited in the second run
  have hinh2 : ∃ o2 i2, inherited s1 = some (o2, i2) ∧ (o2 = SND_DEVICE_NONE ∨ o2 = o) := by
    by_cases hc : a.voice_in_call = true
    · obtain ⟨vc, hvc, hvt, hvp⟩ := hwf hc
      have h5 : USECASE_VOICE_CALL ≠ uc_id := voice_call_not_playback hwf hc hg hnv
      have hvc1 : get_usecase_from_id (write_devices a uc_id devs) USECASE_VOICE_CALL =
          some vc := by
        rw [get_write_devices, if_neg h5, hvc]
      have hvo : vc.out_snd_device = SND_DEVICE_NONE := by
        rw [inherited_in_call hc hvc] at hia
        injection hia with hia
        injection hia with hia _
      have hcs1c : s1.voice_in_call = true := by rw [same_context_in_call hcs]; exact hc
      by_cases ht5 : t = USECASE_VOICE_CALL
      · subst ht5
        by_cases h5hot : USECASE_VOICE_CALL = hotword
        · have hv2 : get_usecase_from_id s1 USECASE_VOICE_CALL = some vc := by
            rw [hoth1 _ h5, hhot_n h5hot, hvc1]
          exact ⟨_, _, inherited_in_call hcs1c hv2, Or.inl hvo⟩
        · have hrv := resolve_voice_call (a := write_devices a uc_id devs) hvt
          have hv2 := hrec_n vc _ _ _ h5hot hvc1 hrv
          rw [← hoth1 _ h5] at hv2
          refine ⟨_, _, inherited_in_call hcs1c hv2, Or.inr ?_⟩
          have hst : vc.stream = u.stream := by
            rw [hpo] at hvp
            injection hvp with hvp
            exact hvp.symm
          show get_output_snd_device (write_devices a uc_id devs)
            ((write_devices a uc_id devs).streams vc.stream).devices = o
          rw [get_output_snd_device_ctx hca1.1, same_context_streams hca1, hst]
          exact ho.symm
      · have hv2 : get_usecase_from_id s1 USECASE_VOICE_CALL = some vc := by
          rw [hoth1 _ h5, hoth_n _ (Ne.symm ht5), hvc1]
        exact ⟨_, _, inherited_in_call hcs1c hv2, Or.inl hvo⟩
    · have hcs1c : ¬ s1.voice_in_call = true := by rw [same_context_in_call hcs]; exact hc
      exact ⟨_, _, inherited_no_call hcs1c, Or.inl rfl⟩
  obtain ⟨o2, i2, hia2, ho2⟩ := hinh2
  have hsk : skel (with_routes (with_devices u devs) o i) = skel u := by
    rw [skel_with_routes, skel_with_devices]
  have hpb1 : (with_routes (with_devices u devs) o i).type = PCM_PLAYBACK := by
    rw [skel_type hsk]; exact hpb
  have hres1 : resolve s1 (with_routes (with_devices u devs) o i) = some (devs, o, i) := by
    have hD : (s1.streams (with_routes (with_devices u devs) o i).stream).devices =
        (a.streams u.stream).devices := by
      rw [same_context_streams hcs, skel_stream hsk]
    rw [resolve_playback hpb1 hia2, hD, get_output_snd_device_ctx hcs.1, hdevs, hi]
    rcases ho2 with h2 | h2
    · rw [if_pos h2, ho]
    · by_cases h3 : o2 = SND_DEVICE_NONE
      · rw [if_pos h3, ho]
      · rw [if_neg h3, h2]
  rw [hr0]
  apply run_fix hotword (f0 + 1) hhot hgs1 hres1 rfl rfl
  · intro d hd
    subst hd
    rfl
  · intro t1 ht1
    have e1 := nest_target_active_input ht1
    have e2 := nest_target_active_input hnt
    rw [same_context_active_input hcs, e2] at e1
    injection e1 with e1
    subst e1
    refine ⟨rn, flat_fix hotword hnest hflat hcs1 (hoth1 _ hne) ?_ f0⟩
    intro ut hgut
    by_cases hc : a.voice_in_call = true
    · obtain ⟨vc, hvc, hvt, hvp⟩ := hwf hc
      have h5 : USECASE_VOICE_CALL ≠ uc_id := voice_call_not_playback hwf hc hg hnv
      have hvc1 : get_usecase_from_id (write_devices a uc_id devs) USECASE_VOICE_CALL =
          some vc := by
        rw [get_write_devices, if_neg h5, hvc]
      by_cases ht5 : t = USECASE_VOICE_CALL
      · subst ht5
        rw [hvc1] at hgut
        injection hgut with hgut
        subst hgut
        exact Or.inl hvt
      · right
        apply inherited_congr (same_context_trans hcs1 hcan)
        intro _
        rw [hoth1 _ h5, hoth_n _ (Ne.symm ht5)]
    · right
      have hcs1c : ¬ s1.voice_in_call = true := by rw [same_context_in_call hcs]; exact hc
      rw [inherited_no_call hcs1c, hinh1, inherited_no_call hc]

/-- A completed run of `select_devices` ends in a state in which a second run
for the same usecase id returns the same value and changes nothing. -/
theorem select_devices_fixed (hotword : Int) (fuel : Nat) (a : audio_device) (uc_id : Int)
    (r : Int) (s1 : audio_device) (hwf : voice_call_present a)
    (h : select_devices hotword fuel a uc_id = Outcome.done r s1) :
    select_devices hotword fuel s1 uc_id = Outcome.done r s1 := by
  cases fuel with
  | zero => simp [select_devices] at h
  | succ f =>
    have h0 := h
    rw [select_devices_succ] at h
    by_cases hhot : uc_id = hotword
    · rw [if_pos hhot] at h
      injection h with hr hs
      subst hs
      rw [select_devices_succ, if_pos hhot, hr]
    rw [if_neg hhot] at h
    cases hg : get_usecase_from_id a uc_id with
    | none =>
      rw [hg] at h
      simp only [] at h
      injection h with hr hs
      subst hs
      rw [select_devices_succ, if_neg hhot, hg, hr]
    | some u =>
      rw [hg] at h
      simp only [] at h
      cases hres : resolve a u with
      | none => rw [hres] at h; cases h
      | some dio =>
        obtain ⟨devs, o, i⟩ := dio
        rw [hres] at h
        simp only [] at h
        cases hnt : nest_target a u with
        | none =>
          rw [hnt] at h
          simp only [] at h
          obtain ⟨_, hca, _, hoth⟩ := flat_run hg h
          have hflat : ∀ u1, uc_id ≠ hotword → get_usecase_from_id a uc_id = some u1 →
              nest_target a u1 = none := by
            intro u1 _ hg1
            rw [hg] at hg1
            injection hg1 with hg1
            subst hg1
            exact hnt
          apply flat_fix hotword h0 hflat (same_context_refl s1) rfl _ f
          intro u1 hg1
          rw [hg] at hg1
          injection hg1 with hg1
          subst hg1
          by_cases hv : u.type = VOICE_CALL
          · exact Or.inl hv
          · right
            apply inherited_congr hca
            intro hc
            rw [same_context_in_call hca] at hc
            exact hoth _ (voice_call_not_playback hwf hc hg hv)
        | some t =>
          rw [hnt] at h
          simp only [] at h
          cases hnest : select_devices hotword f (write_devices a uc_id devs) t with
          | null_deref => rw [hnest] at h; cases h
          | no_fuel => rw [hnest] at h; cases h
          | done rn an =>
            rw [hnest] at h
            simp only [] at h
            exact select_devices_fixed_nested hotword f a uc_id u devs o i t rn r an s1 hwf hhot
              hg hres hnt hnest h

/-- The second half of `select_devices` returns success whenever the usecase
is in the list. -/
theorem select_devices_switch_returns (adev : audio_device) (uc_id : Int) (o i : Int)
    (u : audio_usecase) (hg : get_usecase_from_id adev uc_id = some u) :
    ∃ s1, select_devices_switch adev uc_id o i = Outcome.done 0 s1 := by
  rw [select_devices_switch_eq, hg]
  simp only []
  split_ifs
  · exact ⟨_, rfl⟩
  · exact ⟨_, rfl⟩

/-! # The claims -/

/-- C1: `select_devices` is idempotent. Whenever a run for a usecase id
returns success, in a state where the voice call usecase is present whenever
the in-call flag is set, a second run for the same id right after it returns
success and ends in the very same state: nothing is added to the trace, which
records every entry to `enable_snd_device` and `disable_snd_device` and every
path applier call, no reference count changes and every usecase record is
unchanged. -/
theorem select_devices_idempotent (hotword : Int) (fuel : Nat) (adev : audio_device)
    (uc_id : Int) (adev1 : audio_device) (hvc : voice_call_present adev)
    (h : select_devices hotword fuel adev uc_id = Outcome.done 0 adev1) :
    select_devices hotword fuel adev1 uc_id = Outcome.done 0 adev1 ∧
    ∀ adev2, select_devices hotword fuel adev1 uc_id = Outcome.done 0 adev2 →
      adev2.trace = adev1.trace ∧ adev2.snd_dev_ref_cnt = adev1.snd_dev_ref_cnt ∧
      adev2.usecase_list = adev1.usecase_list := by
  have hfix := select_devices_fixed hotword fuel adev uc_id 0 adev1 hvc h
  refine ⟨hfix, ?_⟩
  intro adev2 h2
  rw [hfix] at h2
  injection h2 with _ h2
  subst h2
  exact ⟨rfl, rfl, rfl⟩

/-- Witness of C1: a playback usecase on the primary output next to a voice
communication capture usecase. The first run makes the nested call for the
capture usecase and applies "speaker-mic" and "speaker"; the second run changes
nothing. -/
theorem select_devices_idempotent_witness :
    ∃ adev1,
      select_devices example_hotword 2 playback_capture_device USECASE_AUDIO_PLAYBACK =
        Outcome.done 0 adev1 ∧
      adev1.trace = [Event.enable_snd_device SND_DEVICE_IN_SPEAKER_MIC,
        Event.audio_route_apply_and_update_path "speaker-mic",
        Event.enable_snd_device SND_DEVICE_OUT_SPEAKER,
        Event.audio_route_apply_and_update_path "speaker"] ∧
      select_devices example_hotword 2 adev1 USECASE_AUDIO_PLAYBACK = Outcome.done 0 adev1 :=
  ⟨_, rfl, by decide,
    (select_devices_idempotent example_hotword 2 playback_capture_device USECASE_AUDIO_PLAYBACK _
      (fun hc => absurd hc (by decide)) rfl).1⟩

/-- C2: for every route other than the combo that has a catalog name and whose
reference count is 0, the sequence enable, enable, disable, disable returns
success four times, leaves the reference count at 0, and the path applier
receives exactly one apply followed by one unapply of the name of the route
and nothing else. -/
theorem enable_twice_disable_twice (adev : audio_device) (d : Int) (name : String)
    (hname : get_snd_device_name d = some name)
    (hsimple : d ≠ SND_DEVICE_OUT_SPEAKER_AND_HEADPHONES)
    (hcnt : adev.snd_dev_ref_cnt d = 0) :
    (enable_snd_device adev d).1 = 0 ∧
    (enable_snd_device (enable_snd_device adev d).2 d).1 = 0 ∧
    (disable_snd_device (enable_snd_device (enable_snd_device adev d).2 d).2 d).1 = 0 ∧
    (disable_snd_device (disable_snd_device
      (enable_snd_device (enable_snd_device adev d).2 d).2 d).2 d).1 = 0 ∧
    (disable_snd_device (disable_snd_device
      (enable_snd_device (enable_snd_device adev d).2 d).2 d).2 d).2.snd_dev_ref_cnt d = 0 ∧
    path_calls (disable_snd_device (disable_snd_device
      (enable_snd_device (enable_snd_device adev d).2 d).2 d).2 d).2.trace =
      path_calls adev.trace ++
        [Event.audio_route_apply_and_update_path name,
         Event.audio_route_reset_and_update_path name] := by
  simp only [enable_snd_device, disable_snd_device, hsimple, if_false,
    enable_snd_device_simple_eq _ d name hname, disable_snd_device_simple_eq _ d name hname]
  simp [hcnt, path_calls_append, path_calls_debounce_sleep, path_calls_cons, path_calls_nil,
    is_path_call]

/-- Witness of C2: the speaker route in the initial state. -/
theorem enable_twice_disable_twice_witness :
    get_snd_device_name SND_DEVICE_OUT_SPEAKER = some "speaker" ∧
    initial_device.snd_dev_ref_cnt SND_DEVICE_OUT_SPEAKER = 0 ∧
    (disable_snd_device (disable_snd_device
      (enable_snd_device (enable_snd_device initial_device SND_DEVICE_OUT_SPEAKER).2
        SND_DEVICE_OUT_SPEAKER).2 SND_DEVICE_OUT_SPEAKER).2
        SND_DEVICE_OUT_SPEAKER).2.snd_dev_ref_cnt SND_DEVICE_OUT_SPEAKER = 0 ∧
    path_calls (disable_snd_device (disable_snd_device
      (enable_snd_device (enable_snd_device initial_device SND_DEVICE_OUT_SPEAKER).2
        SND_DEVICE_OUT_SPEAKER).2 SND_DEVICE_OUT_SPEAKER).2 SND_DEVICE_OUT_SPEAKER).2.trace =
      [Event.audio_route_apply_and_update_path "speaker",
       Event.audio_route_reset_and_update_path "speaker"] :=
  have h := enable_twice_disable_twice initial_device SND_DEVICE_OUT_SPEAKER "speaker"
    (by decide) (by decide) (by decide)
  ⟨by decide, by decide, h.2.2.2.2.1, h.2.2.2.2.2⟩

/-- Amended C3: while a call is active (in-call flag set, a usecase with id
`USECASE_VOICE_CALL` in the list whose applied output route O is not NONE),
`select_devices` for a playback usecase returns success and the playback
usecase then stores the output route O of the voice call, not a route resolved
from its own device mask, and the input route NONE. -/
theorem select_devices_playback_in_call (hotword : Int) (fuel : Nat) (adev : audio_device)
    (uc_id : Int) (usecase vc_usecase : audio_usecase)
    (hhot : uc_id ≠ hotword) (hcall : adev.voice_in_call = true)
    (hvc : get_usecase_from_id adev USECASE_VOICE_CALL = some vc_usecase)
    (hout : vc_usecase.out_snd_device ≠ SND_DEVICE_NONE)
    (hg : get_usecase_from_id adev uc_id = some usecase)
    (htype : usecase.type = PCM_PLAYBACK) :
    ∃ adev1 usecase1,
      select_devices hotword (fuel + 1) adev uc_id = Outcome.done 0 adev1 ∧
      get_usecase_from_id adev1 uc_id = some usecase1 ∧
      usecase1.out_snd_device = vc_usecase.out_snd_device ∧
      usecase1.in_snd_device = SND_DEVICE_NONE := by
  have hinh := inherited_in_call hcall hvc
  have hres := resolve_playback (u := usecase) htype hinh
  rw [if_neg hout] at hres
  have hnt : nest_target adev usecase = none := by
    unfold nest_target
    rw [if_neg]
    rw [hinh]
    intro hc
    have := hc.2.2.1
    simp only [Option.map_some', Option.some.injEq] at this
    exact hout this
  rw [select_devices_succ, if_neg hhot, hg]
  simp only [hres, hnt]
  obtain ⟨s1, hs1⟩ := select_devices_switch_returns
    (write_devices adev uc_id (some (adev.streams usecase.stream).devices)) uc_id
    vc_usecase.out_snd_device SND_DEVICE_NONE
    (with_devices usecase (some (adev.streams usecase.stream).devices))
    (by rw [get_write_devices, if_pos rfl, hg]; rfl)
  obtain ⟨_, _, hrec, _⟩ := flat_run hg hs1
  exact ⟨s1, _, hs1, hrec, rfl, rfl⟩

/-- Witness of the amended C3: a playback usecase during a call on the
speaker. -/
theorem select_devices_playback_in_call_witness :
    ∃ adev1 usecase1,
      select_devices example_hotword 1 call_speaker_device USECASE_AUDIO_PLAYBACK =
        Outcome.done 0 adev1 ∧
      get_usecase_from_id adev1 USECASE_AUDIO_PLAYBACK = some usecase1 ∧
      usecase1.out_snd_device = SND_DEVICE_OUT_VOICE_SPEAKER ∧
      usecase1.in_snd_device = SND_DEVICE_NONE :=
  select_devices_playback_in_call example_hotword 0 call_speaker_device USECASE_AUDIO_PLAYBACK
    { id := USECASE_AUDIO_PLAYBACK, type := PCM_PLAYBACK, devices := AUDIO_DEVICE_OUT_SPEAKER,
      out_snd_device := SND_DEVICE_NONE, in_snd_device := SND_DEVICE_NONE, stream := 1 }
    { id := USECASE_VOICE_CALL, type := VOICE_CALL, devices := AUDIO_DEVICE_OUT_SPEAKER,
      out_snd_device := SND_DEVICE_OUT_VOICE_SPEAKER,
      in_snd_device := SND_DEVICE_IN_VOICE_SPEAKER_MIC, stream := 1 }
    (by decide) (by decide) (by decide) (by decide) (by decide) (by decide)

/-- Counterexample to C3 as stated: during a call whose voice call usecase has
the applied routes (I, O) = (voice-speaker-mic, voice-speaker),
`select_devices` for the playback usecase returns success and the playback
usecase then stores the pair (NONE, O), which differs from (I, O). -/
theorem select_devices_playback_drops_input :
    (get_usecase_from_id call_speaker_device USECASE_VOICE_CALL).map
        (fun u => (u.in_snd_device, u.out_snd_device)) =
      some (SND_DEVICE_IN_VOICE_SPEAKER_MIC, SND_DEVICE_OUT_VOICE_SPEAKER) ∧
    (select_devices example_hotword 1 call_speaker_device USECASE_AUDIO_PLAYBACK).ret = some 0 ∧
    ((select_devices example_hotword 1 call_speaker_device USECASE_AUDIO_PLAYBACK).final.bind
        (fun adev1 => get_usecase_from_id adev1 USECASE_AUDIO_PLAYBACK)).map
        (fun u => (u.in_snd_device, u.out_snd_device)) =
      some (SND_DEVICE_NONE, SND_DEVICE_OUT_VOICE_SPEAKER) ∧
    (SND_DEVICE_NONE, SND_DEVICE_OUT_VOICE_SPEAKER) ≠
      (SND_DEVICE_IN_VOICE_SPEAKER_MIC, SND_DEVICE_OUT_VOICE_SPEAKER) := by
  decide

end AudioHw
namespace AudioHw

theorem get_output_snd_device_normal_speaker (adev : audio_device)
    (hmode : adev.mode = AUDIO_MODE_NORMAL) :
    get_output_snd_device adev AUDIO_DEVICE_OUT_SPEAKER = SND_DEVICE_OUT_SPEAKER := by
  have hctx : ctx adev = ctx { initial_device with
      voice_wb_amr := adev.voice_wb_amr, primary_output := adev.primary_output,
      voice_in_call := adev.voice_in_call, streams := adev.streams } := by
    simp only [ctx, hmode]; rfl
  rw [get_output_snd_device_ctx hctx]
  cases adev.voice_wb_amr <;> rfl

/-- C4: in a state with mode normal, no call, all reference counts 0 and no
other usecase, `select_devices` for a fresh playback usecase (routes NONE,
NONE) whose stream is routed to the speaker alone returns success, stores the
output route speaker (catalog name "speaker") and the input route NONE, and
the path applier receives exactly one call, apply("speaker"). -/
theorem select_devices_fresh_playback_speaker (hotword : Int) (fuel : Nat)
    (adev : audio_device) (usecase : audio_usecase)
    (hid : usecase.id ≠ hotword)
    (hmode : adev.mode = AUDIO_MODE_NORMAL)
    (hcall : adev.voice_in_call = false)
    (hcnt : ∀ d, adev.snd_dev_ref_cnt d = 0)
    (hlist : adev.usecase_list = [usecase])
    (htype : usecase.type = PCM_PLAYBACK)
    (hout : usecase.out_snd_device = SND_DEVICE_NONE)
    (hin : usecase.in_snd_device = SND_DEVICE_NONE)
    (hdev : (adev.streams usecase.stream).devices = AUDIO_DEVICE_OUT_SPEAKER) :
    ∃ adev1, select_devices hotword (fuel + 1) adev usecase.id = Outcome.done 0 adev1 ∧
      adev1.usecase_list =
        [{ usecase with devices := AUDIO_DEVICE_OUT_SPEAKER,
                        out_snd_device := SND_DEVICE_OUT_SPEAKER,
                        in_snd_device := SND_DEVICE_NONE }] ∧
      get_snd_device_name SND_DEVICE_OUT_SPEAKER = some "speaker" ∧
      path_calls adev1.trace =
        path_calls adev.trace ++ [Event.audio_route_apply_and_update_path "speaker"] := by
  have hg : get_usecase_from_id adev usecase.id = some usecase := by
    simp [get_usecase_from_id, hlist]
  have hnc : ¬ adev.voice_in_call = true := by simp [hcall]
  have hres := resolve_playback (u := usecase) htype (inherited_no_call hnc)
  rw [if_pos rfl, hdev, get_output_snd_device_normal_speaker adev hmode] at hres
  have hai : active_input adev = none := by
    simp [active_input, get_usecase_from_type, hlist, htype]
    decide
  have hnt : nest_target adev usecase = none := by
    unfold nest_target
    rw [hai]
    split_ifs <;> rfl
  have hg1 : get_usecase_from_id (write_devices adev usecase.id (some AUDIO_DEVICE_OUT_SPEAKER))
      usecase.id = some { usecase with devices := AUDIO_DEVICE_OUT_SPEAKER } := by
    rw [get_write_devices, if_pos rfl, hg]; rfl
  have h1 : ¬ (SND_DEVICE_OUT_SPEAKER = SND_DEVICE_NONE) := by decide
  have h2 : ¬ (SND_DEVICE_OUT_SPEAKER = SND_DEVICE_OUT_SPEAKER_AND_HEADPHONES) := by decide
  rw [select_devices_succ, if_neg hid, hg]
  simp only [hres, hnt, select_devices_switch_eq, hg1, hout, hin, h1, false_and, if_false]
  refine ⟨_, rfl, ?_, get_snd_device_name_speaker, ?_⟩
  · simp [set_usecase_snd_devices, engine_switch, write_devices, set_usecase_devices, hcall, h1,
      (frame_usecase_list (frame_enable_snd_device _ _)), hlist, update_usecase]
  · simp only [set_usecase_snd_devices, engine_switch, write_devices, set_usecase_devices, hcall,
      h1, ne_eq, not_true_eq_false, if_false, not_false_eq_true, if_true, enable_snd_device, h2,
      Bool.false_eq_true,
      enable_snd_device_simple_path_calls _ _ _ get_snd_device_name_speaker, hcnt]
    simp

/-- Witness of C4: the scenario in the initial state. -/
theorem select_devices_fresh_playback_speaker_witness :
    ∃ adev1,
      select_devices example_hotword 1 playback_speaker_device USECASE_AUDIO_PLAYBACK =
        Outcome.done 0 adev1 ∧
      adev1.usecase_list =
        [{ id := USECASE_AUDIO_PLAYBACK, type := PCM_PLAYBACK,
           devices := AUDIO_DEVICE_OUT_SPEAKER, out_snd_device := SND_DEVICE_OUT_SPEAKER,
           in_snd_device := SND_DEVICE_NONE, stream := 1 }] ∧
      get_snd_device_name SND_DEVICE_OUT_SPEAKER = some "speaker" ∧
      path_calls adev1.trace = [Event.audio_route_apply_and_update_path "speaker"] :=
  select_devices_fresh_playback_speaker example_hotword 0 playback_speaker_device
    { id := USECASE_AUDIO_PLAYBACK, type := PCM_PLAYBACK, devices := AUDIO_DEVICE_OUT_SPEAKER,
      out_snd_device := SND_DEVICE_NONE, in_snd_device := SND_DEVICE_NONE, stream := 1 }
    (by decide) rfl rfl (fun _ => rfl) rfl rfl rfl rfl rfl

/-- C5 on the code: for a wideband call on a wired headset, `select_devices`
for the voice call usecase resolves the output route
`SND_DEVICE_OUT_VOICE_HEADPHONES_WB`, which has no name in `device_table` (the
name "voice-headphones-wb" is that of `SND_DEVICE_OUT_VOICE_HEADPHONES`), and
the input route named "voice-headset-mic". The usecase stores both routes, but
the only path applied to the mixer is "voice-headset-mic"; the reference count
of the output route stays 0. -/
theorem select_devices_call_headset_wb :
    (select_devices example_hotword 1 call_headset_wb_device USECASE_VOICE_CALL).ret = some 0 ∧
    ((select_devices example_hotword 1 call_headset_wb_device USECASE_VOICE_CALL).final.bind
        (fun adev1 => get_usecase_from_id adev1 USECASE_VOICE_CALL)).map
        (fun u => (u.out_snd_device, u.in_snd_device)) =
      some (SND_DEVICE_OUT_VOICE_HEADPHONES_WB, SND_DEVICE_IN_VOICE_HEADSET_MIC) ∧
    get_snd_device_name SND_DEVICE_OUT_VOICE_HEADPHONES_WB = none ∧
    get_snd_device_name SND_DEVICE_OUT_VOICE_HEADPHONES = some "voice-headphones-wb" ∧
    get_snd_device_name SND_DEVICE_IN_VOICE_HEADSET_MIC = some "voice-headset-mic" ∧
    (select_devices example_hotword 1 call_headset_wb_device USECASE_VOICE_CALL).final.map
        (fun adev1 => adev1.trace) =
      some (call_headset_wb_device.trace ++
        [Event.enable_snd_device SND_DEVICE_OUT_VOICE_HEADPHONES_WB,
         Event.enable_snd_device SND_DEVICE_IN_VOICE_HEADSET_MIC,
         Event.audio_route_apply_and_update_path "voice-headset-mic"]) ∧
    (select_devices example_hotword 1 call_headset_wb_device USECASE_VOICE_CALL).final.map
        (fun adev1 => adev1.snd_dev_ref_cnt SND_DEVICE_OUT_VOICE_HEADPHONES_WB) = some 0 := by
  decide

/-- C6: in every state, enabling the combo route speaker-and-headphones
returns success and raises the reference counts of speaker and of headphones
by exactly one each, leaving every other count (the entry of the combo
included) unchanged; and in a state where both halves have count at least 1,
disabling the combo route returns success and lowers the count of each half by
exactly one, changing no other count. -/
theorem combo_decomposition (adev : audio_device) :
    ((enable_snd_device adev SND_DEVICE_OUT_SPEAKER_AND_HEADPHONES).1 = 0 ∧
     (enable_snd_device adev SND_DEVICE_OUT_SPEAKER_AND_HEADPHONES).2.snd_dev_ref_cnt
        SND_DEVICE_OUT_SPEAKER = adev.snd_dev_ref_cnt SND_DEVICE_OUT_SPEAKER + 1 ∧
     (enable_snd_device adev SND_DEVICE_OUT_SPEAKER_AND_HEADPHONES).2.snd_dev_ref_cnt
        SND_DEVICE_OUT_HEADPHONES = adev.snd_dev_ref_cnt SND_DEVICE_OUT_HEADPHONES + 1 ∧
     ∀ d, d ≠ SND_DEVICE_OUT_SPEAKER → d ≠ SND_DEVICE_OUT_HEADPHONES →
       (enable_snd_device adev SND_DEVICE_OUT_SPEAKER_AND_HEADPHONES).2.snd_dev_ref_cnt d =
         adev.snd_dev_ref_cnt d) ∧
    (1 ≤ adev.snd_dev_ref_cnt SND_DEVICE_OUT_SPEAKER →
     1 ≤ adev.snd_dev_ref_cnt SND_DEVICE_OUT_HEADPHONES →
     (disable_snd_device adev SND_DEVICE_OUT_SPEAKER_AND_HEADPHONES).1 = 0 ∧
     (disable_snd_device adev SND_DEVICE_OUT_SPEAKER_AND_HEADPHONES).2.snd_dev_ref_cnt
        SND_DEVICE_OUT_SPEAKER = adev.snd_dev_ref_cnt SND_DEVICE_OUT_SPEAKER - 1 ∧
     (disable_snd_device adev SND_DEVICE_OUT_SPEAKER_AND_HEADPHONES).2.snd_dev_ref_cnt
        SND_DEVICE_OUT_HEADPHONES = adev.snd_dev_ref_cnt SND_DEVICE_OUT_HEADPHONES - 1 ∧
     ∀ d, d ≠ SND_DEVICE_OUT_SPEAKER → d ≠ SND_DEVICE_OUT_HEADPHONES →
       (disable_snd_device adev SND_DEVICE_OUT_SPEAKER_AND_HEADPHONES).2.snd_dev_ref_cnt d =
         adev.snd_dev_ref_cnt d) := by
  have hsh : SND_DEVICE_OUT_SPEAKER ≠ SND_DEVICE_OUT_HEADPHONES := by decide
  have hhs : SND_DEVICE_OUT_HEADPHONES ≠ SND_DEVICE_OUT_SPEAKER := by decide
  constructor
  · rw [enable_snd_device_combo_eq]
    simp only [enable_snd_device_simple_ref_cnt _ _ _ get_snd_device_name_headphones,
      enable_snd_device_simple_ref_cnt _ _ _ get_snd_device_name_speaker, emit_ref_cnt]
    refine ⟨trivial, ?_, ?_, ?_⟩
    · simp [hsh]
    · simp [hhs]
    · intro d h1 h2; simp [h1, h2]
  · intro hs hh
    have hs0 : 0 < adev.snd_dev_ref_cnt SND_DEVICE_OUT_SPEAKER := by omega
    have hh0 : 0 < adev.snd_dev_ref_cnt SND_DEVICE_OUT_HEADPHONES := by omega
    rw [disable_snd_device_combo_eq]
    simp only [disable_snd_device_simple_ref_cnt _ _ _ get_snd_device_name_headphones,
      disable_snd_device_simple_ref_cnt _ _ _ get_snd_device_name_speaker, emit_ref_cnt]
    refine ⟨trivial, ?_, ?_, ?_⟩
    · simp [hsh, hs0]
    · simp [hhs, hh0]
    · intro d h1 h2; simp [h1, h2]

/-- Witness of C6: a disable of the combo after an enable of the combo in the
initial state. -/
theorem combo_decomposition_witness :
    1 ≤ (enable_snd_device initial_device
      SND_DEVICE_OUT_SPEAKER_AND_HEADPHONES).2.snd_dev_ref_cnt SND_DEVICE_OUT_SPEAKER ∧
    1 ≤ (enable_snd_device initial_device
      SND_DEVICE_OUT_SPEAKER_AND_HEADPHONES).2.snd_dev_ref_cnt SND_DEVICE_OUT_HEADPHONES ∧
    (disable_snd_device (enable_snd_device initial_device
      SND_DEVICE_OUT_SPEAKER_AND_HEADPHONES).2 SND_DEVICE_OUT_SPEAKER_AND_HEADPHONES).1 = 0 ∧
    (disable_snd_device (enable_snd_device initial_device
      SND_DEVICE_OUT_SPEAKER_AND_HEADPHONES).2
      SND_DEVICE_OUT_SPEAKER_AND_HEADPHONES).2.snd_dev_ref_cnt SND_DEVICE_OUT_SPEAKER =
      (enable_snd_device initial_device
        SND_DEVICE_OUT_SPEAKER_AND_HEADPHONES).2.snd_dev_ref_cnt SND_DEVICE_OUT_SPEAKER - 1 :=
  have h := (combo_decomposition (enable_snd_device initial_device
    SND_DEVICE_OUT_SPEAKER_AND_HEADPHONES).2).2 (by decide) (by decide)
  ⟨by decide, by decide, h.1, h.2.1⟩

end AudioHw
namespace AudioHw

theorem enable_combo_ref_cnt (a : audio_device) (x : Int) :
    (enable_snd_device a SND_DEVICE_OUT_SPEAKER_AND_HEADPHONES).2.snd_dev_ref_cnt x =
      if x = SND_DEVICE_OUT_HEADPHONES then a.snd_dev_ref_cnt SND_DEVICE_OUT_HEADPHONES + 1
      else if x = SND_DEVICE_OUT_SPEAKER then a.snd_dev_ref_cnt SND_DEVICE_OUT_SPEAKER + 1
      else a.snd_dev_ref_cnt x := by
  have hhs : SND_DEVICE_OUT_HEADPHONES ≠ SND_DEVICE_OUT_SPEAKER := by decide
  rw [enable_snd_device_combo_eq]
  simp only [enable_snd_device_simple_ref_cnt _ _ _ get_snd_device_name_headphones,
    enable_snd_device_simple_ref_cnt _ _ _ get_snd_device_name_speaker, emit_ref_cnt, hhs,
    if_false]

/-- A simple enable of one half of the combo route on top of an enable of the
combo: the half then has count at least 2 and a disable of the half alone
returns success, makes no path applier call and leaves its count positive. -/
theorem shared_half (adev s : audio_device) (d : Int) (name : String)
    (hd : get_snd_device_name d = some name)
    (hdc : d ≠ SND_DEVICE_OUT_SPEAKER_AND_HEADPHONES)
    (hcombo : (enable_snd_device adev SND_DEVICE_OUT_SPEAKER_AND_HEADPHONES).2.snd_dev_ref_cnt d =
        adev.snd_dev_ref_cnt d + 1)
    (hs : s = (enable_snd_device
      (enable_snd_device adev SND_DEVICE_OUT_SPEAKER_AND_HEADPHONES).2 d).2)
    (hcnt : 0 ≤ adev.snd_dev_ref_cnt d) :
    s.snd_dev_ref_cnt d = adev.snd_dev_ref_cnt d + 2 ∧
    (∀ x, x ≠ d → s.snd_dev_ref_cnt x =
      (enable_snd_device adev SND_DEVICE_OUT_SPEAKER_AND_HEADPHONES).2.snd_dev_ref_cnt x) ∧
    (disable_snd_device s d).1 = 0 ∧
    path_calls (disable_snd_device s d).2.trace = path_calls s.trace ∧
    0 < (disable_snd_device s d).2.snd_dev_ref_cnt d := by
  have e1 : ∀ a, enable_snd_device a d = enable_snd_device_simple a d := by
    intro a; simp [enable_snd_device, hdc]
  have d1 : ∀ a, disable_snd_device a d = disable_snd_device_simple a d := by
    intro a; simp [disable_snd_device, hdc]
  have h2 : s.snd_dev_ref_cnt d = adev.snd_dev_ref_cnt d + 2 := by
    rw [hs, e1, enable_snd_device_simple_ref_cnt _ _ _ hd, if_pos rfl, hcombo]
    omega
  have h3 : ¬ s.snd_dev_ref_cnt d ≤ 0 := by omega
  have h4 : ¬ s.snd_dev_ref_cnt d = 1 := by omega
  have h5 : 0 < s.snd_dev_ref_cnt d := by omega
  refine ⟨h2, ?_, ?_, ?_, ?_⟩
  · intro x hx
    rw [hs, e1, enable_snd_device_simple_ref_cnt _ _ _ hd, if_neg hx]
  · rw [d1, disable_snd_device_simple_ret _ _ _ hd, if_neg h3]
  · rw [d1, disable_snd_device_simple_path_calls _ _ _ hd, if_neg h4, List.append_nil]
  · rw [d1, disable_snd_device_simple_ref_cnt _ _ _ hd, if_pos ⟨rfl, h5⟩]
    omega

/-- Path applier calls and counts of a disable of the combo route. -/
theorem disable_combo_path_calls (s : audio_device) :
    path_calls (disable_snd_device s SND_DEVICE_OUT_SPEAKER_AND_HEADPHONES).2.trace =
      path_calls s.trace ++
        ((if s.snd_dev_ref_cnt SND_DEVICE_OUT_SPEAKER = 1 then
            [Event.audio_route_reset_and_update_path "speaker"] else []) ++
         (if s.snd_dev_ref_cnt SND_DEVICE_OUT_HEADPHONES = 1 then
            [Event.audio_route_reset_and_update_path "headphones"] else [])) ∧
    (disable_snd_device s SND_DEVICE_OUT_SPEAKER_AND_HEADPHONES).2.snd_dev_ref_cnt
        SND_DEVICE_OUT_SPEAKER =
      (if 0 < s.snd_dev_ref_cnt SND_DEVICE_OUT_SPEAKER then
        s.snd_dev_ref_cnt SND_DEVICE_OUT_SPEAKER - 1
       else s.snd_dev_ref_cnt SND_DEVICE_OUT_SPEAKER) ∧
    (disable_snd_device s SND_DEVICE_OUT_SPEAKER_AND_HEADPHONES).2.snd_dev_ref_cnt
        SND_DEVICE_OUT_HEADPHONES =
      (if 0 < s.snd_dev_ref_cnt SND_DEVICE_OUT_HEADPHONES then
        s.snd_dev_ref_cnt SND_DEVICE_OUT_HEADPHONES - 1
       else s.snd_dev_ref_cnt SND_DEVICE_OUT_HEADPHONES) := by
  have hsh : SND_DEVICE_OUT_SPEAKER ≠ SND_DEVICE_OUT_HEADPHONES := by decide
  have hhs : SND_DEVICE_OUT_HEADPHONES ≠ SND_DEVICE_OUT_SPEAKER := by decide
  rw [disable_snd_device_combo_eq]
  simp only [disable_snd_device_simple_path_calls _ _ _ get_snd_device_name_headphones,
    disable_snd_device_simple_path_calls _ _ _ get_snd_device_name_speaker,
    disable_snd_device_simple_ref_cnt _ _ _ get_snd_device_name_headphones,
    disable_snd_device_simple_ref_cnt _ _ _ get_snd_device_name_speaker,
    emit_ref_cnt, emit_trace, path_calls_append, path_calls_cons, path_calls_nil, is_path_call,
    hsh, hhs, false_and, true_and, if_false, List.append_assoc]
  simp

/-- C7: in every state whose counts of speaker and headphones are not
negative, after enable(speaker-and-headphones) followed by enable(speaker) a
single disable(speaker) returns success, makes no path applier call (no
unapply) and leaves the speaker count positive; a disable of the combo at that
point unapplies headphones exactly when the headphones count reaches 0, and
unapplies nothing else, the speaker count staying positive. The same holds
with the roles of speaker and headphones exchanged. -/
theorem shared_combo_half (adev s_spk s_hp : audio_device)
    (hs_spk : s_spk = (enable_snd_device
      (enable_snd_device adev SND_DEVICE_OUT_SPEAKER_AND_HEADPHONES).2 SND_DEVICE_OUT_SPEAKER).2)
    (hs_hp : s_hp = (enable_snd_device
      (enable_snd_device adev SND_DEVICE_OUT_SPEAKER_AND_HEADPHONES).2
      SND_DEVICE_OUT_HEADPHONES).2)
    (hcs : 0 ≤ adev.snd_dev_ref_cnt SND_DEVICE_OUT_SPEAKER)
    (hch : 0 ≤ adev.snd_dev_ref_cnt SND_DEVICE_OUT_HEADPHONES) :
    ((disable_snd_device s_spk SND_DEVICE_OUT_SPEAKER).1 = 0 ∧
      path_calls (disable_snd_device s_spk SND_DEVICE_OUT_SPEAKER).2.trace =
        path_calls s_spk.trace ∧
      0 < (disable_snd_device s_spk SND_DEVICE_OUT_SPEAKER).2.snd_dev_ref_cnt
        SND_DEVICE_OUT_SPEAKER) ∧
    (path_calls (disable_snd_device s_spk SND_DEVICE_OUT_SPEAKER_AND_HEADPHONES).2.trace =
        path_calls s_spk.trace ++
          (if (disable_snd_device s_spk SND_DEVICE_OUT_SPEAKER_AND_HEADPHONES).2.snd_dev_ref_cnt
              SND_DEVICE_OUT_HEADPHONES = 0 then
            [Event.audio_route_reset_and_update_path "headphones"] else []) ∧
      0 < (disable_snd_device s_spk SND_DEVICE_OUT_SPEAKER_AND_HEADPHONES).2.snd_dev_ref_cnt
        SND_DEVICE_OUT_SPEAKER) ∧
    ((disable_snd_device s_hp SND_DEVICE_OUT_HEADPHONES).1 = 0 ∧
      path_calls (disable_snd_device s_hp SND_DEVICE_OUT_HEADPHONES).2.trace =
        path_calls s_hp.trace ∧
      0 < (disable_snd_device s_hp SND_DEVICE_OUT_HEADPHONES).2.snd_dev_ref_cnt
        SND_DEVICE_OUT_HEADPHONES) ∧
    (path_calls (disable_snd_device s_hp SND_DEVICE_OUT_SPEAKER_AND_HEADPHONES).2.trace =
        path_calls s_hp.trace ++
          (if (disable_snd_device s_hp SND_DEVICE_OUT_SPEAKER_AND_HEADPHONES).2.snd_dev_ref_cnt
              SND_DEVICE_OUT_SPEAKER = 0 then
            [Event.audio_route_reset_and_update_path "speaker"] else []) ∧
      0 < (disable_snd_device s_hp SND_DEVICE_OUT_SPEAKER_AND_HEADPHONES).2.snd_dev_ref_cnt
        SND_DEVICE_OUT_HEADPHONES) := by
  have hsh : SND_DEVICE_OUT_SPEAKER ≠ SND_DEVICE_OUT_HEADPHONES := by decide
  have hhs : SND_DEVICE_OUT_HEADPHONES ≠ SND_DEVICE_OUT_SPEAKER := by decide
  obtain ⟨a1, a2, a3, a4, a5⟩ := shared_half adev s_spk SND_DEVICE_OUT_SPEAKER "speaker"
    get_snd_device_name_speaker (by decide)
    (by rw [enable_combo_ref_cnt, if_neg hsh, if_pos rfl]) hs_spk hcs
  obtain ⟨b1, b2, b3, b4, b5⟩ := shared_half adev s_hp SND_DEVICE_OUT_HEADPHONES "headphones"
    get_snd_device_name_headphones (by decide)
    (by rw [enable_combo_ref_cnt, if_pos rfl]) hs_hp hch
  have a6 : s_spk.snd_dev_ref_cnt SND_DEVICE_OUT_HEADPHONES =
      adev.snd_dev_ref_cnt SND_DEVICE_OUT_HEADPHONES + 1 := by
    rw [a2 _ hhs, enable_combo_ref_cnt, if_pos rfl]
  have b6 : s_hp.snd_dev_ref_cnt SND_DEVICE_OUT_SPEAKER =
      adev.snd_dev_ref_cnt SND_DEVICE_OUT_SPEAKER + 1 := by
    rw [b2 _ hsh, enable_combo_ref_cnt, if_neg hsh, if_pos rfl]
  obtain ⟨c1, c2, c3⟩ := disable_combo_path_calls s_spk
  obtain ⟨e1, e2, e3⟩ := disable_combo_path_calls s_hp
  refine ⟨⟨a3, a4, a5⟩, ⟨?_, ?_⟩, ⟨b3, b4, b5⟩, ⟨?_, ?_⟩⟩
  · rw [c1, c3, a1, a6]
    have h1 : ¬ adev.snd_dev_ref_cnt SND_DEVICE_OUT_SPEAKER + 2 = 1 := by omega
    have h2 : 0 < adev.snd_dev_ref_cnt SND_DEVICE_OUT_HEADPHONES + 1 := by omega
    rw [if_neg h1, if_pos h2, List.nil_append]
    by_cases h3 : adev.snd_dev_ref_cnt SND_DEVICE_OUT_HEADPHONES = 0
    · simp [h3]
    · have h4 : ¬ adev.snd_dev_ref_cnt SND_DEVICE_OUT_HEADPHONES + 1 = 1 := by omega
      have h5 : ¬ adev.snd_dev_ref_cnt SND_DEVICE_OUT_HEADPHONES + 1 - 1 = 0 := by omega
      rw [if_neg h4, if_neg h5]
  · rw [c2, a1]
    have h2 : 0 < adev.snd_dev_ref_cnt SND_DEVICE_OUT_SPEAKER + 2 := by omega
    rw [if_pos h2]; omega
  · rw [e1, e2, b1, b6]
    have h1 : ¬ adev.snd_dev_ref_cnt SND_DEVICE_OUT_HEADPHONES + 2 = 1 := by omega
    have h2 : 0 < adev.snd_dev_ref_cnt SND_DEVICE_OUT_SPEAKER + 1 := by omega
    rw [if_neg h1, if_pos h2, List.append_nil]
    by_cases h3 : adev.snd_dev_ref_cnt SND_DEVICE_OUT_SPEAKER = 0
    · simp [h3]
    · have h4 : ¬ adev.snd_dev_ref_cnt SND_DEVICE_OUT_SPEAKER + 1 = 1 := by omega
      have h5 : ¬ adev.snd_dev_ref_cnt SND_DEVICE_OUT_SPEAKER + 1 - 1 = 0 := by omega
      rw [if_neg h4, if_neg h5]
  · rw [e3, b1]
    have h2 : 0 < adev.snd_dev_ref_cnt SND_DEVICE_OUT_HEADPHONES + 2 := by omega
    rw [if_pos h2]; omega

/-- Witness of C7: the sequence from the initial state. -/
theorem shared_combo_half_witness :
    0 ≤ initial_device.snd_dev_ref_cnt SND_DEVICE_OUT_SPEAKER ∧
    0 ≤ initial_device.snd_dev_ref_cnt SND_DEVICE_OUT_HEADPHONES ∧
    (disable_snd_device
      (enable_snd_device (enable_snd_device initial_device
        SND_DEVICE_OUT_SPEAKER_AND_HEADPHONES).2 SND_DEVICE_OUT_SPEAKER).2
      SND_DEVICE_OUT_SPEAKER).1 = 0 ∧
    path_calls (disable_snd_device
      (enable_snd_device (enable_snd_device initial_device
        SND_DEVICE_OUT_SPEAKER_AND_HEADPHONES).2 SND_DEVICE_OUT_SPEAKER).2
      SND_DEVICE_OUT_SPEAKER).2.trace =
      path_calls (enable_snd_device (enable_snd_device initial_device
        SND_DEVICE_OUT_SPEAKER_AND_HEADPHONES).2 SND_DEVICE_OUT_SPEAKER).2.trace :=
  have h := shared_combo_half initial_device _ _ rfl rfl (by decide) (by decide)
  ⟨by decide, by decide, h.1.1, h.1.2.1⟩

end AudioHw
namespace AudioHw

/-- C8 on the code: `enable_snd_device` passes the stored shutdown time as
`time1` and the activation time as `time0` to `time_spec_diff`, which computes
`time1 - time0`. A route shut down at 5 s and enabled again 5 ms later, with
5 ms of the 10 ms window left, sleeps 15000 microseconds before the path is
applied, more than the whole window; a route shut down at 4.999999 s and
enabled again 2 microseconds later, across a change of second, does not sleep
at all. -/
theorem enable_snd_device_debounce_sleep :
    (enable_snd_device debounce_inside_device SND_DEVICE_OUT_SPEAKER).2.trace =
      [Event.enable_snd_device SND_DEVICE_OUT_SPEAKER, Event.usleep 15000,
       Event.audio_route_apply_and_update_path "speaker"] ∧
    DAPM_SHUTDOWN_TIME < 15000 ∧
    time_spec_diff (debounce_inside_device.clock 0) debounce_inside_device.mixer_shutdown_time =
      { tv_sec := 0, tv_nsec := 5000000 } ∧
    (enable_snd_device debounce_boundary_device SND_DEVICE_OUT_SPEAKER).2.trace =
      [Event.enable_snd_device SND_DEVICE_OUT_SPEAKER,
       Event.audio_route_apply_and_update_path "speaker"] := by
  decide

/-- C9: for every output device mask with exactly one bit set and no input
tag, and every mode other than in-call, `get_output_snd_device` returns the
direct mapping headphone or headset to headphones, speaker to speaker,
earpiece to handset (earpiece), any SCO bit to bt-sco, any other bit to NONE;
the result is the same in every state whose mode is not in-call, whatever its
wideband flag. -/
theorem get_output_snd_device_single_bit (adev : audio_device) (devices : Nat)
    (hlt : devices < 2 ^ 32) (hpop : popcount devices = 1)
    (hin : devices &&& AUDIO_DEVICE_BIT_IN = 0) (hmode : adev.mode ≠ AUDIO_MODE_IN_CALL) :
    get_output_snd_device adev devices =
      (if devices = AUDIO_DEVICE_OUT_WIRED_HEADPHONE ∨
          devices = AUDIO_DEVICE_OUT_WIRED_HEADSET then SND_DEVICE_OUT_HEADPHONES
       else if devices = AUDIO_DEVICE_OUT_SPEAKER then SND_DEVICE_OUT_SPEAKER
       else if devices = AUDIO_DEVICE_OUT_EARPIECE then SND_DEVICE_OUT_HANDSET
       else if devices = AUDIO_DEVICE_OUT_BLUETOOTH_SCO ∨
          devices = AUDIO_DEVICE_OUT_BLUETOOTH_SCO_HEADSET ∨
          devices = AUDIO_DEVICE_OUT_BLUETOOTH_SCO_CARKIT then SND_DEVICE_OUT_BT_SCO
       else SND_DEVICE_NONE) ∧
    SND_DEVICE_OUT_HANDSET = SND_DEVICE_OUT_EARPIECE ∧
    ∀ adev1 : audio_device, adev1.mode ≠ AUDIO_MODE_IN_CALL →
      get_output_snd_device adev1 devices = get_output_snd_device adev devices := by
  have h2 : ¬ popcount devices = 2 := by omega
  have key : ∀ a : audio_device, a.mode ≠ AUDIO_MODE_IN_CALL →
      get_output_snd_device a devices =
      (if devices = AUDIO_DEVICE_OUT_WIRED_HEADPHONE ∨
          devices = AUDIO_DEVICE_OUT_WIRED_HEADSET then SND_DEVICE_OUT_HEADPHONES
       else if devices = AUDIO_DEVICE_OUT_SPEAKER then SND_DEVICE_OUT_SPEAKER
       else if devices = AUDIO_DEVICE_OUT_EARPIECE then SND_DEVICE_OUT_HANDSET
       else if devices = AUDIO_DEVICE_OUT_BLUETOOTH_SCO ∨
          devices = AUDIO_DEVICE_OUT_BLUETOOTH_SCO_HEADSET ∨
          devices = AUDIO_DEVICE_OUT_BLUETOOTH_SCO_CARKIT then SND_DEVICE_OUT_BT_SCO
       else SND_DEVICE_NONE) := by
    intro a ha
    unfold get_output_snd_device
    simp only [ha, hpop, h2, hin, if_false, ne_eq, not_true_eq_false, or_false, if_true]
    obtain ⟨k, hk, rfl⟩ := popcount_bits_eq_one 32 devices hlt hpop
    clear hpop h2 hlt hin
    interval_cases k <;> decide
  refine ⟨key adev hmode, rfl, ?_⟩
  intro adev1 h1
  rw [key adev1 h1, key adev hmode]

/-- Witness of C9: the earpiece bit in normal mode. -/
theorem get_output_snd_device_single_bit_witness :
    AUDIO_DEVICE_OUT_EARPIECE < 4294967296 ∧ popcount AUDIO_DEVICE_OUT_EARPIECE = 1 ∧
    initial_device.mode ≠ AUDIO_MODE_IN_CALL ∧
    get_output_snd_device initial_device AUDIO_DEVICE_OUT_EARPIECE = SND_DEVICE_OUT_EARPIECE :=
  ⟨by decide, by decide, by decide,
    (get_output_snd_device_single_bit initial_device AUDIO_DEVICE_OUT_EARPIECE (by decide)
      (by decide) (by decide) (by decide)).1⟩

/-- Amended C10: when the mode is not in-call, or the mask holds none of the
headphone, headset, speaker, earpiece and SCO bits, then for every output
device mask with exactly two bits set `get_output_snd_device` returns the
combo route speaker-and-headphones when the mask is {headphone, speaker} or
{headset, speaker}, and NONE for every other two-bit mask. -/
theorem get_output_snd_device_two_bits (adev : audio_device) (devices : Nat)
    (hpop : popcount devices = 2)
    (hmode : adev.mode = AUDIO_MODE_IN_CALL →
      devices &&& AUDIO_DEVICE_OUT_WIRED_HEADPHONE = 0 ∧
      devices &&& AUDIO_DEVICE_OUT_WIRED_HEADSET = 0 ∧
      devices &&& AUDIO_DEVICE_OUT_SPEAKER = 0 ∧
      devices &&& AUDIO_DEVICE_OUT_EARPIECE = 0 ∧
      devices &&& AUDIO_DEVICE_OUT_ALL_SCO = 0) :
    get_output_snd_device adev devices =
      if devices = AUDIO_DEVICE_OUT_WIRED_HEADPHONE ||| AUDIO_DEVICE_OUT_SPEAKER ∨
          devices = AUDIO_DEVICE_OUT_WIRED_HEADSET ||| AUDIO_DEVICE_OUT_SPEAKER then
        SND_DEVICE_OUT_SPEAKER_AND_HEADPHONES
      else SND_DEVICE_NONE := by
  have hnone : (if adev.mode = AUDIO_MODE_IN_CALL then
        if devices &&& AUDIO_DEVICE_OUT_WIRED_HEADPHONE ≠ 0 ∨
            devices &&& AUDIO_DEVICE_OUT_WIRED_HEADSET ≠ 0 then
          if adev.voice_wb_amr then SND_DEVICE_OUT_VOICE_HEADPHONES_WB
          else SND_DEVICE_OUT_VOICE_HEADPHONES
        else if devices &&& AUDIO_DEVICE_OUT_SPEAKER ≠ 0 then
          if adev.voice_wb_amr then SND_DEVICE_OUT_VOICE_SPEAKER_WB
          else SND_DEVICE_OUT_VOICE_SPEAKER
        else if devices &&& AUDIO_DEVICE_OUT_EARPIECE ≠ 0 then
          if adev.voice_wb_amr then SND_DEVICE_OUT_VOICE_EARPIECE_WB
          else SND_DEVICE_OUT_VOICE_EARPIECE
        else if devices &&& AUDIO_DEVICE_OUT_ALL_SCO ≠ 0 then
          SND_DEVICE_OUT_BT_SCO
        else SND_DEVICE_NONE
      else SND_DEVICE_NONE) = SND_DEVICE_NONE := by
    by_cases hm : adev.mode = AUDIO_MODE_IN_CALL
    · obtain ⟨h1, h2, h3, h4, h5⟩ := hmode hm
      simp [hm, h1, h2, h3, h4, h5]
    · simp [hm]
  unfold get_output_snd_device
  simp only [hnone, hpop, ne_eq, not_true_eq_false, if_false, if_true]
  by_cases h1 : devices = AUDIO_DEVICE_OUT_WIRED_HEADPHONE ||| AUDIO_DEVICE_OUT_SPEAKER
  · subst h1; decide
  · by_cases h2 : devices = AUDIO_DEVICE_OUT_WIRED_HEADSET ||| AUDIO_DEVICE_OUT_SPEAKER
    · subst h2; decide
    · simp only [h1, h2, if_false, or_self]
      split_ifs <;> rfl

/-- Witness of the amended C10: the mask {headset, speaker} in normal mode. -/
theorem get_output_snd_device_two_bits_witness :
    popcount (AUDIO_DEVICE_OUT_WIRED_HEADSET ||| AUDIO_DEVICE_OUT_SPEAKER) = 2 ∧
    get_output_snd_device initial_device
        (AUDIO_DEVICE_OUT_WIRED_HEADSET ||| AUDIO_DEVICE_OUT_SPEAKER) =
      SND_DEVICE_OUT_SPEAKER_AND_HEADPHONES :=
  ⟨by decide,
    get_output_snd_device_two_bits initial_device
      (AUDIO_DEVICE_OUT_WIRED_HEADSET ||| AUDIO_DEVICE_OUT_SPEAKER) (by decide)
      (fun h => absurd h (by decide))⟩

/-- Counterexample to C10 as stated: in mode in-call the two-bit mask
{headphone, speaker} resolves to the voice headphones route, not to the combo
route speaker-and-headphones. -/
theorem in_call_two_bits_resolve_voice_route :
    popcount (AUDIO_DEVICE_OUT_WIRED_HEADPHONE ||| AUDIO_DEVICE_OUT_SPEAKER) = 2 ∧
    get_output_snd_device in_call_device
        (AUDIO_DEVICE_OUT_WIRED_HEADPHONE ||| AUDIO_DEVICE_OUT_SPEAKER) =
      SND_DEVICE_OUT_VOICE_HEADPHONES ∧
    SND_DEVICE_OUT_VOICE_HEADPHONES ≠ SND_DEVICE_OUT_SPEAKER_AND_HEADPHONES := by
  decide

/-- C11: in mode in-call, for every non-empty output mask without the input
tag, `get_output_snd_device` returns the first match of: headphone or headset
to voice-headphones, else speaker to voice-speaker, else earpiece to
voice-earpiece, else any SCO bit to bt-sco; for the first three the wideband
route is returned exactly when the wideband flag is set. No hypothesis is made
on the number of bits of the mask. -/
theorem get_output_snd_device_in_call (adev : audio_device) (devices : Nat)
    (hmode : adev.mode = AUDIO_MODE_IN_CALL) (hne : devices ≠ AUDIO_DEVICE_NONE)
    (hin : devices &&& AUDIO_DEVICE_BIT_IN = 0) :
    (devices &&& AUDIO_DEVICE_OUT_WIRED_HEADPHONE ≠ 0 ∨
        devices &&& AUDIO_DEVICE_OUT_WIRED_HEADSET ≠ 0 →
      get_output_snd_device adev devices =
        if adev.voice_wb_amr = true then SND_DEVICE_OUT_VOICE_HEADPHONES_WB
        else SND_DEVICE_OUT_VOICE_HEADPHONES) ∧
    (devices &&& AUDIO_DEVICE_OUT_WIRED_HEADPHONE = 0 →
      devices &&& AUDIO_DEVICE_OUT_WIRED_HEADSET = 0 →
      devices &&& AUDIO_DEVICE_OUT_SPEAKER ≠ 0 →
      get_output_snd_device adev devices =
        if adev.voice_wb_amr = true then SND_DEVICE_OUT_VOICE_SPEAKER_WB
        else SND_DEVICE_OUT_VOICE_SPEAKER) ∧
    (devices &&& AUDIO_DEVICE_OUT_WIRED_HEADPHONE = 0 →
      devices &&& AUDIO_DEVICE_OUT_WIRED_HEADSET = 0 →
      devices &&& AUDIO_DEVICE_OUT_SPEAKER = 0 →
      devices &&& AUDIO_DEVICE_OUT_EARPIECE ≠ 0 →
      get_output_snd_device adev devices =
        if adev.voice_wb_amr = true then SND_DEVICE_OUT_VOICE_EARPIECE_WB
        else SND_DEVICE_OUT_VOICE_EARPIECE) ∧
    (devices &&& AUDIO_DEVICE_OUT_WIRED_HEADPHONE = 0 →
      devices &&& AUDIO_DEVICE_OUT_WIRED_HEADSET = 0 →
      devices &&& AUDIO_DEVICE_OUT_SPEAKER = 0 →
      devices &&& AUDIO_DEVICE_OUT_EARPIECE = 0 →
      devices &&& AUDIO_DEVICE_OUT_ALL_SCO ≠ 0 →
      get_output_snd_device adev devices = SND_DEVICE_OUT_BT_SCO) ∧
    SND_DEVICE_OUT_VOICE_HEADPHONES_WB ≠ SND_DEVICE_OUT_VOICE_HEADPHONES ∧
    SND_DEVICE_OUT_VOICE_SPEAKER_WB ≠ SND_DEVICE_OUT_VOICE_SPEAKER ∧
    SND_DEVICE_OUT_VOICE_EARPIECE_WB ≠ SND_DEVICE_OUT_VOICE_EARPIECE := by
  have hne0 : ¬ (devices = AUDIO_DEVICE_NONE ∨ devices &&& AUDIO_DEVICE_BIT_IN ≠ 0) := by
    intro h
    rcases h with h | h
    · exact hne h
    · exact h hin
  refine ⟨?_, ?_, ?_, ?_, by decide, by decide, by decide⟩
  · intro h
    unfold get_output_snd_device
    simp only [hne0, hmode, h, if_true, if_false]
    cases adev.voice_wb_amr <;>
      simp only [Bool.false_eq_true, if_true, if_false, not_false_eq_true] <;>
      exact if_pos (by decide)
  · intro h1 h2 h3
    unfold get_output_snd_device
    simp only [hne0, hmode, h1, h2, h3, if_true, if_false, ne_eq, not_true_eq_false, not_false_eq_true, or_self]
    cases adev.voice_wb_amr <;>
      simp only [Bool.false_eq_true, if_true, if_false, not_false_eq_true] <;>
      exact if_pos (by decide)
  · intro h1 h2 h3 h4
    unfold get_output_snd_device
    simp only [hne0, hmode, h1, h2, h3, h4, if_true, if_false, ne_eq, not_true_eq_false, not_false_eq_true,
      or_self]
    cases adev.voice_wb_amr <;>
      simp only [Bool.false_eq_true, if_true, if_false, not_false_eq_true] <;>
      exact if_pos (by decide)
  · intro h1 h2 h3 h4 h5
    unfold get_output_snd_device
    simp only [hne0, hmode, h1, h2, h3, h4, h5, if_true, if_false, ne_eq, not_true_eq_false, not_false_eq_true,
      or_self]
    exact if_pos (by decide)

/-- Witness of C11: the three-bit mask {speaker, headset, earpiece} during a
narrowband call resolves to voice-headphones. -/
theorem get_output_snd_device_in_call_witness :
    in_call_device.mode = AUDIO_MODE_IN_CALL ∧
    get_output_snd_device in_call_device
        (AUDIO_DEVICE_OUT_SPEAKER ||| AUDIO_DEVICE_OUT_WIRED_HEADSET |||
          AUDIO_DEVICE_OUT_EARPIECE) =
      SND_DEVICE_OUT_VOICE_HEADPHONES :=
  ⟨by decide,
    (get_output_snd_device_in_call in_call_device
      (AUDIO_DEVICE_OUT_SPEAKER ||| AUDIO_DEVICE_OUT_WIRED_HEADSET |||
        AUDIO_DEVICE_OUT_EARPIECE) (by decide) (by decide) (by decide)).1 (by decide)⟩

/-! ## Input resolver -/

theorem and_ne_zero_ne_none (x m : Nat) (h : x &&& m ≠ 0) : x ≠ AUDIO_DEVICE_NONE := by
  intro h0
  apply h
  rw [h0]
  exact Nat.zero_and m

/-- Amended C12: in mode in-call, for every output device mask that contains
the earpiece, headphone, headset or speaker bit or an SCO bit,
`get_input_snd_device` returns, in this order of priority, earpiece-mic for
earpiece or headphone, else voice-headset-mic for headset, else
voice-speaker-mic for speaker, else bt-sco-mic; the result is the same in
every in-call state, whatever the active input is. -/
theorem get_input_snd_device_in_call (adev : audio_device) (out_device : Nat)
    (hmode : adev.mode = AUDIO_MODE_IN_CALL)
    (hmatch : out_device &&& AUDIO_DEVICE_OUT_EARPIECE ≠ 0 ∨
      out_device &&& AUDIO_DEVICE_OUT_WIRED_HEADPHONE ≠ 0 ∨
      out_device &&& AUDIO_DEVICE_OUT_WIRED_HEADSET ≠ 0 ∨
      out_device &&& AUDIO_DEVICE_OUT_SPEAKER ≠ 0 ∨
      out_device &&& AUDIO_DEVICE_OUT_ALL_SCO ≠ 0) :
    get_input_snd_device adev out_device =
      (if out_device &&& AUDIO_DEVICE_OUT_EARPIECE ≠ 0 ∨
          out_device &&& AUDIO_DEVICE_OUT_WIRED_HEADPHONE ≠ 0 then SND_DEVICE_IN_EARPIECE_MIC
       else if out_device &&& AUDIO_DEVICE_OUT_WIRED_HEADSET ≠ 0 then
         SND_DEVICE_IN_VOICE_HEADSET_MIC
       else if out_device &&& AUDIO_DEVICE_OUT_SPEAKER ≠ 0 then SND_DEVICE_IN_VOICE_SPEAKER_MIC
       else SND_DEVICE_IN_BT_SCO_MIC) ∧
    ∀ adev1 : audio_device, adev1.mode = AUDIO_MODE_IN_CALL →
      get_input_snd_device adev1 out_device = get_input_snd_device adev out_device := by
  have hne : out_device ≠ AUDIO_DEVICE_NONE := by
    rcases hmatch with h | h | h | h | h <;> exact and_ne_zero_ne_none _ _ h
  have key : ∀ a : audio_device, a.mode = AUDIO_MODE_IN_CALL →
      get_input_snd_device a out_device =
      (if out_device &&& AUDIO_DEVICE_OUT_EARPIECE ≠ 0 ∨
          out_device &&& AUDIO_DEVICE_OUT_WIRED_HEADPHONE ≠ 0 then SND_DEVICE_IN_EARPIECE_MIC
       else if out_device &&& AUDIO_DEVICE_OUT_WIRED_HEADSET ≠ 0 then
         SND_DEVICE_IN_VOICE_HEADSET_MIC
       else if out_device &&& AUDIO_DEVICE_OUT_SPEAKER ≠ 0 then SND_DEVICE_IN_VOICE_SPEAKER_MIC
       else SND_DEVICE_IN_BT_SCO_MIC) := by
    intro a ha
    unfold get_input_snd_device
    simp only [ha, hne, if_true, if_false]
    by_cases h1 : out_device &&& AUDIO_DEVICE_OUT_EARPIECE ≠ 0 ∨
        out_device &&& AUDIO_DEVICE_OUT_WIRED_HEADPHONE ≠ 0
    · simp only [if_pos h1]
      rfl
    · simp only [if_neg h1]
      by_cases h2 : out_device &&& AUDIO_DEVICE_OUT_WIRED_HEADSET ≠ 0
      · simp only [if_pos h2]
        rfl
      · simp only [if_neg h2]
        by_cases h3 : out_device &&& AUDIO_DEVICE_OUT_SPEAKER ≠ 0
        · simp only [if_pos h3]
          rfl
        · simp only [if_neg h3]
          have h4 : out_device &&& AUDIO_DEVICE_OUT_ALL_SCO ≠ 0 := by
            rcases hmatch with h | h | h | h | h
            · exact absurd (Or.inl h) h1
            · exact absurd (Or.inr h) h1
            · exact absurd h h2
            · exact absurd h h3
            · exact h
          simp only [if_pos h4]
          rfl
  refine ⟨key adev hmode, ?_⟩
  intro adev1 h1
  rw [key adev1 h1, key adev hmode]

/-- Witness of the amended C12: the mask {speaker, headset} during a call, with
a capture stream on the back microphone as the active input. -/
theorem get_input_snd_device_in_call_witness :
    (capture_device AUDIO_MODE_IN_CALL back_mic_stream).mode = AUDIO_MODE_IN_CALL ∧
    get_input_snd_device (capture_device AUDIO_MODE_IN_CALL back_mic_stream)
        (AUDIO_DEVICE_OUT_SPEAKER ||| AUDIO_DEVICE_OUT_WIRED_HEADSET) =
      SND_DEVICE_IN_VOICE_HEADSET_MIC :=
  ⟨by decide,
    (get_input_snd_device_in_call (capture_device AUDIO_MODE_IN_CALL back_mic_stream)
      (AUDIO_DEVICE_OUT_SPEAKER ||| AUDIO_DEVICE_OUT_WIRED_HEADSET) (by decide)
      (by decide)).1⟩

/-- Counterexample to C12 as stated: in mode in-call, for the non-empty output
mask {aux digital}, the result depends on the device mask of the active input:
earpiece-mic when it is the built-in microphone, speaker-mic when it is the
back microphone. -/
theorem in_call_input_depends_on_active_input :
    (capture_device AUDIO_MODE_IN_CALL voice_comm_stream).mode = AUDIO_MODE_IN_CALL ∧
    (capture_device AUDIO_MODE_IN_CALL back_mic_stream).mode = AUDIO_MODE_IN_CALL ∧
    AUDIO_DEVICE_OUT_AUX_DIGITAL ≠ AUDIO_DEVICE_NONE ∧
    get_input_snd_device (capture_device AUDIO_MODE_IN_CALL voice_comm_stream)
      AUDIO_DEVICE_OUT_AUX_DIGITAL = SND_DEVICE_IN_EARPIECE_MIC ∧
    get_input_snd_device (capture_device AUDIO_MODE_IN_CALL back_mic_stream)
      AUDIO_DEVICE_OUT_AUX_DIGITAL = SND_DEVICE_IN_SPEAKER_MIC ∧
    SND_DEVICE_IN_EARPIECE_MIC ≠ SND_DEVICE_IN_SPEAKER_MIC := by
  decide

theorem and_all_sco_zero (x : Nat) (h : x &&& AUDIO_DEVICE_OUT_ALL_SCO = 0) :
    x &&& AUDIO_DEVICE_OUT_BLUETOOTH_SCO_HEADSET = 0 := by
  have h1 : AUDIO_DEVICE_OUT_BLUETOOTH_SCO_HEADSET =
      AUDIO_DEVICE_OUT_ALL_SCO &&& AUDIO_DEVICE_OUT_BLUETOOTH_SCO_HEADSET := by decide
  rw [h1, ← Nat.and_assoc, h]
  exact Nat.zero_and _

/-- Amended C13: in mode in-call, `get_input_snd_device` returns NONE for the
empty output device mask, whatever the active input is. For a non-empty mask
that contains none of the earpiece, headphone, headset, speaker and SCO bits
it does not return NONE: it returns an input route of the fallback mapping,
which is handset-mic when there is no active input or the device mask of the
active input is empty. -/
theorem in_call_unmatched_input_route (adev : audio_device)
    (hmode : adev.mode = AUDIO_MODE_IN_CALL) :
    get_input_snd_device adev AUDIO_DEVICE_NONE = SND_DEVICE_NONE ∧
    ∀ out_device : Nat, out_device ≠ AUDIO_DEVICE_NONE →
      out_device &&& AUDIO_DEVICE_OUT_EARPIECE = 0 →
      out_device &&& AUDIO_DEVICE_OUT_WIRED_HEADPHONE = 0 →
      out_device &&& AUDIO_DEVICE_OUT_WIRED_HEADSET = 0 →
      out_device &&& AUDIO_DEVICE_OUT_SPEAKER = 0 →
      out_device &&& AUDIO_DEVICE_OUT_ALL_SCO = 0 →
      get_input_snd_device adev out_device ≠ SND_DEVICE_NONE ∧
      SND_DEVICE_IN_BEGIN ≤ get_input_snd_device adev out_device ∧
      get_input_snd_device adev out_device < SND_DEVICE_IN_END ∧
      ((match active_input adev with
          | none => AUDIO_DEVICE_NONE
          | some inp => inp.devices) &&& 0x7FFFFFFF = 0 →
        get_input_snd_device adev out_device = SND_DEVICE_IN_HANDSET_MIC) := by
  constructor
  · unfold get_input_snd_device
    simp only [hmode, if_true]
  · intro out_device hne h1 h2 h3 h4 h5
    have h6 := and_all_sco_zero out_device h5
    unfold get_input_snd_device active_input
    simp only [hmode, hne, h1, h2, h3, h4, h5, h6, if_true, if_false, ne_eq, not_true_eq_false,
      or_self]
    generalize (match Option.map (fun usecase => adev.streams usecase.stream)
        (get_usecase_from_type adev (PCM_CAPTURE ||| VOICE_CALL)) with
      | none => AUDIO_DEVICE_NONE
      | some inp => inp.devices) &&& 2147483647 = in_device
    refine ⟨?_, ?_, ?_, ?_⟩
    · split_ifs <;> decide
    · split_ifs <;> decide
    · split_ifs <;> decide
    · intro h0
      subst h0
      decide

/-- Witness of the amended C13: the mask {aux digital} during a call without
an active input resolves to handset-mic. -/
theorem in_call_unmatched_input_route_witness :
    in_call_device.mode = AUDIO_MODE_IN_CALL ∧
    get_input_snd_device in_call_device AUDIO_DEVICE_NONE = SND_DEVICE_NONE ∧
    get_input_snd_device in_call_device AUDIO_DEVICE_OUT_AUX_DIGITAL =
      SND_DEVICE_IN_HANDSET_MIC :=
  ⟨by decide,
    (in_call_unmatched_input_route in_call_device (by decide)).1,
    ((in_call_unmatched_input_route in_call_device (by decide)).2
      AUDIO_DEVICE_OUT_AUX_DIGITAL (by decide) (by decide) (by decide) (by decide) (by decide)
      (by decide)).2.2.2 (by decide)⟩

/-- Counterexample to C13 as stated: in mode in-call the output mask
{aux digital} contains none of the earpiece, headphone, headset, speaker and
SCO bits, and `get_input_snd_device` returns handset-mic, not NONE. -/
theorem in_call_unmatched_output_falls_back :
    in_call_device.mode = AUDIO_MODE_IN_CALL ∧
    AUDIO_DEVICE_OUT_AUX_DIGITAL &&& AUDIO_DEVICE_OUT_EARPIECE = 0 ∧
    AUDIO_DEVICE_OUT_AUX_DIGITAL &&& AUDIO_DEVICE_OUT_WIRED_HEADPHONE = 0 ∧
    AUDIO_DEVICE_OUT_AUX_DIGITAL &&& AUDIO_DEVICE_OUT_WIRED_HEADSET = 0 ∧
    AUDIO_DEVICE_OUT_AUX_DIGITAL &&& AUDIO_DEVICE_OUT_SPEAKER = 0 ∧
    AUDIO_DEVICE_OUT_AUX_DIGITAL &&& AUDIO_DEVICE_OUT_ALL_SCO = 0 ∧
    get_input_snd_device in_call_device AUDIO_DEVICE_OUT_AUX_DIGITAL =
      SND_DEVICE_IN_EARPIECE_MIC ∧
    SND_DEVICE_IN_EARPIECE_MIC ≠ SND_DEVICE_NONE := by
  decide

/-- C14 on the code: in normal mode with a voice communication capture stream
as the active input, the echo rule assigns `AUDIO_DEVICE_IN_BACK_MIC`, a value
that carries the input tag bit, to `in_device`; the test
`in_device & AUDIO_DEVICE_IN_VOICE_CALL` is then non zero and the route is
mapped from the output mask: speaker-mic for {speaker}, but headset-mic for
{speaker, headset} and earpiece-mic for {speaker, earpiece}. -/
theorem echo_rule_speaker_with_other_bits :
    (capture_device AUDIO_MODE_NORMAL voice_comm_stream).mode ≠ AUDIO_MODE_IN_CALL ∧
    (active_input (capture_device AUDIO_MODE_NORMAL voice_comm_stream)).map
      (fun inp => inp.source) = some AUDIO_SOURCE_VOICE_COMMUNICATION ∧
    AUDIO_DEVICE_IN_BACK_MIC &&& AUDIO_DEVICE_IN_VOICE_CALL ≠ 0 ∧
    get_input_snd_device (capture_device AUDIO_MODE_NORMAL voice_comm_stream)
      AUDIO_DEVICE_OUT_SPEAKER = SND_DEVICE_IN_SPEAKER_MIC ∧
    get_input_snd_device (capture_device AUDIO_MODE_NORMAL voice_comm_stream)
      (AUDIO_DEVICE_OUT_SPEAKER ||| AUDIO_DEVICE_OUT_WIRED_HEADSET) =
        SND_DEVICE_IN_HEADSET_MIC ∧
    get_input_snd_device (capture_device AUDIO_MODE_NORMAL voice_comm_stream)
      (AUDIO_DEVICE_OUT_SPEAKER ||| AUDIO_DEVICE_OUT_EARPIECE) =
        SND_DEVICE_IN_EARPIECE_MIC ∧
    SND_DEVICE_IN_HEADSET_MIC ≠ SND_DEVICE_IN_SPEAKER_MIC ∧
    SND_DEVICE_IN_EARPIECE_MIC ≠ SND_DEVICE_IN_SPEAKER_MIC := by
  decide

theorem input_route_no_input (adev : audio_device) (out_device : Nat)
    (hmode : adev.mode ≠ AUDIO_MODE_IN_CALL) (hai : active_input adev = none) :
    get_input_snd_device adev out_device = SND_DEVICE_NONE := by
  have hai1 : Option.map (fun usecase => adev.streams usecase.stream)
      (get_usecase_from_type adev (PCM_CAPTURE ||| VOICE_CALL)) = none := hai
  have h1 : AUDIO_SOURCE_DEFAULT ≠ AUDIO_SOURCE_CAMCORDER := by decide
  have h2 : ¬ (AUDIO_SOURCE_DEFAULT = AUDIO_SOURCE_VOICE_COMMUNICATION ∨
      AUDIO_SOURCE_DEFAULT = AUDIO_SOURCE_MIC) := by decide
  unfold get_input_snd_device
  simp only [hmode, hai1, h1, h2, if_false, if_true]

theorem input_route_default_source (adev : audio_device) (out_device : Nat)
    (inp : audio_stream) (hmode : adev.mode ≠ AUDIO_MODE_IN_CALL)
    (hai : active_input adev = some inp) (hsrc : inp.source = AUDIO_SOURCE_DEFAULT) :
    get_input_snd_device adev out_device = SND_DEVICE_NONE := by
  have hai1 : Option.map (fun usecase => adev.streams usecase.stream)
      (get_usecase_from_type adev (PCM_CAPTURE ||| VOICE_CALL)) = some inp := hai
  have h1 : AUDIO_SOURCE_DEFAULT ≠ AUDIO_SOURCE_CAMCORDER := by decide
  have h2 : ¬ (AUDIO_SOURCE_DEFAULT = AUDIO_SOURCE_VOICE_COMMUNICATION ∨
      AUDIO_SOURCE_DEFAULT = AUDIO_SOURCE_MIC) := by decide
  unfold get_input_snd_device
  simp only [hmode, hai1, hsrc, h1, h2, if_false, if_true]

theorem input_route_other_source (adev : audio_device) (out_device : Nat)
    (inp : audio_stream) (hmode : adev.mode ≠ AUDIO_MODE_IN_CALL)
    (hai : active_input adev = some inp) (hsrc : inp.source ≠ AUDIO_SOURCE_DEFAULT) :
    SND_DEVICE_IN_BEGIN ≤ get_input_snd_device adev out_device ∧
    get_input_snd_device adev out_device < SND_DEVICE_IN_END ∧
    ((inp.devices &&& 0x7FFFFFFF) &&& AUDIO_DEVICE_IN_BUILTIN_MIC = 0 →
      (inp.devices &&& 0x7FFFFFFF) &&& AUDIO_DEVICE_IN_BACK_MIC = 0 →
      (inp.devices &&& 0x7FFFFFFF) &&& AUDIO_DEVICE_IN_WIRED_HEADSET = 0 →
      (inp.devices &&& 0x7FFFFFFF) &&& AUDIO_DEVICE_IN_BLUETOOTH_SCO_HEADSET = 0 →
      (inp.devices &&& 0x7FFFFFFF) &&& AUDIO_DEVICE_IN_AUX_DIGITAL = 0 →
      out_device &&& AUDIO_DEVICE_OUT_EARPIECE = 0 →
      out_device &&& AUDIO_DEVICE_OUT_WIRED_HEADSET = 0 →
      out_device &&& AUDIO_DEVICE_OUT_SPEAKER = 0 →
      out_device &&& AUDIO_DEVICE_OUT_WIRED_HEADPHONE = 0 →
      out_device &&& AUDIO_DEVICE_OUT_BLUETOOTH_SCO_HEADSET = 0 →
      get_input_snd_device adev out_device = SND_DEVICE_IN_HANDSET_MIC) := by
  have hai1 : Option.map (fun usecase => adev.streams usecase.stream)
      (get_usecase_from_type adev (PCM_CAPTURE ||| VOICE_CALL)) = some inp := hai
  unfold get_input_snd_device
  simp only [hmode, hai1, hsrc, if_false]
  generalize inp.devices &&& 2147483647 = in_device
  have hcam : SND_DEVICE_IN_CAMCORDER_MIC ≠ SND_DEVICE_NONE := by decide
  have tail : ∀ P : Int → Prop, P SND_DEVICE_IN_EARPIECE_MIC → P SND_DEVICE_IN_SPEAKER_MIC →
      P SND_DEVICE_IN_HEADSET_MIC → P SND_DEVICE_IN_BT_SCO_MIC → P SND_DEVICE_IN_HDMI_MIC →
      P SND_DEVICE_IN_HANDSET_MIC → ∀ i : Nat,
      P (if ¬ i = AUDIO_DEVICE_NONE ∧ ¬ ¬ i &&& AUDIO_DEVICE_IN_VOICE_CALL = 0 ∧
            ¬ ¬ i &&& AUDIO_DEVICE_IN_COMMUNICATION = 0 then
          if ¬ i &&& AUDIO_DEVICE_IN_BUILTIN_MIC = 0 then SND_DEVICE_IN_EARPIECE_MIC
          else if ¬ i &&& AUDIO_DEVICE_IN_BACK_MIC = 0 then SND_DEVICE_IN_SPEAKER_MIC
          else if ¬ i &&& AUDIO_DEVICE_IN_WIRED_HEADSET = 0 then SND_DEVICE_IN_HEADSET_MIC
          else if ¬ i &&& AUDIO_DEVICE_IN_BLUETOOTH_SCO_HEADSET = 0 then SND_DEVICE_IN_BT_SCO_MIC
          else if ¬ i &&& AUDIO_DEVICE_IN_AUX_DIGITAL = 0 then SND_DEVICE_IN_HDMI_MIC
          else SND_DEVICE_IN_HANDSET_MIC
        else
          if ¬ out_device &&& AUDIO_DEVICE_OUT_EARPIECE = 0 then SND_DEVICE_IN_EARPIECE_MIC
          else if ¬ out_device &&& AUDIO_DEVICE_OUT_WIRED_HEADSET = 0 then
            SND_DEVICE_IN_HEADSET_MIC
          else if ¬ out_device &&& AUDIO_DEVICE_OUT_SPEAKER = 0 then SND_DEVICE_IN_SPEAKER_MIC
          else if ¬ out_device &&& AUDIO_DEVICE_OUT_WIRED_HEADPHONE = 0 then
            SND_DEVICE_IN_HANDSET_MIC
          else if ¬ out_device &&& AUDIO_DEVICE_OUT_BLUETOOTH_SCO_HEADSET = 0 then
            SND_DEVICE_IN_BT_SCO_MIC
          else SND_DEVICE_IN_HANDSET_MIC) := by
    intro P p1 p2 p3 p4 p5 p6 i
    split_ifs <;> assumption
  have range : ∀ i : Nat, _ := tail
    (fun r => SND_DEVICE_IN_BEGIN ≤ r ∧ r < SND_DEVICE_IN_END)
    (by decide) (by decide) (by decide) (by decide) (by decide) (by decide)
  by_cases hc : inp.source = AUDIO_SOURCE_CAMCORDER
  · simp only [if_pos hc]
    by_cases hm : in_device &&& AUDIO_DEVICE_IN_BUILTIN_MIC ≠ 0 ∨
        in_device &&& AUDIO_DEVICE_IN_BACK_MIC ≠ 0
    · simp only [if_pos hm, hcam, ne_eq, not_false_eq_true, if_true]
      refine ⟨by decide, by decide, ?_⟩
      intro a1 a2
      rcases hm with hm | hm
      · exact absurd a1 hm
      · exact absurd a2 hm
    · simp only [if_neg hm, ne_eq, not_true_eq_false, if_false]
      refine ⟨(range in_device).1, (range in_device).2, ?_⟩
      intro a1 a2 a3 a4 a5 b1 b2 b3 b4 b5
      simp only [a1, a2, a3, a4, a5, b1, b2, b3, b4, b5, not_true_eq_false, if_false,
        ite_self]
  · simp only [if_neg hc]
    by_cases hv : inp.source = AUDIO_SOURCE_VOICE_COMMUNICATION ∨
        inp.source = AUDIO_SOURCE_MIC
    · simp only [if_pos hv]
      by_cases hs : out_device &&& AUDIO_DEVICE_OUT_SPEAKER ≠ 0
      · have r := range AUDIO_DEVICE_IN_BACK_MIC
        simp only [if_pos hs, ne_eq, not_true_eq_false, not_false_eq_true, if_false,
          if_true] at r ⊢
        refine ⟨r.1, r.2, ?_⟩
        intro a1 a2 a3 a4 a5 b1 b2 b3
        exact absurd b3 hs
      · have r := range in_device
        simp only [if_neg hs, ne_eq, not_true_eq_false, not_false_eq_true, if_false,
          if_true] at r ⊢
        refine ⟨r.1, r.2, ?_⟩
        intro a1 a2 a3 a4 a5 b1 b2 b3 b4 b5
        simp only [a1, a2, a3, a4, a5, b1, b2, b4, b5, not_true_eq_false, if_false,
          ite_self]
    · simp only [if_neg hv, ne_eq, not_true_eq_false, if_false]
      refine ⟨(range in_device).1, (range in_device).2, ?_⟩
      intro a1 a2 a3 a4 a5 b1 b2 b3 b4 b5
      simp only [a1, a2, a3, a4, a5, b1, b2, b3, b4, b5, not_true_eq_false, if_false,
        ite_self]

/-- C15: when the mode is not in-call, `get_input_snd_device` returns NONE if
and only if the source is default, that is there is no active capture or
voice call usecase or the source of the active input is default. For every
other source and all device masks the result is an input route, and it is
handset-mic when neither the device mask of the active input nor the output
device mask holds a bit that the mapping tests. -/
theorem get_input_snd_device_default (adev : audio_device) (out_device : Nat)
    (hmode : adev.mode ≠ AUDIO_MODE_IN_CALL) :
    (get_input_snd_device adev out_device = SND_DEVICE_NONE ↔
      (active_input adev = none ∨
        ∃ inp, active_input adev = some inp ∧ inp.source = AUDIO_SOURCE_DEFAULT)) ∧
    (get_input_snd_device adev out_device ≠ SND_DEVICE_NONE →
      SND_DEVICE_IN_BEGIN ≤ get_input_snd_device adev out_device ∧
      get_input_snd_device adev out_device < SND_DEVICE_IN_END) ∧
    (∀ inp, active_input adev = some inp → inp.source ≠ AUDIO_SOURCE_DEFAULT →
      (inp.devices &&& 0x7FFFFFFF) &&& AUDIO_DEVICE_IN_BUILTIN_MIC = 0 →
      (inp.devices &&& 0x7FFFFFFF) &&& AUDIO_DEVICE_IN_BACK_MIC = 0 →
      (inp.devices &&& 0x7FFFFFFF) &&& AUDIO_DEVICE_IN_WIRED_HEADSET = 0 →
      (inp.devices &&& 0x7FFFFFFF) &&& AUDIO_DEVICE_IN_BLUETOOTH_SCO_HEADSET = 0 →
      (inp.devices &&& 0x7FFFFFFF) &&& AUDIO_DEVICE_IN_AUX_DIGITAL = 0 →
      out_device &&& AUDIO_DEVICE_OUT_EARPIECE = 0 →
      out_device &&& AUDIO_DEVICE_OUT_WIRED_HEADSET = 0 →
      out_device &&& AUDIO_DEVICE_OUT_SPEAKER = 0 →
      out_device &&& AUDIO_DEVICE_OUT_WIRED_HEADPHONE = 0 →
      out_device &&& AUDIO_DEVICE_OUT_BLUETOOTH_SCO_HEADSET = 0 →
      get_input_snd_device adev out_device = SND_DEVICE_IN_HANDSET_MIC) ∧
    SND_DEVICE_IN_HANDSET_MIC = SND_DEVICE_IN_EARPIECE_MIC := by
  have hbegin : SND_DEVICE_NONE < SND_DEVICE_IN_BEGIN := by decide
  refine ⟨?_, ?_, ?_, rfl⟩
  · constructor
    · intro h
      cases hai : active_input adev with
      | none => exact Or.inl rfl
      | some inp =>
        right
        refine ⟨inp, rfl, ?_⟩
        by_contra hsrc
        have := (input_route_other_source adev out_device inp hmode hai hsrc).1
        rw [h] at this
        exact absurd hbegin (not_lt.mpr this)
    · intro h
      rcases h with h | ⟨inp, h, hsrc⟩
      · exact input_route_no_input adev out_device hmode h
      · exact input_route_default_source adev out_device inp hmode h hsrc
  · intro h
    cases hai : active_input adev with
    | none => exact absurd (input_route_no_input adev out_device hmode hai) h
    | some inp =>
      by_cases hsrc : inp.source = AUDIO_SOURCE_DEFAULT
      · exact absurd (input_route_default_source adev out_device inp hmode hai hsrc) h
      · have := input_route_other_source adev out_device inp hmode hai hsrc
        exact ⟨this.1, this.2.1⟩
  · intro inp hai hsrc
    exact (input_route_other_source adev out_device inp hmode hai hsrc).2.2

/-- Witness of C15: in normal mode, a voice communication capture stream as
the active input and the output mask {aux digital} resolve to an input
route: the input mapping gives earpiece-mic for the built-in microphone. -/
theorem get_input_snd_device_default_witness :
    (capture_device AUDIO_MODE_NORMAL voice_comm_stream).mode ≠ AUDIO_MODE_IN_CALL ∧
    get_input_snd_device (capture_device AUDIO_MODE_NORMAL voice_comm_stream)
      AUDIO_DEVICE_OUT_AUX_DIGITAL ≠ SND_DEVICE_NONE ∧
    get_input_snd_device initial_device AUDIO_DEVICE_OUT_AUX_DIGITAL = SND_DEVICE_NONE :=
  ⟨by decide,
    fun h => absurd ((get_input_snd_device_default
      (capture_device AUDIO_MODE_NORMAL voice_comm_stream) AUDIO_DEVICE_OUT_AUX_DIGITAL
      (by decide)).1.mp h) (by decide),
    (get_input_snd_device_default initial_device AUDIO_DEVICE_OUT_AUX_DIGITAL
      (by decide)).1.mpr (Or.inl (by decide))⟩

/-! ## Faults of `select_devices` -/

theorem select_devices_hotword (hotword : Int) (fuel : Nat) (adev : audio_device) :
    select_devices hotword (fuel + 1) adev hotword = Outcome.done 0 adev := by
  rw [select_devices_succ, if_pos rfl]

/-- Amended C16: `select_devices` with a usecase id that is not in the
registry and is not `USECASE_AUDIO_CAPTURE_HOTWORD` returns `-EINVAL` in the
very state in which it was called: usecase list, stored routes and device
masks, reference counts, shutdown time and trace (hence the calls to the path
applier and to the telephony collaborator) are unchanged. For the id
`USECASE_AUDIO_CAPTURE_HOTWORD` it returns 0, in the unchanged state as well,
before the registry is looked up. -/
theorem select_devices_unknown_id (hotword : Int) (fuel : Nat) (adev : audio_device)
    (uc_id : Int) (hg : get_usecase_from_id adev uc_id = none) :
    (uc_id ≠ hotword →
      select_devices hotword (fuel + 1) adev uc_id = Outcome.done EINVAL_neg adev) ∧
    (uc_id = hotword →
      select_devices hotword (fuel + 1) adev uc_id = Outcome.done 0 adev) := by
  constructor
  · intro hhot
    rw [select_devices_succ, if_neg hhot, hg]
  · intro hhot
    rw [hhot]
    exact select_devices_hotword hotword fuel adev

/-- Witness of the amended C16: in the initial state, whose registry is empty,
`select_devices` for the playback id returns `-EINVAL` and the state is the
initial state. -/
theorem select_devices_unknown_id_witness :
    get_usecase_from_id initial_device USECASE_AUDIO_PLAYBACK = none ∧
    USECASE_AUDIO_PLAYBACK ≠ example_hotword ∧
    select_devices example_hotword 1 initial_device USECASE_AUDIO_PLAYBACK =
      Outcome.done EINVAL_neg initial_device :=
  ⟨by decide, by decide,
    (select_devices_unknown_id example_hotword 0 initial_device USECASE_AUDIO_PLAYBACK
      (by decide)).1 (by decide)⟩

/-- Counterexample to C16 as stated: the id `USECASE_AUDIO_CAPTURE_HOTWORD` is
not in the registry of the initial state, and `select_devices` returns 0 for
it, not `-EINVAL`. -/
theorem hotword_id_unregistered_returns_zero :
    get_usecase_from_id initial_device example_hotword = none ∧
    (select_devices example_hotword 1 initial_device example_hotword).ret = some 0 ∧
    (0 : Int) ≠ EINVAL_neg := by
  decide

theorem select_devices_ret (hotword : Int) (fuel : Nat) (adev : audio_device) (uc_id : Int)
    (u : audio_usecase) (hg : get_usecase_from_id adev uc_id = some u) (r : Int)
    (s : audio_device) (h : select_devices hotword fuel adev uc_id = Outcome.done r s) :
    r = 0 := by
  cases fuel with
  | zero => simp [select_devices] at h
  | succ f =>
    rw [select_devices_succ] at h
    by_cases hhot : uc_id = hotword
    · rw [if_pos hhot] at h
      injection h with hr _
      exact hr.symm
    · rw [if_neg hhot, hg] at h
      simp only [] at h
      cases hres : resolve adev u with
      | none => rw [hres] at h; cases h
      | some dio =>
        obtain ⟨devs, o, i⟩ := dio
        rw [hres] at h
        simp only [] at h
        cases hn : nest_target adev u with
        | none =>
          rw [hn] at h
          exact (select_devices_switch_done _ _ _ _ _ _ h).1
        | some t =>
          rw [hn] at h
          simp only [] at h
          cases hnest : select_devices hotword f (write_devices adev uc_id devs) t with
          | done rn an =>
            rw [hnest] at h
            exact (select_devices_switch_done _ _ _ _ _ _ h).1
          | null_deref => rw [hnest] at h; cases h
          | no_fuel => rw [hnest] at h; cases h

theorem select_devices_flat_returns (hotword : Int) (fuel : Nat) (adev : audio_device)
    (uc_id : Int) (u : audio_usecase) (devs : Option Nat) (o i : Int)
    (hhot : uc_id ≠ hotword) (hg : get_usecase_from_id adev uc_id = some u)
    (hres : resolve adev u = some (devs, o, i)) (hn : nest_target adev u = none) :
    ∃ s, select_devices hotword (fuel + 1) adev uc_id = Outcome.done 0 s := by
  rw [select_devices_succ, if_neg hhot, hg]
  simp only [hres, hn]
  apply select_devices_switch_returns _ _ _ _ (with_devices u devs)
  rw [get_write_devices, if_pos rfl, hg]
  rfl

/-- Amended C17: `select_devices` discards the results of the
`disable_snd_device` and `enable_snd_device` calls it makes. Whenever the
usecase id is in the registry, a run that returns returns 0, also when one of
these calls returned an error; and for a usecase of type voice call the run
does return, with 0, from every state. -/
theorem select_devices_discards_faults (hotword : Int) (fuel : Nat) (adev : audio_device)
    (uc_id : Int) (u : audio_usecase) (hg : get_usecase_from_id adev uc_id = some u) :
    (∀ r s, select_devices hotword fuel adev uc_id = Outcome.done r s → r = 0) ∧
    (uc_id ≠ hotword → u.type = VOICE_CALL →
      ∃ s, select_devices hotword (fuel + 1) adev uc_id = Outcome.done 0 s) := by
  constructor
  · intro r s h
    exact select_devices_ret hotword fuel adev uc_id u hg r s h
  · intro hhot hvc
    have hpb : ¬ (VOICE_CALL = PCM_PLAYBACK) := by decide
    apply select_devices_flat_returns hotword fuel adev uc_id u
      (some (adev.streams u.stream).devices)
      (get_output_snd_device adev (adev.streams u.stream).devices)
      (get_input_snd_device adev (adev.streams u.stream).devices) hhot hg
    · simp only [resolve, hvc, if_true]
    · simp only [nest_target, hvc, hpb, false_and, if_false]

/-- Witness of the amended C17: the run for the voice call usecase of a
wideband call on a wired headset returns 0. -/
theorem select_devices_discards_faults_witness :
    (get_usecase_from_id call_headset_wb_device USECASE_VOICE_CALL).map (fun u => u.type) =
      some VOICE_CALL ∧
    ∃ s, select_devices example_hotword 1 call_headset_wb_device USECASE_VOICE_CALL =
      Outcome.done 0 s :=
  ⟨by decide,
    (select_devices_discards_faults example_hotword 0 call_headset_wb_device USECASE_VOICE_CALL
      { id := USECASE_VOICE_CALL, type := VOICE_CALL, devices := AUDIO_DEVICE_OUT_WIRED_HEADSET,
        out_snd_device := SND_DEVICE_NONE, in_snd_device := SND_DEVICE_NONE, stream := 1 }
      (by decide)).2 (by decide) (by decide)⟩

/-- Counterexample to C17 as stated: in the run for the voice call usecase of
a wideband call on a wired headset, `select_devices` calls `enable_snd_device`
for the route `SND_DEVICE_OUT_VOICE_HEADPHONES_WB`, which has no catalog name;
that call returns `-EINVAL`, and `select_devices` returns 0. -/
theorem select_devices_ignores_enable_fault :
    (select_devices example_hotword 1 call_headset_wb_device USECASE_VOICE_CALL).final.map
        (fun adev1 => adev1.trace.drop call_headset_wb_device.trace.length) =
      some [Event.enable_snd_device SND_DEVICE_OUT_VOICE_HEADPHONES_WB,
        Event.enable_snd_device SND_DEVICE_IN_VOICE_HEADSET_MIC,
        Event.audio_route_apply_and_update_path "voice-headset-mic"] ∧
    (enable_snd_device
        (set_usecase_devices call_headset_wb_device USECASE_VOICE_CALL
          AUDIO_DEVICE_OUT_WIRED_HEADSET)
        SND_DEVICE_OUT_VOICE_HEADPHONES_WB).1 = EINVAL_neg ∧
    (select_devices example_hotword 1 call_headset_wb_device USECASE_VOICE_CALL).ret = some 0 := by
  decide

/-! ## The invariant of the activation engine -/

theorem route_of_name_eq (d : Int) (n : String) (hname : get_snd_device_name d = some n) :
    route_of_name n = some d := by
  have hrange : SND_DEVICE_MIN ≤ d ∧ d < SND_DEVICE_MAX := by
    by_contra h
    simp [get_snd_device_name, h] at hname
  have key : (get_snd_device_name d).isSome = true →
      route_of_name ((get_snd_device_name d).getD "") = some d := by
    obtain ⟨h1, h2⟩ := hrange
    have h3 : 1 ≤ d := h1
    have h4 : d < 28 := h2
    clear hname h1 h2
    interval_cases d <;> decide
  have h := key (by rw [hname]; rfl)
  rw [hname] at h
  exact h

theorem get_snd_device_name_inj (d1 d2 : Int) (n : String)
    (h1 : get_snd_device_name d1 = some n) (h2 : get_snd_device_name d2 = some n) : d1 = d2 := by
  have e1 := route_of_name_eq d1 n h1
  have e2 := route_of_name_eq d2 n h2
  rw [e1] at e2
  injection e2

theorem foldl_path_step_quiet (name : String) :
    ∀ (t : List Event) (b : Bool), path_calls t = [] → t.foldl (path_step name) b = b := by
  intro t
  induction t with
  | nil => intro b _; rfl
  | cons e t ih =>
    intro b h
    rw [path_calls_cons] at h
    cases e <;> simp [is_path_call] at h <;> simp [List.foldl_cons, path_step, ih _ h]

theorem route_applied_quiet (t t2 : List Event) (d : Int) (hq : path_calls t2 = []) :
    route_applied (t ++ t2) d = route_applied t d := by
  unfold route_applied
  cases get_snd_device_name d with
  | none => rfl
  | some name =>
    simp only [path_applied, List.foldl_append]
    exact foldl_path_step_quiet name t2 _ hq

theorem route_applied_apply (t : List Event) (d d0 : Int) (n0 : String)
    (hname : get_snd_device_name d0 = some n0) :
    route_applied (t ++ [Event.audio_route_apply_and_update_path n0]) d =
      if d = d0 then true else route_applied t d := by
  unfold route_applied
  by_cases hd : d = d0
  · subst hd
    simp [hname, path_applied, List.foldl_append, path_step]
  · rw [if_neg hd]
    cases hn : get_snd_device_name d with
    | none => rfl
    | some name =>
      have hne : n0 ≠ name := by
        intro he
        subst he
        exact hd (get_snd_device_name_inj d d0 n0 hn hname)
      simp [path_applied, List.foldl_append, path_step, hne]

theorem route_applied_reset (t : List Event) (d d0 : Int) (n0 : String)
    (hname : get_snd_device_name d0 = some n0) :
    route_applied (t ++ [Event.audio_route_reset_and_update_path n0]) d =
      if d = d0 then false else route_applied t d := by
  unfold route_applied
  by_cases hd : d = d0
  · subst hd
    simp [hname, path_applied, List.foldl_append, path_step]
  · rw [if_neg hd]
    cases hn : get_snd_device_name d with
    | none => rfl
    | some name =>
      have hne : n0 ≠ name := by
        intro he
        subst he
        exact hd (get_snd_device_name_inj d d0 n0 hn hname)
      simp [path_applied, List.foldl_append, path_step, hne]

theorem enable_snd_device_simple_unnamed (adev : audio_device) (d : Int)
    (hname : get_snd_device_name d = none) :
    enable_snd_device_simple adev d = (EINVAL_neg, emit adev (Event.enable_snd_device d)) := by
  unfold enable_snd_device_simple
  simp only [hname]

theorem disable_snd_device_simple_unnamed (adev : audio_device) (d : Int)
    (hname : get_snd_device_name d = none) :
    disable_snd_device_simple adev d = (EINVAL_neg, emit adev (Event.disable_snd_device d)) := by
  unfold disable_snd_device_simple
  simp only [hname]

theorem engine_inv_quiet (s : audio_device) (t2 : List Event) (hq : path_calls t2 = [])
    (h : engine_inv s) : engine_inv { s with trace := s.trace ++ t2 } := by
  intro d
  obtain ⟨h0, ha⟩ := h d
  refine ⟨h0, ?_⟩
  show route_applied (s.trace ++ t2) d = true ↔ 0 < s.snd_dev_ref_cnt d
  rw [route_applied_quiet _ _ _ hq]
  exact ha

theorem engine_inv_emit (s : audio_device) (e : Event) (hq : is_path_call e = false)
    (h : engine_inv s) : engine_inv (emit s e) := by
  apply engine_inv_quiet s [e] _ h
  rw [path_calls_cons, hq]
  rfl

theorem engine_inv_enable_simple (s : audio_device) (d0 : Int) (h : engine_inv s) :
    engine_inv (enable_snd_device_simple s d0).2 := by
  cases hname : get_snd_device_name d0 with
  | none =>
    rw [enable_snd_device_simple_unnamed s d0 hname]
    exact engine_inv_emit s _ rfl h
  | some n0 =>
    rw [enable_snd_device_simple_eq s d0 n0 hname]
    obtain ⟨h00, ha0⟩ := h d0
    intro d
    obtain ⟨h0, ha⟩ := h d
    by_cases hc : s.snd_dev_ref_cnt d0 + 1 > 1
    · simp only [if_pos hc]
      rw [route_applied_quiet _ _ _ (by rfl)]
      by_cases hd : d = d0
      · subst hd
        simp only [if_true]
        refine ⟨by omega, ?_⟩
        constructor
        · intro _; omega
        · intro _; exact ha.mpr (by omega)
      · simp only [if_neg hd]
        exact ⟨h0, ha⟩
    · simp only [if_neg hc]
      rw [← List.append_assoc, ← List.append_assoc, route_applied_apply _ d d0 n0 hname]
      by_cases hd : d = d0
      · subst hd
        simp only [if_true]
        refine ⟨by omega, ?_⟩
        constructor
        · intro _; omega
        · intro _; trivial
      · simp only [if_neg hd]
        rw [List.append_assoc, route_applied_quiet]
        · exact ⟨h0, ha⟩
        · rw [path_calls_append, path_calls_debounce_sleep]
          rfl

theorem engine_inv_disable_simple (s : audio_device) (d0 : Int) (h : engine_inv s) :
    engine_inv (disable_snd_device_simple s d0).2 := by
  cases hname : get_snd_device_name d0 with
  | none =>
    rw [disable_snd_device_simple_unnamed s d0 hname]
    exact engine_inv_emit s _ rfl h
  | some n0 =>
    rw [disable_snd_device_simple_eq s d0 n0 hname]
    obtain ⟨h00, ha0⟩ := h d0
    by_cases hc : s.snd_dev_ref_cnt d0 ≤ 0
    · simp only [if_pos hc]
      exact engine_inv_quiet s _ (by rfl) h
    · simp only [if_neg hc]
      intro d
      obtain ⟨h0, ha⟩ := h d
      by_cases h1 : s.snd_dev_ref_cnt d0 = 1
      · simp only [if_pos h1]
        have hl : s.trace ++ [Event.disable_snd_device d0,
            Event.audio_route_reset_and_update_path n0] =
            (s.trace ++ [Event.disable_snd_device d0]) ++
              [Event.audio_route_reset_and_update_path n0] := by simp
        rw [hl, route_applied_reset _ d d0 n0 hname]
        by_cases hd : d = d0
        · subst hd
          simp only [if_true]
          refine ⟨by omega, ?_⟩
          constructor
          · intro hf; cases hf
          · intro hf; omega
        · simp only [if_neg hd]
          rw [route_applied_quiet _ _ _ (by rfl)]
          exact ⟨h0, ha⟩
      · simp only [if_neg h1]
        rw [route_applied_quiet _ _ _ (by rfl)]
        by_cases hd : d = d0
        · subst hd
          simp only [if_true]
          refine ⟨by omega, ?_⟩
          constructor
          · intro _; omega
          · intro _; exact ha.mpr (by omega)
        · simp only [if_neg hd]
          exact ⟨h0, ha⟩

theorem engine_inv_enable (s : audio_device) (d : Int) (h : engine_inv s) :
    engine_inv (enable_snd_device s d).2 := by
  by_cases hd : d = SND_DEVICE_OUT_SPEAKER_AND_HEADPHONES
  · subst hd
    rw [enable_snd_device_combo_eq]
    exact engine_inv_enable_simple _ _ (engine_inv_enable_simple _ _ (engine_inv_emit s _ rfl h))
  · unfold enable_snd_device
    rw [if_neg hd]
    exact engine_inv_enable_simple s d h

theorem engine_inv_disable (s : audio_device) (d : Int) (h : engine_inv s) :
    engine_inv (disable_snd_device s d).2 := by
  by_cases hd : d = SND_DEVICE_OUT_SPEAKER_AND_HEADPHONES
  · subst hd
    rw [disable_snd_device_combo_eq]
    exact engine_inv_disable_simple _ _
      (engine_inv_disable_simple _ _ (engine_inv_emit s _ rfl h))
  · unfold disable_snd_device
    rw [if_neg hd]
    exact engine_inv_disable_simple s d h

theorem engine_inv_run (calls : List EngineCall) :
    ∀ s : audio_device, engine_inv s → engine_inv (run_engine_calls s calls) := by
  induction calls with
  | nil => intro s h; exact h
  | cons c calls ih =>
    intro s h
    show engine_inv (run_engine_calls (run_engine_call s c) calls)
    apply ih
    cases c with
    | enable d => exact engine_inv_enable s d h
    | disable d => exact engine_inv_disable s d h

/-- C19: from a state in which every reference count is 0 and no path is
applied, after any finite sequence of calls of `enable_snd_device` and
`disable_snd_device` with arbitrary route arguments, every reference count is
at least 0 and, for every route, the path of the route is applied on the
mixer (its last path applier call was an apply, not a reset) if and only if
its reference count is positive. -/
theorem activation_invariant (adev : audio_device) (calls : List EngineCall)
    (hcnt : ∀ d, adev.snd_dev_ref_cnt d = 0)
    (hpath : ∀ d, route_applied adev.trace d = false) (d : Int) :
    0 ≤ (run_engine_calls adev calls).snd_dev_ref_cnt d ∧
    (route_applied (run_engine_calls adev calls).trace d = true ↔
      0 < (run_engine_calls adev calls).snd_dev_ref_cnt d) := by
  have h0 : engine_inv adev := by
    intro x
    rw [hcnt x, hpath x]
    exact ⟨le_refl 0, by simp⟩
  exact engine_inv_run calls adev h0 d

/-- Witness of C19: from the initial state, after enabling the speaker,
enabling the combo route and disabling the speaker, the speaker has count 1
and its path is applied. -/
theorem activation_invariant_witness :
    (∀ d, initial_device.snd_dev_ref_cnt d = 0) ∧
    (run_engine_calls initial_device
      [EngineCall.enable SND_DEVICE_OUT_SPEAKER,
       EngineCall.enable SND_DEVICE_OUT_SPEAKER_AND_HEADPHONES,
       EngineCall.disable SND_DEVICE_OUT_SPEAKER]).snd_dev_ref_cnt SND_DEVICE_OUT_SPEAKER = 1 ∧
    (route_applied (run_engine_calls initial_device
      [EngineCall.enable SND_DEVICE_OUT_SPEAKER,
       EngineCall.enable SND_DEVICE_OUT_SPEAKER_AND_HEADPHONES,
       EngineCall.disable SND_DEVICE_OUT_SPEAKER]).trace SND_DEVICE_OUT_SPEAKER = true ↔
      0 < (run_engine_calls initial_device
      [EngineCall.enable SND_DEVICE_OUT_SPEAKER,
       EngineCall.enable SND_DEVICE_OUT_SPEAKER_AND_HEADPHONES,
       EngineCall.disable SND_DEVICE_OUT_SPEAKER]).snd_dev_ref_cnt SND_DEVICE_OUT_SPEAKER) :=
  ⟨fun _ => rfl, by decide,
    (activation_invariant initial_device
      [EngineCall.enable SND_DEVICE_OUT_SPEAKER,
       EngineCall.enable SND_DEVICE_OUT_SPEAKER_AND_HEADPHONES,
       EngineCall.disable SND_DEVICE_OUT_SPEAKER]
      (fun _ => rfl)
      (fun d => by unfold route_applied; cases get_snd_device_name d <;> rfl)
      SND_DEVICE_OUT_SPEAKER).2⟩

/-! ## Reference counts of the routes stored by `select_devices` -/

theorem enable_snd_device_simple_cnt_le (a : audio_device) (d x : Int) :
    a.snd_dev_ref_cnt x ≤ (enable_snd_device_simple a d).2.snd_dev_ref_cnt x := by
  cases hname : get_snd_device_name d with
  | none =>
    rw [enable_snd_device_simple_unnamed a d hname]
    exact le_refl _
  | some n =>
    rw [enable_snd_device_simple_ref_cnt a d n hname]
    by_cases hx : x = d
    · rw [if_pos hx, hx]; omega
    · rw [if_neg hx]

theorem enable_snd_device_cnt_le (a : audio_device) (d x : Int) :
    a.snd_dev_ref_cnt x ≤ (enable_snd_device a d).2.snd_dev_ref_cnt x := by
  by_cases hd : d = SND_DEVICE_OUT_SPEAKER_AND_HEADPHONES
  · subst hd
    rw [enable_snd_device_combo_eq]
    show a.snd_dev_ref_cnt x ≤ (enable_snd_device_simple
      (enable_snd_device_simple
        (emit a (Event.enable_snd_device SND_DEVICE_OUT_SPEAKER_AND_HEADPHONES))
        SND_DEVICE_OUT_SPEAKER).2 SND_DEVICE_OUT_HEADPHONES).2.snd_dev_ref_cnt x
    exact le_trans (enable_snd_device_simple_cnt_le
        (emit a (Event.enable_snd_device SND_DEVICE_OUT_SPEAKER_AND_HEADPHONES))
        SND_DEVICE_OUT_SPEAKER x)
      (enable_snd_device_simple_cnt_le _ _ x)
  · unfold enable_snd_device
    rw [if_neg hd]
    exact enable_snd_device_simple_cnt_le a d x

theorem enable_snd_device_named_ge (a : audio_device) (d : Int) (n : String)
    (hname : get_snd_device_name d = some n) (hnn : counts_nonneg a) :
    ∀ x ∈ simple_routes d, 1 ≤ (enable_snd_device a d).2.snd_dev_ref_cnt x := by
  intro x hx
  unfold simple_routes at hx
  by_cases hd : d = SND_DEVICE_OUT_SPEAKER_AND_HEADPHONES
  · rw [if_pos hd] at hx
    subst hd
    rw [enable_snd_device_combo_eq]
    simp only [List.mem_cons, List.mem_singleton, List.not_mem_nil, or_false] at hx
    rcases hx with hx | hx
    · subst hx
      refine le_trans ?_ (enable_snd_device_simple_cnt_le _ _ _)
      rw [enable_snd_device_simple_ref_cnt _ _ _ get_snd_device_name_speaker, if_pos rfl]
      have := hnn SND_DEVICE_OUT_SPEAKER
      rw [emit_ref_cnt]
      omega
    · subst hx
      rw [enable_snd_device_simple_ref_cnt _ _ _ get_snd_device_name_headphones, if_pos rfl]
      have h1 := enable_snd_device_simple_cnt_le
        (emit a (Event.enable_snd_device SND_DEVICE_OUT_SPEAKER_AND_HEADPHONES))
        SND_DEVICE_OUT_SPEAKER SND_DEVICE_OUT_HEADPHONES
      have := hnn SND_DEVICE_OUT_HEADPHONES
      rw [emit_ref_cnt] at h1
      omega
  · rw [if_neg hd] at hx
    simp only [List.mem_singleton] at hx
    subst hx
    unfold enable_snd_device
    rw [if_neg hd, enable_snd_device_simple_ref_cnt _ _ _ hname, if_pos rfl]
    have := hnn x
    omega

theorem disable_snd_device_simple_nonneg (a : audio_device) (d : Int) (hnn : counts_nonneg a) :
    counts_nonneg (disable_snd_device_simple a d).2 := by
  intro x
  cases hname : get_snd_device_name d with
  | none =>
    rw [disable_snd_device_simple_unnamed a d hname]
    exact hnn x
  | some n =>
    rw [disable_snd_device_simple_ref_cnt a d n hname]
    have := hnn x
    split_ifs with h
    · omega
    · exact this

theorem disable_snd_device_nonneg (a : audio_device) (d : Int) (hnn : counts_nonneg a) :
    counts_nonneg (disable_snd_device a d).2 := by
  by_cases hd : d = SND_DEVICE_OUT_SPEAKER_AND_HEADPHONES
  · subst hd
    rw [disable_snd_device_combo_eq]
    apply disable_snd_device_simple_nonneg
    apply disable_snd_device_simple_nonneg
    exact hnn
  · unfold disable_snd_device
    rw [if_neg hd]
    exact disable_snd_device_simple_nonneg a d hnn

theorem enable_snd_device_nonneg (a : audio_device) (d : Int) (hnn : counts_nonneg a) :
    counts_nonneg (enable_snd_device a d).2 :=
  fun x => le_trans (hnn x) (enable_snd_device_cnt_le a d x)

theorem start_ril_call_ref_cnt (a : audio_device) :
    (start_ril_call a).snd_dev_ref_cnt = a.snd_dev_ref_cnt := by
  unfold start_ril_call adev_set_call_audio_path voice_set_volume
  simp only [emit]
  split_ifs <;> rfl

theorem engine_switch_counts (a : audio_device) (oo oi o i : Int) (hnn : counts_nonneg a) :
    counts_nonneg (engine_switch a oo oi o i) ∧
    (∀ n, get_snd_device_name o = some n →
      ∀ x ∈ simple_routes o, 1 ≤ (engine_switch a oo oi o i).snd_dev_ref_cnt x) ∧
    (∀ n, get_snd_device_name i = some n →
      ∀ x ∈ simple_routes i, 1 ≤ (engine_switch a oo oi o i).snd_dev_ref_cnt x) := by
  unfold engine_switch
  simp only []
  generalize h1 : (if oo ≠ SND_DEVICE_NONE then (disable_snd_device a oo).2 else a) = a1
  have n1 : counts_nonneg a1 := by
    rw [← h1]
    split_ifs
    · exact disable_snd_device_nonneg a oo hnn
    · exact hnn
  generalize h2 : (if oi ≠ SND_DEVICE_NONE then (disable_snd_device a1 oi).2 else a1) = a2
  have n2 : counts_nonneg a2 := by
    rw [← h2]
    split_ifs
    · exact disable_snd_device_nonneg a1 oi n1
    · exact n1
  generalize h3 : (if a2.voice_in_call = true then start_ril_call a2 else a2) = a3
  have n3 : counts_nonneg a3 := by
    rw [← h3]
    split_ifs
    · intro x
      rw [start_ril_call_ref_cnt]
      exact n2 x
    · exact n2
  have hnone : get_snd_device_name SND_DEVICE_NONE = none := by decide
  refine ⟨?_, ?_, ?_⟩
  · split_ifs
    · exact enable_snd_device_nonneg _ _ (enable_snd_device_nonneg _ _ n3)
    · exact enable_snd_device_nonneg _ _ n3
    · exact enable_snd_device_nonneg _ _ n3
    · exact n3
  · intro n hn x hx
    have ho : o ≠ SND_DEVICE_NONE := by
      intro h
      rw [h, hnone] at hn
      cases hn
    rw [if_pos ho]
    have hge := enable_snd_device_named_ge a3 o n hn n3 x hx
    split_ifs
    · exact le_trans hge (enable_snd_device_cnt_le _ _ _)
    · exact hge
  · intro n hn x hx
    have hi : i ≠ SND_DEVICE_NONE := by
      intro h
      rw [h, hnone] at hn
      cases hn
    rw [if_pos hi]
    apply enable_snd_device_named_ge _ i n hn _ x hx
    split_ifs
    · exact enable_snd_device_nonneg _ _ n3
    · exact n3

theorem write_devices_ref_cnt (a : audio_device) (uc_id : Int) (devs : Option Nat) :
    (write_devices a uc_id devs).snd_dev_ref_cnt = a.snd_dev_ref_cnt := by
  cases devs <;> rfl

theorem with_devices_routes (u : audio_usecase) (devs : Option Nat) :
    (with_devices u devs).out_snd_device = u.out_snd_device ∧
    (with_devices u devs).in_snd_device = u.in_snd_device := by
  cases devs <;> exact ⟨rfl, rfl⟩

/-- The two ways in which the second half of `select_devices` ends. -/
theorem select_devices_switch_cases (a : audio_device) (uc_id : Int) (o i r : Int)
    (s : audio_device) (u : audio_usecase) (hg : get_usecase_from_id a uc_id = some u)
    (h : select_devices_switch a uc_id o i = Outcome.done r s) :
    (s = a ∧ o = u.out_snd_device ∧ i = u.in_snd_device) ∨
    (s = set_usecase_snd_devices
        (engine_switch a u.out_snd_device u.in_snd_device o i) uc_id o i ∧
      get_usecase_from_id s uc_id = some (with_routes u o i)) := by
  rw [select_devices_switch_eq, hg] at h
  simp only [] at h
  by_cases hc : o = u.out_snd_device ∧ i = u.in_snd_device
  · rw [if_pos hc] at h
    injection h with _ hs
    exact Or.inl ⟨hs.symm, hc⟩
  · rw [if_neg hc] at h
    injection h with _ hs
    right
    refine ⟨hs.symm, ?_⟩
    rw [← hs, get_set_usecase_snd_devices, if_pos rfl,
      get_usecase_from_id_frame (frame_engine_switch a _ _ _ _), hg]
    rfl

theorem select_devices_switch_nonneg (a : audio_device) (uc_id : Int) (o i r : Int)
    (s : audio_device) (hnn : counts_nonneg a)
    (h : select_devices_switch a uc_id o i = Outcome.done r s) : counts_nonneg s := by
  cases hg : get_usecase_from_id a uc_id with
  | none =>
    rw [select_devices_switch_eq, hg] at h
    cases h
  | some u =>
    rcases select_devices_switch_cases a uc_id o i r s u hg h with ⟨hs, _⟩ | ⟨hs, _⟩
    · rw [hs]; exact hnn
    · rw [hs]
      exact (engine_switch_counts a u.out_snd_device u.in_snd_device o i hnn).1

theorem select_devices_nonneg (hotword : Int) :
    ∀ (fuel : Nat) (a : audio_device) (uc_id : Int) (r : Int) (s : audio_device),
      counts_nonneg a → select_devices hotword fuel a uc_id = Outcome.done r s →
      counts_nonneg s := by
  intro fuel
  induction fuel with
  | zero => intro a uc_id r s _ h; simp [select_devices] at h
  | succ f ih =>
    intro a uc_id r s hnn h
    rw [select_devices_succ] at h
    by_cases hhot : uc_id = hotword
    · rw [if_pos hhot] at h
      injection h with _ hs
      rw [← hs]; exact hnn
    rw [if_neg hhot] at h
    cases hg : get_usecase_from_id a uc_id with
    | none =>
      rw [hg] at h
      simp only [] at h
      injection h with _ hs
      rw [← hs]; exact hnn
    | some u =>
      rw [hg] at h
      simp only [] at h
      cases hres : resolve a u with
      | none => rw [hres] at h; cases h
      | some dio =>
        obtain ⟨devs, o, i⟩ := dio
        rw [hres] at h
        simp only [] at h
        have hw : counts_nonneg (write_devices a uc_id devs) := by
          intro x
          rw [write_devices_ref_cnt]
          exact hnn x
        cases hn : nest_target a u with
        | none =>
          rw [hn] at h
          exact select_devices_switch_nonneg _ _ _ _ _ _ hw h
        | some t =>
          rw [hn] at h
          simp only [] at h
          cases hnest : select_devices hotword f (write_devices a uc_id devs) t with
          | done rn an =>
            rw [hnest] at h
            exact select_devices_switch_nonneg _ _ _ _ _ _ (ih _ _ _ _ hw hnest) h
          | null_deref => rw [hnest] at h; cases h
          | no_fuel => rw [hnest] at h; cases h

/-- The record of a usecase after the nested call that its own run makes: the
nested call does not write it. -/
theorem nested_record (hotword : Int) (f : Nat) (a : audio_device) (uc_id : Int)
    (u : audio_usecase) (devs : Option Nat) (t rn : Int) (an : audio_device)
    (hhot : uc_id ≠ hotword) (hg : get_usecase_from_id a uc_id = some u)
    (hnt : nest_target a u = some t)
    (hnest : select_devices hotword f (write_devices a uc_id devs) t = Outcome.done rn an) :
    get_usecase_from_id an uc_id = some (with_devices u devs) := by
  have hca1 : same_context (write_devices a uc_id devs) a := write_devices_same_context _ _ _
  have hg1 : get_usecase_from_id (write_devices a uc_id devs) uc_id =
      some (with_devices u devs) := by
    rw [get_write_devices, if_pos rfl, hg]; rfl
  have hinh1 : inherited (write_devices a uc_id devs) = inherited a :=
    inherited_write_devices _ _ _
  have hnt1 : nest_target (write_devices a uc_id devs) (with_devices u devs) = some t := by
    rw [nest_target_congr hca1 (skel_with_devices u devs) (by rw [hinh1])]
    exact hnt
  have hne : t ≠ uc_id := by
    intro heq
    subst heq
    exact select_devices_self_nested hotword f _ t _ hhot hg1 hnt1 rn an hnest
  cases f with
  | zero => simp [select_devices] at hnest
  | succ f0 =>
    have hflat : ∀ ut, t ≠ hotword →
        get_usecase_from_id (write_devices a uc_id devs) t = some ut →
        nest_target (write_devices a uc_id devs) ut = none := by
      intro ut hth hgt
      cases hn2 : nest_target (write_devices a uc_id devs) ut with
      | none => rfl
      | some t2 =>
        have e1 := nest_target_active_input hn2
        have e2 := nest_target_active_input hnt
        rw [same_context_active_input hca1, e2] at e1
        injection e1 with e1
        subst e1
        exact absurd hnest (select_devices_self_nested hotword _ _ t ut hth hgt hn2 rn an)
    obtain ⟨_, hoth_n, _, _⟩ := flat_result hotword hnest hflat
    rw [hoth_n uc_id (Ne.symm hne), hg1]

/-- Amended C18: after a run of `select_devices` that changes the routes
stored in the usecase record, from a state without negative reference counts,
each stored route that has a catalog name was enabled by this run: every
simple route it comprises (speaker and headphones for the combo route, the
route itself otherwise) has reference count at least 1. -/
theorem select_devices_stored_routes (hotword : Int) (fuel : Nat) (adev : audio_device)
    (uc_id r : Int) (s : audio_device) (u u1 : audio_usecase)
    (hcnt : ∀ d, 0 ≤ adev.snd_dev_ref_cnt d)
    (h : select_devices hotword fuel adev uc_id = Outcome.done r s)
    (hg : get_usecase_from_id adev uc_id = some u)
    (hg1 : get_usecase_from_id s uc_id = some u1)
    (hchg : u1.out_snd_device ≠ u.out_snd_device ∨ u1.in_snd_device ≠ u.in_snd_device) :
    (∀ n, get_snd_device_name u1.out_snd_device = some n →
      ∀ x ∈ simple_routes u1.out_snd_device, 1 ≤ s.snd_dev_ref_cnt x) ∧
    (∀ n, get_snd_device_name u1.in_snd_device = some n →
      ∀ x ∈ simple_routes u1.in_snd_device, 1 ≤ s.snd_dev_ref_cnt x) := by
  -- `an` and `un`: the state and the record with which the second half of the run starts
  have main : ∀ (an : audio_device) (un : audio_usecase) (o i : Int), counts_nonneg an →
      get_usecase_from_id an uc_id = some un →
      un.out_snd_device = u.out_snd_device → un.in_snd_device = u.in_snd_device →
      select_devices_switch an uc_id o i = Outcome.done r s →
      (∀ n, get_snd_device_name u1.out_snd_device = some n →
        ∀ x ∈ simple_routes u1.out_snd_device, 1 ≤ s.snd_dev_ref_cnt x) ∧
      (∀ n, get_snd_device_name u1.in_snd_device = some n →
        ∀ x ∈ simple_routes u1.in_snd_device, 1 ≤ s.snd_dev_ref_cnt x) := by
    intro an un o i hnn hgn ho hi hsw
    rcases select_devices_switch_cases an uc_id o i r s un hgn hsw with ⟨hs, _⟩ | ⟨hs, hrec⟩
    · exfalso
      rw [hs, hgn] at hg1
      injection hg1 with hg1
      rw [← hg1, ho, hi] at hchg
      rcases hchg with hc | hc <;> exact hc rfl
    · rw [hrec] at hg1
      injection hg1 with hg1
      have e1 : u1.out_snd_device = o := by rw [← hg1]; rfl
      have e2 : u1.in_snd_device = i := by rw [← hg1]; rfl
      have hc := engine_switch_counts an un.out_snd_device un.in_snd_device o i hnn
      have hcs : s.snd_dev_ref_cnt =
          (engine_switch an un.out_snd_device un.in_snd_device o i).snd_dev_ref_cnt := by
        rw [hs]; rfl
      rw [e1, e2, hcs]
      exact ⟨hc.2.1, hc.2.2⟩
  cases fuel with
  | zero => simp [select_devices] at h
  | succ f =>
    rw [select_devices_succ] at h
    by_cases hhot : uc_id = hotword
    · exfalso
      rw [if_pos hhot] at h
      injection h with _ hs
      rw [← hs, hg] at hg1
      injection hg1 with hg1
      rw [hg1] at hchg
      rcases hchg with hc | hc <;> exact hc rfl
    rw [if_neg hhot, hg] at h
    simp only [] at h
    cases hres : resolve adev u with
    | none => rw [hres] at h; cases h
    | some dio =>
      obtain ⟨devs, o, i⟩ := dio
      rw [hres] at h
      simp only [] at h
      have hw : counts_nonneg (write_devices adev uc_id devs) := by
        intro x
        rw [write_devices_ref_cnt]
        exact hcnt x
      cases hn : nest_target adev u with
      | none =>
        rw [hn] at h
        refine main _ (with_devices u devs) o i hw ?_ (with_devices_routes u devs).1
          (with_devices_routes u devs).2 h
        rw [get_write_devices, if_pos rfl, hg]
        rfl
      | some t =>
        rw [hn] at h
        simp only [] at h
        cases hnest : select_devices hotword f (write_devices adev uc_id devs) t with
        | done rn an =>
          rw [hnest] at h
          exact main an (with_devices u devs) o i
            (select_devices_nonneg hotword _ _ _ _ _ hw hnest)
            (nested_record hotword f adev uc_id u devs t rn an hhot hg hn hnest)
            (with_devices_routes u devs).1 (with_devices_routes u devs).2 h
        | null_deref => rw [hnest] at h; cases h
        | no_fuel => rw [hnest] at h; cases h

/-- Witness of the amended C18: the run for a fresh playback usecase on the
speaker stores the speaker route, whose count is then at least 1. -/
theorem select_devices_stored_routes_witness :
    ∃ adev1,
      select_devices example_hotword 1 playback_speaker_device USECASE_AUDIO_PLAYBACK =
        Outcome.done 0 adev1 ∧
      (get_usecase_from_id adev1 USECASE_AUDIO_PLAYBACK).map (fun u => u.out_snd_device) =
        some SND_DEVICE_OUT_SPEAKER ∧
      1 ≤ adev1.snd_dev_ref_cnt SND_DEVICE_OUT_SPEAKER :=
  ⟨_, rfl, by decide,
    (select_devices_stored_routes example_hotword 1 playback_speaker_device
      USECASE_AUDIO_PLAYBACK 0 _
      { id := USECASE_AUDIO_PLAYBACK, type := PCM_PLAYBACK, devices := AUDIO_DEVICE_OUT_SPEAKER,
        out_snd_device := SND_DEVICE_NONE, in_snd_device := SND_DEVICE_NONE, stream := 1 }
      { id := USECASE_AUDIO_PLAYBACK, type := PCM_PLAYBACK, devices := AUDIO_DEVICE_OUT_SPEAKER,
        out_snd_device := SND_DEVICE_OUT_SPEAKER, in_snd_device := SND_DEVICE_NONE, stream := 1 }
      (fun _ => le_refl 0) rfl (by decide) (by decide) (Or.inl (by decide))).1
      "speaker" (by decide) SND_DEVICE_OUT_SPEAKER (by decide)⟩

/-- Counterexample to C18 as stated: after the run for the voice call usecase
of a wideband call on a wired headset, the usecase record stores the output
route `SND_DEVICE_OUT_VOICE_HEADPHONES_WB`, whose `enable_snd_device` call
returned `-EINVAL` and whose reference count is 0. -/
theorem select_devices_stores_failed_route :
    ((select_devices example_hotword 1 call_headset_wb_device USECASE_VOICE_CALL).final.bind
        (fun adev1 => get_usecase_from_id adev1 USECASE_VOICE_CALL)).map
        (fun u => u.out_snd_device) = some SND_DEVICE_OUT_VOICE_HEADPHONES_WB ∧
    SND_DEVICE_OUT_VOICE_HEADPHONES_WB ≠ SND_DEVICE_NONE ∧
    simple_routes SND_DEVICE_OUT_VOICE_HEADPHONES_WB = [SND_DEVICE_OUT_VOICE_HEADPHONES_WB] ∧
    (enable_snd_device
        (set_usecase_devices call_headset_wb_device USECASE_VOICE_CALL
          AUDIO_DEVICE_OUT_WIRED_HEADSET)
        SND_DEVICE_OUT_VOICE_HEADPHONES_WB).1 = EINVAL_neg ∧
    (select_devices example_hotword 1 call_headset_wb_device USECASE_VOICE_CALL).final.map
        (fun adev1 => adev1.snd_dev_ref_cnt SND_DEVICE_OUT_VOICE_HEADPHONES_WB) = some 0 := by
  decide

/-- C20: for every route other than the combo that has a catalog name and
whose reference count is 0, `disable_snd_device` returns `-EINVAL`, leaves
every reference count and the shutdown time unchanged and makes no call to
the path applier; the state changes by the record of the entry in the trace
only. -/
theorem disable_snd_device_double_disable (adev : audio_device) (d : Int) (name : String)
    (hname : get_snd_device_name d = some name)
    (hcombo : d ≠ SND_DEVICE_OUT_SPEAKER_AND_HEADPHONES)
    (hcnt : adev.snd_dev_ref_cnt d = 0) :
    (disable_snd_device adev d).1 = EINVAL_neg ∧
    (disable_snd_device adev d).2.snd_dev_ref_cnt = adev.snd_dev_ref_cnt ∧
    (disable_snd_device adev d).2.mixer_shutdown_time = adev.mixer_shutdown_time ∧
    path_calls (disable_snd_device adev d).2.trace = path_calls adev.trace ∧
    (disable_snd_device adev d).2 = emit adev (Event.disable_snd_device d) := by
  have h0 : adev.snd_dev_ref_cnt d ≤ 0 := by omega
  have h : disable_snd_device adev d =
      (EINVAL_neg, emit adev (Event.disable_snd_device d)) := by
    unfold disable_snd_device
    rw [if_neg hcombo, disable_snd_device_simple_eq adev d name hname, if_pos h0]
    rfl
  rw [h]
  refine ⟨rfl, rfl, rfl, ?_, rfl⟩
  simp [emit, path_calls_append, path_calls_cons, path_calls_nil, is_path_call]

/-- Witness of C20: the speaker route in the initial state, where no route is
enabled. -/
theorem disable_snd_device_double_disable_witness :
    get_snd_device_name SND_DEVICE_OUT_SPEAKER = some "speaker" ∧
    initial_device.snd_dev_ref_cnt SND_DEVICE_OUT_SPEAKER = 0 ∧
    (disable_snd_device initial_device SND_DEVICE_OUT_SPEAKER).1 = EINVAL_neg ∧
    path_calls (disable_snd_device initial_device SND_DEVICE_OUT_SPEAKER).2.trace = [] :=
  ⟨by decide, by decide,
    (disable_snd_device_double_disable initial_device SND_DEVICE_OUT_SPEAKER "speaker"
      (by decide) (by decide) (by decide)).1,
    (disable_snd_device_double_disable initial_device SND_DEVICE_OUT_SPEAKER "speaker"
      (by decide) (by decide) (by decide)).2.2.2.1⟩

/-! ## Routes outside the catalog, catalog names, debounce window -/

/-- C21: `enable_snd_device` and `disable_snd_device` called with the route
NONE, or with any route id outside the range of the catalog, return `-EINVAL`
and change no reference count, leave the shutdown time as it is and make no
call to the path applier; the state changes by the record of the entry in the
trace only. -/
theorem snd_device_outside_catalog (adev : audio_device) (d : Int)
    (hd : d = SND_DEVICE_NONE ∨ d < SND_DEVICE_MIN ∨ SND_DEVICE_MAX ≤ d) :
    ((enable_snd_device adev d).1 = EINVAL_neg ∧
      (enable_snd_device adev d).2.snd_dev_ref_cnt = adev.snd_dev_ref_cnt ∧
      (enable_snd_device adev d).2.mixer_shutdown_time = adev.mixer_shutdown_time ∧
      path_calls (enable_snd_device adev d).2.trace = path_calls adev.trace ∧
      (enable_snd_device adev d).2 = emit adev (Event.enable_snd_device d)) ∧
    ((disable_snd_device adev d).1 = EINVAL_neg ∧
      (disable_snd_device adev d).2.snd_dev_ref_cnt = adev.snd_dev_ref_cnt ∧
      (disable_snd_device adev d).2.mixer_shutdown_time = adev.mixer_shutdown_time ∧
      path_calls (disable_snd_device adev d).2.trace = path_calls adev.trace ∧
      (disable_snd_device adev d).2 = emit adev (Event.disable_snd_device d)) := by
  have hr : ¬ (SND_DEVICE_MIN ≤ d ∧ d < SND_DEVICE_MAX) := by
    have h1 : SND_DEVICE_MIN = 1 := rfl
    have h2 : SND_DEVICE_MAX = 28 := rfl
    have h3 : SND_DEVICE_NONE = 0 := rfl
    rw [h1, h2]
    rw [h1, h2, h3] at hd
    omega
  have hname : get_snd_device_name d = none := by
    unfold get_snd_device_name
    rw [if_neg hr]
  have hcombo : d ≠ SND_DEVICE_OUT_SPEAKER_AND_HEADPHONES := by
    intro h
    rw [h] at hname
    rw [get_snd_device_name_combo] at hname
    cases hname
  have he : enable_snd_device adev d = (EINVAL_neg, emit adev (Event.enable_snd_device d)) := by
    unfold enable_snd_device
    rw [if_neg hcombo, enable_snd_device_simple_unnamed adev d hname]
  have hdis : disable_snd_device adev d =
      (EINVAL_neg, emit adev (Event.disable_snd_device d)) := by
    unfold disable_snd_device
    rw [if_neg hcombo, disable_snd_device_simple_unnamed adev d hname]
  rw [he, hdis]
  refine ⟨⟨rfl, rfl, rfl, ?_, rfl⟩, ⟨rfl, rfl, rfl, ?_, rfl⟩⟩
  · simp [emit, path_calls_append, path_calls_cons, path_calls_nil, is_path_call]
  · simp [emit, path_calls_append, path_calls_cons, path_calls_nil, is_path_call]

/-- Witness of C21: the route NONE in the initial state. -/
theorem snd_device_outside_catalog_witness :
    (enable_snd_device initial_device SND_DEVICE_NONE).1 = EINVAL_neg ∧
    (disable_snd_device initial_device SND_DEVICE_NONE).1 = EINVAL_neg ∧
    path_calls (enable_snd_device initial_device SND_DEVICE_NONE).2.trace = [] :=
  ⟨(snd_device_outside_catalog initial_device SND_DEVICE_NONE (Or.inl rfl)).1.1,
    (snd_device_outside_catalog initial_device SND_DEVICE_NONE (Or.inl rfl)).2.1,
    (snd_device_outside_catalog initial_device SND_DEVICE_NONE (Or.inl rfl)).1.2.2.2.1⟩

/-- C24 on the code: `device_table` designates each of the three narrowband
voice output routes twice and none of the wideband ones. The narrowband ids
carry the names that end in "-wb", the wideband ids have no name, and the
names "voice-earpiece", "voice-speaker" and "voice-headphones" belong to no
route. -/
theorem voice_output_route_names :
    get_snd_device_name SND_DEVICE_OUT_VOICE_EARPIECE = some "voice-earpiece-wb" ∧
    get_snd_device_name SND_DEVICE_OUT_VOICE_EARPIECE_WB = none ∧
    get_snd_device_name SND_DEVICE_OUT_VOICE_SPEAKER = some "voice-speaker-wb" ∧
    get_snd_device_name SND_DEVICE_OUT_VOICE_SPEAKER_WB = none ∧
    get_snd_device_name SND_DEVICE_OUT_VOICE_HEADPHONES = some "voice-headphones-wb" ∧
    get_snd_device_name SND_DEVICE_OUT_VOICE_HEADPHONES_WB = none ∧
    route_of_name "voice-earpiece" = none ∧
    route_of_name "voice-speaker" = none ∧
    route_of_name "voice-headphones" = none := by
  decide

/-- C27 on the code: with the arguments of `time_spec_diff` in the order
(shutdown time, activation time), enabling the speaker 500 ms after the last
shutdown, far outside the window of 10 ms, sleeps for 510 ms before the path
is applied; and enabling it 5 ms after the last shutdown sleeps for 15 ms, not
for the remaining 5 ms. -/
theorem enable_snd_device_sleep_outside_window :
    debounce_outside_device.snd_dev_ref_cnt SND_DEVICE_OUT_SPEAKER = 0 ∧
    time_spec_diff (debounce_outside_device.clock 0)
        debounce_outside_device.mixer_shutdown_time =
      { tv_sec := 0, tv_nsec := 500000000 } ∧
    (enable_snd_device debounce_outside_device SND_DEVICE_OUT_SPEAKER).2.trace =
      [Event.enable_snd_device SND_DEVICE_OUT_SPEAKER, Event.usleep 510000,
       Event.audio_route_apply_and_update_path "speaker"] ∧
    (enable_snd_device debounce_inside_device SND_DEVICE_OUT_SPEAKER).2.trace =
      [Event.enable_snd_device SND_DEVICE_OUT_SPEAKER, Event.usleep 15000,
       Event.audio_route_apply_and_update_path "speaker"] := by
  decide

/-! ## Termination of `select_devices` -/

theorem select_devices_switch_ne_no_fuel (a : audio_device) (uc_id o i : Int) :
    select_devices_switch a uc_id o i ≠ Outcome.no_fuel := by
  rw [select_devices_switch_eq]
  cases get_usecase_from_id a uc_id with
  | none => intro h; cases h
  | some u =>
    simp only []
    split_ifs <;> intro h <;> cases h

/-- A run that makes no nested call needs one level of fuel only. -/
theorem select_devices_flat_fuel (hotword : Int) (a : audio_device) (uc_id : Int)
    (hflat : ∀ u, uc_id ≠ hotword → get_usecase_from_id a uc_id = some u →
      nest_target a u = none) (f : Nat) :
    select_devices hotword (f + 1) a uc_id = select_devices hotword 1 a uc_id ∧
    select_devices hotword 1 a uc_id ≠ Outcome.no_fuel := by
  rw [select_devices_succ hotword f, select_devices_succ hotword 0]
  by_cases hhot : uc_id = hotword
  · simp only [if_pos hhot]
    exact ⟨trivial, fun h => by cases h⟩
  simp only [if_neg hhot]
  cases hg : get_usecase_from_id a uc_id with
  | none => exact ⟨rfl, fun h => by cases h⟩
  | some u =>
    simp only []
    cases hres : resolve a u with
    | none => exact ⟨rfl, fun h => by cases h⟩
    | some dio =>
      obtain ⟨devs, o, i⟩ := dio
      simp only [hflat u hhot hg]
      exact ⟨trivial, select_devices_switch_ne_no_fuel _ _ _ _⟩

theorem nest_target_not_playback (a : audio_device) (u : audio_usecase)
    (h : u.type ≠ PCM_PLAYBACK) : nest_target a u = none := by
  unfold nest_target
  rw [if_neg]
  intro hc
  exact h hc.1

/-- The nesting of `select_devices`. It makes a nested call only while it updates a
playback usecase on the primary output that did not inherit an output route
and sees an active input with source voice communication: in every other case
one level of calls is all there is. When the usecase id of the active input
names a capture usecase of the registry, the nested call makes no further
nested call: two levels are all there is, the run ends (it never exhausts the
bound on the nesting) and its result does not depend on the bound. -/
theorem select_devices_nesting_depth (hotword : Int) (fuel : Nat) (adev : audio_device)
    (uc_id : Int) :
    ((∀ u, get_usecase_from_id adev uc_id = some u →
        ¬ (u.type = PCM_PLAYBACK ∧ adev.primary_output = some u.stream ∧
          (inherited adev).map Prod.fst = some SND_DEVICE_NONE ∧
          ∃ inp, active_input adev = some inp ∧
            inp.source = AUDIO_SOURCE_VOICE_COMMUNICATION)) →
      select_devices hotword (fuel + 1) adev uc_id = select_devices hotword 1 adev uc_id ∧
      select_devices hotword 1 adev uc_id ≠ Outcome.no_fuel) ∧
    ((∀ inp, active_input adev = some inp →
        ∃ ut, get_usecase_from_id adev inp.usecase = some ut ∧ ut.type = PCM_CAPTURE) →
      select_devices hotword (fuel + 2) adev uc_id = select_devices hotword 2 adev uc_id ∧
      select_devices hotword 2 adev uc_id ≠ Outcome.no_fuel) := by
  constructor
  · intro hcond
    apply select_devices_flat_fuel
    intro u _ hg
    cases hn : nest_target adev u with
    | none => rfl
    | some t =>
      exfalso
      obtain ⟨hpb, hio, hpo⟩ := nest_target_playback hn
      apply hcond u hg
      refine ⟨hpb, hpo, hio, ?_⟩
      unfold nest_target at hn
      split_ifs at hn
      cases hai : active_input adev with
      | none => rw [hai] at hn; cases hn
      | some inp =>
        rw [hai] at hn
        simp only [] at hn
        split_ifs at hn with hs
        exact ⟨inp, rfl, hs⟩
  · intro hcap
    have hstep : ∀ f : Nat, select_devices hotword (f + 2) adev uc_id =
        select_devices hotword 2 adev uc_id ∧
        select_devices hotword 2 adev uc_id ≠ Outcome.no_fuel := by
      intro f
      rw [select_devices_succ hotword (f + 1), select_devices_succ hotword 1]
      by_cases hhot : uc_id = hotword
      · simp only [if_pos hhot]
        exact ⟨trivial, fun h => by cases h⟩
      simp only [if_neg hhot]
      cases hg : get_usecase_from_id adev uc_id with
      | none => exact ⟨rfl, fun h => by cases h⟩
      | some u =>
        simp only []
        cases hres : resolve adev u with
        | none => exact ⟨rfl, fun h => by cases h⟩
        | some dio =>
          obtain ⟨devs, o, i⟩ := dio
          simp only []
          cases hn : nest_target adev u with
          | none =>
            simp only []
            exact ⟨trivial, select_devices_switch_ne_no_fuel _ _ _ _⟩
          | some t =>
            simp only []
            -- the nested call is on a capture usecase and makes no nested call
            have hca : same_context (write_devices adev uc_id devs) adev :=
              write_devices_same_context _ _ _
            have hflat : ∀ ut, t ≠ hotword →
                get_usecase_from_id (write_devices adev uc_id devs) t = some ut →
                nest_target (write_devices adev uc_id devs) ut = none := by
              intro ut _ hgt
              apply nest_target_not_playback
              have e := nest_target_active_input hn
              cases hai : active_input adev with
              | none => rw [hai] at e; cases e
              | some inp =>
                rw [hai] at e
                injection e with e
                obtain ⟨uc, hgc, htc⟩ := hcap inp hai
                rw [e] at hgc
                rw [get_write_devices, hgc] at hgt
                have hty : ut.type = PCM_CAPTURE := by
                  split_ifs at hgt
                  · injection hgt with hgt
                    rw [← hgt]
                    cases devs <;> exact htc
                  · injection hgt with hgt
                    rw [← hgt]
                    exact htc
                rw [hty]
                decide
            obtain ⟨h1, h2⟩ := select_devices_flat_fuel hotword _ t hflat f
            rw [h1]
            refine ⟨rfl, ?_⟩
            cases hnest : select_devices hotword 1 (write_devices adev uc_id devs) t with
            | done rn an => exact select_devices_switch_ne_no_fuel _ _ _ _
            | null_deref => intro h; cases h
            | no_fuel => exact absurd hnest h2
    exact hstep fuel

/-- An instance of the nesting: the run for the playback usecase on the primary output,
with a voice communication capture usecase as the active input, makes one
nested call; it ends within two levels whatever the bound. -/
theorem select_devices_nesting_depth_witness :
    select_devices example_hotword 1 playback_capture_device USECASE_AUDIO_PLAYBACK =
      Outcome.no_fuel ∧
    select_devices example_hotword 5 playback_capture_device USECASE_AUDIO_PLAYBACK =
      select_devices example_hotword 2 playback_capture_device USECASE_AUDIO_PLAYBACK ∧
    select_devices example_hotword 2 playback_capture_device USECASE_AUDIO_PLAYBACK ≠
      Outcome.no_fuel :=
  ⟨rfl,
    (select_devices_nesting_depth example_hotword 3 playback_capture_device
      USECASE_AUDIO_PLAYBACK).2
      (fun inp h => by
        have e : active_input playback_capture_device = some voice_comm_stream := rfl
        rw [e] at h
        injection h with h
        subst h
        exact ⟨_, rfl, rfl⟩)⟩

/-! ## The record of the usecase after a run -/

theorem with_routes_self (u : audio_usecase) :
    with_routes u u.out_snd_device u.in_snd_device = u := rfl

/-- A completed run of `select_devices` for a registered id other than the
hot-word id: the routes `(o, i)` it resolves, the state `an` in which its
second half starts, and the record with which it ends. -/
theorem select_devices_run (hotword : Int) (fuel : Nat) (a : audio_device) (uc_id r : Int)
    (s : audio_device) (u : audio_usecase) (hhot : uc_id ≠ hotword)
    (hg : get_usecase_from_id a uc_id = some u)
    (h : select_devices hotword fuel a uc_id = Outcome.done r s) :
    ∃ devs o i an, resolve a u = some (devs, o, i) ∧
      get_usecase_from_id an uc_id = some (with_devices u devs) ∧
      select_devices_switch an uc_id o i = Outcome.done r s ∧
      get_usecase_from_id s uc_id = some (with_routes (with_devices u devs) o i) ∧
      (nest_target a u = none → an = write_devices a uc_id devs) ∧
      (∀ t, nest_target a u = some t → ∃ f rn,
        select_devices hotword f (write_devices a uc_id devs) t = Outcome.done rn an) := by
  cases fuel with
  | zero => simp [select_devices] at h
  | succ f =>
    rw [select_devices_succ, if_neg hhot, hg] at h
    simp only [] at h
    cases hres : resolve a u with
    | none => rw [hres] at h; cases h
    | some dio =>
      obtain ⟨devs, o, i⟩ := dio
      rw [hres] at h
      simp only [] at h
      have fin : ∀ an, get_usecase_from_id an uc_id = some (with_devices u devs) →
          select_devices_switch an uc_id o i = Outcome.done r s →
          get_usecase_from_id s uc_id = some (with_routes (with_devices u devs) o i) := by
        intro an hgn hsw
        rcases select_devices_switch_cases an uc_id o i r s _ hgn hsw with ⟨hs, ho, hi⟩ | ⟨_, hrec⟩
        · rw [hs, hgn, ho, hi, with_routes_self]
        · exact hrec
      cases hn : nest_target a u with
      | none =>
        rw [hn] at h
        have hgn : get_usecase_from_id (write_devices a uc_id devs) uc_id =
            some (with_devices u devs) := by
          rw [get_write_devices, if_pos rfl, hg]; rfl
        exact ⟨devs, o, i, _, rfl, hgn, h, fin _ hgn h, fun _ => rfl, fun t ht => by cases ht⟩
      | some t =>
        rw [hn] at h
        simp only [] at h
        cases hnest : select_devices hotword f (write_devices a uc_id devs) t with
        | done rn an =>
          rw [hnest] at h
          have hgn := nested_record hotword f a uc_id u devs t rn an hhot hg hn hnest
          refine ⟨devs, o, i, an, rfl, hgn, h, fin _ hgn h, (fun hc => by cases hc), ?_⟩
          intro t1 ht1
          injection ht1 with ht1
          subst ht1
          exact ⟨f, rn, hnest⟩
        | null_deref => rw [hnest] at h; cases h
        | no_fuel => rw [hnest] at h; cases h

theorem resolve_direction {a : audio_device} {u : audio_usecase} {devs : Option Nat}
    {o i : Int} (h : resolve a u = some (devs, o, i)) :
    (u.type = PCM_PLAYBACK → i = SND_DEVICE_NONE) ∧
    (u.type = PCM_CAPTURE → o = SND_DEVICE_NONE) := by
  have hpv : ¬ (PCM_PLAYBACK = VOICE_CALL) := by decide
  have hcv : ¬ (PCM_CAPTURE = VOICE_CALL) := by decide
  have hcp : ¬ (PCM_CAPTURE = PCM_PLAYBACK) := by decide
  constructor
  · intro hpb
    unfold resolve at h
    simp only [hpb, hpv, if_false, if_true] at h
    cases hin : inherited a with
    | none => rw [hin] at h; cases h
    | some oi =>
      obtain ⟨o1, i1⟩ := oi
      rw [hin] at h
      simp only [] at h
      injection h with h
      injection h with _ h
      injection h with _ h
      exact h.symm
  · intro hcap
    unfold resolve at h
    simp only [hcap, hcv, hcp, if_false, if_true] at h
    cases hin : inherited a with
    | none => rw [hin] at h; cases h
    | some oi =>
      obtain ⟨o1, i1⟩ := oi
      rw [hin] at h
      simp only [] at h
      by_cases hi1 : i1 = SND_DEVICE_NONE
      · rw [if_pos hi1] at h
        cases hai : active_input a with
        | none => rw [hai] at h; cases h
        | some inp =>
          rw [hai] at h
          simp only [] at h
          injection h with h
          injection h with _ h
          injection h with h _
          exact h.symm
      · rw [if_neg hi1] at h
        injection h with h
        injection h with _ h
        injection h with h _
        exact h.symm

/-- C22: after `select_devices` returns success for a playback usecase, the
input route stored in its record is NONE, and after it returns success for a
capture usecase the output route stored in its record is NONE, in every mode
and whether or not a call is active. The run for the hot-word id, which
returns at once, leaves the record as it was created, with routes (NONE,
NONE). -/
theorem select_devices_direction (hotword : Int) (fuel : Nat) (adev : audio_device)
    (uc_id : Int) (s : audio_device) (u : audio_usecase)
    (h : select_devices hotword fuel adev uc_id = Outcome.done 0 s)
    (hg : get_usecase_from_id adev uc_id = some u) :
    (u.type = PCM_PLAYBACK → (uc_id = hotword → u.in_snd_device = SND_DEVICE_NONE) →
      ∃ u1, get_usecase_from_id s uc_id = some u1 ∧ u1.in_snd_device = SND_DEVICE_NONE) ∧
    (u.type = PCM_CAPTURE → (uc_id = hotword → u.out_snd_device = SND_DEVICE_NONE) →
      ∃ u1, get_usecase_from_id s uc_id = some u1 ∧ u1.out_snd_device = SND_DEVICE_NONE) := by
  by_cases hhot : uc_id = hotword
  · have hs : s = adev := by
      cases fuel with
      | zero => simp [select_devices] at h
      | succ f =>
        rw [select_devices_succ, if_pos hhot] at h
        injection h with _ hs
        exact hs.symm
    rw [hs]
    exact ⟨fun _ hc => ⟨u, hg, hc hhot⟩, fun _ hc => ⟨u, hg, hc hhot⟩⟩
  · obtain ⟨devs, o, i, an, hres, _, _, hrec, _, _⟩ :=
      select_devices_run hotword fuel adev uc_id 0 s u hhot hg h
    obtain ⟨hp, hc⟩ := resolve_direction hres
    constructor
    · intro hpb _
      exact ⟨_, hrec, hp hpb⟩
    · intro hcap _
      exact ⟨_, hrec, hc hcap⟩

/-- Witness of C22: the run for the playback usecase during a call on the
speaker stores the input route NONE. -/
theorem select_devices_direction_witness :
    ∃ adev1,
      select_devices example_hotword 1 call_speaker_device USECASE_AUDIO_PLAYBACK =
        Outcome.done 0 adev1 ∧
      ∃ usecase1, get_usecase_from_id adev1 USECASE_AUDIO_PLAYBACK = some usecase1 ∧
        usecase1.in_snd_device = SND_DEVICE_NONE :=
  ⟨_, rfl,
    (select_devices_direction example_hotword 1 call_speaker_device USECASE_AUDIO_PLAYBACK _
      { id := USECASE_AUDIO_PLAYBACK, type := PCM_PLAYBACK, devices := AUDIO_DEVICE_OUT_SPEAKER,
        out_snd_device := SND_DEVICE_NONE, in_snd_device := SND_DEVICE_NONE, stream := 1 }
      rfl (by decide)).1 (by decide) (fun _ => rfl)⟩

/-! ## Order of the calls of a switch -/

theorem disable_snd_device_simple_trace (a : audio_device) (d : Int) :
    ∃ D, (disable_snd_device_simple a d).2.trace = a.trace ++ D ∧
      ∀ e ∈ D, is_disable_event e = true := by
  cases hname : get_snd_device_name d with
  | none =>
    rw [disable_snd_device_simple_unnamed a d hname]
    exact ⟨[Event.disable_snd_device d], rfl, by simp [is_disable_event]⟩
  | some n =>
    rw [disable_snd_device_simple_eq a d n hname]
    split_ifs
    · exact ⟨[Event.disable_snd_device d], rfl, by simp [is_disable_event]⟩
    · exact ⟨[Event.disable_snd_device d, Event.audio_route_reset_and_update_path n], rfl,
        by simp [is_disable_event]⟩
    · exact ⟨[Event.disable_snd_device d], rfl, by simp [is_disable_event]⟩

theorem disable_snd_device_trace (a : audio_device) (d : Int) :
    ∃ D, (disable_snd_device a d).2.trace = a.trace ++ D ∧
      ∀ e ∈ D, is_disable_event e = true := by
  by_cases hd : d = SND_DEVICE_OUT_SPEAKER_AND_HEADPHONES
  · subst hd
    rw [disable_snd_device_combo_eq]
    obtain ⟨D1, h1, p1⟩ := disable_snd_device_simple_trace
      (emit a (Event.disable_snd_device SND_DEVICE_OUT_SPEAKER_AND_HEADPHONES))
      SND_DEVICE_OUT_SPEAKER
    obtain ⟨D2, h2, p2⟩ := disable_snd_device_simple_trace
      (disable_snd_device_simple
        (emit a (Event.disable_snd_device SND_DEVICE_OUT_SPEAKER_AND_HEADPHONES))
        SND_DEVICE_OUT_SPEAKER).2 SND_DEVICE_OUT_HEADPHONES
    refine ⟨[Event.disable_snd_device SND_DEVICE_OUT_SPEAKER_AND_HEADPHONES] ++ D1 ++ D2, ?_, ?_⟩
    · show (disable_snd_device_simple _ SND_DEVICE_OUT_HEADPHONES).2.trace = _
      rw [h2, h1, emit_trace]
      simp
    · intro e he
      simp only [List.mem_append, List.mem_singleton] at he
      rcases he with (he | he) | he
      · rw [he]; rfl
      · exact p1 e he
      · exact p2 e he
  · unfold disable_snd_device
    rw [if_neg hd]
    exact disable_snd_device_simple_trace a d

theorem debounce_sleep_enable_events (t0 t1 : timespec) :
    ∀ e ∈ debounce_sleep t0 t1, is_enable_event e = true := by
  intro e he
  unfold debounce_sleep at he
  simp only [] at he
  split_ifs at he
  · simp only [List.mem_singleton] at he
    rw [he]; rfl
  · cases he

theorem enable_snd_device_simple_trace (a : audio_device) (d : Int) :
    ∃ E, (enable_snd_device_simple a d).2.trace = a.trace ++ E ∧
      ∀ e ∈ E, is_enable_event e = true := by
  cases hname : get_snd_device_name d with
  | none =>
    rw [enable_snd_device_simple_unnamed a d hname]
    exact ⟨[Event.enable_snd_device d], rfl, by simp [is_enable_event]⟩
  | some n =>
    rw [enable_snd_device_simple_eq a d n hname]
    split_ifs
    · exact ⟨[Event.enable_snd_device d], rfl, by simp [is_enable_event]⟩
    · refine ⟨_, rfl, ?_⟩
      intro e he
      simp only [List.mem_append, List.mem_singleton] at he
      rcases he with (he | he) | he
      · rw [he]; rfl
      · exact debounce_sleep_enable_events _ _ e he
      · rw [he]; rfl

theorem enable_snd_device_trace (a : audio_device) (d : Int) :
    ∃ E, (enable_snd_device a d).2.trace = a.trace ++ E ∧
      ∀ e ∈ E, is_enable_event e = true := by
  by_cases hd : d = SND_DEVICE_OUT_SPEAKER_AND_HEADPHONES
  · subst hd
    rw [enable_snd_device_combo_eq]
    obtain ⟨E1, h1, p1⟩ := enable_snd_device_simple_trace
      (emit a (Event.enable_snd_device SND_DEVICE_OUT_SPEAKER_AND_HEADPHONES))
      SND_DEVICE_OUT_SPEAKER
    obtain ⟨E2, h2, p2⟩ := enable_snd_device_simple_trace
      (enable_snd_device_simple
        (emit a (Event.enable_snd_device SND_DEVICE_OUT_SPEAKER_AND_HEADPHONES))
        SND_DEVICE_OUT_SPEAKER).2 SND_DEVICE_OUT_HEADPHONES
    refine ⟨[Event.enable_snd_device SND_DEVICE_OUT_SPEAKER_AND_HEADPHONES] ++ E1 ++ E2, ?_, ?_⟩
    · show (enable_snd_device_simple _ SND_DEVICE_OUT_HEADPHONES).2.trace = _
      rw [h2, h1, emit_trace]
      simp
    · intro e he
      simp only [List.mem_append, List.mem_singleton] at he
      rcases he with (he | he) | he
      · rw [he]; rfl
      · exact p1 e he
      · exact p2 e he
  · unfold enable_snd_device
    rw [if_neg hd]
    exact enable_snd_device_simple_trace a d

theorem adev_set_call_audio_path_eq (a : audio_device) :
    ∃ path, adev_set_call_audio_path a = emit a (Event.ril_set_call_audio_path path) :=
  ⟨_, rfl⟩

theorem voice_set_volume_eq (a : audio_device) :
    voice_set_volume a = a ∨
      ∃ sound_type, voice_set_volume a = emit a (Event.ril_set_call_volume sound_type) := by
  unfold voice_set_volume
  by_cases hm : a.mode = AUDIO_MODE_IN_CALL
  · rw [if_pos hm]
    exact Or.inr ⟨_, rfl⟩
  · rw [if_neg hm]
    exact Or.inl rfl

theorem start_ril_call_trace (a : audio_device) :
    ∃ R, (start_ril_call a).trace = a.trace ++ R ∧ ∀ e ∈ R, is_ril_event e = true := by
  unfold start_ril_call
  simp only []
  generalize hb : decide (a.out_device = AUDIO_DEVICE_OUT_EARPIECE ∨
    a.out_device = AUDIO_DEVICE_OUT_SPEAKER) = b
  generalize h0 : emit { a with two_mic_control := b } (Event.ril_set_two_mic_control b) = a0
  have t0 : a0.trace = a.trace ++ [Event.ril_set_two_mic_control b] := by
    rw [← h0]; rfl
  obtain ⟨path, h1⟩ := adev_set_call_audio_path_eq a0
  rw [h1]
  rcases voice_set_volume_eq (emit a0 (Event.ril_set_call_audio_path path)) with h2 | ⟨st, h2⟩
  · rw [h2]
    refine ⟨[Event.ril_set_two_mic_control b, Event.ril_set_call_audio_path path,
      Event.ril_set_call_clock_sync_start], ?_, ?_⟩
    · simp [emit, t0]
    · intro e he
      simp only [List.mem_cons, List.mem_singleton, List.not_mem_nil, or_false] at he
      rcases he with he | he | he <;> rw [he] <;> rfl
  · rw [h2]
    refine ⟨[Event.ril_set_two_mic_control b, Event.ril_set_call_audio_path path,
      Event.ril_set_call_volume st, Event.ril_set_call_clock_sync_start], ?_, ?_⟩
    · simp [emit, t0]
    · intro e he
      simp only [List.mem_cons, List.mem_singleton, List.not_mem_nil, or_false] at he
      rcases he with he | he | he | he <;> rw [he] <;> rfl

theorem guarded_disable_trace (a : audio_device) (d : Int) :
    ∃ D, (if d ≠ SND_DEVICE_NONE then (disable_snd_device a d).2 else a).trace = a.trace ++ D ∧
      ∀ e ∈ D, is_disable_event e = true := by
  split_ifs
  · exact disable_snd_device_trace a d
  · exact ⟨[], by simp, fun e he => by cases he⟩

theorem guarded_enable_trace (a : audio_device) (d : Int) :
    ∃ E, (if d ≠ SND_DEVICE_NONE then (enable_snd_device a d).2 else a).trace = a.trace ++ E ∧
      ∀ e ∈ E, is_enable_event e = true := by
  split_ifs
  · exact enable_snd_device_trace a d
  · exact ⟨[], by simp, fun e he => by cases he⟩

theorem guarded_ril_trace (a : audio_device) :
    ∃ R, (if a.voice_in_call = true then start_ril_call a else a).trace = a.trace ++ R ∧
      ∀ e ∈ R, is_ril_event e = true := by
  split_ifs
  · exact start_ril_call_trace a
  · exact ⟨[], by simp, fun e he => by cases he⟩

theorem forall_mem_append {p : Event → Prop} {l1 l2 : List Event}
    (h1 : ∀ e ∈ l1, p e) (h2 : ∀ e ∈ l2, p e) : ∀ e ∈ l1 ++ l2, p e := by
  intro e he
  rcases List.mem_append.mp he with he | he
  · exact h1 e he
  · exact h2 e he

/-- The trace of the engine part of a switch: deactivation events, then
telephony calls, then activation events. -/
theorem engine_switch_trace (a : audio_device) (oo oi o i : Int) :
    ∃ D R E, (engine_switch a oo oi o i).trace = a.trace ++ D ++ R ++ E ∧
      (∀ e ∈ D, is_disable_event e = true) ∧ (∀ e ∈ R, is_ril_event e = true) ∧
      (∀ e ∈ E, is_enable_event e = true) := by
  unfold engine_switch
  simp only []
  obtain ⟨D1, h1, p1⟩ := guarded_disable_trace a oo
  generalize (if oo ≠ SND_DEVICE_NONE then (disable_snd_device a oo).2 else a) = a1 at h1 ⊢
  obtain ⟨D2, h2, p2⟩ := guarded_disable_trace a1 oi
  generalize (if oi ≠ SND_DEVICE_NONE then (disable_snd_device a1 oi).2 else a1) = a2 at h2 ⊢
  obtain ⟨R, h3, p3⟩ := guarded_ril_trace a2
  generalize (if a2.voice_in_call = true then start_ril_call a2 else a2) = a3 at h3 ⊢
  obtain ⟨E1, h4, p4⟩ := guarded_enable_trace a3 o
  generalize (if o ≠ SND_DEVICE_NONE then (enable_snd_device a3 o).2 else a3) = a4 at h4 ⊢
  obtain ⟨E2, h5, p5⟩ := guarded_enable_trace a4 i
  refine ⟨D1 ++ D2, R, E1 ++ E2, ?_, forall_mem_append p1 p2, p3, forall_mem_append p4 p5⟩
  rw [h5, h4, h3, h2, h1]
  simp

theorem select_devices_switch_trace (a : audio_device) (uc_id o i r : Int) (s : audio_device)
    (h : select_devices_switch a uc_id o i = Outcome.done r s) :
    ∃ T, s.trace = a.trace ++ T := by
  cases hg : get_usecase_from_id a uc_id with
  | none =>
    rw [select_devices_switch_eq, hg] at h
    cases h
  | some u =>
    rcases select_devices_switch_cases a uc_id o i r s u hg h with ⟨hs, _⟩ | ⟨hs, _⟩
    · exact ⟨[], by rw [hs]; simp⟩
    · obtain ⟨D, R, E, ht, _⟩ := engine_switch_trace a u.out_snd_device u.in_snd_device o i
      refine ⟨D ++ R ++ E, ?_⟩
      rw [hs]
      show (engine_switch a u.out_snd_device u.in_snd_device o i).trace = _
      rw [ht]
      simp

theorem write_devices_trace (a : audio_device) (uc_id : Int) (devs : Option Nat) :
    (write_devices a uc_id devs).trace = a.trace := by
  cases devs <;> rfl

theorem select_devices_trace (hotword : Int) :
    ∀ (fuel : Nat) (a : audio_device) (uc_id r : Int) (s : audio_device),
      select_devices hotword fuel a uc_id = Outcome.done r s → ∃ T, s.trace = a.trace ++ T := by
  intro fuel
  induction fuel with
  | zero => intro a uc_id r s h; simp [select_devices] at h
  | succ f ih =>
    intro a uc_id r s h
    rw [select_devices_succ] at h
    by_cases hhot : uc_id = hotword
    · rw [if_pos hhot] at h
      injection h with _ hs
      exact ⟨[], by rw [← hs]; simp⟩
    rw [if_neg hhot] at h
    cases hg : get_usecase_from_id a uc_id with
    | none =>
      rw [hg] at h
      simp only [] at h
      injection h with _ hs
      exact ⟨[], by rw [← hs]; simp⟩
    | some u =>
      rw [hg] at h
      simp only [] at h
      cases hres : resolve a u with
      | none => rw [hres] at h; cases h
      | some dio =>
        obtain ⟨devs, o, i⟩ := dio
        rw [hres] at h
        simp only [] at h
        cases hn : nest_target a u with
        | none =>
          rw [hn] at h
          obtain ⟨T, hT⟩ := select_devices_switch_trace _ _ _ _ _ _ h
          rw [write_devices_trace] at hT
          exact ⟨T, hT⟩
        | some t =>
          rw [hn] at h
          simp only [] at h
          cases hnest : select_devices hotword f (write_devices a uc_id devs) t with
          | done rn an =>
            rw [hnest] at h
            obtain ⟨T1, hT1⟩ := ih _ _ _ _ hnest
            obtain ⟨T2, hT2⟩ := select_devices_switch_trace _ _ _ _ _ _ h
            rw [write_devices_trace] at hT1
            exact ⟨T1 ++ T2, by rw [hT2, hT1]; simp⟩
          | null_deref => rw [hnest] at h; cases h
          | no_fuel => rw [hnest] at h; cases h

/-- C26: in every run of `select_devices` that changes the routes stored for
the usecase, the calls for that usecase start in a state `an` reached from the
state of the call (after the nested call, if there is one) and are, in this
order, `disable_snd_device` for the old output route if it is not NONE, for
the old input route if it is not NONE, the telephony calls during a call,
`enable_snd_device` for the new output route if it is not NONE and for the
new input route if it is not NONE. The events added to the trace are
deactivation events, then telephony calls, then activation events, so that no
activation precedes a deactivation; the record still holds the old pair after
the last of these calls and the new pair is written to it afterwards. -/
theorem select_devices_switch_order (hotword : Int) (fuel : Nat) (adev : audio_device)
    (uc_id r : Int) (s : audio_device) (u u1 : audio_usecase)
    (h : select_devices hotword fuel adev uc_id = Outcome.done r s)
    (hg : get_usecase_from_id adev uc_id = some u)
    (hg1 : get_usecase_from_id s uc_id = some u1)
    (hchg : u1.out_snd_device ≠ u.out_snd_device ∨ u1.in_snd_device ≠ u.in_snd_device) :
    ∃ (an a1 a2 a3 a4 a5 : audio_device) (N D R E : List Event),
      an.trace = adev.trace ++ N ∧
      a1 = (if u.out_snd_device ≠ SND_DEVICE_NONE then
          (disable_snd_device an u.out_snd_device).2 else an) ∧
      a2 = (if u.in_snd_device ≠ SND_DEVICE_NONE then
          (disable_snd_device a1 u.in_snd_device).2 else a1) ∧
      a3 = (if a2.voice_in_call = true then start_ril_call a2 else a2) ∧
      a4 = (if u1.out_snd_device ≠ SND_DEVICE_NONE then
          (enable_snd_device a3 u1.out_snd_device).2 else a3) ∧
      a5 = (if u1.in_snd_device ≠ SND_DEVICE_NONE then
          (enable_snd_device a4 u1.in_snd_device).2 else a4) ∧
      s = set_usecase_snd_devices a5 uc_id u1.out_snd_device u1.in_snd_device ∧
      (get_usecase_from_id a5 uc_id).map (fun v => (v.out_snd_device, v.in_snd_device)) =
        some (u.out_snd_device, u.in_snd_device) ∧
      a2.trace = an.trace ++ D ∧ a3.trace = a2.trace ++ R ∧ a5.trace = a3.trace ++ E ∧
      s.trace = adev.trace ++ N ++ D ++ R ++ E ∧
      (∀ e ∈ D, is_disable_event e = true) ∧ (∀ e ∈ R, is_ril_event e = true) ∧
      (∀ e ∈ E, is_enable_event e = true) := by
  have hhot : uc_id ≠ hotword := by
    intro hhot
    cases fuel with
    | zero => simp [select_devices] at h
    | succ f =>
      rw [select_devices_succ, if_pos hhot] at h
      injection h with _ hs
      rw [← hs, hg] at hg1
      injection hg1 with hg1
      rw [hg1] at hchg
      rcases hchg with hc | hc <;> exact hc rfl
  obtain ⟨devs, o, i, an, hres, hgn, hsw, hrec, hflat, hnest⟩ :=
    select_devices_run hotword fuel adev uc_id r s u hhot hg h
  obtain ⟨hwo, hwi⟩ := with_devices_routes u devs
  rw [hrec] at hg1
  injection hg1 with hg1
  have e1 : u1.out_snd_device = o := by rw [← hg1]; rfl
  have e2 : u1.in_snd_device = i := by rw [← hg1]; rfl
  -- the trace up to the state in which the second half starts
  have hN : ∃ N, an.trace = adev.trace ++ N := by
    cases hn : nest_target adev u with
    | none =>
      rw [hflat hn, write_devices_trace]
      exact ⟨[], by simp⟩
    | some t =>
      obtain ⟨f, rn, hrun⟩ := hnest t hn
      obtain ⟨N, hN⟩ := select_devices_trace hotword f _ _ _ _ hrun
      rw [write_devices_trace] at hN
      exact ⟨N, hN⟩
  obtain ⟨N, hN⟩ := hN
  rcases select_devices_switch_cases an uc_id o i r s _ hgn hsw with ⟨_, ho, hi⟩ | ⟨hs, _⟩
  · exfalso
    rw [e1, e2, ho, hi, hwo, hwi] at hchg
    rcases hchg with hc | hc <;> exact hc rfl
  · rw [hwo, hwi] at hs
    obtain ⟨D1, h1, p1⟩ := guarded_disable_trace an u.out_snd_device
    generalize ha1 : (if u.out_snd_device ≠ SND_DEVICE_NONE then
      (disable_snd_device an u.out_snd_device).2 else an) = a1 at h1
    obtain ⟨D2, h2, p2⟩ := guarded_disable_trace a1 u.in_snd_device
    generalize ha2 : (if u.in_snd_device ≠ SND_DEVICE_NONE then
      (disable_snd_device a1 u.in_snd_device).2 else a1) = a2 at h2
    obtain ⟨R, h3, p3⟩ := guarded_ril_trace a2
    generalize ha3 : (if a2.voice_in_call = true then start_ril_call a2 else a2) = a3 at h3
    obtain ⟨E1, h4, p4⟩ := guarded_enable_trace a3 o
    generalize ha4 : (if o ≠ SND_DEVICE_NONE then (enable_snd_device a3 o).2 else a3) = a4 at h4
    obtain ⟨E2, h5, p5⟩ := guarded_enable_trace a4 i
    generalize ha5 : (if i ≠ SND_DEVICE_NONE then (enable_snd_device a4 i).2 else a4) = a5 at h5
    have hes : engine_switch an u.out_snd_device u.in_snd_device o i = a5 := by
      unfold engine_switch
      simp only []
      rw [ha1, ha2, ha3, ha4, ha5]
    rw [hes] at hs
    have hfr : get_usecase_from_id a5 uc_id = some (with_devices u devs) := by
      rw [← hes, get_usecase_from_id_frame (frame_engine_switch an _ _ _ _), hgn]
    refine ⟨an, a1, a2, a3, a4, a5, N, D1 ++ D2, R, E1 ++ E2, hN, ha1.symm, ha2.symm, ha3.symm,
      ?_, ?_, ?_, ?_, ?_, h3, ?_, ?_, forall_mem_append p1 p2, p3, forall_mem_append p4 p5⟩
    · rw [e1]; exact ha4.symm
    · rw [e2]; exact ha5.symm
    · rw [e1, e2]; exact hs
    · rw [hfr]
      show some (_, _) = _
      rw [hwo, hwi]
    · rw [h2, h1]; simp
    · rw [h5, h4]; simp
    · rw [hs]
      show a5.trace = _
      rw [h5, h4, h3, h2, h1, hN]
      simp

/-- Witness of C26: the run for a playback usecase moved from the speaker to
the wired headset disables the speaker route and then enables the headphones
route. -/
theorem select_devices_switch_order_witness :
    ∃ adev1,
      select_devices example_hotword 1 playback_rerouted_device USECASE_AUDIO_PLAYBACK =
        Outcome.done 0 adev1 ∧
      adev1.trace = playback_rerouted_device.trace ++
        [Event.disable_snd_device SND_DEVICE_OUT_SPEAKER,
         Event.audio_route_reset_and_update_path "speaker",
         Event.enable_snd_device SND_DEVICE_OUT_HEADPHONES,
         Event.audio_route_apply_and_update_path "headphones"] ∧
      ∃ N D R E, adev1.trace = playback_rerouted_device.trace ++ N ++ D ++ R ++ E ∧
        (∀ e ∈ D, is_disable_event e = true) ∧ (∀ e ∈ R, is_ril_event e = true) ∧
        (∀ e ∈ E, is_enable_event e = true) :=
  ⟨_, rfl, by decide, by
    obtain ⟨_, _, _, _, _, _, N, D, R, E, _, _, _, _, _, _, _, _, _, _, _, ht, pD, pR, pE⟩ :=
      select_devices_switch_order example_hotword 1 playback_rerouted_device
        USECASE_AUDIO_PLAYBACK 0 _
        { id := USECASE_AUDIO_PLAYBACK, type := PCM_PLAYBACK,
          devices := AUDIO_DEVICE_OUT_SPEAKER, out_snd_device := SND_DEVICE_OUT_SPEAKER,
          in_snd_device := SND_DEVICE_NONE, stream := 1 }
        { id := USECASE_AUDIO_PLAYBACK, type := PCM_PLAYBACK,
          devices := AUDIO_DEVICE_OUT_WIRED_HEADSET, out_snd_device := SND_DEVICE_OUT_HEADPHONES,
          in_snd_device := SND_DEVICE_NONE, stream := 1 }
        rfl (by decide) (by decide) (Or.inl (by decide))
    exact ⟨N, D, R, E, ht, pD, pR, pE⟩⟩

/-! ## The end of a call -/

theorem frame_disable_twice (a : audio_device) (d1 d2 : Int) :
    (disable_snd_device (disable_snd_device a d1).2 d2).2.usecase_list = a.usecase_list := by
  have h1 := frame_usecase_list (frame_disable_snd_device (disable_snd_device a d1).2 d2)
  have h2 := frame_usecase_list (frame_disable_snd_device a d1)
  rw [h1, h2]

/-- C23: `stop_voice_call` during a call (in-call flag set). While the mode is
still in-call it returns 0 and changes nothing but the flag: the voice call
usecase stays in the registry and no reference count changes. When the mode
has left in-call and the voice call usecase is in the registry, it calls
`disable_snd_device` once for the stored output route, then once for the
stored input route, removes the usecase from the registry and returns 0; when
the usecase is missing it returns `-EINVAL`. In every case the flag is clear
afterwards, so that a later `select_devices` run for a playback usecase does
not inherit: it stores the output route resolved from the device mask of its
own stream. -/
theorem stop_voice_call_mode (adev : audio_device) (hcall : adev.voice_in_call = true) :
    (adev.mode = AUDIO_MODE_IN_CALL →
      stop_voice_call adev = (some 0, { adev with voice_in_call := false })) ∧
    (adev.mode ≠ AUDIO_MODE_IN_CALL →
      ∀ vc, get_usecase_from_id adev USECASE_VOICE_CALL = some vc →
        stop_voice_call adev =
          (some 0,
            { (disable_snd_device
                (disable_snd_device { adev with voice_in_call := false } vc.out_snd_device).2
                vc.in_snd_device).2 with
              usecase_list := remove_usecase USECASE_VOICE_CALL adev.usecase_list })) ∧
    (adev.mode ≠ AUDIO_MODE_IN_CALL → get_usecase_from_id adev USECASE_VOICE_CALL = none →
      stop_voice_call adev = (some EINVAL_neg, { adev with voice_in_call := false })) ∧
    (stop_voice_call adev).2.voice_in_call = false ∧
    (∀ (hotword : Int) (fuel : Nat) (uc_id r : Int) (s : audio_device) (u : audio_usecase),
      uc_id ≠ hotword → get_usecase_from_id (stop_voice_call adev).2 uc_id = some u →
      u.type = PCM_PLAYBACK →
      select_devices hotword fuel (stop_voice_call adev).2 uc_id = Outcome.done r s →
      ∃ u1, get_usecase_from_id s uc_id = some u1 ∧
        u1.out_snd_device =
          get_output_snd_device (stop_voice_call adev).2
            ((stop_voice_call adev).2.streams u.stream).devices) := by
  have hc : ¬ ¬ adev.voice_in_call = true := fun h => h hcall
  have h1 : adev.mode = AUDIO_MODE_IN_CALL →
      stop_voice_call adev = (some 0, { adev with voice_in_call := false }) := by
    intro hm
    unfold stop_voice_call
    simp only [hcall, hm, ne_eq, not_true_eq_false, if_false]
  have h2 : adev.mode ≠ AUDIO_MODE_IN_CALL →
      ∀ vc, get_usecase_from_id adev USECASE_VOICE_CALL = some vc →
        stop_voice_call adev =
          (some 0,
            { (disable_snd_device
                (disable_snd_device { adev with voice_in_call := false } vc.out_snd_device).2
                vc.in_snd_device).2 with
              usecase_list := remove_usecase USECASE_VOICE_CALL adev.usecase_list }) := by
    intro hm vc hg
    have hg' : get_usecase_from_id { adev with voice_in_call := false } USECASE_VOICE_CALL =
        some vc := hg
    unfold stop_voice_call
    simp only [hcall, hm, ne_eq, not_true_eq_false, not_false_eq_true, if_false, if_true, hg']
    rw [frame_disable_twice]
  have h3 : adev.mode ≠ AUDIO_MODE_IN_CALL →
      get_usecase_from_id adev USECASE_VOICE_CALL = none →
      stop_voice_call adev = (some EINVAL_neg, { adev with voice_in_call := false }) := by
    intro hm hg
    have hg' : get_usecase_from_id { adev with voice_in_call := false } USECASE_VOICE_CALL =
        none := hg
    unfold stop_voice_call
    simp only [hcall, hm, ne_eq, not_true_eq_false, not_false_eq_true, if_false, if_true, hg']
  have h4 : (stop_voice_call adev).2.voice_in_call = false := by
    by_cases hm : adev.mode = AUDIO_MODE_IN_CALL
    · rw [h1 hm]
    · cases hg : get_usecase_from_id adev USECASE_VOICE_CALL with
      | none => rw [h3 hm hg]
      | some vc =>
        rw [h2 hm vc hg]
        show (disable_snd_device (disable_snd_device _ vc.out_snd_device).2
          vc.in_snd_device).2.voice_in_call = false
        have e1 := congrArg (fun c => c.1.voice_in_call)
          (frame_disable_snd_device
            (disable_snd_device { adev with voice_in_call := false } vc.out_snd_device).2
            vc.in_snd_device)
        have e2 := congrArg (fun c => c.1.voice_in_call)
          (frame_disable_snd_device { adev with voice_in_call := false } vc.out_snd_device)
        exact e1.trans e2
  refine ⟨h1, h2, h3, h4, ?_⟩
  intro hotword fuel uc_id r s u hhot hg hpb hrun
  obtain ⟨devs, o, i, an, hres, _, _, hrec, _, _⟩ :=
    select_devices_run hotword fuel _ uc_id r s u hhot hg hrun
  have hinh : inherited (stop_voice_call adev).2 = some (SND_DEVICE_NONE, SND_DEVICE_NONE) := by
    apply inherited_no_call
    rw [h4]
    decide
  rw [resolve_playback hpb hinh, if_pos rfl] at hres
  injection hres with hres
  injection hres with _ hres
  injection hres with ho _
  exact ⟨_, hrec, ho.symm⟩

/-- Witness of C23: during a call on the speaker `stop_voice_call` keeps the
registry while the mode is in-call; once the mode is normal it removes the
voice call usecase, brings the counts of its two routes to 0 and clears the
flag. -/
theorem stop_voice_call_mode_witness :
    call_speaker_device.voice_in_call = true ∧
    (stop_voice_call call_speaker_device).1 = some 0 ∧
    (stop_voice_call call_speaker_device).2.usecase_list = call_speaker_device.usecase_list ∧
    (stop_voice_call call_ended_device).2.usecase_list.map (fun u => u.id) =
      [USECASE_AUDIO_PLAYBACK] ∧
    (stop_voice_call call_ended_device).2.snd_dev_ref_cnt SND_DEVICE_OUT_VOICE_SPEAKER = 0 ∧
    (stop_voice_call call_ended_device).2.snd_dev_ref_cnt SND_DEVICE_IN_VOICE_SPEAKER_MIC = 0 ∧
    (stop_voice_call call_ended_device).2.voice_in_call = false :=
  ⟨by decide,
    congrArg Prod.fst ((stop_voice_call_mode call_speaker_device (by decide)).1 (by decide)),
    congrArg (fun x => x.2.usecase_list)
      ((stop_voice_call_mode call_speaker_device (by decide)).1 (by decide)),
    by decide, by decide, by decide,
    (stop_voice_call_mode call_ended_device (by decide)).2.2.2.1⟩

/-! ## Effect of the activation engine on the reference counts -/

theorem route_weight_nonneg (r d : Int) : 0 ≤ route_weight r d := by
  unfold route_weight
  split_ifs <;> decide

theorem route_weight_le_one (r d : Int) : route_weight r d ≤ 1 := by
  unfold route_weight
  split_ifs <;> decide

theorem route_weight_unnamed {r d : Int} (hr : get_snd_device_name r = none)
    (hd : named_simple d) : route_weight r d = 0 := by
  unfold route_weight
  rw [if_neg]
  intro h
  unfold route_holds at h
  simp only [decide_eq_true_eq] at h
  rcases h with h | ⟨h, _⟩
  · rw [h] at hr
    have h1 := hd.1
    rw [hr] at h1
    exact absurd h1 (by decide)
  · rw [h, get_snd_device_name_combo] at hr
    cases hr

theorem route_weight_none {d : Int} (hd : named_simple d) :
    route_weight SND_DEVICE_NONE d = 0 :=
  route_weight_unnamed (by decide) hd

theorem route_weight_simple {r d : Int} (hr : r ≠ SND_DEVICE_OUT_SPEAKER_AND_HEADPHONES) :
    route_weight r d = if d = r then 1 else 0 := by
  unfold route_weight route_holds
  by_cases h : d = r
  · simp [h]
  · have h2 : ¬ r = d := fun e => h e.symm
    simp [h, h2, hr]

theorem route_weight_combo {d : Int} (hd : d ≠ SND_DEVICE_OUT_SPEAKER_AND_HEADPHONES) :
    route_weight SND_DEVICE_OUT_SPEAKER_AND_HEADPHONES d =
      (if d = SND_DEVICE_OUT_SPEAKER then 1 else 0) +
        (if d = SND_DEVICE_OUT_HEADPHONES then 1 else 0) := by
  unfold route_weight route_holds
  have h2 : ¬ SND_DEVICE_OUT_SPEAKER_AND_HEADPHONES = d := fun e => hd e.symm
  by_cases h3 : d = SND_DEVICE_OUT_SPEAKER
  · subst h3
    decide
  · by_cases h4 : d = SND_DEVICE_OUT_HEADPHONES
    · subst h4
      decide
    · simp [h2, h3, h4]

theorem enable_snd_device_simple_cnt (a : audio_device) (r d : Int) (hd : named_simple d) :
    (enable_snd_device_simple a r).2.snd_dev_ref_cnt d =
      a.snd_dev_ref_cnt d + if d = r then 1 else 0 := by
  cases hname : get_snd_device_name r with
  | none =>
    rw [enable_snd_device_simple_unnamed a r hname]
    have hne : d ≠ r := by
      intro h
      rw [← h] at hname
      have h1 := hd.1
      rw [hname] at h1
      exact absurd h1 (by decide)
    rw [if_neg hne]
    simp [emit]
  | some n =>
    rw [enable_snd_device_simple_ref_cnt a r n hname]
    by_cases h : d = r
    · rw [if_pos h, if_pos h, h]
    · rw [if_neg h, if_neg h]
      simp

theorem disable_snd_device_simple_cnt (a : audio_device) (r d : Int) (hd : named_simple d)
    (hpre : d = r → 1 ≤ a.snd_dev_ref_cnt d) :
    (disable_snd_device_simple a r).2.snd_dev_ref_cnt d =
      a.snd_dev_ref_cnt d - if d = r then 1 else 0 := by
  cases hname : get_snd_device_name r with
  | none =>
    rw [disable_snd_device_simple_unnamed a r hname]
    have hne : d ≠ r := by
      intro h
      rw [← h] at hname
      have h1 := hd.1
      rw [hname] at h1
      exact absurd h1 (by decide)
    rw [if_neg hne]
    simp [emit]
  | some n =>
    rw [disable_snd_device_simple_ref_cnt a r n hname]
    by_cases h : d = r
    · have h1 := hpre h
      rw [h] at h1
      rw [if_pos ⟨h, by omega⟩, if_pos h, h]
    · rw [if_neg (fun hc => h hc.1), if_neg h]
      simp

theorem enable_snd_device_cnt (a : audio_device) (r d : Int) (hd : named_simple d) :
    (enable_snd_device a r).2.snd_dev_ref_cnt d = a.snd_dev_ref_cnt d + route_weight r d := by
  by_cases hr : r = SND_DEVICE_OUT_SPEAKER_AND_HEADPHONES
  · subst hr
    rw [enable_snd_device_combo_eq, route_weight_combo hd.2]
    show (enable_snd_device_simple _ SND_DEVICE_OUT_HEADPHONES).2.snd_dev_ref_cnt d = _
    rw [enable_snd_device_simple_cnt _ _ _ hd, enable_snd_device_simple_cnt _ _ _ hd,
      emit_ref_cnt]
    omega
  · unfold enable_snd_device
    rw [if_neg hr, enable_snd_device_simple_cnt _ _ _ hd, route_weight_simple hr]

theorem disable_snd_device_cnt (a : audio_device) (r d : Int) (hd : named_simple d)
    (hpre : 0 ≤ a.snd_dev_ref_cnt d - route_weight r d) :
    (disable_snd_device a r).2.snd_dev_ref_cnt d = a.snd_dev_ref_cnt d - route_weight r d := by
  by_cases hr : r = SND_DEVICE_OUT_SPEAKER_AND_HEADPHONES
  · subst hr
    rw [route_weight_combo hd.2] at hpre ⊢
    rw [disable_snd_device_combo_eq]
    show (disable_snd_device_simple _ SND_DEVICE_OUT_HEADPHONES).2.snd_dev_ref_cnt d = _
    have e1 : (disable_snd_device_simple
        (emit a (Event.disable_snd_device SND_DEVICE_OUT_SPEAKER_AND_HEADPHONES))
        SND_DEVICE_OUT_SPEAKER).2.snd_dev_ref_cnt d =
        a.snd_dev_ref_cnt d - if d = SND_DEVICE_OUT_SPEAKER then 1 else 0 := by
      rw [disable_snd_device_simple_cnt _ _ _ hd, emit_ref_cnt]
      intro h
      rw [emit_ref_cnt]
      rw [if_pos h] at hpre
      have : (0 : Int) ≤ if d = SND_DEVICE_OUT_HEADPHONES then 1 else 0 := by
        split_ifs <;> decide
      omega
    rw [disable_snd_device_simple_cnt _ _ _ hd, e1]
    · omega
    · intro h
      rw [e1]
      rw [if_pos h] at hpre
      have hne : ¬ d = SND_DEVICE_OUT_SPEAKER := by
        rw [h]; decide
      rw [if_neg hne] at hpre ⊢
      omega
  · rw [route_weight_simple hr] at hpre ⊢
    unfold disable_snd_device
    rw [if_neg hr, disable_snd_device_simple_cnt _ _ _ hd]
    intro h
    rw [if_pos h] at hpre
    omega

/-- Routes without a catalog name and the combo route: their own reference
counts never change. -/
theorem enable_snd_device_cnt_fixed (a : audio_device) (r x : Int)
    (hx : get_snd_device_name x = none ∨ x = SND_DEVICE_OUT_SPEAKER_AND_HEADPHONES) :
    (enable_snd_device a r).2.snd_dev_ref_cnt x = a.snd_dev_ref_cnt x := by
  have key : ∀ (b : audio_device) (q : Int) (n : String), get_snd_device_name q = some n →
      q ≠ SND_DEVICE_OUT_SPEAKER_AND_HEADPHONES →
      (enable_snd_device_simple b q).2.snd_dev_ref_cnt x = b.snd_dev_ref_cnt x := by
    intro b q n hq hqc
    rw [enable_snd_device_simple_ref_cnt b q n hq, if_neg]
    intro h
    rcases hx with hx | hx
    · rw [h, hq] at hx; cases hx
    · exact hqc (h ▸ hx)
  by_cases hr : r = SND_DEVICE_OUT_SPEAKER_AND_HEADPHONES
  · subst hr
    rw [enable_snd_device_combo_eq]
    show (enable_snd_device_simple _ SND_DEVICE_OUT_HEADPHONES).2.snd_dev_ref_cnt x = _
    rw [key _ _ _ get_snd_device_name_headphones (by decide),
      key _ _ _ get_snd_device_name_speaker (by decide), emit_ref_cnt]
  · unfold enable_snd_device
    rw [if_neg hr]
    cases hname : get_snd_device_name r with
    | none => rw [enable_snd_device_simple_unnamed a r hname]; rfl
    | some n => exact key a r n hname hr

theorem disable_snd_device_cnt_fixed (a : audio_device) (r x : Int)
    (hx : get_snd_device_name x = none ∨ x = SND_DEVICE_OUT_SPEAKER_AND_HEADPHONES) :
    (disable_snd_device a r).2.snd_dev_ref_cnt x = a.snd_dev_ref_cnt x := by
  have key : ∀ (b : audio_device) (q : Int) (n : String), get_snd_device_name q = some n →
      q ≠ SND_DEVICE_OUT_SPEAKER_AND_HEADPHONES →
      (disable_snd_device_simple b q).2.snd_dev_ref_cnt x = b.snd_dev_ref_cnt x := by
    intro b q n hq hqc
    rw [disable_snd_device_simple_ref_cnt b q n hq, if_neg]
    intro h
    rcases hx with hx | hx
    · rw [h.1, hq] at hx; cases hx
    · exact hqc (h.1 ▸ hx)
  by_cases hr : r = SND_DEVICE_OUT_SPEAKER_AND_HEADPHONES
  · subst hr
    rw [disable_snd_device_combo_eq]
    show (disable_snd_device_simple _ SND_DEVICE_OUT_HEADPHONES).2.snd_dev_ref_cnt x = _
    rw [key _ _ _ get_snd_device_name_headphones (by decide),
      key _ _ _ get_snd_device_name_speaker (by decide), emit_ref_cnt]
  · unfold disable_snd_device
    rw [if_neg hr]
    cases hname : get_snd_device_name r with
    | none => rw [disable_snd_device_simple_unnamed a r hname]; rfl
    | some n => exact key a r n hname hr

theorem guarded_disable_cnt (a : audio_device) (r d : Int) (hd : named_simple d)
    (hpre : 0 ≤ a.snd_dev_ref_cnt d - route_weight r d) :
    (if r ≠ SND_DEVICE_NONE then (disable_snd_device a r).2 else a).snd_dev_ref_cnt d =
      a.snd_dev_ref_cnt d - route_weight r d := by
  by_cases hr : r = SND_DEVICE_NONE
  · rw [if_neg (fun h => h hr), hr, route_weight_none hd]
    omega
  · rw [if_pos hr]
    exact disable_snd_device_cnt a r d hd hpre

theorem guarded_enable_cnt (a : audio_device) (r d : Int) (hd : named_simple d) :
    (if r ≠ SND_DEVICE_NONE then (enable_snd_device a r).2 else a).snd_dev_ref_cnt d =
      a.snd_dev_ref_cnt d + route_weight r d := by
  by_cases hr : r = SND_DEVICE_NONE
  · rw [if_neg (fun h => h hr), hr, route_weight_none hd]
    omega
  · rw [if_pos hr]
    exact enable_snd_device_cnt a r d hd

theorem guarded_ril_cnt (a : audio_device) :
    (if a.voice_in_call = true then start_ril_call a else a).snd_dev_ref_cnt =
      a.snd_dev_ref_cnt := by
  split_ifs
  · exact start_ril_call_ref_cnt a
  · rfl

/-- Effect of the engine part of a switch on the count of a named simple
route. -/
theorem engine_switch_cnt (a : audio_device) (oo oi o i d : Int) (hd : named_simple d)
    (hpre : 0 ≤ a.snd_dev_ref_cnt d - route_weight oo d - route_weight oi d) :
    (engine_switch a oo oi o i).snd_dev_ref_cnt d =
      a.snd_dev_ref_cnt d - route_weight oo d - route_weight oi d +
        route_weight o d + route_weight i d := by
  unfold engine_switch
  simp only []
  have hw := route_weight_nonneg oi d
  rw [guarded_enable_cnt _ _ _ hd, guarded_enable_cnt _ _ _ hd, guarded_ril_cnt,
    guarded_disable_cnt _ _ _ hd, guarded_disable_cnt _ _ _ hd]
  · omega
  · rw [guarded_disable_cnt _ _ _ hd (by omega)]
    exact hpre

theorem engine_switch_cnt_fixed (a : audio_device) (oo oi o i x : Int)
    (hx : get_snd_device_name x = none ∨ x = SND_DEVICE_OUT_SPEAKER_AND_HEADPHONES) :
    (engine_switch a oo oi o i).snd_dev_ref_cnt x = a.snd_dev_ref_cnt x := by
  have hd : ∀ (b : audio_device) (r : Int),
      (if r ≠ SND_DEVICE_NONE then (disable_snd_device b r).2 else b).snd_dev_ref_cnt x =
        b.snd_dev_ref_cnt x := by
    intro b r
    split_ifs
    · exact disable_snd_device_cnt_fixed b r x hx
    · rfl
  have he : ∀ (b : audio_device) (r : Int),
      (if r ≠ SND_DEVICE_NONE then (enable_snd_device b r).2 else b).snd_dev_ref_cnt x =
        b.snd_dev_ref_cnt x := by
    intro b r
    split_ifs
    · exact enable_snd_device_cnt_fixed b r x hx
    · rfl
  unfold engine_switch
  simp only []
  rw [he, he, guarded_ril_cnt, hd, hd]

/-- Effect of the second half of `select_devices` on the count of a named
simple route. -/
theorem select_devices_switch_cnt (a : audio_device) (uc_id o i r : Int) (s : audio_device)
    (u : audio_usecase) (d : Int) (hg : get_usecase_from_id a uc_id = some u)
    (h : select_devices_switch a uc_id o i = Outcome.done r s) (hd : named_simple d)
    (hpre : 0 ≤ a.snd_dev_ref_cnt d - route_weight u.out_snd_device d -
      route_weight u.in_snd_device d) :
    s.snd_dev_ref_cnt d =
      a.snd_dev_ref_cnt d - route_weight u.out_snd_device d - route_weight u.in_snd_device d +
        route_weight o d + route_weight i d := by
  rcases select_devices_switch_cases a uc_id o i r s u hg h with ⟨hs, ho, hi⟩ | ⟨hs, _⟩
  · rw [hs, ho, hi]
    omega
  · rw [hs]
    exact engine_switch_cnt a _ _ o i d hd hpre

theorem select_devices_switch_cnt_fixed (a : audio_device) (uc_id o i r : Int)
    (s : audio_device) (x : Int) (h : select_devices_switch a uc_id o i = Outcome.done r s)
    (hx : get_snd_device_name x = none ∨ x = SND_DEVICE_OUT_SPEAKER_AND_HEADPHONES) :
    s.snd_dev_ref_cnt x = a.snd_dev_ref_cnt x := by
  cases hg : get_usecase_from_id a uc_id with
  | none =>
    rw [select_devices_switch_eq, hg] at h
    cases h
  | some u =>
    rcases select_devices_switch_cases a uc_id o i r s u hg h with ⟨hs, _⟩ | ⟨hs, _⟩
    · rw [hs]
    · rw [hs]
      exact engine_switch_cnt_fixed a _ _ o i x hx

/-! ## Holders of a route in the registry -/

theorem holders_nil (d : Int) : holders [] d = 0 := rfl

theorem holders_cons (u : audio_usecase) (l : List audio_usecase) (d : Int) :
    holders (u :: l) d =
      route_weight u.out_snd_device d + route_weight u.in_snd_device d + holders l d := by
  simp [holders]

theorem holders_append (l : List audio_usecase) (u : audio_usecase) (d : Int) :
    holders (l ++ [u]) d =
      holders l d + (route_weight u.out_snd_device d + route_weight u.in_snd_device d) := by
  simp [holders]

theorem holders_nonneg (l : List audio_usecase) (d : Int) : 0 ≤ holders l d := by
  induction l with
  | nil => exact le_refl 0
  | cons u l ih =>
    rw [holders_cons]
    have h1 := route_weight_nonneg u.out_snd_device d
    have h2 := route_weight_nonneg u.in_snd_device d
    omega

theorem holders_ge_mem (l : List audio_usecase) (u : audio_usecase) (d : Int) (hu : u ∈ l) :
    route_weight u.out_snd_device d + route_weight u.in_snd_device d ≤ holders l d := by
  induction l with
  | nil => cases hu
  | cons v l ih =>
    rw [holders_cons]
    rcases List.mem_cons.mp hu with h | h
    · subst h
      have := holders_nonneg l d
      omega
    · have := ih h
      have h1 := route_weight_nonneg v.out_snd_device d
      have h2 := route_weight_nonneg v.in_snd_device d
      omega

theorem get_usecase_from_id_mem {a : audio_device} {uc_id : Int} {u : audio_usecase}
    (h : get_usecase_from_id a uc_id = some u) : u ∈ a.usecase_list ∧ u.id = uc_id := by
  unfold get_usecase_from_id at h
  refine ⟨List.mem_of_find?_eq_some h, ?_⟩
  have := List.find?_some h
  simpa using this

theorem holders_update (f : audio_usecase → audio_usecase) (uc_id : Int) (d : Int) :
    ∀ (l : List audio_usecase) (u0 : audio_usecase),
      l.find? (fun u => u.id == uc_id) = some u0 →
      holders (update_usecase f uc_id l) d =
        holders l d - (route_weight u0.out_snd_device d + route_weight u0.in_snd_device d) +
          (route_weight (f u0).out_snd_device d + route_weight (f u0).in_snd_device d) := by
  intro l
  induction l with
  | nil => intro u0 h; cases h
  | cons u l ih =>
    intro u0 h
    simp only [update_usecase]
    by_cases h1 : u.id = uc_id
    · have hb : (u.id == uc_id) = true := by simpa using h1
      rw [List.find?_cons, hb] at h
      injection h with h
      subst h
      rw [if_pos h1, holders_cons, holders_cons]
      omega
    · have hb : (u.id == uc_id) = false := by simpa using h1
      rw [List.find?_cons, hb] at h
      rw [if_neg h1, holders_cons, holders_cons, ih u0 h]
      omega

theorem holders_remove (uc_id : Int) (d : Int) :
    ∀ (l : List audio_usecase) (u0 : audio_usecase),
      l.find? (fun u => u.id == uc_id) = some u0 →
      holders (remove_usecase uc_id l) d =
        holders l d -
          (route_weight u0.out_snd_device d + route_weight u0.in_snd_device d) := by
  intro l
  induction l with
  | nil => intro u0 h; cases h
  | cons u l ih =>
    intro u0 h
    simp only [remove_usecase]
    by_cases h1 : u.id = uc_id
    · have hb : (u.id == uc_id) = true := by simpa using h1
      rw [List.find?_cons, hb] at h
      injection h with h
      subst h
      rw [if_pos h1, holders_cons]
      omega
    · have hb : (u.id == uc_id) = false := by simpa using h1
      rw [List.find?_cons, hb] at h
      rw [if_neg h1, holders_cons, holders_cons, ih u0 h]
      omega

theorem mem_update_usecase (f : audio_usecase → audio_usecase) (uc_id : Int) :
    ∀ (l : List audio_usecase) (v : audio_usecase), v ∈ update_usecase f uc_id l →
      v ∈ l ∨ ∃ u0, l.find? (fun u => u.id == uc_id) = some u0 ∧ v = f u0 := by
  intro l
  induction l with
  | nil => intro v h; cases h
  | cons u l ih =>
    intro v h
    simp only [update_usecase] at h
    by_cases h1 : u.id = uc_id
    · have hb : (u.id == uc_id) = true := by simpa using h1
      rw [if_pos h1] at h
      rcases List.mem_cons.mp h with h | h
      · exact Or.inr ⟨u, by rw [List.find?_cons, hb], h⟩
      · exact Or.inl (List.mem_cons_of_mem _ h)
    · have hb : (u.id == uc_id) = false := by simpa using h1
      rw [if_neg h1] at h
      rcases List.mem_cons.mp h with h | h
      · exact Or.inl (by rw [h]; exact List.mem_cons_self _ _)
      · rcases ih v h with h2 | ⟨u0, h2, h3⟩
        · exact Or.inl (List.mem_cons_of_mem _ h2)
        · exact Or.inr ⟨u0, by rw [List.find?_cons, hb]; exact h2, h3⟩

theorem mem_remove_usecase (uc_id : Int) :
    ∀ (l : List audio_usecase) (v : audio_usecase), v ∈ remove_usecase uc_id l → v ∈ l := by
  intro l
  induction l with
  | nil => intro v h; cases h
  | cons u l ih =>
    intro v h
    simp only [remove_usecase] at h
    split_ifs at h
    · exact List.mem_cons_of_mem _ h
    · rcases List.mem_cons.mp h with h | h
      · rw [h]; exact List.mem_cons_self _ _
      · exact List.mem_cons_of_mem _ (ih v h)

theorem remove_update_usecase (f : audio_usecase → audio_usecase) (hf : ∀ u, (f u).id = u.id)
    (uc_id : Int) (l : List audio_usecase) :
    remove_usecase uc_id (update_usecase f uc_id l) = remove_usecase uc_id l := by
  induction l with
  | nil => rfl
  | cons u l ih =>
    simp only [update_usecase]
    by_cases h1 : u.id = uc_id
    · have h2 : (f u).id = uc_id := by rw [hf, h1]
      simp [remove_usecase, h1, h2]
    · simp [remove_usecase, h1, ih]

theorem remove_usecase_append_fresh (uc_id : Int) (u : audio_usecase) (hu : u.id = uc_id) :
    ∀ l : List audio_usecase, l.find? (fun v => v.id == uc_id) = none →
      remove_usecase uc_id (l ++ [u]) = l := by
  intro l
  induction l with
  | nil => intro _; simp [remove_usecase, hu]
  | cons v l ih =>
    intro h
    by_cases h1 : v.id = uc_id
    · have hb : (v.id == uc_id) = true := by simpa using h1
      rw [List.find?_cons, hb] at h
      cases h
    · have hb : (v.id == uc_id) = false := by simpa using h1
      rw [List.find?_cons, hb] at h
      simp [remove_usecase, h1, ih h]

theorem find_append_fresh (uc_id : Int) (u : audio_usecase) (hu : u.id = uc_id) :
    ∀ l : List audio_usecase, l.find? (fun v => v.id == uc_id) = none →
      (l ++ [u]).find? (fun v => v.id == uc_id) = some u := by
  intro l
  induction l with
  | nil => intro _; simp [hu]
  | cons v l ih =>
    intro h
    by_cases h1 : v.id = uc_id
    · have hb : (v.id == uc_id) = true := by simpa using h1
      rw [List.find?_cons, hb] at h
      cases h
    · have hb : (v.id == uc_id) = false := by simpa using h1
      rw [List.find?_cons, hb] at h
      rw [List.cons_append, List.find?_cons, hb]
      exact ih h

/-! ## The voice call from start to stop -/

theorem set_voice_volume_l_fields (a : audio_device) :
    (set_voice_volume_l a).usecase_list = a.usecase_list ∧
    (set_voice_volume_l a).snd_dev_ref_cnt = a.snd_dev_ref_cnt ∧
    (set_voice_volume_l a).streams = a.streams ∧
    (set_voice_volume_l a).primary_output = a.primary_output := by
  unfold set_voice_volume_l
  simp only [emit]
  split_ifs <;> exact ⟨rfl, rfl, rfl, rfl⟩

theorem stop_voice_call_found (b : audio_device) (vc : audio_usecase)
    (hcall : b.voice_in_call = true) (hm : b.mode ≠ AUDIO_MODE_IN_CALL)
    (hg : get_usecase_from_id b USECASE_VOICE_CALL = some vc) :
    stop_voice_call b =
      (some 0,
        { (disable_snd_device
            (disable_snd_device { b with voice_in_call := false } vc.out_snd_device).2
            vc.in_snd_device).2 with
          usecase_list := remove_usecase USECASE_VOICE_CALL b.usecase_list }) := by
  have hg1 : get_usecase_from_id { b with voice_in_call := false } USECASE_VOICE_CALL =
      some vc := hg
  unfold stop_voice_call
  simp only [hcall, hm, ne_eq, not_true_eq_false, not_false_eq_true, if_false, if_true, hg1]
  rw [frame_disable_twice]

theorem disable_pair_cnt (b : audio_device) (o i : Int) (c : Int → Int)
    (hn : ∀ d, 0 ≤ c d)
    (hb : ∀ d, named_simple d → b.snd_dev_ref_cnt d = c d + route_weight o d + route_weight i d)
    (hx : ∀ x, (get_snd_device_name x = none ∨ x = SND_DEVICE_OUT_SPEAKER_AND_HEADPHONES) →
      b.snd_dev_ref_cnt x = c x) :
    (disable_snd_device (disable_snd_device b o).2 i).2.snd_dev_ref_cnt = c := by
  funext d
  by_cases hd : named_simple d
  · have h0 := hn d
    have h1 := route_weight_nonneg o d
    have h2 := route_weight_nonneg i d
    have e1 : (disable_snd_device b o).2.snd_dev_ref_cnt d =
        b.snd_dev_ref_cnt d - route_weight o d :=
      disable_snd_device_cnt b o d hd (by rw [hb d hd]; omega)
    rw [disable_snd_device_cnt _ i d hd (by rw [e1, hb d hd]; omega), e1, hb d hd]
    omega
  · have hx1 : get_snd_device_name d = none ∨ d = SND_DEVICE_OUT_SPEAKER_AND_HEADPHONES := by
      by_cases hc : d = SND_DEVICE_OUT_SPEAKER_AND_HEADPHONES
      · exact Or.inr hc
      · left
        cases hname : get_snd_device_name d with
        | none => rfl
        | some n => exact absurd ⟨by rw [hname]; rfl, hc⟩ hd
    rw [disable_snd_device_cnt_fixed _ i d hx1, disable_snd_device_cnt_fixed _ o d hx1, hx d hx1]

theorem write_devices_remove (a : audio_device) (uc_id : Int) (devs : Option Nat) :
    remove_usecase uc_id (write_devices a uc_id devs).usecase_list =
      remove_usecase uc_id a.usecase_list := by
  cases devs with
  | none => rfl
  | some n =>
    exact remove_update_usecase (fun u => { u with devices := n }) (fun _ => rfl) uc_id
      a.usecase_list

theorem select_devices_switch_remove (a : audio_device) (uc_id o i r : Int) (s : audio_device)
    (h : select_devices_switch a uc_id o i = Outcome.done r s) :
    remove_usecase uc_id s.usecase_list = remove_usecase uc_id a.usecase_list := by
  cases hg : get_usecase_from_id a uc_id with
  | none =>
    rw [select_devices_switch_eq, hg] at h
    cases h
  | some u =>
    rcases select_devices_switch_cases a uc_id o i r s u hg h with ⟨hs, _⟩ | ⟨hs, _⟩
    · rw [hs]
    · rw [hs]
      show remove_usecase uc_id (update_usecase _ uc_id (engine_switch a _ _ o i).usecase_list) = _
      rw [remove_update_usecase
        (fun u => { u with in_snd_device := i, out_snd_device := o }) (fun _ => rfl),
        frame_usecase_list (frame_engine_switch a _ _ o i)]

/-- A completed run of `select_devices` for a voice call usecase that was
stored without routes: the record it leaves, and the two calls to
`disable_snd_device` that take its routes back. -/
theorem voice_call_run_undone (hotword : Int) (fuel : Nat) (a0 : audio_device) (r : Int)
    (s : audio_device) (u0 : audio_usecase)
    (hg : get_usecase_from_id a0 USECASE_VOICE_CALL = some u0)
    (hv : u0.type = VOICE_CALL)
    (ho : u0.out_snd_device = SND_DEVICE_NONE) (hi : u0.in_snd_device = SND_DEVICE_NONE)
    (hc : counts_nonneg a0)
    (h : select_devices hotword fuel a0 USECASE_VOICE_CALL = Outcome.done r s) :
    ∃ u1, get_usecase_from_id s USECASE_VOICE_CALL = some u1 ∧
      remove_usecase USECASE_VOICE_CALL s.usecase_list =
        remove_usecase USECASE_VOICE_CALL a0.usecase_list ∧
      ∀ b : audio_device, b.snd_dev_ref_cnt = s.snd_dev_ref_cnt →
        (disable_snd_device (disable_snd_device b u1.out_snd_device).2
          u1.in_snd_device).2.snd_dev_ref_cnt = a0.snd_dev_ref_cnt := by
  by_cases hhot : USECASE_VOICE_CALL = hotword
  · cases fuel with
    | zero => simp [select_devices] at h
    | succ f =>
      rw [select_devices_succ, if_pos hhot] at h
      injection h with _ hs
      subst hs
      refine ⟨u0, hg, rfl, ?_⟩
      intro b hb
      rw [ho, hi]
      apply disable_pair_cnt b _ _ _ hc
      · intro d hd
        rw [hb, route_weight_none hd]
        omega
      · intro x _
        rw [hb]
  · obtain ⟨devs, o, i, an, _, hgn, hsw, hgs, hflat, _⟩ :=
      select_devices_run hotword fuel a0 USECASE_VOICE_CALL r s u0 hhot hg h
    have han : an = write_devices a0 USECASE_VOICE_CALL devs :=
      hflat (nest_target_not_playback a0 u0 (by rw [hv]; decide))
    refine ⟨_, hgs, ?_, ?_⟩
    · rw [select_devices_switch_remove an _ o i r s hsw, han, write_devices_remove]
    · intro b hb
      show (disable_snd_device (disable_snd_device b o).2 i).2.snd_dev_ref_cnt = _
      have hcnt : an.snd_dev_ref_cnt = a0.snd_dev_ref_cnt := by
        rw [han, write_devices_ref_cnt]
      have hr := with_devices_routes u0 devs
      apply disable_pair_cnt b _ _ _ hc
      · intro d hd
        have hw0 : route_weight (with_devices u0 devs).out_snd_device d = 0 := by
          rw [hr.1, ho, route_weight_none hd]
        have hw1 : route_weight (with_devices u0 devs).in_snd_device d = 0 := by
          rw [hr.2, hi, route_weight_none hd]
        have h0 := hc d
        rw [hb, select_devices_switch_cnt an _ o i r s _ d hgn hsw hd
          (by rw [hw0, hw1, hcnt]; omega), hw0, hw1, hcnt]
        omega
      · intro x hx
        rw [hb, select_devices_switch_cnt_fixed an _ o i r s x hsw hx, hcnt]

theorem voice_call_run_returns (hotword : Int) (fuel : Nat) (a0 : audio_device)
    (u0 : audio_usecase) (hg : get_usecase_from_id a0 USECASE_VOICE_CALL = some u0)
    (hv : u0.type = VOICE_CALL) :
    ∃ r s, select_devices hotword (fuel + 1) a0 USECASE_VOICE_CALL = Outcome.done r s := by
  rw [select_devices_succ]
  by_cases hhot : USECASE_VOICE_CALL = hotword
  · rw [if_pos hhot]
    exact ⟨_, _, rfl⟩
  · rw [if_neg hhot, hg]
    simp only [resolve_voice_call hv, nest_target_not_playback a0 u0 (by rw [hv]; decide)]
    have hgw : get_usecase_from_id
        (write_devices a0 USECASE_VOICE_CALL (some (a0.streams u0.stream).devices))
        USECASE_VOICE_CALL = some (with_devices u0 (some (a0.streams u0.stream).devices)) := by
      rw [get_write_devices, if_pos rfl, hg]
      rfl
    obtain ⟨s1, hs1⟩ := select_devices_switch_returns _ USECASE_VOICE_CALL
      (get_output_snd_device a0 (a0.streams u0.stream).devices)
      (get_input_snd_device a0 (a0.streams u0.stream).devices) _ hgw
    exact ⟨0, s1, hs1⟩

/-- Amended C29: the call round trip. In a state with a primary output, without a
voice call usecase in the registry and with no negative reference count,
`start_voice_call` returns 0 with the in-call flag set; once the mode is one
other than in-call, `stop_voice_call` run next returns 0 and leaves the
usecase list and the reference count of every route as they were before
`start_voice_call`, whatever the two routes of the voice call usecase were. -/
theorem voice_call_round_trip (hotword : Int) (fuel : Nat) (adev : audio_device)
    (primary_output : Nat) (mode1 : Int)
    (hp : adev.primary_output = some primary_output)
    (hn : get_usecase_from_id adev USECASE_VOICE_CALL = none)
    (hc : counts_nonneg adev)
    (hm : mode1 ≠ AUDIO_MODE_IN_CALL) :
    ∃ s1, start_voice_call hotword (fuel + 1) adev = Outcome.done 0 s1 ∧
      s1.voice_in_call = true ∧
      (stop_voice_call { s1 with mode := mode1 }).1 = some 0 ∧
      (stop_voice_call { s1 with mode := mode1 }).2.usecase_list = adev.usecase_list ∧
      (stop_voice_call { s1 with mode := mode1 }).2.snd_dev_ref_cnt = adev.snd_dev_ref_cnt := by
  let u0 : audio_usecase :=
    { id := USECASE_VOICE_CALL, type := VOICE_CALL, stream := primary_output,
      devices := (adev.streams primary_output).devices, in_snd_device := SND_DEVICE_NONE,
      out_snd_device := SND_DEVICE_NONE }
  have hg0 : get_usecase_from_id (add_usecase adev u0) USECASE_VOICE_CALL = some u0 :=
    find_append_fresh USECASE_VOICE_CALL u0 rfl adev.usecase_list hn
  obtain ⟨r, s, hrun⟩ := voice_call_run_returns hotword fuel (add_usecase adev u0) u0 hg0 rfl
  obtain ⟨u1, hg1, hrem, hcnt⟩ :=
    voice_call_run_undone hotword (fuel + 1) (add_usecase adev u0) r s u0 hg0 rfl rfl rfl hc hrun
  have hf := set_voice_volume_l_fields s
  have hstart : start_voice_call hotword (fuel + 1) adev =
      Outcome.done 0 { set_voice_volume_l s with voice_in_call := true } := by
    unfold start_voice_call
    rw [hp]
    simp only []
    rw [hrun]
  have hgb : get_usecase_from_id
      { ({ set_voice_volume_l s with voice_in_call := true } : audio_device) with mode := mode1 }
      USECASE_VOICE_CALL = some u1 := by
    unfold get_usecase_from_id
    show (set_voice_volume_l s).usecase_list.find? _ = _
    rw [hf.1]
    exact hg1
  have hstop := stop_voice_call_found
    { ({ set_voice_volume_l s with voice_in_call := true } : audio_device) with mode := mode1 }
    u1 rfl hm hgb
  refine ⟨_, hstart, rfl, ?_, ?_, ?_⟩
  · rw [hstop]
  · rw [hstop]
    show remove_usecase USECASE_VOICE_CALL (set_voice_volume_l s).usecase_list = _
    rw [hf.1, hrem]
    exact remove_usecase_append_fresh USECASE_VOICE_CALL u0 rfl adev.usecase_list hn
  · rw [hstop]
    exact hcnt _ hf.2.1

/-- Witness of the amended C29: a call started and ended on the speaker, next
to a playback usecase that holds the speaker route. -/
theorem voice_call_round_trip_witness :
    call_ready_device.primary_output = some 1 ∧
    get_usecase_from_id call_ready_device USECASE_VOICE_CALL = none ∧
    counts_nonneg call_ready_device ∧
    ((start_voice_call example_hotword 1 call_ready_device).final.map
      (fun s => (s.snd_dev_ref_cnt SND_DEVICE_OUT_VOICE_SPEAKER,
        s.snd_dev_ref_cnt SND_DEVICE_IN_VOICE_SPEAKER_MIC, s.usecase_list.length))) =
      some (1, 1, 2) ∧
    ∃ s1, start_voice_call example_hotword 1 call_ready_device = Outcome.done 0 s1 ∧
      s1.voice_in_call = true ∧
      (stop_voice_call { s1 with mode := AUDIO_MODE_NORMAL }).1 = some 0 ∧
      (stop_voice_call { s1 with mode := AUDIO_MODE_NORMAL }).2.usecase_list =
        call_ready_device.usecase_list ∧
      (stop_voice_call { s1 with mode := AUDIO_MODE_NORMAL }).2.snd_dev_ref_cnt =
        call_ready_device.snd_dev_ref_cnt :=
  ⟨rfl, rfl,
    fun d => by
      show 0 ≤ (if d = SND_DEVICE_OUT_SPEAKER then (1 : Int) else 0)
      split_ifs <;> decide,
    by decide,
    voice_call_round_trip example_hotword 0 call_ready_device 1 AUDIO_MODE_NORMAL rfl rfl
      (fun d => by
        show 0 ≤ (if d = SND_DEVICE_OUT_SPEAKER then (1 : Int) else 0)
        split_ifs <;> decide)
      (by decide)⟩

/-! ## The invariant of the registry -/

theorem holders_update_same (f : audio_usecase → audio_usecase)
    (hf : ∀ u, (f u).out_snd_device = u.out_snd_device ∧ (f u).in_snd_device = u.in_snd_device)
    (uc_id : Int) (d : Int) (l : List audio_usecase) :
    holders (update_usecase f uc_id l) d = holders l d := by
  induction l with
  | nil => rfl
  | cons u l ih =>
    simp only [update_usecase]
    split_ifs
    · rw [holders_cons, holders_cons, (hf u).1, (hf u).2]
    · rw [holders_cons, holders_cons, ih]

theorem records_directed_update (f : audio_usecase → audio_usecase) (uc_id : Int)
    (l : List audio_usecase) (h : records_directed l)
    (hf : ∀ u0, l.find? (fun u => u.id == uc_id) = some u0 →
      ((f u0).type = PCM_PLAYBACK → (f u0).in_snd_device = SND_DEVICE_NONE) ∧
      ((f u0).type = PCM_CAPTURE → (f u0).out_snd_device = SND_DEVICE_NONE)) :
    records_directed (update_usecase f uc_id l) := by
  intro v hv
  rcases mem_update_usecase f uc_id l v hv with h1 | ⟨u0, h1, h2⟩
  · exact h v h1
  · rw [h2]
    exact hf u0 h1

theorem ids_typed_update {P C : Int → Prop} (f : audio_usecase → audio_usecase)
    (hf : ∀ u, (f u).id = u.id ∧ (f u).type = u.type) (uc_id : Int)
    (l : List audio_usecase) (h : ids_typed P C l) :
    ids_typed P C (update_usecase f uc_id l) := by
  intro v hv
  rcases mem_update_usecase f uc_id l v hv with h1 | ⟨u0, h1, h2⟩
  · exact h v h1
  · rw [h2, (hf u0).1, (hf u0).2]
    exact h u0 (List.mem_of_find?_eq_some h1)

theorem registry_inv_write_devices {P C : Int → Prop} (a : audio_device) (uc_id : Int) (devs : Option Nat)
    (h : registry_inv P C a) : registry_inv P C (write_devices a uc_id devs) := by
  cases devs with
  | none => exact h
  | some n =>
    obtain ⟨h1, h2, h3⟩ := h
    refine ⟨?_, ?_, ?_⟩
    · intro d hd
      show a.snd_dev_ref_cnt d =
        holders (update_usecase (fun u => { u with devices := n }) uc_id a.usecase_list) d
      rw [holders_update_same (fun u => { u with devices := n }) (fun _ => ⟨rfl, rfl⟩), h1 d hd]
    · exact records_directed_update (fun u => { u with devices := n }) uc_id _ h2
        (fun u0 h0 => h2 u0 (List.mem_of_find?_eq_some h0))
    · exact ids_typed_update (fun u => { u with devices := n }) (fun _ => ⟨rfl, rfl⟩) uc_id _ h3

theorem registry_inv_switch {P C : Int → Prop} (a : audio_device) (uc_id o i r : Int) (s : audio_device)
    (u : audio_usecase) (hg : get_usecase_from_id a uc_id = some u)
    (hdir : (u.type = PCM_PLAYBACK → i = SND_DEVICE_NONE) ∧
      (u.type = PCM_CAPTURE → o = SND_DEVICE_NONE))
    (hsw : select_devices_switch a uc_id o i = Outcome.done r s)
    (h : registry_inv P C a) : registry_inv P C s := by
  obtain ⟨h1, h2, h3⟩ := h
  have hmem := (get_usecase_from_id_mem hg).1
  rcases select_devices_switch_cases a uc_id o i r s u hg hsw with ⟨hs, _⟩ | ⟨hs, _⟩
  · rw [hs]
    exact ⟨h1, h2, h3⟩
  · have hl : s.usecase_list =
        update_usecase (fun u => { u with in_snd_device := i, out_snd_device := o }) uc_id
          a.usecase_list := by
      rw [hs]
      show update_usecase _ uc_id (engine_switch a _ _ o i).usecase_list = _
      rw [frame_usecase_list (frame_engine_switch a _ _ o i)]
    refine ⟨?_, ?_, ?_⟩
    · intro d hd
      have hge := holders_ge_mem a.usecase_list u d hmem
      have hc := h1 d hd
      rw [select_devices_switch_cnt a uc_id o i r s u d hg hsw hd (by omega), hl,
        holders_update _ uc_id d a.usecase_list u hg, hc]
      show _ = holders a.usecase_list d - _ + (route_weight o d + route_weight i d)
      omega
    · rw [hl]
      apply records_directed_update _ uc_id _ h2
      intro u0 h0
      have e : u0 = u := by
        have := h0.symm.trans hg
        injection this
      subst e
      exact hdir
    · rw [hl]
      exact ids_typed_update (fun u => { u with in_snd_device := i, out_snd_device := o })
        (fun _ => ⟨rfl, rfl⟩) uc_id _ h3

theorem with_devices_type (u : audio_usecase) (devs : Option Nat) :
    (with_devices u devs).type = u.type := by
  cases devs <;> rfl

/-- A run of `select_devices` that returns leaves the streams as they were and
keeps the invariant of the registry. -/
theorem select_devices_registry_inv {P C : Int → Prop} (hotword : Int) :
    ∀ (fuel : Nat) (a : audio_device) (uc_id r : Int) (s : audio_device),
      select_devices hotword fuel a uc_id = Outcome.done r s →
      s.streams = a.streams ∧ (registry_inv P C a → registry_inv P C s) := by
  intro fuel
  induction fuel with
  | zero =>
    intro a uc_id r s h
    simp [select_devices] at h
  | succ f ih =>
    intro a uc_id r s h
    rw [select_devices_succ] at h
    by_cases hhot : uc_id = hotword
    · rw [if_pos hhot] at h
      injection h with _ hs
      subst hs
      exact ⟨rfl, id⟩
    rw [if_neg hhot] at h
    cases hg : get_usecase_from_id a uc_id with
    | none =>
      rw [hg] at h
      injection h with _ hs
      subst hs
      exact ⟨rfl, id⟩
    | some u =>
      rw [hg] at h
      simp only [] at h
      cases hres : resolve a u with
      | none => rw [hres] at h; cases h
      | some dio =>
        obtain ⟨devs, o, i⟩ := dio
        rw [hres] at h
        simp only [] at h
        have hdir := resolve_direction hres
        have hdir1 : ((with_devices u devs).type = PCM_PLAYBACK → i = SND_DEVICE_NONE) ∧
            ((with_devices u devs).type = PCM_CAPTURE → o = SND_DEVICE_NONE) := by
          rw [with_devices_type]
          exact hdir
        have hw : (write_devices a uc_id devs).streams = a.streams :=
          same_context_streams (write_devices_same_context a uc_id devs)
        cases hn : nest_target a u with
        | none =>
          rw [hn] at h
          have hgn : get_usecase_from_id (write_devices a uc_id devs) uc_id =
              some (with_devices u devs) := by
            rw [get_write_devices, if_pos rfl, hg]; rfl
          obtain ⟨_, hc, _⟩ := select_devices_switch_done _ _ _ _ _ _ h
          exact ⟨(same_context_streams hc).trans hw, fun hinv =>
            registry_inv_switch _ uc_id o i r s _ hgn hdir1 h
              (registry_inv_write_devices a uc_id devs hinv)⟩
        | some t =>
          rw [hn] at h
          simp only [] at h
          cases hnest : select_devices hotword f (write_devices a uc_id devs) t with
          | done rn an =>
            rw [hnest] at h
            have hgn := nested_record hotword f a uc_id u devs t rn an hhot hg hn hnest
            obtain ⟨hst, hin⟩ := ih _ _ _ _ hnest
            obtain ⟨_, hc, _⟩ := select_devices_switch_done _ _ _ _ _ _ h
            exact ⟨(same_context_streams hc).trans (hst.trans hw), fun hinv =>
              registry_inv_switch an uc_id o i r s _ hgn hdir1 h
                (hin (registry_inv_write_devices a uc_id devs hinv))⟩
          | null_deref => rw [hnest] at h; cases h
          | no_fuel => rw [hnest] at h; cases h

theorem registry_inv_congr {P C : Int → Prop} {a b : audio_device} (hl : b.usecase_list = a.usecase_list)
    (hc : b.snd_dev_ref_cnt = a.snd_dev_ref_cnt) (h : registry_inv P C a) :
    registry_inv P C b := by
  unfold registry_inv counts_match
  rw [hl, hc]
  exact h

theorem registry_inv_add {P C : Int → Prop} (a : audio_device) (u : audio_usecase) (h : registry_inv P C a)
    (ho : u.out_snd_device = SND_DEVICE_NONE) (hi : u.in_snd_device = SND_DEVICE_NONE)
    (hp : P u.id → u.type = PCM_PLAYBACK)
    (hcap : C u.id → u.type = PCM_CAPTURE) :
    registry_inv P C (add_usecase a u) := by
  obtain ⟨h1, h2, h3⟩ := h
  refine ⟨?_, ?_, ?_⟩
  · intro d hd
    show a.snd_dev_ref_cnt d = holders (a.usecase_list ++ [u]) d
    rw [holders_append, ho, hi, route_weight_none hd, h1 d hd]
    omega
  · intro v hv
    rcases List.mem_append.mp hv with hv | hv
    · exact h2 v hv
    · rw [List.mem_singleton.mp hv]
      exact ⟨fun _ => hi, fun _ => ho⟩
  · intro v hv
    rcases List.mem_append.mp hv with hv | hv
    · exact h3 v hv
    · rw [List.mem_singleton.mp hv]
      exact ⟨hp, hcap⟩

theorem registry_inv_remove {P C : Int → Prop} (a b : audio_device) (uc_id : Int) (u0 : audio_usecase)
    (h : registry_inv P C a) (hg : get_usecase_from_id a uc_id = some u0)
    (hl : b.usecase_list = remove_usecase uc_id a.usecase_list)
    (hc : ∀ d, named_simple d → b.snd_dev_ref_cnt d =
      a.snd_dev_ref_cnt d - route_weight u0.out_snd_device d -
        route_weight u0.in_snd_device d) :
    registry_inv P C b := by
  obtain ⟨h1, h2, h3⟩ := h
  refine ⟨?_, ?_, ?_⟩
  · intro d hd
    rw [hc d hd, hl, holders_remove uc_id d a.usecase_list u0 hg, h1 d hd]
    omega
  · intro v hv
    rw [hl] at hv
    exact h2 v (mem_remove_usecase uc_id _ v hv)
  · intro v hv
    rw [hl] at hv
    exact h3 v (mem_remove_usecase uc_id _ v hv)

theorem disable_snd_device_streams (a : audio_device) (r : Int) :
    (disable_snd_device a r).2.streams = a.streams :=
  congrArg (fun p => p.1.streams) (frame_disable_snd_device a r)

theorem playback_capture_disjoint (uc_id : Int) (hp : is_playback_id uc_id)
    (hc : is_capture_id uc_id) : False := by
  rcases hp with hp | hp <;> rcases hc with hc | hc <;> rw [hp] at hc <;>
    exact absurd hc (by decide)

theorem registry_inv_stored_pre {P C : Int → Prop} (a : audio_device) (uc_id : Int) (u0 : audio_usecase)
    (h : registry_inv P C a) (hg : get_usecase_from_id a uc_id = some u0) (d : Int)
    (hd : named_simple d) :
    route_weight u0.out_snd_device d + route_weight u0.in_snd_device d ≤
      a.snd_dev_ref_cnt d := by
  rw [h.1 d hd]
  exact holders_ge_mem _ _ _ (get_usecase_from_id_mem hg).1

theorem registry_inv_disable_output_path_l {P C : Int → Prop} (a : audio_device) (out : Nat)
    (hadm : P (a.streams out).usecase) (h : registry_inv P C a) :
    registry_inv P C (disable_output_path_l a out).2 := by
  unfold disable_output_path_l
  cases hg : get_usecase_from_id a (a.streams out).usecase with
  | none => exact h
  | some u0 =>
    simp only []
    have hm := get_usecase_from_id_mem hg
    have hin : u0.in_snd_device = SND_DEVICE_NONE :=
      (h.2.1 u0 hm.1).1 ((h.2.2 u0 hm.1).1 (by rw [hm.2]; exact hadm))
    apply registry_inv_remove a _ (a.streams out).usecase u0 h hg
    · show remove_usecase ((disable_snd_device a _).2.streams out).usecase
        (disable_snd_device a _).2.usecase_list = _
      rw [disable_snd_device_streams, frame_usecase_list (frame_disable_snd_device a _)]
    · intro d hd
      have hpre := registry_inv_stored_pre a _ u0 h hg d hd
      have hn := route_weight_nonneg u0.in_snd_device d
      show (disable_snd_device a u0.out_snd_device).2.snd_dev_ref_cnt d = _
      rw [disable_snd_device_cnt a _ d hd (by omega), hin, route_weight_none hd]
      omega

theorem registry_inv_stop_input_stream {P C : Int → Prop} (a : audio_device) (inp : Nat) (e : Bool)
    (hadm : C (a.streams inp).usecase) (h : registry_inv P C a) :
    registry_inv P C (stop_input_stream a inp e).2 := by
  unfold stop_input_stream
  cases hg : get_usecase_from_id a (a.streams inp).usecase with
  | none => exact h
  | some u0 =>
    simp only []
    have hm := get_usecase_from_id_mem hg
    have hout : u0.out_snd_device = SND_DEVICE_NONE :=
      (h.2.1 u0 hm.1).2 ((h.2.2 u0 hm.1).2 (by rw [hm.2]; exact hadm))
    have key : registry_inv P C
        { (disable_snd_device a u0.in_snd_device).2 with
          usecase_list :=
            remove_usecase ((disable_snd_device a u0.in_snd_device).2.streams inp).usecase
              (disable_snd_device a u0.in_snd_device).2.usecase_list } := by
      apply registry_inv_remove a _ (a.streams inp).usecase u0 h hg
      · show remove_usecase ((disable_snd_device a _).2.streams inp).usecase
          (disable_snd_device a _).2.usecase_list = _
        rw [disable_snd_device_streams, frame_usecase_list (frame_disable_snd_device a _)]
      · intro d hd
        have hpre := registry_inv_stored_pre a _ u0 h hg d hd
        have hn := route_weight_nonneg u0.out_snd_device d
        show (disable_snd_device a u0.in_snd_device).2.snd_dev_ref_cnt d = _
        rw [disable_snd_device_cnt a _ d hd (by omega), hout, route_weight_none hd]
        omega
    cases e <;> exact key

theorem registry_inv_stop_voice_call {P C : Int → Prop} (a : audio_device) (h : registry_inv P C a) :
    registry_inv P C (stop_voice_call a).2 := by
  by_cases hcall : a.voice_in_call = true
  · by_cases hm : a.mode = AUDIO_MODE_IN_CALL
    · have e : stop_voice_call a = (some 0, { a with voice_in_call := false }) := by
        unfold stop_voice_call
        simp only [hcall, hm, ne_eq, not_true_eq_false, if_false]
      rw [e]
      exact h
    · cases hg : get_usecase_from_id a USECASE_VOICE_CALL with
      | none =>
        have hg1 : get_usecase_from_id { a with voice_in_call := false } USECASE_VOICE_CALL =
            none := hg
        have e : stop_voice_call a = (some EINVAL_neg, { a with voice_in_call := false }) := by
          unfold stop_voice_call
          simp only [hcall, hm, ne_eq, not_true_eq_false, not_false_eq_true, if_false, if_true,
            hg1]
        rw [e]
        exact h
      | some vc =>
        rw [stop_voice_call_found a vc hcall hm hg]
        apply registry_inv_remove a _ USECASE_VOICE_CALL vc h hg rfl
        intro d hd
        have hpre := registry_inv_stored_pre a _ vc h hg d hd
        have hn1 := route_weight_nonneg vc.out_snd_device d
        have hn2 := route_weight_nonneg vc.in_snd_device d
        show (disable_snd_device (disable_snd_device { a with voice_in_call := false }
          vc.out_snd_device).2 vc.in_snd_device).2.snd_dev_ref_cnt d = _
        have e1 : (disable_snd_device { a with voice_in_call := false }
            vc.out_snd_device).2.snd_dev_ref_cnt d =
            a.snd_dev_ref_cnt d - route_weight vc.out_snd_device d :=
          disable_snd_device_cnt { a with voice_in_call := false } _ d hd
            (by show 0 ≤ a.snd_dev_ref_cnt d - _; omega)
        rw [disable_snd_device_cnt _ _ d hd (by rw [e1]; omega), e1]
  · have e : stop_voice_call a = (none, a) := by
      unfold stop_voice_call
      rw [if_pos hcall]
    rw [e]
    exact h

theorem registry_inv_enable_output_path_l {P C : Int → Prop} (hotword : Int) (fuel : Nat)
    (a : audio_device) (out : Nat) (s : audio_device)
    (hdisj : ∀ uc_id, P uc_id → C uc_id → False)
    (hadm : P (a.streams out).usecase) (h : registry_inv P C a)
    (hrun : (enable_output_path_l hotword fuel a out).final = some s) : registry_inv P C s := by
  unfold enable_output_path_l at hrun
  simp only [] at hrun
  have hadd : registry_inv P C (add_usecase a
      { id := (a.streams out).usecase, type := PCM_PLAYBACK, stream := out,
        devices := (a.streams out).devices, in_snd_device := SND_DEVICE_NONE,
        out_snd_device := SND_DEVICE_NONE }) :=
    registry_inv_add a _ h rfl rfl (fun _ => rfl)
      (fun hc => (hdisj _ hadm hc).elim)
  revert hrun
  cases hsel : select_devices hotword fuel (add_usecase a
      { id := (a.streams out).usecase, type := PCM_PLAYBACK, stream := out,
        devices := (a.streams out).devices, in_snd_device := SND_DEVICE_NONE,
        out_snd_device := SND_DEVICE_NONE })
      ((add_usecase a
      { id := (a.streams out).usecase, type := PCM_PLAYBACK, stream := out,
        devices := (a.streams out).devices, in_snd_device := SND_DEVICE_NONE,
        out_snd_device := SND_DEVICE_NONE }).streams out).usecase with
  | done r s1 =>
    intro hrun
    injection hrun with hrun
    subst hrun
    exact (select_devices_registry_inv hotword fuel _ _ r _ hsel).2 hadd
  | null_deref => intro hrun; cases hrun
  | no_fuel => intro hrun; cases hrun

theorem registry_inv_start_input_stream {P C : Int → Prop} (hotword : Int) (fuel : Nat)
    (a : audio_device) (inp : Nat) (found : Bool) (resampler_ret : Int) (ready : Bool)
    (s : audio_device) (hdisj : ∀ uc_id, P uc_id → C uc_id → False)
    (hadm : C (a.streams inp).usecase) (h : registry_inv P C a)
    (hrun : (start_input_stream hotword fuel a inp found resampler_ret ready).final = some s) :
    registry_inv P C s := by
  unfold start_input_stream at hrun
  cases found with
  | false =>
    simp only [Bool.false_eq_true, not_false_eq_true, if_true] at hrun
    injection hrun with hrun
    subst hrun
    exact h
  | true =>
    simp only [not_true_eq_false, if_false] at hrun
    have hadd : registry_inv P C (add_usecase a
        { id := (a.streams inp).usecase, type := PCM_CAPTURE, stream := inp,
          devices := (a.streams inp).devices, in_snd_device := SND_DEVICE_NONE,
          out_snd_device := SND_DEVICE_NONE }) :=
      registry_inv_add a _ h rfl rfl
        (fun hp => (hdisj _ hp hadm).elim) (fun _ => rfl)
    revert hrun
    cases hsel : select_devices hotword fuel (add_usecase a
        { id := (a.streams inp).usecase, type := PCM_CAPTURE, stream := inp,
          devices := (a.streams inp).devices, in_snd_device := SND_DEVICE_NONE,
          out_snd_device := SND_DEVICE_NONE })
        ((add_usecase a
        { id := (a.streams inp).usecase, type := PCM_CAPTURE, stream := inp,
          devices := (a.streams inp).devices, in_snd_device := SND_DEVICE_NONE,
          out_snd_device := SND_DEVICE_NONE }).streams inp).usecase with
    | done r s1 =>
      obtain ⟨hst, hinv⟩ := select_devices_registry_inv hotword fuel _ _ r _ hsel
      have hs1 := hinv hadd
      intro hrun
      cases ready with
      | false =>
        simp only [Bool.false_eq_true, not_false_eq_true, if_true] at hrun
        injection hrun with hrun
        subst hrun
        apply registry_inv_stop_input_stream s1 inp false _ hs1
        rw [hst]
        exact hadm
      | true =>
        simp only [not_true_eq_false, if_false] at hrun
        injection hrun with hrun
        subst hrun
        exact hs1
    | null_deref => intro hrun; cases hrun
    | no_fuel => intro hrun; cases hrun

theorem voice_call_id_other :
    ¬ is_playback_id USECASE_VOICE_CALL ∧ ¬ is_capture_id USECASE_VOICE_CALL := by
  constructor <;> intro hc <;> rcases hc with hc | hc <;> exact absurd hc (by decide)

theorem registry_inv_start_voice_call {P C : Int → Prop} (hotword : Int) (fuel : Nat)
    (a : audio_device) (s : audio_device)
    (hvc : ¬ P USECASE_VOICE_CALL ∧ ¬ C USECASE_VOICE_CALL) (h : registry_inv P C a)
    (hrun : (start_voice_call hotword fuel a).final = some s) : registry_inv P C s := by
  unfold start_voice_call at hrun
  cases hp : a.primary_output with
  | none => rw [hp] at hrun; cases hrun
  | some primary_output =>
    rw [hp] at hrun
    simp only [] at hrun
    have hadd : registry_inv P C (add_usecase a
        { id := USECASE_VOICE_CALL, type := VOICE_CALL, stream := primary_output,
          devices := (a.streams primary_output).devices, in_snd_device := SND_DEVICE_NONE,
          out_snd_device := SND_DEVICE_NONE }) :=
      registry_inv_add a _ h rfl rfl
        (fun hc => (hvc.1 hc).elim) (fun hc => (hvc.2 hc).elim)
    revert hrun
    cases hsel : select_devices hotword fuel (add_usecase a
        { id := USECASE_VOICE_CALL, type := VOICE_CALL, stream := primary_output,
          devices := (a.streams primary_output).devices, in_snd_device := SND_DEVICE_NONE,
          out_snd_device := SND_DEVICE_NONE }) USECASE_VOICE_CALL with
    | done r s1 =>
      intro hrun
      injection hrun with hrun
      subst hrun
      have hs1 := (select_devices_registry_inv hotword fuel _ _ r _ hsel).2 hadd
      have hf := set_voice_volume_l_fields s1
      exact registry_inv_congr hf.1 hf.2.1 hs1
    | null_deref => intro hrun; cases hrun
    | no_fuel => intro hrun; cases hrun

theorem registry_inv_run_op {P C : Int → Prop} (hotword : Int) (fuel : Nat) (a : audio_device)
    (op : HalOp) (s : audio_device) (hdisj : ∀ uc_id, P uc_id → C uc_id → False)
    (hvc : ¬ P USECASE_VOICE_CALL ∧ ¬ C USECASE_VOICE_CALL)
    (hadm : op_admissible P C a op) (h : registry_inv P C a)
    (hrun : run_op hotword fuel a op = some s) : registry_inv P C s := by
  cases op with
  | enable_output_path_l out =>
    exact registry_inv_enable_output_path_l hotword fuel a out s hdisj hadm h hrun
  | disable_output_path_l out =>
    injection hrun with hrun
    subst hrun
    exact registry_inv_disable_output_path_l a out hadm h
  | start_input_stream inp found resampler_ret ready =>
    exact registry_inv_start_input_stream hotword fuel a inp found resampler_ret ready s hdisj
      hadm h hrun
  | stop_input_stream inp e =>
    injection hrun with hrun
    subst hrun
    exact registry_inv_stop_input_stream a inp e hadm h
  | start_voice_call => exact registry_inv_start_voice_call hotword fuel a s hvc h hrun
  | stop_voice_call =>
    injection hrun with hrun
    subst hrun
    exact registry_inv_stop_voice_call a h
  | select_devices uc_id =>
    change (select_devices hotword fuel a uc_id).final = some s at hrun
    cases hsel : select_devices hotword fuel a uc_id with
    | done r s1 =>
      rw [hsel] at hrun
      injection hrun with hrun
      subst hrun
      exact (select_devices_registry_inv hotword fuel a uc_id r _ hsel).2 h
    | null_deref => rw [hsel] at hrun; cases hrun
    | no_fuel => rw [hsel] at hrun; cases hrun

theorem registry_inv_initial {P C : Int → Prop} (a : audio_device) (hl : a.usecase_list = [])
    (hc : ∀ d, a.snd_dev_ref_cnt d = 0) : registry_inv P C a := by
  refine ⟨?_, ?_, ?_⟩
  · intro d _
    rw [hc d, hl]
    rfl
  · rw [hl]
    intro u hu
    cases hu
  · rw [hl]
    intro u hu
    cases hu

theorem registry_inv_reachable {P C : Int → Prop} (hotword : Int) (s : audio_device)
    (hdisj : ∀ uc_id, P uc_id → C uc_id → False)
    (hvc : ¬ P USECASE_VOICE_CALL ∧ ¬ C USECASE_VOICE_CALL)
    (h : Reachable hotword P C s) : registry_inv P C s := by
  induction h with
  | initial a hl hc => exact registry_inv_initial a hl hc
  | step a op fuel s _ hadm hrun ih => exact registry_inv_run_op hotword fuel a op s hdisj hvc hadm ih hrun
  | environment a s _ hl hc ih => exact registry_inv_congr hl hc ih

theorem route_holds_weight {r d : Int} (h : route_holds r d = true) : route_weight r d = 1 := by
  unfold route_weight
  rw [if_pos h]

/-- Amended C28: reference counts equal holders. Let the usecase ids of the
output streams, the usecase ids of the input streams and `USECASE_VOICE_CALL`
be kept apart: `playback_ids` and `capture_ids` are disjoint sets of ids
without `USECASE_VOICE_CALL`, `enable_output_path_l` and
`disable_output_path_l` run on streams whose id is in `playback_ids`, and
`start_input_stream` and `stop_input_stream` on streams whose id is in
`capture_ids`. Then in every state reachable from an initial state (empty
registry, all reference counts zero) through these four functions,
`start_voice_call`, `stop_voice_call` and `select_devices`, the reference
count of every simple route with a catalog name is the number of (usecase,
direction) pairs of the registry whose stored route is that route or the
combo route containing it. Hence the count of a simple route covers the holds
that any one usecase of the registry has on it, and is positive when a stored
route holds it: the calls of `disable_snd_device` on the stored routes of a
usecase do not find the count at zero. -/
theorem ref_counts_equal_holders (hotword : Int) (playback_ids capture_ids : Int → Prop)
    (s : audio_device)
    (hdisj : ∀ uc_id, playback_ids uc_id → capture_ids uc_id → False)
    (hvc : ¬ playback_ids USECASE_VOICE_CALL ∧ ¬ capture_ids USECASE_VOICE_CALL)
    (h : Reachable hotword playback_ids capture_ids s) :
    (∀ d, named_simple d → s.snd_dev_ref_cnt d = holders s.usecase_list d) ∧
    (∀ u ∈ s.usecase_list, ∀ d, named_simple d →
      route_weight u.out_snd_device d + route_weight u.in_snd_device d ≤
        s.snd_dev_ref_cnt d) ∧
    (∀ u ∈ s.usecase_list, ∀ d, named_simple d →
      route_holds u.out_snd_device d = true ∨ route_holds u.in_snd_device d = true →
      0 < s.snd_dev_ref_cnt d) := by
  have hinv := registry_inv_reachable hotword s hdisj hvc h
  have h2 : ∀ u ∈ s.usecase_list, ∀ d, named_simple d →
      route_weight u.out_snd_device d + route_weight u.in_snd_device d ≤
        s.snd_dev_ref_cnt d := by
    intro u hu d hd
    rw [hinv.1 d hd]
    exact holders_ge_mem _ _ _ hu
  refine ⟨hinv.1, h2, ?_⟩
  intro u hu d hd hh
  have h3 := h2 u hu d hd
  have hn1 := route_weight_nonneg u.out_snd_device d
  have hn2 := route_weight_nonneg u.in_snd_device d
  rcases hh with hh | hh
  · rw [route_holds_weight hh] at h3
    omega
  · rw [route_holds_weight hh] at h3
    omega

/-- Witness of the amended C28: the playback ids and the capture ids of
`audio_hw.h` as the two sets of ids; the state after `enable_output_path_l`,
a change of mode and `start_voice_call`. -/
theorem ref_counts_equal_holders_witness :
    Reachable example_hotword is_playback_id is_capture_id call_started_device ∧
    call_started_device.usecase_list.map
        (fun u => (u.id, u.out_snd_device, u.in_snd_device)) =
      [(USECASE_AUDIO_PLAYBACK, SND_DEVICE_OUT_SPEAKER, SND_DEVICE_NONE),
       (USECASE_VOICE_CALL, SND_DEVICE_OUT_VOICE_SPEAKER, SND_DEVICE_IN_VOICE_SPEAKER_MIC)] ∧
    call_started_device.snd_dev_ref_cnt SND_DEVICE_OUT_SPEAKER = 1 ∧
    call_started_device.snd_dev_ref_cnt SND_DEVICE_OUT_VOICE_SPEAKER = 1 ∧
    call_started_device.snd_dev_ref_cnt SND_DEVICE_IN_VOICE_SPEAKER_MIC = 1 ∧
    (∀ d, named_simple d →
      call_started_device.snd_dev_ref_cnt d = holders call_started_device.usecase_list d) ∧
    (∀ u ∈ call_started_device.usecase_list, ∀ d, named_simple d →
      route_holds u.out_snd_device d = true ∨ route_holds u.in_snd_device d = true →
      0 < call_started_device.snd_dev_ref_cnt d) :=
  have hr : Reachable example_hotword is_playback_id is_capture_id call_started_device :=
    Reachable.step
      { playback_started_device with mode := AUDIO_MODE_IN_CALL, primary_output := some 1 }
      HalOp.start_voice_call 1 call_started_device
      (Reachable.environment playback_started_device _
        (Reachable.step initial_device (HalOp.enable_output_path_l 1) 1 playback_started_device
          (Reachable.initial initial_device rfl (fun _ => rfl)) (Or.inl rfl) rfl)
        rfl rfl)
      trivial rfl
  ⟨hr, by decide, by decide, by decide, by decide,
    (ref_counts_equal_holders example_hotword is_playback_id is_capture_id call_started_device
      playback_capture_disjoint voice_call_id_other hr).1,
    (ref_counts_equal_holders example_hotword is_playback_id is_capture_id call_started_device
      playback_capture_disjoint voice_call_id_other hr).2.2⟩

/-! ## Order of the mutexes -/

theorem held_after_append (h : List Lock) (t1 t2 : List LockEvent) :
    held_after h (t1 ++ t2) = held_after (held_after h t1) t2 := by
  induction t1 generalizing h with
  | nil => rfl
  | cons e t1 ih =>
    cases e with
    | pthread_mutex_lock m => exact ih (m :: h)
    | pthread_mutex_unlock m => exact ih (h.erase m)

theorem lock_edges_append (h : List Lock) (t1 t2 : List LockEvent) :
    lock_edges h (t1 ++ t2) = lock_edges h t1 ++ lock_edges (held_after h t1) t2 := by
  induction t1 generalizing h with
  | nil => rfl
  | cons e t1 ih =>
    cases e with
    | pthread_mutex_lock m =>
      show _ ++ lock_edges (m :: h) (t1 ++ t2) = (_ ++ lock_edges (m :: h) t1) ++ _
      rw [ih (m :: h), List.append_assoc]
      rfl
    | pthread_mutex_unlock m => exact ih (h.erase m)

/-- A sequence of lock operations that locks nothing. -/
theorem lock_edges_unlocks (t : List LockEvent) (ht : locked t = []) (h : List Lock) :
    lock_edges h t = [] := by
  induction t generalizing h with
  | nil => rfl
  | cons e t ih =>
    cases e with
    | pthread_mutex_lock m => cases ht
    | pthread_mutex_unlock m => exact ih ht (h.erase m)

theorem locked_append (t1 t2 : List LockEvent) : locked (t1 ++ t2) = locked t1 ++ locked t2 := by
  induction t1 with
  | nil => rfl
  | cons e t1 ih =>
    cases e with
    | pthread_mutex_lock m => show m :: locked (t1 ++ t2) = m :: locked t1 ++ locked t2; rw [ih]; rfl
    | pthread_mutex_unlock m => exact ih

theorem locked_unlock_all_outputs_loop (outputs : Nat → Bool) (except : Option Nat) (n : Nat) :
    locked (unlock_all_outputs_loop outputs except n) = [] := by
  induction n with
  | zero => rfl
  | succ n ih =>
    simp only [unlock_all_outputs_loop]
    rw [locked_append, ih]
    split_ifs <;> rfl

theorem locked_unlock_all_outputs (n : Nat) (outputs : Nat → Bool) (except : Option Nat) :
    locked (unlock_all_outputs n outputs except) = [] := by
  unfold unlock_all_outputs
  rw [locked_append, locked_append, locked_unlock_all_outputs_loop]
  rfl

theorem lock_before_irrefl (a : Lock) : lock_before a a = false := by
  cases a <;> simp [lock_before]

theorem lock_before_trans (a b c : Lock) (h1 : lock_before a b = true)
    (h2 : lock_before b c = true) : lock_before a c = true := by
  cases a <;> cases b <;> cases c <;> simp [lock_before] at h1 h2 ⊢ <;> omega

theorem lock_before_device (m : Lock) : lock_before Lock.lock m = false := by
  cases m <;> rfl

theorem held_after_lock_output_stream (h : List Lock) (out : Nat) :
    held_after h (lock_output_stream out) = Lock.out_lock out :: h := by
  simp [lock_output_stream, held_after]

theorem lock_edges_lock_output_stream (h : List Lock) (out : Nat) :
    lock_edges h (lock_output_stream out) =
      h.map (fun x => (x, Lock.out_pre_lock out)) ++
        (Lock.out_pre_lock out :: h).map (fun x => (x, Lock.out_lock out)) := by
  simp [lock_output_stream, lock_edges]

theorem held_below_step (outputs : Nat → Bool) (type : Nat) (h : List Lock)
    (hb : held_below outputs type h) :
    held_below outputs (type + 1) (if outputs type then Lock.out_lock type :: h else h) := by
  obtain ⟨hnd, hmem⟩ := hb
  by_cases ho : outputs type = true
  · rw [if_pos ho]
    refine ⟨List.nodup_cons.mpr ⟨?_, hnd⟩, ?_⟩
    · intro hin
      rcases (hmem _).mp hin with h1 | ⟨t, ht, _, h1⟩
      · cases h1
      · injection h1 with h1
        omega
    · intro x
      rw [List.mem_cons, hmem]
      constructor
      · rintro (h1 | h1 | ⟨t, ht, hot, h1⟩)
        · exact Or.inr ⟨type, by omega, ho, h1⟩
        · exact Or.inl h1
        · exact Or.inr ⟨t, by omega, hot, h1⟩
      · rintro (h1 | ⟨t, ht, hot, h1⟩)
        · exact Or.inr (Or.inl h1)
        · by_cases htt : t = type
          · subst htt
            exact Or.inl h1
          · exact Or.inr (Or.inr ⟨t, by omega, hot, h1⟩)
  · rw [if_neg ho]
    refine ⟨hnd, ?_⟩
    intro x
    rw [hmem]
    constructor
    · rintro (h1 | ⟨t, ht, hot, h1⟩)
      · exact Or.inl h1
      · exact Or.inr ⟨t, by omega, hot, h1⟩
    · rintro (h1 | ⟨t, ht, hot, h1⟩)
      · exact Or.inl h1
      · have htt : t ≠ type := by
          intro hc
          subst hc
          exact ho hot
        exact Or.inr ⟨t, by omega, hot, h1⟩

/-- The loop of `lock_all_outputs`: every mutex it locks comes after those
held, and it ends holding the locks of the open streams it went through. -/
theorem lock_all_outputs_loop_held (outputs : Nat → Bool) :
    ∀ (n type : Nat) (h : List Lock), held_below outputs type h →
      (∀ e ∈ lock_edges h (lock_all_outputs_loop outputs n type),
        lock_before e.1 e.2 = true) ∧
      held_below outputs (type + n) (held_after h (lock_all_outputs_loop outputs n type)) := by
  intro n
  induction n with
  | zero =>
    intro type h hb
    exact ⟨fun e he => (by cases he), hb⟩
  | succ n ih =>
    intro type h hb
    have hstep := held_below_step outputs type h hb
    have hheld : held_after h (if outputs type = true then lock_output_stream type else []) =
        (if outputs type then Lock.out_lock type :: h else h) := by
      split_ifs
      · exact held_after_lock_output_stream h type
      · rfl
    obtain ⟨ih1, ih2⟩ := ih (type + 1) _ hstep
    have e : type + (n + 1) = type + 1 + n := by omega
    simp only [lock_all_outputs_loop]
    rw [lock_edges_append, held_after_append, hheld, e]
    refine ⟨?_, ih2⟩
    intro x hx
    rcases List.mem_append.mp hx with hx | hx
    · by_cases ho : outputs type = true
      · rw [if_pos ho, lock_edges_lock_output_stream] at hx
        rcases List.mem_append.mp hx with hx | hx
        · obtain ⟨y, hy, hxy⟩ := List.mem_map.mp hx
          subst hxy
          rcases (hb.2 y).mp hy with h1 | ⟨t, ht, _, h1⟩
          · subst h1; rfl
          · subst h1
            simp [lock_before, ht]
        · obtain ⟨y, hy, hxy⟩ := List.mem_map.mp hx
          subst hxy
          rcases List.mem_cons.mp hy with h1 | hy
          · subst h1
            simp [lock_before]
          · rcases (hb.2 y).mp hy with h1 | ⟨t, ht, _, h1⟩
            · subst h1; rfl
            · subst h1
              simp [lock_before, ht]
      · rw [if_neg ho] at hx
        cases hx
    · exact ih1 x hx

theorem held_below_start (outputs : Nat → Bool) :
    held_below outputs 0 [Lock.lock_outputs] := by
  refine ⟨List.nodup_singleton _, ?_⟩
  intro x
  rw [List.mem_singleton]
  constructor
  · exact Or.inl
  · rintro (h1 | ⟨t, ht, _⟩)
    · exact h1
    · omega

/-- The function `lock_all_outputs` entered with no mutex held: every mutex it
locks comes after those held, and it ends holding the device lock, the locks of
the open output streams and the outputs list lock. -/
theorem lock_all_outputs_held (n : Nat) (outputs : Nat → Bool) :
    (∀ e ∈ lock_edges [] (lock_all_outputs n outputs), lock_before e.1 e.2 = true) ∧
    ∃ h, held_below outputs n h ∧
      held_after [] (lock_all_outputs n outputs) = Lock.lock :: h := by
  obtain ⟨h1, h2⟩ := lock_all_outputs_loop_held outputs n 0 _ (held_below_start outputs)
  rw [Nat.zero_add] at h2
  have hh : held_after [] (lock_all_outputs n outputs) =
      Lock.lock :: held_after [Lock.lock_outputs] (lock_all_outputs_loop outputs n 0) := by
    unfold lock_all_outputs
    rw [held_after_append, held_after_append]
    rfl
  refine ⟨?_, _, h2, hh⟩
  intro e he
  unfold lock_all_outputs at he
  rw [lock_edges_append, lock_edges_append] at he
  rcases List.mem_append.mp he with he | he
  · rcases List.mem_append.mp he with he | he
    · cases he
    · exact h1 e he
  · rw [held_after_append] at he
    change e ∈ List.map (fun x => (x, Lock.lock))
      (held_after [Lock.lock_outputs] (lock_all_outputs_loop outputs n 0)) ++ [] at he
    rw [List.append_nil] at he
    obtain ⟨y, hy, hxy⟩ := List.mem_map.mp he
    subst hxy
    rcases (h2.2 y).mp hy with h3 | ⟨t, _, _, h3⟩
    · subst h3; rfl
    · subst h3; rfl

theorem held_after_unlock_all_outputs_loop (outputs : Nat → Bool) :
    ∀ (n : Nat) (h : List Lock), held_below outputs n h →
      held_below outputs 0 (held_after h (unlock_all_outputs_loop outputs none n)) := by
  intro n
  induction n with
  | zero => intro h hb; exact hb
  | succ n ih =>
    intro h hb
    simp only [unlock_all_outputs_loop]
    rw [held_after_append]
    apply ih
    obtain ⟨hnd, hmem⟩ := hb
    by_cases ho : outputs n = true
    · have hc : outputs n = true ∧ some n ≠ none := ⟨ho, by simp⟩
      rw [if_pos hc]
      show held_below outputs n (h.erase (Lock.out_lock n))
      refine ⟨hnd.erase _, ?_⟩
      intro x
      rw [hnd.mem_erase_iff, hmem]
      constructor
      · rintro ⟨hne, h1 | ⟨t, ht, hot, h1⟩⟩
        · exact Or.inl h1
        · have htt : t ≠ n := by
            intro hc1
            subst hc1
            exact hne h1
          exact Or.inr ⟨t, by omega, hot, h1⟩
      · rintro (h1 | ⟨t, ht, hot, h1⟩)
        · exact ⟨(by rw [h1]; intro hc1; cases hc1), Or.inl h1⟩
        · refine ⟨?_, Or.inr ⟨t, by omega, hot, h1⟩⟩
          rw [h1]
          intro hc1
          injection hc1 with hc1
          omega
    · have hc : ¬ (outputs n = true ∧ some n ≠ none) := fun hc => ho hc.1
      rw [if_neg hc]
      show held_below outputs n h
      refine ⟨hnd, ?_⟩
      intro x
      rw [hmem]
      constructor
      · rintro (h1 | ⟨t, ht, hot, h1⟩)
        · exact Or.inl h1
        · have htt : t ≠ n := by
            intro hc1
            subst hc1
            exact ho hot
          exact Or.inr ⟨t, by omega, hot, h1⟩
      · rintro (h1 | ⟨t, ht, hot, h1⟩)
        · exact Or.inl h1
        · exact Or.inr ⟨t, by omega, hot, h1⟩

/-- After `lock_all_outputs` and `unlock_all_outputs` with a null `except` no
mutex is held. -/
theorem held_after_lock_unlock_all (n : Nat) (outputs : Nat → Bool) :
    held_after [] (lock_all_outputs n outputs ++ unlock_all_outputs n outputs none) = [] := by
  obtain ⟨_, h, hb, hh⟩ := lock_all_outputs_held n outputs
  rw [held_after_append, hh]
  unfold unlock_all_outputs
  rw [held_after_append, held_after_append]
  have e1 : held_after (Lock.lock :: h) [LockEvent.pthread_mutex_unlock Lock.lock] = h := by
    simp [held_after]
  rw [e1]
  obtain ⟨hnd, hmem⟩ := held_after_unlock_all_outputs_loop outputs n h hb
  show (held_after h (unlock_all_outputs_loop outputs none n)).erase Lock.lock_outputs = []
  apply List.eq_nil_iff_forall_not_mem.mpr
  intro x hx
  rw [hnd.mem_erase_iff, hmem] at hx
  rcases hx with ⟨hne, h1 | ⟨t, ht, _⟩⟩
  · exact hne h1
  · omega

/-- The edges of `lock_all_outputs` followed by operations that lock
nothing. -/
theorem lock_edges_lock_all (n : Nat) (outputs : Nat → Bool) (t : List LockEvent)
    (ht : locked t = []) :
    ∀ e ∈ lock_edges [] (lock_all_outputs n outputs ++ t), lock_before e.1 e.2 = true := by
  intro e he
  rw [lock_edges_append, lock_edges_unlocks t ht, List.append_nil] at he
  exact (lock_all_outputs_held n outputs).1 e he

theorem locked_unlock_output_stream (out : Nat) : locked (unlock_output_stream out) = [] := rfl

theorem lock_edges_out_standby_2436 (n : Nat) (outputs : Nat → Bool) :
    ∀ e ∈ lock_edges [] (out_standby_2436 n outputs), lock_before e.1 e.2 = true := by
  unfold out_standby_2436
  rw [List.append_assoc]
  exact lock_edges_lock_all n outputs _
    (by rw [locked_append, locked_unlock_all_outputs]; rfl)

theorem lock_edges_out_standby_1813 (out : Nat) (standby : Bool) :
    ∀ e ∈ lock_edges [] (out_standby_1813 out standby), lock_before e.1 e.2 = true := by
  cases standby <;>
    simp [out_standby_1813, lock_output_stream, unlock_output_stream, callee_locks, lock_edges,
      lock_before]

theorem held_after_out_standby_1813 (out : Nat) (standby : Bool) :
    held_after [] (out_standby_1813 out standby) = [] := by
  cases standby <;>
    simp [out_standby_1813, lock_output_stream, unlock_output_stream, callee_locks, held_after]

theorem lock_edges_input (inp : Nat) (t : List LockEvent)
    (ht : t = [] ∨ t = [LockEvent.pthread_mutex_lock Lock.lock] ++ callee_locks ++
      [LockEvent.pthread_mutex_unlock Lock.lock]) :
    ∀ e ∈ lock_edges [] (lock_input_stream inp ++ t ++ unlock_input_stream inp),
      lock_before e.1 e.2 = true := by
  rcases ht with ht | ht <;> subst ht <;>
    simp [lock_input_stream, unlock_input_stream, callee_locks, lock_edges, lock_before]

/-- Every mutex that a call locks comes after the mutexes held at that
point. -/
theorem lock_edges_op (n : Nat) (outputs : Nat → Bool) (op : LockOp) :
    ∀ e ∈ lock_edges [] (op_locks n outputs op), lock_before e.1 e.2 = true := by
  cases op with
  | out_standby_1813 out standby => exact lock_edges_out_standby_1813 out standby
  | out_standby_2436 => exact lock_edges_out_standby_2436 n outputs
  | out_set_parameters routing =>
    cases routing with
    | false => intro e he; cases he
    | true => exact lock_edges_out_standby_2436 n outputs
  | out_write out standby standby_again start_failed =>
    cases standby with
    | false =>
      simp [op_locks, out_write, lock_output_stream, unlock_output_stream, lock_edges,
        lock_before]
    | true =>
      have hpre : ∀ t : List LockEvent, locked t = [] →
          ∀ e ∈ lock_edges [] (lock_output_stream out ++
            (unlock_output_stream out ++ lock_all_outputs n outputs ++ t)),
            lock_before e.1 e.2 = true := by
        intro t ht e he
        rw [List.append_assoc, ← List.append_assoc, lock_edges_append] at he
        have e1 : held_after [] (lock_output_stream out ++ unlock_output_stream out) = [] := by
          simp [lock_output_stream, unlock_output_stream, held_after]
        rw [e1] at he
        rcases List.mem_append.mp he with he | he
        · have he1 : e = (Lock.out_pre_lock out, Lock.out_lock out) := by
            revert he
            simp [lock_output_stream, unlock_output_stream, lock_edges]
          subst he1
          simp [lock_before]
        · exact lock_edges_lock_all n outputs t ht e he
      have htail : locked
          (if ¬ standby_again = true then
            unlock_all_outputs n outputs (some out) ++ unlock_output_stream out
          else if start_failed = true then
            callee_locks ++ unlock_all_outputs n outputs none
          else
            callee_locks ++ unlock_all_outputs n outputs (some out) ++
              unlock_output_stream out) = [] := by
        cases standby_again <;> cases start_failed <;>
          simp [locked_append, locked_unlock_all_outputs, callee_locks,
            locked_unlock_output_stream]
      exact hpre _ htail
  | out_get_presentation_position out =>
    simp [op_locks, out_get_presentation_position, lock_output_stream, unlock_output_stream,
      lock_edges, lock_before]
  | in_standby inp => exact lock_edges_input inp _ (Or.inr rfl)
  | in_set_parameters inp => exact lock_edges_input inp _ (Or.inr rfl)
  | in_read inp standby =>
    cases standby with
    | false => exact lock_edges_input inp _ (Or.inl rfl)
    | true => exact lock_edges_input inp _ (Or.inr rfl)
  | in_get_capture_position inp null_argument =>
    cases null_argument with
    | false =>
      simp [op_locks, in_get_capture_position, lock_input_stream, unlock_input_stream,
        lock_edges, lock_before]
    | true => intro e he; cases he
  | adev_open_output_stream direct_hdmi reaches_outputs =>
    cases direct_hdmi <;> cases reaches_outputs <;>
      simp [op_locks, adev_open_output_stream, callee_locks, lock_edges, List.erase]
  | adev_close_output_stream_1813 out standby =>
    intro e he
    change e ∈ lock_edges [] (out_standby_1813 out standby ++ _) at he
    rw [lock_edges_append, held_after_out_standby_1813] at he
    rcases List.mem_append.mp he with he | he
    · exact lock_edges_out_standby_1813 out standby e he
    · revert he
      simp [lock_edges]
  | adev_close_output_stream_2436 =>
    intro e he
    change e ∈ lock_edges [] (out_standby_2436 n outputs ++ _) at he
    have hh : held_after [] (out_standby_2436 n outputs) = [] := by
      unfold out_standby_2436
      simp only [callee_locks, List.append_nil]
      exact held_after_lock_unlock_all n outputs
    rw [lock_edges_append, hh] at he
    rcases List.mem_append.mp he with he | he
    · exact lock_edges_out_standby_2436 n outputs e he
    · revert he
      simp [lock_edges]
  | adev_close_input_stream inp => exact lock_edges_input inp _ (Or.inr rfl)
  | adev_set_wb_amr_callback => intro e he; revert he; simp [op_locks, adev_set_wb_amr_callback, callee_locks, lock_edges, List.erase]
  | adev_set_voice_volume => intro e he; revert he; simp [op_locks, adev_set_voice_volume, callee_locks, lock_edges, List.erase]
  | adev_set_mode same_mode =>
    cases same_mode <;> simp [op_locks, adev_set_mode, callee_locks, lock_edges, List.erase]
  | adev_set_mic_mute => intro e he; revert he; simp [op_locks, adev_set_mic_mute, callee_locks, lock_edges, List.erase]

theorem locked_lock_all_outputs_loop (outputs : Nat → Bool) :
    ∀ n type : Nat, locked (lock_all_outputs_loop outputs n type) =
      ((List.range' type n).filter outputs).flatMap
        (fun t => [Lock.out_pre_lock t, Lock.out_lock t]) := by
  intro n
  induction n with
  | zero => intro type; rfl
  | succ n ih =>
    intro type
    simp only [lock_all_outputs_loop]
    rw [locked_append, ih, List.range'_succ, List.filter_cons]
    by_cases ho : outputs type = true
    · simp only [ho, if_true, List.flatMap_cons]
      rfl
    · simp only [ho, if_false]
      rfl

theorem locked_lock_all_outputs (n : Nat) (outputs : Nat → Bool) :
    locked (lock_all_outputs n outputs) =
      [Lock.lock_outputs] ++
        ((List.range n).filter outputs).flatMap
          (fun t => [Lock.out_pre_lock t, Lock.out_lock t]) ++
        [Lock.lock] := by
  unfold lock_all_outputs
  rw [locked_append, locked_append, locked_lock_all_outputs_loop, List.range_eq_range']
  rfl

/-- C25: lock ordering. `lock_output_stream` locks the pre-lock of the stream,
then its lock, then unlocks the pre-lock. `lock_all_outputs` locks the outputs
list lock, then the open output streams by index, each through its pre-lock,
then the device lock. In every function of `audio_hw.c` that locks a mutex,
entered with no mutex held, each mutex is locked after the mutexes held at that
point in the order `lock_before` (outputs list lock, output stream locks by
index, device lock; input stream lock, device lock), and no mutex is locked
while the device lock is held. The order is irreflexive and transitive, so the
lock graph has no cycle. -/
theorem lock_order (OUTPUT_TOTAL : Nat) (outputs : Nat → Bool) (hT : 0 < OUTPUT_TOTAL) :
    (∀ out, lock_output_stream out =
      [LockEvent.pthread_mutex_lock (Lock.out_pre_lock out),
       LockEvent.pthread_mutex_lock (Lock.out_lock out),
       LockEvent.pthread_mutex_unlock (Lock.out_pre_lock out)]) ∧
    locked (lock_all_outputs OUTPUT_TOTAL outputs) =
      [Lock.lock_outputs] ++
        ((List.range OUTPUT_TOTAL).filter outputs).flatMap
          (fun type => [Lock.out_pre_lock type, Lock.out_lock type]) ++
        [Lock.lock] ∧
    (∀ op, ∀ e ∈ lock_edges [] (op_locks OUTPUT_TOTAL outputs op),
      lock_before e.1 e.2 = true) ∧
    (∀ op, ∀ e ∈ lock_edges [] (op_locks OUTPUT_TOTAL outputs op), e.1 ≠ Lock.lock) ∧
    (∀ a, lock_before a a = false) ∧
    (∀ a b c, lock_before a b = true → lock_before b c = true → lock_before a c = true) := by
  have _ := hT
  refine ⟨fun _ => rfl, locked_lock_all_outputs OUTPUT_TOTAL outputs,
    lock_edges_op OUTPUT_TOTAL outputs, ?_, lock_before_irrefl, lock_before_trans⟩
  intro op e he hc
  have h1 := lock_edges_op OUTPUT_TOTAL outputs op e he
  rw [hc, lock_before_device] at h1
  cases h1

/-- Witness of C25: three slots, the second one empty; `out_write` on the
stream of the third slot, found in standby twice. -/
theorem lock_order_witness :
    0 < 3 ∧
    locked (lock_all_outputs 3 (fun type => type != 1)) =
      [Lock.lock_outputs, Lock.out_pre_lock 0, Lock.out_lock 0, Lock.out_pre_lock 2,
       Lock.out_lock 2, Lock.lock] ∧
    lock_edges [] (op_locks 3 (fun type => type != 1) (LockOp.out_write 2 true true false)) =
      [(Lock.out_pre_lock 2, Lock.out_lock 2),
       (Lock.lock_outputs, Lock.out_pre_lock 0),
       (Lock.out_pre_lock 0, Lock.out_lock 0), (Lock.lock_outputs, Lock.out_lock 0),
       (Lock.out_lock 0, Lock.out_pre_lock 2), (Lock.lock_outputs, Lock.out_pre_lock 2),
       (Lock.out_pre_lock 2, Lock.out_lock 2), (Lock.out_lock 0, Lock.out_lock 2),
       (Lock.lock_outputs, Lock.out_lock 2),
       (Lock.out_lock 2, Lock.lock), (Lock.out_lock 0, Lock.lock),
       (Lock.lock_outputs, Lock.lock)] ∧
    (∀ e ∈ lock_edges [] (op_locks 3 (fun type => type != 1)
        (LockOp.out_write 2 true true false)),
      lock_before e.1 e.2 = true) :=
  ⟨by decide, by decide, by decide,
    (lock_order 3 (fun type => type != 1) (by decide)).2.2.1
      (LockOp.out_write 2 true true false)⟩

/-- Counterexample to C28 as stated: an output stream and an input stream that
carry the same usecase id. From the initial state, `enable_output_path_l` on
the output stream, `start_input_stream` and then `stop_input_stream` on the
input stream: `stop_input_stream` finds the playback usecase under the id of
the input stream, disables its input route (NONE) and removes it. The capture
usecase, which stores no route, is all that is left in the registry, and the
reference count of the speaker route is 1 while no usecase holds it. -/
theorem shared_usecase_id_count_without_holder :
    initial_device.usecase_list = [] ∧
    (∀ d, initial_device.snd_dev_ref_cnt d = 0) ∧
    (initial_device.streams 1).usecase = (initial_device.streams 2).usecase ∧
    run_op example_hotword 1 initial_device (HalOp.enable_output_path_l 1) =
      some playback_started_device ∧
    run_op example_hotword 1 playback_started_device
      (HalOp.start_input_stream 2 true 0 true) = some capture_same_id_device ∧
    run_op example_hotword 1 capture_same_id_device (HalOp.stop_input_stream 2 false) =
      some capture_same_id_stopped_device ∧
    capture_same_id_stopped_device.usecase_list.map
        (fun u => (u.id, u.type, u.out_snd_device, u.in_snd_device, u.stream)) =
      [(USECASE_AUDIO_PLAYBACK, PCM_CAPTURE, SND_DEVICE_NONE, SND_DEVICE_NONE, 2)] ∧
    named_simple SND_DEVICE_OUT_SPEAKER ∧
    capture_same_id_stopped_device.snd_dev_ref_cnt SND_DEVICE_OUT_SPEAKER = 1 ∧
    holders capture_same_id_stopped_device.usecase_list SND_DEVICE_OUT_SPEAKER = 0 :=
  ⟨rfl, fun _ => rfl, rfl, rfl, rfl, rfl, by decide, ⟨by decide, by decide⟩, by decide,
    by decide⟩

/-- Counterexample to C29 as stated: a state with a primary output and no
active call (the in-call flag is clear) in which the registry still holds the
voice call usecase, as `stop_voice_call` leaves it when it runs while the mode
is in-call. `start_voice_call` appends a second voice call usecase and
`select_devices` updates the first; after the mode has left in-call,
`stop_voice_call` disables the routes of the first and removes it. The
registry then holds the second, without routes, in place of the first, and the
reference counts of the two voice routes are 0 where they were 1. -/
theorem stale_voice_call_round_trip :
    call_paused_device.primary_output = some 1 ∧
    call_paused_device.voice_in_call = false ∧
    call_paused_device.mode = AUDIO_MODE_IN_CALL ∧
    call_paused_device.usecase_list.map
        (fun u => (u.id, u.out_snd_device, u.in_snd_device)) =
      [(USECASE_AUDIO_PLAYBACK, SND_DEVICE_OUT_SPEAKER, SND_DEVICE_NONE),
       (USECASE_VOICE_CALL, SND_DEVICE_OUT_VOICE_SPEAKER, SND_DEVICE_IN_VOICE_SPEAKER_MIC)] ∧
    call_paused_device.snd_dev_ref_cnt SND_DEVICE_OUT_VOICE_SPEAKER = 1 ∧
    call_paused_device.snd_dev_ref_cnt SND_DEVICE_IN_VOICE_SPEAKER_MIC = 1 ∧
    (start_voice_call example_hotword 1 call_paused_device).ret = some 0 ∧
    (start_voice_call example_hotword 1 call_paused_device).final =
      some call_restarted_device ∧
    call_restarted_device.voice_in_call = true ∧
    (stop_voice_call { call_restarted_device with mode := AUDIO_MODE_NORMAL }).1 = some 0 ∧
    call_restart_ended_device.usecase_list.map
        (fun u => (u.id, u.out_snd_device, u.in_snd_device)) =
      [(USECASE_AUDIO_PLAYBACK, SND_DEVICE_OUT_SPEAKER, SND_DEVICE_NONE),
       (USECASE_VOICE_CALL, SND_DEVICE_NONE, SND_DEVICE_NONE)] ∧
    call_restart_ended_device.snd_dev_ref_cnt SND_DEVICE_OUT_VOICE_SPEAKER = 0 ∧
    call_restart_ended_device.snd_dev_ref_cnt SND_DEVICE_IN_VOICE_SPEAKER_MIC = 0 :=
  ⟨rfl, rfl, rfl, by decide, by decide, by decide, by decide, rfl, by decide, by decide,
    by decide, by decide, by decide⟩

/-! ## Runs of `select_devices` that return, and the null `vc_usecase` -/

theorem inherited_some (a : audio_device)
    (hvc : a.voice_in_call = true → ∃ vc, get_usecase_from_id a USECASE_VOICE_CALL = some vc) :
    ∃ oi, inherited a = some oi := by
  unfold inherited
  by_cases hc : a.voice_in_call = true
  · obtain ⟨vc, hg⟩ := hvc hc
    rw [if_pos hc, hg]
    exact ⟨_, rfl⟩
  · rw [if_neg hc]
    exact ⟨_, rfl⟩

theorem active_input_of_capture (a : audio_device) (uc_id : Int) (u : audio_usecase)
    (hg : get_usecase_from_id a uc_id = some u) (ht : u.type = PCM_CAPTURE) :
    ∃ inp, active_input a = some inp := by
  have hmem := (get_usecase_from_id_mem hg).1
  unfold active_input get_usecase_from_type
  cases hf : a.usecase_list.find? (fun usecase => usecase.type &&& (PCM_CAPTURE ||| VOICE_CALL) != 0)
    with
  | none =>
    have hall := List.find?_eq_none.mp hf u hmem
    rw [ht] at hall
    exact absurd hall (by decide)
  | some v => exact ⟨_, rfl⟩

theorem resolve_some (a : audio_device) (u : audio_usecase)
    (hinh : ∃ oi, inherited a = some oi)
    (hai : u.type = PCM_CAPTURE → ∃ inp, active_input a = some inp) :
    ∃ devs o i, resolve a u = some (devs, o, i) := by
  obtain ⟨⟨o1, i1⟩, hinh⟩ := hinh
  unfold resolve
  by_cases hv : u.type = VOICE_CALL
  · simp only [hv, if_true]
    exact ⟨_, _, _, rfl⟩
  · simp only [hv, if_false, hinh]
    by_cases hp : u.type = PCM_PLAYBACK
    · simp only [hp, if_true]
      exact ⟨_, _, _, rfl⟩
    · simp only [hp, if_false]
      by_cases hc : u.type = PCM_CAPTURE
      · obtain ⟨inp, hinp⟩ := hai hc
        simp only [hc, if_true, hinp]
        by_cases hi : i1 = SND_DEVICE_NONE
        · simp only [hi, if_true]
          exact ⟨_, _, _, rfl⟩
        · simp only [hi, if_false]
          exact ⟨_, _, _, rfl⟩
      · simp only [hc, if_false]
        exact ⟨_, _, _, rfl⟩

/-- Where the in-call flag is set only with the voice call usecase in the
registry, and the usecase id of the active input names a capture usecase of
the registry, every run of `select_devices` with room for one nested call
returns a result. -/
theorem select_devices_returns_result (hotword : Int) (fuel : Nat) (adev : audio_device)
    (uc_id : Int)
    (hvc : adev.voice_in_call = true →
      ∃ vc, get_usecase_from_id adev USECASE_VOICE_CALL = some vc)
    (hcap : ∀ inp, active_input adev = some inp →
      ∃ ut, get_usecase_from_id adev inp.usecase = some ut ∧ ut.type = PCM_CAPTURE) :
    ∃ r s, select_devices hotword (fuel + 2) adev uc_id = Outcome.done r s := by
  rw [select_devices_succ]
  by_cases hhot : uc_id = hotword
  · rw [if_pos hhot]
    exact ⟨_, _, rfl⟩
  rw [if_neg hhot]
  cases hg : get_usecase_from_id adev uc_id with
  | none => exact ⟨_, _, rfl⟩
  | some u =>
    simp only []
    have hinh := inherited_some adev hvc
    obtain ⟨devs, o, i, hres⟩ := resolve_some adev u hinh
      (fun ht => active_input_of_capture adev uc_id u hg ht)
    rw [hres]
    simp only []
    have hca : same_context (write_devices adev uc_id devs) adev :=
      write_devices_same_context _ _ _
    cases hn : nest_target adev u with
    | none =>
      simp only []
      obtain ⟨s1, hs1⟩ := select_devices_switch_returns (write_devices adev uc_id devs) uc_id
        o i (with_devices u devs) (by rw [get_write_devices, if_pos rfl, hg]; rfl)
      exact ⟨0, s1, hs1⟩
    | some t =>
      simp only []
      have hnested : ∃ rn an, select_devices hotword (fuel + 1)
          (write_devices adev uc_id devs) t = Outcome.done rn an := by
        by_cases hth : t = hotword
        · rw [select_devices_succ, if_pos hth]
          exact ⟨_, _, rfl⟩
        · have hai := nest_target_active_input hn
          cases hinp : active_input adev with
          | none => rw [hinp] at hai; cases hai
          | some inp =>
            rw [hinp] at hai
            injection hai with hai
            obtain ⟨ut, hgt, htt⟩ := hcap inp hinp
            rw [hai] at hgt
            have hgt1 : ∃ ut1, get_usecase_from_id (write_devices adev uc_id devs) t =
                some ut1 ∧ ut1.type = PCM_CAPTURE := by
              rw [get_write_devices, hgt]
              split_ifs
              · exact ⟨_, rfl, by rw [with_devices_type]; exact htt⟩
              · exact ⟨_, rfl, htt⟩
            obtain ⟨ut1, hgt1, htt1⟩ := hgt1
            have hinh1 : ∃ oi, inherited (write_devices adev uc_id devs) = some oi := by
              rw [inherited_write_devices]
              exact hinh
            obtain ⟨d1, o1, i1, hres1⟩ := resolve_some (write_devices adev uc_id devs) ut1 hinh1
              (fun _ => ⟨inp, by rw [same_context_active_input hca]; exact hinp⟩)
            obtain ⟨s1, hs1⟩ := select_devices_flat_returns hotword fuel
              (write_devices adev uc_id devs) t ut1 d1 o1 i1 hth hgt1 hres1
              (nest_target_not_playback _ _ (by rw [htt1]; decide))
            exact ⟨0, s1, hs1⟩
      obtain ⟨rn, an, hnest⟩ := hnested
      rw [hnest]
      simp only []
      have hgn := nested_record hotword (fuel + 1) adev uc_id u devs t rn an hhot hg hn hnest
      obtain ⟨s1, hs1⟩ := select_devices_switch_returns an uc_id o i _ hgn
      exact ⟨0, s1, hs1⟩

end AudioHw
